import Mathlib

/-!
Renderer FFI: handle lifecycle and frame state machine.

A shallow embedding of `renderer_ffi/src/rive_renderer_ffi.cpp` (with the types of
`renderer_ffi/include/rive_renderer_ffi.h`).

Conventions of the embedding:

* A pointer is a natural number, `0` being `nullptr`. Every handle type has its own store
  (`World.devices`, `World.contexts`, ...) from addresses to objects; `delete` empties the
  slot and appends the address to `World.deleted`.
* An entry point returns `none` when the C++ code returns no status: it would run into
  undefined behaviour (a dereferenced null pointer, a handle that was already deleted), or
  a C++ exception leaves the function (`cpuFramebuffer.assign` is the one call that can
  throw; no entry point has a `try` block). It returns `some (status, world)` otherwise.
  The state an exception leaves behind is given by a function of its own
  (`context_resize_thrown`, `context_begin_frame_thrown`).
* Fixed-width integers are natural numbers reduced modulo `2 ^ width` where the C++
  arithmetic can wrap.
* The preprocessor configuration is a value of `Build`; the results of calls into the
  native graphics API and the wrapped engine are explicit arguments of the entry point.
-/

namespace RiveFFI

/-- An address; `0` is `nullptr`. -/
abbrev Ptr := Nat

/-- Modulus of `std::uint32_t`. -/
def U32 : Nat := 2 ^ 32

/-- Modulus of `std::uint64_t`. -/
def U64 : Nat := 2 ^ 64

/-- Modulus of `std::size_t` (a 64-bit target). -/
def SIZE : Nat := 2 ^ 64

/-- The preprocessor configuration the file is compiled with. -/
structure Build where
  /-- `defined(_WIN32) && !defined(RIVE_UNREAL)`: the D3D12 backend. -/
  win32 : Bool
  /-- `defined(__APPLE__) && !defined(RIVE_UNREAL)`: the Metal backend. -/
  apple : Bool
  /-- `defined(RIVE_RENDERER_FFI_HAS_VULKAN)`. -/
  vulkan : Bool
  /-- `defined(WITH_RIVE_TEXT)`. -/
  text : Bool
  deriving DecidableEq, Repr

/-- The enumeration `rive_renderer_status_t`. -/
inductive rive_renderer_status_t where
  | ok
  | null_pointer
  | invalid_handle
  | invalid_parameter
  | out_of_memory
  | unsupported
  | device_lost
  | unimplemented
  | internal_error
  deriving DecidableEq, Repr

/-- The numeric value of a status code. -/
def rive_renderer_status_t.toInt : rive_renderer_status_t → Int
  | .ok => 0
  | .null_pointer => -1
  | .invalid_handle => -2
  | .invalid_parameter => -3
  | .out_of_memory => -4
  | .unsupported => -5
  | .device_lost => -6
  | .unimplemented => -7
  | .internal_error => -8

/-- The enumeration `rive_renderer_backend_t`, stored in a `std::uint8_t`: a caller can
pass any 8-bit value. -/
abbrev rive_renderer_backend_t := Fin 256

namespace rive_renderer_backend_t
def unknown : rive_renderer_backend_t := 0
def null : rive_renderer_backend_t := 1
def metal : rive_renderer_backend_t := 2
def vulkan : rive_renderer_backend_t := 3
def d3d12 : rive_renderer_backend_t := 4
def d3d11 : rive_renderer_backend_t := 5
def opengl : rive_renderer_backend_t := 6
def webgpu : rive_renderer_backend_t := 7
end rive_renderer_backend_t

-- Bits of `rive_renderer_feature_flags_t`.
namespace rive_renderer_feature_flags_t
def none : Nat := 0
def raster_ordering : Nat := 1 <<< 0
def atomic_path_rendering : Nat := 1 <<< 1
def clockwise_fill : Nat := 1 <<< 2
def advanced_blend : Nat := 1 <<< 3
def advanced_blend_coherent : Nat := 1 <<< 4
def clip_planes : Nat := 1 <<< 5
def bottom_up_framebuffer : Nat := 1 <<< 6
def headless_supported : Nat := 1 <<< 7
end rive_renderer_feature_flags_t

/-- The record `rive_renderer_adapter_desc_t`. `name` is the NUL-terminated content of
the 256-byte `name` array. -/
structure rive_renderer_adapter_desc_t where
  backend : rive_renderer_backend_t := 0
  backend_padding : Nat := 0
  vendor_id : Nat := 0
  device_id : Nat := 0
  subsys_id : Nat := 0
  revision : Nat := 0
  dedicated_video_memory : Nat := 0
  shared_system_memory : Nat := 0
  flags : Nat := 0
  reserved : Nat := 0
  name : String := ""
  deriving DecidableEq, Repr

/-- The record `rive_renderer_device_create_info_t`. -/
structure rive_renderer_device_create_info_t where
  backend : rive_renderer_backend_t
  backend_padding : Nat
  adapter_index : Nat
  flags : Nat
  deriving DecidableEq, Repr

/-- The record `rive_renderer_capabilities_t`. `max_sampler_anisotropy` holds the
binary32 bit pattern of the `float`. -/
structure rive_renderer_capabilities_t where
  backend : rive_renderer_backend_t := 0
  backend_padding : Nat := 0
  reserved : Nat := 0
  feature_flags : Nat := 0
  max_buffer_size : Nat := 0
  max_texture_dimension : Nat := 0
  max_texture_array_layers : Nat := 0
  max_sampler_anisotropy : Nat := 0
  supports_hdr : Nat := 0
  supports_presentation : Nat := 0
  deriving DecidableEq, Repr

/-- Bit pattern of `1.0f`. -/
def float_1_0 : Nat := 0x3F800000

/-- Bit pattern of `16.0f`. -/
def float_16_0 : Nat := 0x41800000

/-- The record `rive_renderer_frame_options_t` (the fields the code reads). -/
structure rive_renderer_frame_options_t where
  width : Nat
  height : Nat
  vsync : Nat := 0
  deriving DecidableEq, Repr

/-- The record `rive_renderer_vulkan_features_t`. -/
structure rive_renderer_vulkan_features_t where
  api_version : Nat := 0
  independent_blend : Nat := 0
  fill_mode_non_solid : Nat := 0
  fragment_stores_and_atomics : Nat := 0
  shader_clip_distance : Nat := 0
  rasterization_order_color_attachment_access : Nat := 0
  fragment_shader_pixel_interlock : Nat := 0
  portability_subset : Nat := 0
  deriving DecidableEq, Repr

/-- The record `rive_renderer_device_create_info_vulkan_t`. -/
structure rive_renderer_device_create_info_vulkan_t where
  instance_ptr : Ptr
  physical_device : Ptr
  device : Ptr
  features : rive_renderer_vulkan_features_t
  get_instance_proc_addr : Ptr
  graphics_queue : Ptr
  graphics_queue_family_index : Nat
  present_queue : Ptr
  present_queue_family_index : Nat
  allocator_callbacks : Ptr
  deriving DecidableEq, Repr

/-- What `rive::gpu::VulkanFeatures` holds after `ConvertVulkanFeatures`. -/
structure VulkanFeatures where
  apiVersion : Nat := 0
  independentBlend : Bool := false
  fillModeNonSolid : Bool := false
  fragmentStoresAndAtomics : Bool := false
  shaderClipDistance : Bool := false
  rasterizationOrderColorAttachmentAccess : Bool := false
  fragmentShaderPixelInterlock : Bool := false
  VK_KHR_portability_subset : Bool := false
  deriving DecidableEq, Repr

/-- The struct `DeviceHandle`. The members of all three preprocessor variants are kept
side by side; a build only touches its own. A `ComPtr` is `true` when it is non-null. -/
structure DeviceHandle where
  ref_count : Nat := 1
  backend : rive_renderer_backend_t := rive_renderer_backend_t.unknown
  capabilities : rive_renderer_capabilities_t := {}
  adapter : Bool := false
  d3d12Device : Bool := false
  directQueue : Bool := false
  copyQueue : Bool := false
  isIntel : Bool := false
  metalDevice : Ptr := 0
  vkInstance : Ptr := 0
  vkPhysicalDevice : Ptr := 0
  vkDevice : Ptr := 0
  vkFeatures : VulkanFeatures := {}
  getInstanceProcAddr : Ptr := 0
  graphicsQueue : Ptr := 0
  graphicsQueueFamilyIndex : Nat := 0
  presentQueue : Ptr := 0
  presentQueueFamilyIndex : Nat := 0
  deriving DecidableEq, Repr

/-- A `rive::gpu::RenderTarget` made by `makeRenderTarget(width, height)`, with the
texture given to `setTargetTexture` (`0` before that call). -/
structure RenderTarget where
  width : Nat
  height : Nat
  targetTexture : Ptr := 0
  deriving DecidableEq, Repr

/-- The struct `ContextHandle`, the members of all preprocessor variants side by side.
`renderContext`, `cpuRenderTarget` and the `ComPtr` members are `true` when non-null;
`renderTargetTexture` is the address of the texture (`0` when reset); `fenceEvent` is
`true` for an open event handle. -/
structure ContextHandle where
  ref_count : Nat := 1
  device : Ptr := 0
  width : Nat := 0
  height : Nat := 0
  renderContext : Bool := false
  directAllocator : Bool := false
  copyAllocator : Bool := false
  directCommandList : Bool := false
  copyCommandList : Bool := false
  renderTargetTexture : Ptr := 0
  renderTarget : Option RenderTarget := none
  surface : Ptr := 0
  directFence : Bool := false
  copyFence : Bool := false
  fenceEvent : Bool := false
  fenceValue : Nat := 0
  metalContext : Ptr := 0
  cpuRenderTarget : Bool := false
  cpuFramebuffer : List Nat := []
  frameCounter : Nat := 1
  lastCompletedFrame : Nat := 0
  pendingFrameNumber : Nat := 0
  hasActiveFrame : Bool := false
  commandListsClosed : Bool := false
  cpuFrameRecording : Bool := false
  deriving DecidableEq, Repr

/-- The structs `PathHandle`, `PaintHandle`, `ImageHandle`, `FontHandle` and
`ShaderHandle`: a reference count and one `rive::rcp` to the engine object (`true` when
non-null). -/
structure RcpHandle where
  ref_count : Nat := 1
  object : Bool := false
  deriving DecidableEq, Repr

/-- The struct `RendererHandle`. -/
structure RendererHandle where
  ref_count : Nat := 1
  context : Ptr := 0
  renderer : Bool := false
  deriving DecidableEq, Repr

/-- The struct `BufferHandle`; `data` is the content of the engine buffer. -/
structure BufferHandle where
  ref_count : Nat := 1
  type : Nat := 1
  buffer : Bool := false
  size_in_bytes : Nat := 0
  mapped_ptr : Ptr := 0
  data : List Nat := []
  deriving DecidableEq, Repr

/-- The struct `FenceHandle`; `completed` is what `fence->GetCompletedValue()` reports. -/
structure FenceHandle where
  ref_count : Nat := 1
  device : Ptr := 0
  fence : Bool := false
  eventHandle : Bool := false
  lastValue : Nat := 0
  completed : Nat := 0
  deriving DecidableEq, Repr

/-- The struct `SurfaceHandle`. `swapChain` is `true` when the `ComPtr` is non-null,
`backBuffers` holds texture addresses, an entry of `renderTargets` is `none` when the
`rcp` is null (moved out), and `currentBackBuffer` is what
`swapChain->GetCurrentBackBufferIndex()` reports. -/
structure SurfaceHandle where
  ref_count : Nat := 1
  device : Ptr := 0
  context : Ptr := 0
  backend : rive_renderer_backend_t := rive_renderer_backend_t.unknown
  width : Nat := 0
  height : Nat := 0
  buffer_count : Nat := 0
  flags : Nat := 0
  present_interval : Nat := 1
  hwnd : Ptr := 0
  swapChain : Bool := false
  currentBackBuffer : Nat := 0
  backBuffers : List Ptr := []
  renderTargets : List (Option RenderTarget) := []
  borrowedIndex : Nat := 2 ^ 32 - 1
  supportsTearing : Bool := false
  metalSurface : Ptr := 0
  deriving DecidableEq, Repr

/-- The struct `D3D12AdapterRecord` (the adapter `ComPtr` is left out). -/
structure D3D12AdapterRecord where
  desc : rive_renderer_adapter_desc_t := {}
  isIntel : Bool := false
  deriving DecidableEq, Repr

/-- A call into native code that outlives the handle it was made for. -/
inductive NativeCall where
  | rive_metal_device_release (metalDevice : Ptr)
  | rive_metal_context_destroy (metalContext : Ptr)
  | rive_metal_surface_destroy (metalSurface : Ptr)
  deriving DecidableEq, Repr

/-- The state the entry points work on: the thread's `g_lastError`, the process-wide
`g_d3d12Adapters`, one store per handle type, the addresses passed to `delete` (latest
first), the native release calls made (latest first) and the last address `new` handed
out. -/
structure World where
  g_lastError : String := ""
  g_d3d12Adapters : List D3D12AdapterRecord := []
  devices : Ptr → Option DeviceHandle := fun _ => none
  contexts : Ptr → Option ContextHandle := fun _ => none
  surfaces : Ptr → Option SurfaceHandle := fun _ => none
  fences : Ptr → Option FenceHandle := fun _ => none
  paths : Ptr → Option RcpHandle := fun _ => none
  paints : Ptr → Option RcpHandle := fun _ => none
  renderers : Ptr → Option RendererHandle := fun _ => none
  buffers : Ptr → Option BufferHandle := fun _ => none
  images : Ptr → Option RcpHandle := fun _ => none
  fonts : Ptr → Option RcpHandle := fun _ => none
  shaders : Ptr → Option RcpHandle := fun _ => none
  deleted : List Ptr := []
  nativeCalls : List NativeCall := []
  nextPtr : Ptr := 0

/-- The function `SetLastError` (with a non-null message). -/
def SetLastError (w : World) (message : String) : World :=
  { w with g_lastError := message }

/-- The function `ClearLastError`. -/
def ClearLastError (w : World) : World :=
  { w with g_lastError := "" }

/-- The value `fetch_add(1)` stores in a `std::atomic<std::uint32_t>`. -/
def fetch_add_1 (count : Nat) : Nat := (count + 1) % U32

/-- The value `fetch_sub(1)` stores in a `std::atomic<std::uint32_t>`. -/
def fetch_sub_1 (count : Nat) : Nat := (count + U32 - 1) % U32

/-- The function `ValidateContextSize`. -/
def ValidateContextSize (width height : Nat) : Bool :=
  decide (width > 0) && decide (height > 0)


/-- Store `h` at the device address `p`. -/
def World.setDevice (w : World) (p : Ptr) (h : DeviceHandle) : World :=
  { w with devices := Function.update w.devices p (some h) }

/-- The statement `delete device`. -/
def World.deleteDevice (w : World) (p : Ptr) : World :=
  { w with devices := Function.update w.devices p none, deleted := p :: w.deleted }

/-- Store `h` at the context address `p`. -/
def World.setContext (w : World) (p : Ptr) (h : ContextHandle) : World :=
  { w with contexts := Function.update w.contexts p (some h) }

/-- The statement `delete context`. -/
def World.deleteContext (w : World) (p : Ptr) : World :=
  { w with contexts := Function.update w.contexts p none, deleted := p :: w.deleted }

/-- The address a successful `new (std::nothrow)` returns (never null, never handed out
before), and the world after it. -/
def World.fresh (w : World) : Ptr × World :=
  (w.nextPtr + 1, { w with nextPtr := w.nextPtr + 1 })

/-- Record a native release call. -/
def World.native (w : World) (c : NativeCall) : World :=
  { w with nativeCalls := c :: w.nativeCalls }

/-- What DXGI reports for one adapter index: the fields of `DXGI_ADAPTER_DESC1` the code
reads (`Description` already converted by `WideToUtf8`), whether the software flag is set
and whether the `D3D12CreateDevice` probe succeeds. -/
structure DxgiAdapter where
  software : Bool := false
  probeOk : Bool := true
  VendorId : Nat := 0
  DeviceId : Nat := 0
  SubSysId : Nat := 0
  Revision : Nat := 0
  DedicatedVideoMemory : Nat := 0
  SharedSystemMemory : Nat := 0
  Description : String := ""
  deriving DecidableEq, Repr

/-- What DXGI reports during `PopulateD3D12AdaptersLocked`: whether `CreateDXGIFactory1`
succeeds and the adapters `EnumAdapterByGpuPreference` yields, in order. -/
structure Dxgi where
  factoryOk : Bool := true
  adapters : List DxgiAdapter := []
  deriving DecidableEq, Repr

/-- The body of the `while` loop of `PopulateD3D12AdaptersLocked` for one adapter: `none`
when the adapter is skipped. -/
def MakeD3D12AdapterRecord (a : DxgiAdapter) : Option D3D12AdapterRecord :=
  if a.software then none
  else if !a.probeOk then none
  else some
    { isIntel := decide (a.VendorId = 0x8086)
      desc :=
        { backend := rive_renderer_backend_t.d3d12
          backend_padding := 0
          vendor_id := a.VendorId % 2 ^ 16
          device_id := a.DeviceId % 2 ^ 16
          subsys_id := a.SubSysId % 2 ^ 16
          revision := a.Revision % 2 ^ 16
          dedicated_video_memory := a.DedicatedVideoMemory
          shared_system_memory := a.SharedSystemMemory
          flags := rive_renderer_feature_flags_t.headless_supported
          reserved := 0
          name := a.Description } }

/-- The function `PopulateD3D12AdaptersLocked`. -/
def PopulateD3D12AdaptersLocked (dxgi : Dxgi) (w : World) : rive_renderer_status_t × World :=
  let w1 := { w with g_d3d12Adapters := [] }
  if !dxgi.factoryOk then
    (.internal_error, SetLastError w1 "CreateDXGIFactory1 failed")
  else
    (.ok, { w1 with g_d3d12Adapters := dxgi.adapters.filterMap MakeD3D12AdapterRecord })

/-- The function `EnsureD3D12Adapters`. -/
def EnsureD3D12Adapters (dxgi : Dxgi) (w : World) : rive_renderer_status_t × World :=
  if w.g_d3d12Adapters.isEmpty then PopulateD3D12AdaptersLocked dxgi w
  else (.ok, w)

/-- The function `MakeNullAdapter`. -/
def MakeNullAdapter : rive_renderer_adapter_desc_t :=
  { backend := rive_renderer_backend_t.null
    backend_padding := 0
    vendor_id := 0xffff
    device_id := 0xffff
    subsys_id := 0
    revision := 1
    dedicated_video_memory := 0
    shared_system_memory := 0
    flags := rive_renderer_feature_flags_t.headless_supported
    reserved := 0
    name := "Null Renderer" }

/-- The function `MakeMetalAdapter`. -/
def MakeMetalAdapter : rive_renderer_adapter_desc_t :=
  { backend := rive_renderer_backend_t.metal
    backend_padding := 0
    vendor_id := 0
    device_id := 0
    subsys_id := 0
    revision := 1
    dedicated_video_memory := 0
    shared_system_memory := 0
    flags := rive_renderer_feature_flags_t.headless_supported
    reserved := 0
    name := "Metal Default Device" }

/-- Overwrite the first `n` entries of the caller's array `buf` with the first `n`
entries of `src`; writing past the end of the array is undefined behaviour. -/
def copyEntries {α : Type} (buf src : List α) (n : Nat) : Option (List α) :=
  if n ≤ buf.length then some (src.take n ++ buf.drop n) else none

/-- The assignment `buf[i] = v`; writing past the end of the array is undefined behaviour. -/
def storeEntry {α : Type} (buf : List α) (i : Nat) (v : α) : Option (List α) :=
  if i < buf.length then some (buf.set i v) else none

/-- What `rive_renderer_enumerate_adapters` leaves behind: the status, the world, the
caller's array (`none` for a null `adapters`) and the cell `*count` (`none` for a null
`count`). -/
structure EnumerateResult where
  status : rive_renderer_status_t
  world : World
  adapters : Option (List rive_renderer_adapter_desc_t)
  count : Option Nat

/-- The function `rive_renderer_enumerate_adapters`. `adapters` is the caller's array
(`none` for a null pointer), `count` the content of the cell `count` points to (`none` for
a null pointer). -/
def rive_renderer_enumerate_adapters (b : Build) (dxgi : Dxgi) (w : World)
    (adapters : Option (List rive_renderer_adapter_desc_t)) (capacity : Nat)
    (count : Option Nat) : Option EnumerateResult :=
  if b.win32 then
    match count with
    | none => some ⟨.null_pointer, SetLastError w "count pointer is null", adapters, none⟩
    | some c =>
      let (status, w1) := EnsureD3D12Adapters dxgi w
      if status ≠ .ok then some ⟨status, w1, adapters, some c⟩
      else
        let adapterCount := w1.g_d3d12Adapters.length
        let total := adapterCount + 1
        match adapters with
        | some buf =>
          if capacity > 0 then
            let to_copy := min capacity adapterCount
            match copyEntries buf (w1.g_d3d12Adapters.map (·.desc)) to_copy with
            | none => none
            | some buf1 =>
              if capacity > to_copy then
                match storeEntry buf1 to_copy MakeNullAdapter with
                | none => none
                | some buf2 => some ⟨.ok, ClearLastError w1, some buf2, some total⟩
              else some ⟨.ok, ClearLastError w1, some buf1, some total⟩
          else some ⟨.ok, ClearLastError w1, some buf, some total⟩
        | none => some ⟨.ok, ClearLastError w1, none, some total⟩
  else
    match count with
    | none => some ⟨.null_pointer, SetLastError w "count pointer is null", adapters, none⟩
    | some _ =>
      let candidates := (if b.apple then [MakeMetalAdapter] else []) ++ [MakeNullAdapter]
      let total := candidates.length
      match adapters with
      | some buf =>
        if capacity > 0 then
          let to_copy := if capacity < total then capacity else total
          match copyEntries buf candidates to_copy with
          | none => none
          | some buf1 => some ⟨.ok, ClearLastError w, some buf1, some total⟩
        else some ⟨.ok, ClearLastError w, some buf, some total⟩
      | none => some ⟨.ok, ClearLastError w, none, some total⟩


/-- The struct `rive::gpu::D3DCapabilities` as `QueryD3DCapabilities` fills it from the
device's feature queries. -/
structure D3DCapabilities where
  supportsRasterizerOrderedViews : Bool := false
  supportsTypedUAVLoadStore : Bool := false
  supportsMin16Precision : Bool := false
  allowsUAVSlot0WithColorOutput : Bool := false
  deriving DecidableEq, Repr

/-- The function `FlagsFromD3DCapabilities`. -/
def FlagsFromD3DCapabilities (caps : D3DCapabilities) : Nat :=
  let bits := rive_renderer_feature_flags_t.headless_supported
  let bits := if caps.supportsRasterizerOrderedViews then
    bits ||| rive_renderer_feature_flags_t.raster_ordering else bits
  let bits := if caps.supportsTypedUAVLoadStore then
    bits ||| rive_renderer_feature_flags_t.atomic_path_rendering else bits
  let bits := if caps.supportsMin16Precision then
    bits ||| rive_renderer_feature_flags_t.clockwise_fill else bits
  let bits := if caps.allowsUAVSlot0WithColorOutput then
    bits ||| rive_renderer_feature_flags_t.advanced_blend else bits
  bits

/-- The constant `D3D12_REQ_TEXTURE2D_U_OR_V_DIMENSION` of `d3d12.h`. -/
def D3D12_REQ_TEXTURE2D_U_OR_V_DIMENSION : Nat := 16384

/-- The constant `D3D12_REQ_TEXTURE2D_ARRAY_AXIS_DIMENSION` of `d3d12.h`. -/
def D3D12_REQ_TEXTURE2D_ARRAY_AXIS_DIMENSION : Nat := 2048

/-- The function `PopulateCapabilitiesFromD3D12`; `d3dCaps` is what
`QueryD3DCapabilities(device)` returns. -/
def PopulateCapabilitiesFromD3D12 (d3dCaps : D3DCapabilities) :
    rive_renderer_capabilities_t :=
  { backend := rive_renderer_backend_t.d3d12
    backend_padding := 0
    reserved := 0
    feature_flags := FlagsFromD3DCapabilities d3dCaps
    max_buffer_size := 4 * 1024 * 1024 * 1024
    max_texture_dimension := D3D12_REQ_TEXTURE2D_U_OR_V_DIMENSION
    max_texture_array_layers := D3D12_REQ_TEXTURE2D_ARRAY_AXIS_DIMENSION
    max_sampler_anisotropy := float_16_0
    supports_hdr := 0
    supports_presentation := 1 }

/-- The results of the native calls `rive_renderer_device_create` can make: DXGI
enumeration, `D3D12CreateDevice`, the two `CreateCommandQueue` calls, the feature queries,
`new (std::nothrow) DeviceHandle()`, and `rive_metal_device_new` (the pointer it returns,
the capabilities it writes and the error text it may leave). -/
structure DeviceCreateNative where
  dxgi : Dxgi := {}
  createDeviceOk : Bool := true
  createDirectQueueOk : Bool := true
  createCopyQueueOk : Bool := true
  d3dCaps : D3DCapabilities := {}
  allocOk : Bool := true
  metalDevice : Ptr := 0
  metalCaps : rive_renderer_capabilities_t := {}
  metalError : Option String := none
  deriving DecidableEq, Repr

/-- What a `create` entry point leaves behind: the status, the world and the caller's
output cell (`none` when the output pointer is null). -/
structure CreateResult where
  status : rive_renderer_status_t
  world : World
  out : Option Ptr

/-- The D3D12 block of `rive_renderer_device_create` (lines 1136 to 1198), entered in a
Windows build when `info` is non-null and asks for the D3D12 backend. -/
def device_create_d3d12 (n : DeviceCreateNative) (w : World)
    (i : rive_renderer_device_create_info_t) (out_device : Option Ptr) :
    Option CreateResult :=
  let (ensureStatus, w1) := EnsureD3D12Adapters n.dxgi w
  if ensureStatus ≠ .ok then some ⟨ensureStatus, w1, out_device⟩
  else if i.adapter_index ≥ w1.g_d3d12Adapters.length then
    some ⟨.invalid_parameter, SetLastError w1 "adapter index out of range", out_device⟩
  else if !n.createDeviceOk then
    some ⟨.unsupported, SetLastError w1 "D3D12CreateDevice failed", out_device⟩
  else if !n.createDirectQueueOk then
    some ⟨.internal_error, SetLastError w1 "Failed to create direct command queue", out_device⟩
  else if !n.createCopyQueueOk then
    some ⟨.internal_error, SetLastError w1 "Failed to create copy command queue", out_device⟩
  else if !n.allocOk then
    some ⟨.out_of_memory, SetLastError w1 "allocation failed", out_device⟩
  else
    let h : DeviceHandle :=
      { backend := rive_renderer_backend_t.d3d12
        adapter := true
        d3d12Device := true
        directQueue := true
        copyQueue := true
        isIntel := (w1.g_d3d12Adapters.getD i.adapter_index {}).isIntel
        capabilities := PopulateCapabilitiesFromD3D12 n.d3dCaps }
    match out_device with
    | none => none
    | some _ =>
      some ⟨.ok, ClearLastError (w1.fresh.2.setDevice w1.fresh.1 h), some w1.fresh.1⟩

/-- The Metal block of `rive_renderer_device_create` (lines 1201 to 1234), entered when
`info` is non-null and asks for the Metal backend. -/
def device_create_metal (b : Build) (n : DeviceCreateNative) (w : World)
    (out_device : Option Ptr) : Option CreateResult :=
  if b.apple then
    if !n.allocOk then some ⟨.out_of_memory, SetLastError w "allocation failed", out_device⟩
    else
      let handle := w.fresh.1
      let w1 := w.fresh.2
      let w2 := match n.metalError with
        | some e => SetLastError w1 e
        | none => w1
      if n.metalDevice = 0 then
        let w3 := { w2 with deleted := handle :: w2.deleted }
        let w4 := if w3.g_lastError.isEmpty then
          SetLastError w3 "Metal device creation failed" else w3
        some ⟨.internal_error, w4, out_device⟩
      else
        let h : DeviceHandle :=
          { backend := rive_renderer_backend_t.metal
            metalDevice := n.metalDevice
            capabilities := n.metalCaps }
        match out_device with
        | none => none
        | some _ => some ⟨.ok, ClearLastError (w2.setDevice handle h), some handle⟩
  else
    some ⟨.unsupported, SetLastError w "requested backend is not yet implemented", out_device⟩

/-- The device `rive_renderer_device_create` makes for the null backend. -/
def newNullDevice (backend : rive_renderer_backend_t) : DeviceHandle :=
  { backend := backend
    capabilities :=
      { backend := backend
        feature_flags := rive_renderer_feature_flags_t.headless_supported
        max_buffer_size := 256 * 1024 * 1024
        max_texture_dimension := 4096
        max_texture_array_layers := 1
        max_sampler_anisotropy := float_1_0
        supports_hdr := 0
        supports_presentation := 0 } }

/-- The rest of `rive_renderer_device_create` (lines 1236 to 1273), reached when neither
block above was entered. -/
def device_create_portable (n : DeviceCreateNative) (w : World)
    (info : Option rive_renderer_device_create_info_t) (out_device : Option Ptr) :
    Option CreateResult :=
  match info, out_device with
  | some i, some _ =>
    if i.backend = rive_renderer_backend_t.unknown then
      some ⟨.invalid_parameter, SetLastError w "backend must be specified", out_device⟩
    else if i.backend ≠ rive_renderer_backend_t.null then
      some ⟨.unsupported, SetLastError w "requested backend is not yet implemented",
        out_device⟩
    else if !n.allocOk then
      some ⟨.out_of_memory, SetLastError w "allocation failed", out_device⟩
    else
      some ⟨.ok, ClearLastError (w.fresh.2.setDevice w.fresh.1 (newNullDevice i.backend)),
        some w.fresh.1⟩
  | _, _ =>
    some ⟨.null_pointer, SetLastError w "device_create received null pointer", out_device⟩

/-- The function `rive_renderer_device_create`. `info` is `none` for a null pointer;
`out_device` is the content of `out_device->handle` before the call, `none` for a null
pointer. -/
def rive_renderer_device_create (b : Build) (n : DeviceCreateNative) (w : World)
    (info : Option rive_renderer_device_create_info_t) (out_device : Option Ptr) :
    Option CreateResult :=
  match info with
  | some i =>
    if b.win32 && decide (i.backend = rive_renderer_backend_t.d3d12) then
      device_create_d3d12 n w i out_device
    else if i.backend = rive_renderer_backend_t.metal then
      device_create_metal b n w out_device
    else device_create_portable n w info out_device
  | none => device_create_portable n w info out_device

/-- The function `ConvertVulkanFeatures`. -/
def ConvertVulkanFeatures (features : rive_renderer_vulkan_features_t) : VulkanFeatures :=
  { apiVersion := features.api_version
    independentBlend := decide (features.independent_blend ≠ 0)
    fillModeNonSolid := decide (features.fill_mode_non_solid ≠ 0)
    fragmentStoresAndAtomics := decide (features.fragment_stores_and_atomics ≠ 0)
    shaderClipDistance := decide (features.shader_clip_distance ≠ 0)
    rasterizationOrderColorAttachmentAccess :=
      decide (features.rasterization_order_color_attachment_access ≠ 0)
    fragmentShaderPixelInterlock := decide (features.fragment_shader_pixel_interlock ≠ 0)
    VK_KHR_portability_subset := decide (features.portability_subset ≠ 0) }

/-- The function `rive_renderer_device_create_vulkan`; `allocOk` tells whether
`new (std::nothrow) DeviceHandle()` succeeds. -/
def rive_renderer_device_create_vulkan (b : Build) (allocOk : Bool) (w : World)
    (info : Option rive_renderer_device_create_info_vulkan_t) (out_device : Option Ptr) :
    Option CreateResult :=
  match out_device with
  | none => some ⟨.null_pointer, SetLastError w "device output pointer is null", none⟩
  | some _ =>
    match info with
    | none => some ⟨.null_pointer, SetLastError w "device create info is null", some 0⟩
    | some i =>
      if b.vulkan then
        if i.instance_ptr = 0 || i.physical_device = 0 || i.device = 0 ||
            i.graphics_queue = 0 then
          some ⟨.invalid_parameter,
            SetLastError w "Vulkan device create info is missing required handles", some 0⟩
        else if !allocOk then
          some ⟨.out_of_memory, SetLastError w "allocation failed", some 0⟩
        else
          let (handle, w1) := w.fresh
          let vkFeatures := ConvertVulkanFeatures i.features
          let presentQueue := if i.present_queue ≠ 0 then i.present_queue else i.graphics_queue
          let featureFlags := rive_renderer_feature_flags_t.headless_supported
          let featureFlags := if vkFeatures.fragmentStoresAndAtomics then
            featureFlags ||| rive_renderer_feature_flags_t.atomic_path_rendering
            else featureFlags
          let featureFlags :=
            if vkFeatures.rasterizationOrderColorAttachmentAccess ||
                vkFeatures.fragmentShaderPixelInterlock then
              featureFlags ||| rive_renderer_feature_flags_t.raster_ordering
            else featureFlags
          let h : DeviceHandle :=
            { backend := rive_renderer_backend_t.vulkan
              vkInstance := i.instance_ptr
              vkPhysicalDevice := i.physical_device
              vkDevice := i.device
              graphicsQueue := i.graphics_queue
              graphicsQueueFamilyIndex := i.graphics_queue_family_index
              presentQueue := presentQueue
              presentQueueFamilyIndex :=
                if i.present_queue ≠ 0 then i.present_queue_family_index
                else i.graphics_queue_family_index
              getInstanceProcAddr := i.get_instance_proc_addr
              vkFeatures := vkFeatures
              capabilities :=
                { backend := rive_renderer_backend_t.vulkan
                  feature_flags := featureFlags
                  max_buffer_size := 0
                  max_texture_dimension := 0
                  max_texture_array_layers := 0
                  max_sampler_anisotropy := float_1_0
                  supports_hdr := 0
                  supports_presentation := if presentQueue ≠ 0 then 1 else 0 } }
          some ⟨.ok, ClearLastError (w1.setDevice handle h), some handle⟩
      else
        some ⟨.unsupported, SetLastError w "Vulkan backend is not available in this build",
          some 0⟩

/-- The function `rive_renderer_device_retain`. -/
def rive_renderer_device_retain (w : World) (device : Ptr) :
    Option (rive_renderer_status_t × World) :=
  if device = 0 then some (.invalid_handle, SetLastError w "device handle is null")
  else
    match w.devices device with
    | none => none
    | some handle =>
      let w1 := w.setDevice device { handle with ref_count := fetch_add_1 handle.ref_count }
      some (.ok, ClearLastError w1)

/-- The block that runs when a device's count was 1: the native members are reset (on
Apple `rive_metal_device_release` is called for a non-null `metalDevice`) and the handle
is deleted. `metalRelease` tells whether the caller's copy of the block has the Apple
part (the copy in `rive_renderer_fence_release` has not). -/
def destroyDevice (b : Build) (metalRelease : Bool) (w : World) (device : Ptr)
    (handle : DeviceHandle) : World :=
  let w1 :=
    if !b.win32 && b.apple && metalRelease && decide (handle.metalDevice ≠ 0) then
      w.native (.rive_metal_device_release handle.metalDevice)
    else w
  w1.deleteDevice device

/-- The function `rive_renderer_device_release`. -/
def rive_renderer_device_release (b : Build) (w : World) (device : Ptr) :
    Option (rive_renderer_status_t × World) :=
  if device = 0 then some (.invalid_handle, SetLastError w "device handle is null")
  else
    match w.devices device with
    | none => none
    | some handle =>
      let previous := handle.ref_count
      let handle1 := { handle with ref_count := fetch_sub_1 handle.ref_count }
      let w1 := w.setDevice device handle1
      if previous = 0 then
        some (.internal_error, SetLastError w1 "device handle refcount underflow")
      else if previous = 1 then
        some (.ok, ClearLastError (destroyDevice b true w1 device handle1))
      else some (.ok, ClearLastError w1)

/-- The function `rive_renderer_device_capabilities`; `out_capabilities` is the content of
the caller's record, `none` for a null pointer. The result carries the record after the
call. -/
def rive_renderer_device_capabilities (w : World) (device : Ptr)
    (out_capabilities : Option rive_renderer_capabilities_t) :
    Option (rive_renderer_status_t × World × Option rive_renderer_capabilities_t) :=
  match out_capabilities with
  | none => some (.null_pointer, SetLastError w "capabilities pointer is null", none)
  | some old =>
    if device = 0 then
      some (.invalid_handle, SetLastError w "device handle is null", some old)
    else
      match w.devices device with
      | none => none
      | some handle => some (.ok, ClearLastError w, some handle.capabilities)


/-- Store `h` at the surface address `p`. -/
def World.setSurface (w : World) (p : Ptr) (h : SurfaceHandle) : World :=
  { w with surfaces := Function.update w.surfaces p (some h) }

/-- The statement `delete surface`. -/
def World.deleteSurface (w : World) (p : Ptr) : World :=
  { w with surfaces := Function.update w.surfaces p none, deleted := p :: w.deleted }

/-- The sentinel `std::numeric_limits<UINT>::max()` of `borrowedIndex`. -/
def UINT_MAX : Nat := 2 ^ 32 - 1

/-- The function `GetD3D12Impl` for a non-null context: whether it returns non-null. -/
def GetD3D12Impl (context : ContextHandle) : Bool :=
  context.renderContext

/-- The function `ReturnSurfaceRenderTarget` for the context at address `context`. -/
def ReturnSurfaceRenderTarget (w : World) (context : Ptr) : Option World :=
  if context = 0 then some w
  else
    match w.contexts context with
    | none => none
    | some c =>
      if c.surface = 0 then some w
      else
        match w.surfaces c.surface with
        | none => none
        | some s =>
          let (c1, s1) :=
            if s.borrowedIndex ≠ UINT_MAX ∧ s.borrowedIndex < s.renderTargets.length then
              match c.renderTarget with
              | some rt =>
                ({ c with renderTarget := none, renderTargetTexture := 0 },
                 { s with renderTargets := s.renderTargets.set s.borrowedIndex (some rt) })
              | none => ({ c with renderTargetTexture := 0 }, s)
            else if c.renderTarget.isSome then
              ({ c with renderTarget := none, renderTargetTexture := 0 }, s)
            else (c, s)
          some ((w.setContext context c1).setSurface c.surface
            { s1 with borrowedIndex := UINT_MAX })

/-- The function `EnsureD3D12SurfaceRenderTarget`; `makeRenderTargetOk` tells whether
`impl->makeRenderTarget` returns non-null. -/
def EnsureD3D12SurfaceRenderTarget (makeRenderTargetOk : Bool) (w : World) (context : Ptr) :
    Option (rive_renderer_status_t × World) :=
  match w.contexts context with
  | none => none
  | some c =>
    if c.surface = 0 then some (.invalid_handle, SetLastError w "surface not initialized")
    else
      match w.surfaces c.surface with
      | none => none
      | some s =>
        if !s.swapChain then some (.invalid_handle, SetLastError w "surface not initialized")
        else
          let backIndex := s.currentBackBuffer
          if backIndex ≥ s.renderTargets.length then
            some (.internal_error, SetLastError w "swapchain buffer index out of range")
          else
            match s.backBuffers.get? backIndex with
            | none => none
            | some backBuffer =>
              let c1 := { c with width := s.width, height := s.height }
              let w1 := w.setContext context c1
              if s.borrowedIndex = backIndex ∧ c1.renderTarget.isSome then
                some (.ok, w1.setContext context { c1 with renderTargetTexture := backBuffer })
              else
                let w2 : Option World :=
                  if s.borrowedIndex ≠ UINT_MAX ∧ c1.renderTarget.isSome then
                    ReturnSurfaceRenderTarget w1 context
                  else some w1
                match w2 with
                | none => none
                | some w2 =>
                  match w2.contexts context, w2.surfaces c.surface with
                  | some c2, some s2 =>
                    let made : Option (rive_renderer_status_t × World) ⊕ SurfaceHandle :=
                      if (s2.renderTargets.getD backIndex none).isNone then
                        if !GetD3D12Impl c2 then
                          .inl (some (.internal_error,
                            SetLastError w2 "render context not initialized"))
                        else if !makeRenderTargetOk then
                          .inl (some (.internal_error, SetLastError w2 "makeRenderTarget failed"))
                        else
                          let renderTarget : RenderTarget :=
                            { width := s2.width, height := s2.height, targetTexture := backBuffer }
                          .inr { s2 with
                            renderTargets := s2.renderTargets.set backIndex (some renderTarget) }
                      else .inr s2
                    match made with
                    | .inl r => r
                    | .inr s3 =>
                      match s3.renderTargets.getD backIndex none with
                      | none =>
                        some (.internal_error,
                          SetLastError (w2.setSurface c.surface s3) "render target unavailable")
                      | some rt =>
                        let c3 := { c2 with renderTarget := some rt,
                                            renderTargetTexture := backBuffer }
                        let s4 := { s3 with
                          renderTargets := s3.renderTargets.set backIndex none,
                          borrowedIndex := backIndex }
                        some (.ok, (w2.setContext context c3).setSurface c.surface s4)
                  | _, _ => none

/-- The results of the native calls of `EnsureD3D12RenderTarget`: whether
`CreateRenderTargetTexture` succeeds, the texture it returns, and whether
`impl->makeRenderTarget` returns non-null. -/
structure RenderTargetNative where
  createTextureOk : Bool := true
  texture : Ptr := 1
  makeRenderTargetOk : Bool := true
  deriving DecidableEq, Repr

/-- The function `EnsureD3D12RenderTarget` (in a build with D3D12). -/
def EnsureD3D12RenderTarget (n : RenderTargetNative) (w : World) (context : Ptr) :
    Option (rive_renderer_status_t × World) :=
  match w.contexts context with
  | none => none
  | some c =>
    if c.surface ≠ 0 then EnsureD3D12SurfaceRenderTarget n.makeRenderTargetOk w context
    else if c.device = 0 || !GetD3D12Impl c then
      some (.internal_error, SetLastError w "render context not initialized")
    else
      let needsResize :=
        match c.renderTarget with
        | none => true
        | some rt => decide (rt.width ≠ c.width) || decide (rt.height ≠ c.height)
      if !needsResize then some (.ok, w)
      else if !n.createTextureOk then
        some (.out_of_memory, SetLastError w "failed to allocate render target texture")
      else if !n.makeRenderTargetOk then none
      else
        some (.ok, w.setContext context
          { c with renderTargetTexture := n.texture,
                   renderTarget := some { width := c.width, height := c.height,
                                          targetTexture := n.texture } })

/-- The results of the native calls `rive_renderer_context_create` can make:
`new (std::nothrow) ContextHandle()`, the seven creations of `InitializeD3D12Context`,
`RenderContextD3D12Impl::MakeContext`, the copy list `Close`, the queue `Signal`,
`SetEventOnCompletion`, the calls of `EnsureD3D12RenderTarget`, `rive_metal_context_create`
(its status, the context pointer and render context it hands back, the error text it may
leave), `RenderContextVulkanImpl::MakeContext` and the allocation made by
`cpuFramebuffer.assign` (`assignOk`). -/
structure ContextCreateNative where
  allocOk : Bool := true
  createDirectAllocatorOk : Bool := true
  createCopyAllocatorOk : Bool := true
  createDirectListOk : Bool := true
  createCopyListOk : Bool := true
  createDirectFenceOk : Bool := true
  createCopyFenceOk : Bool := true
  createEventOk : Bool := true
  makeContextOk : Bool := true
  closeCopyListOk : Bool := true
  queueSignalOk : Bool := true
  setEventOk : Bool := true
  target : RenderTargetNative := {}
  metalStatus : rive_renderer_status_t := .ok
  metalContext : Ptr := 0
  metalRenderContext : Bool := true
  metalError : Option String := none
  vulkanMakeContextOk : Bool := true
  assignOk : Bool := true
  deriving DecidableEq, Repr

/-- The function `InitializeD3D12Context`: the error text of the first creation that
fails, or the initialised context. -/
def InitializeD3D12Context (n : ContextCreateNative) (context : ContextHandle)
    (width height : Nat) : String ⊕ ContextHandle :=
  if !n.createDirectAllocatorOk then .inl "CreateCommandAllocator (direct) failed"
  else if !n.createCopyAllocatorOk then .inl "CreateCommandAllocator (copy) failed"
  else if !n.createDirectListOk then .inl "CreateCommandList (direct) failed"
  else if !n.createCopyListOk then .inl "CreateCommandList (copy) failed"
  else if !n.createDirectFenceOk then .inl "CreateFence (direct) failed"
  else if !n.createCopyFenceOk then .inl "CreateFence (copy) failed"
  else if !n.createEventOk then .inl "CreateEvent failed"
  else .inr
    { context with
      directAllocator := true
      copyAllocator := true
      directCommandList := true
      copyCommandList := true
      directFence := true
      copyFence := true
      fenceEvent := true
      width := width
      height := height }

/-- The size `static_cast<size_t>(width) * height * 4` of the CPU framebuffer. -/
def cpuFramebufferSize (width height : Nat) : Nat :=
  (width * height * 4) % SIZE

/-- The value of `std::vector<std::uint8_t>::max_size()` with a 64-bit `size_t`:
`PTRDIFF_MAX`. -/
def VECTOR_MAX_SIZE : Nat := 2 ^ 63 - 1

/-- The call `cpuFramebuffer.assign(count, 0)` of `std::vector<std::uint8_t>`: the new
content, `count` zero bytes, or `none` when the call throws, `std::length_error` for a
count above `max_size()` and `std::bad_alloc` when the storage cannot be allocated
(`allocOk` false). No entry point catches the exception. -/
def vector_assign (allocOk : Bool) (count : Nat) : Option (List Nat) :=
  if count > VECTOR_MAX_SIZE then none
  else if !allocOk then none
  else some (List.replicate count 0)

/-- The D3D12 block of `rive_renderer_context_create` (lines 1457 to 1549), entered in a
Windows build for a device of the D3D12 backend. -/
def context_create_d3d12 (n : ContextCreateNative) (w : World) (device : Ptr)
    (device_handle : DeviceHandle) (width height : Nat) (out_context : Option Ptr) :
    Option CreateResult :=
  if !ValidateContextSize width height then
    some ⟨.invalid_parameter, SetLastError w "context dimensions must be non-zero", out_context⟩
  else if !n.allocOk then
    some ⟨.out_of_memory, SetLastError w "allocation failed", out_context⟩
  else
    let contextHandle := w.fresh.1
    let w1 := w.fresh.2
    let dropped := { w1 with deleted := contextHandle :: w1.deleted }
    match InitializeD3D12Context n { device := device } width height with
    | .inl message => some ⟨.internal_error, SetLastError dropped message, out_context⟩
    | .inr c =>
      if !n.makeContextOk then
        some ⟨.internal_error,
          SetLastError dropped "RenderContextD3D12Impl::MakeContext failed", out_context⟩
      else if !n.closeCopyListOk then
        some ⟨.internal_error, SetLastError dropped "copy command list close failed",
          out_context⟩
      else if !n.queueSignalOk then
        some ⟨.internal_error, SetLastError dropped "Queue signal failed", out_context⟩
      else if !n.setEventOk then
        some ⟨.internal_error, SetLastError dropped "SetEventOnCompletion failed", out_context⟩
      else
        match EnsureD3D12RenderTarget n.target
            (w1.setContext contextHandle { c with renderContext := true, fenceValue := 1 })
            contextHandle with
        | none => none
        | some (targetStatus, w2) =>
          if targetStatus ≠ .ok then
            some ⟨targetStatus, w2.deleteContext contextHandle, out_context⟩
          else
            some ⟨.ok, ClearLastError (w2.setDevice device
              { device_handle with ref_count := fetch_add_1 device_handle.ref_count }),
              some contextHandle⟩

/-- The Metal block of `rive_renderer_context_create` (lines 1553 to 1594), entered in an
Apple build for a device of the Metal backend. -/
def context_create_metal (n : ContextCreateNative) (w : World) (device : Ptr)
    (device_handle : DeviceHandle) (width height : Nat) (out_context : Option Ptr) :
    Option CreateResult :=
  if !ValidateContextSize width height then
    some ⟨.invalid_parameter, SetLastError w "context dimensions must be non-zero", out_context⟩
  else if !n.allocOk then
    some ⟨.out_of_memory, SetLastError w "allocation failed", out_context⟩
  else
    let contextHandle := w.fresh.1
    let w1 := w.fresh.2
    let w2 := match n.metalError with
      | some e => SetLastError w1 e
      | none => w1
    if n.metalStatus ≠ .ok then
      let w3 := { w2 with deleted := contextHandle :: w2.deleted }
      let w4 := if w3.g_lastError.isEmpty then
        SetLastError w3 "Metal context creation failed" else w3
      some ⟨n.metalStatus, w4, out_context⟩
    else
      let c : ContextHandle :=
        { device := device
          renderContext := n.metalRenderContext
          metalContext := n.metalContext
          width := width
          height := height }
      some ⟨.ok, ClearLastError ((w2.setContext contextHandle c).setDevice device
        { device_handle with ref_count := fetch_add_1 device_handle.ref_count }),
        some contextHandle⟩

/-- The Vulkan block of `rive_renderer_context_create` (lines 1598 to 1639), entered in a
build with Vulkan for a device of the Vulkan backend. -/
def context_create_vulkan (n : ContextCreateNative) (w : World) (device : Ptr)
    (device_handle : DeviceHandle) (width height : Nat) (out_context : Option Ptr) :
    Option CreateResult :=
  if !ValidateContextSize width height then
    some ⟨.invalid_parameter, SetLastError w "context dimensions must be non-zero", out_context⟩
  else if !n.allocOk then
    some ⟨.out_of_memory, SetLastError w "allocation failed", out_context⟩
  else
    let contextHandle := w.fresh.1
    let w1 := w.fresh.2
    if !n.vulkanMakeContextOk then
      some ⟨.internal_error,
        SetLastError { w1 with deleted := contextHandle :: w1.deleted }
          "RenderContextVulkanImpl::MakeContext failed", out_context⟩
    else
      let c : ContextHandle :=
        { device := device, width := width, height := height, renderContext := true }
      some ⟨.ok, ClearLastError ((w1.setContext contextHandle c).setDevice device
        { device_handle with ref_count := fetch_add_1 device_handle.ref_count }),
        some contextHandle⟩

/-- The rest of `rive_renderer_context_create` (lines 1642 to 1668), reached when none of
the blocks above was entered. `none` when `cpuFramebuffer.assign` throws: the exception
leaves the function before the device's count is raised and before `out_context` is
written, and no status is returned. -/
def context_create_portable (n : ContextCreateNative) (w : World) (device : Ptr)
    (device_handle : DeviceHandle) (width height : Nat) (out_context : Option Ptr) :
    Option CreateResult :=
  if !ValidateContextSize width height then
    some ⟨.invalid_parameter, SetLastError w "context dimensions must be non-zero", out_context⟩
  else if !n.allocOk then
    some ⟨.out_of_memory, SetLastError w "allocation failed", out_context⟩
  else
    match vector_assign n.assignOk (cpuFramebufferSize width height) with
    | none => none
    | some cpuFramebuffer =>
      some ⟨.ok, ClearLastError ((w.fresh.2.setContext w.fresh.1
        { device := device
          width := width
          height := height
          renderContext := false
          cpuFramebuffer := cpuFramebuffer
          cpuRenderTarget := false
          cpuFrameRecording := false
          commandListsClosed := false }).setDevice device
          { device_handle with ref_count := fetch_add_1 device_handle.ref_count }),
        some w.fresh.1⟩

/-- The function `rive_renderer_context_create`; `out_context` is the content of
`out_context->handle` before the call, `none` for a null pointer. -/
def rive_renderer_context_create (b : Build) (n : ContextCreateNative) (w : World)
    (device : Ptr) (width height : Nat) (out_context : Option Ptr) : Option CreateResult :=
  match out_context with
  | none => some ⟨.null_pointer, SetLastError w "context output pointer is null", none⟩
  | some _ =>
    if device = 0 then
      some ⟨.invalid_handle, SetLastError w "device handle is invalid", out_context⟩
    else
      match w.devices device with
      | none => none
      | some device_handle =>
        if b.win32 && decide (device_handle.backend = rive_renderer_backend_t.d3d12) then
          context_create_d3d12 n w device device_handle width height out_context
        else if b.apple && decide (device_handle.backend = rive_renderer_backend_t.metal) then
          context_create_metal n w device device_handle width height out_context
        else if b.vulkan && decide (device_handle.backend = rive_renderer_backend_t.vulkan) then
          context_create_vulkan n w device device_handle width height out_context
        else context_create_portable n w device device_handle width height out_context

/-- The function `rive_renderer_context_retain`. -/
def rive_renderer_context_retain (w : World) (context : Ptr) :
    Option (rive_renderer_status_t × World) :=
  if context = 0 then some (.invalid_handle, SetLastError w "context handle is null")
  else
    match w.contexts context with
    | none => none
    | some handle =>
      let w1 := w.setContext context { handle with ref_count := fetch_add_1 handle.ref_count }
      some (.ok, ClearLastError w1)


/-- The function `rive_renderer_context_release`. The resets of the handle's own members
right before `delete handle` (`ReleaseD3D12Context` and its portable counterpart) leave
no trace in the world and are left out. -/
def rive_renderer_context_release (b : Build) (w : World) (context : Ptr) :
    Option (rive_renderer_status_t × World) :=
  if context = 0 then some (.invalid_handle, SetLastError w "context handle is null")
  else
    match w.contexts context with
    | none => none
    | some handle =>
      if handle.surface ≠ 0 then
        some (.invalid_parameter, SetLastError w
          "context has an active surface; release the surface before destroying the context")
      else
        let previous := handle.ref_count
        let handle1 := { handle with ref_count := fetch_sub_1 handle.ref_count }
        let w1 := w.setContext context handle1
        if previous = 0 then
          some (.internal_error, SetLastError w1 "context handle refcount underflow")
        else if previous = 1 then
          let w2 : Option World :=
            if b.win32 then ReturnSurfaceRenderTarget w1 context
            else if b.apple && decide (handle1.metalContext ≠ 0) then
              some ((w1.native (.rive_metal_context_destroy handle1.metalContext)).setContext
                context { handle1 with metalContext := 0 })
            else some w1
          match w2 with
          | none => none
          | some w2 =>
            let w3 : Option World :=
              if handle1.device ≠ 0 then
                match w2.devices handle1.device with
                | none => none
                | some device =>
                  let device_prev := device.ref_count
                  let device1 := { device with ref_count := fetch_sub_1 device.ref_count }
                  let w21 := w2.setDevice handle1.device device1
                  if device_prev = 1 then some (destroyDevice b true w21 handle1.device device1)
                  else some w21
              else some w2
            match w3 with
            | none => none
            | some w3 => some (.ok, ClearLastError (w3.deleteContext context))
        else some (.ok, ClearLastError w1)

/-- The results of the native call `rive_renderer_context_resize` can make: whether the
allocation made by `cpuFramebuffer.assign` succeeds, and whether an `assign` that throws
leaves the old content in place (as libstdc++ does) or an empty vector (as the MSVC
library does on `std::bad_alloc`, and libc++ on both exceptions). -/
structure ContextResizeNative where
  assignOk : Bool := true
  assignKeeps : Bool := true
  deriving DecidableEq, Repr

/-- The function `rive_renderer_context_resize`. `none` also when `cpuFramebuffer.assign`
throws: the exception leaves the function and no status is returned
(`context_resize_thrown` gives the state it leaves). -/
def rive_renderer_context_resize (n : ContextResizeNative) (w : World) (context : Ptr)
    (width height : Nat) : Option (rive_renderer_status_t × World) :=
  if context = 0 then some (.invalid_handle, SetLastError w "context handle is null")
  else
    match w.contexts context with
    | none => none
    | some handle =>
      if !ValidateContextSize width height then
        some (.invalid_parameter, SetLastError w "context dimensions must be non-zero")
      else
        let handle1 := { handle with width := width, height := height }
        if handle1.device ≠ 0 then
          match w.devices handle1.device with
          | none => none
          | some device =>
            if device.backend = rive_renderer_backend_t.null then
              match vector_assign n.assignOk (cpuFramebufferSize width height) with
              | none => none
              | some cpuFramebuffer =>
                some (.ok, ClearLastError (w.setContext context
                  { handle1 with cpuFramebuffer := cpuFramebuffer }))
            else some (.ok, ClearLastError (w.setContext context handle1))
        else some (.ok, ClearLastError (w.setContext context handle1))

/-- The state in which an exception of `cpuFramebuffer.assign` leaves
`rive_renderer_context_resize` (line 1799): the width and height are stored already
(lines 1795 and 1796), the framebuffer is the old one or empty, the error text is as
before the call. `none` when the call does not throw. -/
def context_resize_thrown (n : ContextResizeNative) (w : World) (context : Ptr)
    (width height : Nat) : Option World :=
  if context = 0 then none
  else
    match w.contexts context with
    | none => none
    | some handle =>
      if !ValidateContextSize width height then none
      else
        let handle1 := { handle with width := width, height := height }
        if handle1.device ≠ 0 then
          match w.devices handle1.device with
          | none => none
          | some device =>
            if device.backend = rive_renderer_backend_t.null then
              match vector_assign n.assignOk (cpuFramebufferSize width height) with
              | none =>
                some (w.setContext context
                  { handle1 with
                    cpuFramebuffer := if n.assignKeeps then handle1.cpuFramebuffer else [] })
              | some _ => none
            else none
        else none

/-- The backend of the device a context points to: `none` when dereferencing the device
pointer is undefined behaviour, `some none` for a null device pointer. -/
def deviceBackend (w : World) (handle : ContextHandle) :
    Option (Option rive_renderer_backend_t) :=
  if handle.device ≠ 0 then (w.devices handle.device).map (fun d => some d.backend)
  else some none

/-- The width and height `rive_renderer_context_begin_frame` resolves for a context and
frame options: a zero or absent dimension falls back to the context's. -/
def resolvedFrameSize (c : ContextHandle) (options : Option rive_renderer_frame_options_t) :
    Nat × Nat :=
  match options with
  | some o => (if o.width ≠ 0 then o.width else c.width,
               if o.height ≠ 0 then o.height else c.height)
  | none => (c.width, c.height)

/-- The results of the native calls `rive_renderer_context_begin_frame` can make: those of
`EnsureD3D12RenderTarget`, the four `Reset` calls, `rive_metal_context_begin_frame`
(its status, what it writes through the width and height pointers, the error text it may
leave), whether the allocation made by `cpuFramebuffer.assign` succeeds (`assignOk`) and
whether an `assign` that throws leaves the old content in place or an empty vector
(`assignKeeps`). -/
structure BeginFrameNative where
  target : RenderTargetNative := {}
  resetDirectAllocatorOk : Bool := true
  resetCopyAllocatorOk : Bool := true
  resetDirectListOk : Bool := true
  resetCopyListOk : Bool := true
  metalStatus : rive_renderer_status_t := .ok
  metalSize : Option (Nat × Nat) := none
  metalError : Option String := none
  assignOk : Bool := true
  assignKeeps : Bool := true
  deriving DecidableEq, Repr

/-- The function `rive_renderer_context_begin_frame`; `options` is `none` for a null
pointer. `none` also when `cpuFramebuffer.assign` throws: the exception leaves the
function and no status is returned (`context_begin_frame_thrown` gives the state it
leaves). -/
def rive_renderer_context_begin_frame (b : Build) (n : BeginFrameNative) (w : World)
    (context : Ptr) (options : Option rive_renderer_frame_options_t) :
    Option (rive_renderer_status_t × World) :=
  if context = 0 then some (.invalid_handle, SetLastError w "context handle is null")
  else
    match w.contexts context with
    | none => none
    | some handle =>
      let width := (resolvedFrameSize handle options).1
      let height := (resolvedFrameSize handle options).2
      if !ValidateContextSize width height then
        some (.invalid_parameter, SetLastError w "context dimensions must be non-zero")
      else
        let handle1 := { handle with width := width, height := height }
        let w1 := w.setContext context handle1
        match deviceBackend w1 handle1 with
        | none => none
        | some backend =>
          if b.apple && decide (backend = some rive_renderer_backend_t.metal) then
            let surfaceOk : Bool :=
              decide (handle1.surface = 0) || (w1.surfaces handle1.surface).isSome
            if !surfaceOk then none
            else
              let handle2 :=
                match n.metalSize with
                | some (mw, mh) => { handle1 with width := mw, height := mh }
                | none => handle1
              let w2 := w1.setContext context handle2
              let w3 := match n.metalError with
                | some e => SetLastError w2 e
                | none => w2
              if n.metalStatus ≠ .ok then some (n.metalStatus, w3)
              else
                some (.ok, ClearLastError (w3.setContext context
                  { handle2 with
                    hasActiveFrame := true
                    commandListsClosed := false
                    pendingFrameNumber := handle2.frameCounter }))
          else if b.win32 && decide (backend = some rive_renderer_backend_t.d3d12) then
            match EnsureD3D12RenderTarget n.target w1 context with
            | none => none
            | some (status, w2) =>
              if status ≠ .ok then some (status, w2)
              else if !n.resetDirectAllocatorOk then
                some (.internal_error, SetLastError w2 "Reset direct allocator failed")
              else if !n.resetCopyAllocatorOk then
                some (.internal_error, SetLastError w2 "Reset copy allocator failed")
              else if !n.resetDirectListOk then
                some (.internal_error, SetLastError w2 "Reset direct command list failed")
              else if !n.resetCopyListOk then
                some (.internal_error, SetLastError w2 "Reset copy command list failed")
              else
                match w2.contexts context with
                | none => none
                | some handle2 =>
                  if !handle2.renderContext then none
                  else
                    some (.ok, ClearLastError (w2.setContext context
                      { handle2 with
                        hasActiveFrame := true
                        commandListsClosed := false
                        pendingFrameNumber := handle2.frameCounter }))
          else if backend = some rive_renderer_backend_t.null then
            let required := cpuFramebufferSize handle1.width handle1.height
            let assigned : Option (List Nat) :=
              if handle1.cpuFramebuffer.length ≠ required then
                vector_assign n.assignOk required
              else some (handle1.cpuFramebuffer.map (fun _ => 0))
            match assigned with
            | none => none
            | some cpuFramebuffer =>
              some (.ok, ClearLastError (w1.setContext context
                { handle1 with
                  cpuFramebuffer := cpuFramebuffer
                  cpuFrameRecording := true
                  commandListsClosed := false }))
          else
            some (.unimplemented,
              SetLastError w1 "context_begin_frame not implemented for this backend")

/-- The state in which an exception of `cpuFramebuffer.assign` leaves
`rive_renderer_context_begin_frame` (line 1915): the resolved width and height are stored
already (lines 1835 and 1836), the framebuffer is the old one or empty, the frame flags
and the error text are as before the call. `none` when the call does not throw. -/
def context_begin_frame_thrown (b : Build) (n : BeginFrameNative) (w : World)
    (context : Ptr) (options : Option rive_renderer_frame_options_t) : Option World :=
  if context = 0 then none
  else
    match w.contexts context with
    | none => none
    | some handle =>
      let width := (resolvedFrameSize handle options).1
      let height := (resolvedFrameSize handle options).2
      if !ValidateContextSize width height then none
      else
        let handle1 := { handle with width := width, height := height }
        let w1 := w.setContext context handle1
        match deviceBackend w1 handle1 with
        | none => none
        | some backend =>
          if b.apple && decide (backend = some rive_renderer_backend_t.metal) then none
          else if b.win32 && decide (backend = some rive_renderer_backend_t.d3d12) then none
          else if backend = some rive_renderer_backend_t.null then
            let required := cpuFramebufferSize handle1.width handle1.height
            if handle1.cpuFramebuffer.length ≠ required then
              match vector_assign n.assignOk required with
              | none =>
                some (w1.setContext context
                  { handle1 with
                    cpuFramebuffer := if n.assignKeeps then handle1.cpuFramebuffer else [] })
              | some _ => none
            else none
          else none


/-- The results of the native calls `rive_renderer_context_end_frame` can make: the two
`Close` calls and `rive_metal_context_end_frame` (its status, the error text it may
leave). -/
structure EndFrameNative where
  closeCopyListOk : Bool := true
  closeDirectListOk : Bool := true
  metalStatus : rive_renderer_status_t := .ok
  metalError : Option String := none
  deriving DecidableEq, Repr

/-- The function `rive_renderer_context_end_frame`. -/
def rive_renderer_context_end_frame (b : Build) (n : EndFrameNative) (w : World)
    (context : Ptr) : Option (rive_renderer_status_t × World) :=
  if context = 0 then some (.invalid_handle, SetLastError w "context handle is null")
  else
    match w.contexts context with
    | none => none
    | some handle =>
      match deviceBackend w handle with
      | none => none
      | some backend =>
        if b.win32 && decide (backend = some rive_renderer_backend_t.d3d12) then
          if !handle.hasActiveFrame then
            some (.invalid_parameter, SetLastError w "begin_frame must be called before end_frame")
          else if !GetD3D12Impl handle || handle.renderTarget.isNone then
            some (.internal_error, SetLastError w "render context not initialized")
          else if !n.closeCopyListOk then
            some (.internal_error, SetLastError w "copy command list close failed")
          else if !n.closeDirectListOk then
            some (.internal_error, SetLastError w "direct command list close failed")
          else
            some (.ok, ClearLastError (w.setContext context
              { handle with hasActiveFrame := false, commandListsClosed := true }))
        else if !b.win32 && b.apple && decide (backend = some rive_renderer_backend_t.metal) then
          if !handle.hasActiveFrame then
            some (.invalid_parameter, SetLastError w "begin_frame must be called before end_frame")
          else if handle.surface ≠ 0 ∧ (w.surfaces handle.surface).isNone then none
          else
            let w1 := match n.metalError with
              | some e => SetLastError w e
              | none => w
            if n.metalStatus ≠ .ok then some (n.metalStatus, w1)
            else
              some (.ok, ClearLastError (w1.setContext context
                { handle with hasActiveFrame := false, commandListsClosed := true }))
        else if backend = some rive_renderer_backend_t.null then
          if !handle.cpuFrameRecording then
            some (.invalid_parameter, SetLastError w "begin_frame must be called before end_frame")
          else
            some (.ok, ClearLastError (w.setContext context
              { handle with cpuFrameRecording := false, commandListsClosed := true }))
        else
          some (.unimplemented,
            SetLastError w "context_end_frame not implemented for this backend")

/-- The results of the native calls `rive_renderer_context_submit` can make: the copy
queue `Signal`, the direct queue `Wait` and `Signal`, the two `SetEventOnCompletion`
calls, and `rive_metal_context_submit` (its status, the error text it may leave). -/
structure SubmitNative where
  copySignalOk : Bool := true
  directWaitOk : Bool := true
  directSignalOk : Bool := true
  copySetEventOk : Bool := true
  directSetEventOk : Bool := true
  metalStatus : rive_renderer_status_t := .ok
  metalError : Option String := none
  deriving DecidableEq, Repr

/-- The function `rive_renderer_context_submit`. -/
def rive_renderer_context_submit (b : Build) (n : SubmitNative) (w : World)
    (context : Ptr) : Option (rive_renderer_status_t × World) :=
  if context = 0 then some (.invalid_handle, SetLastError w "context handle is null")
  else
    match w.contexts context with
    | none => none
    | some handle =>
      match deviceBackend w handle with
      | none => none
      | some backend =>
        if b.win32 && decide (backend = some rive_renderer_backend_t.d3d12) then
          if !handle.commandListsClosed then
            some (.invalid_parameter, SetLastError w "end_frame must be called before submit")
          else
            let handle1 := { handle with fenceValue := (handle.fenceValue + 1) % U64 }
            let w1 := w.setContext context handle1
            if !n.copySignalOk then
              some (.internal_error, SetLastError w1 "copy queue signal failed")
            else if !n.directWaitOk then
              some (.internal_error, SetLastError w1 "direct queue wait failed")
            else if !n.directSignalOk then
              some (.internal_error, SetLastError w1 "direct queue signal failed")
            else if !n.copySetEventOk then
              some (.internal_error, SetLastError w1 "copy fence wait failed")
            else if !n.directSetEventOk then
              some (.internal_error, SetLastError w1 "direct fence wait failed")
            else
              some (.ok, ClearLastError (w1.setContext context
                { handle1 with
                  lastCompletedFrame := handle1.frameCounter
                  frameCounter := (handle1.frameCounter + 1) % U64
                  pendingFrameNumber := 0
                  commandListsClosed := false }))
        else if b.apple && decide (backend = some rive_renderer_backend_t.metal) then
          if !handle.commandListsClosed then
            some (.invalid_parameter, SetLastError w "end_frame must be called before submit")
          else
            let w1 := match n.metalError with
              | some e => SetLastError w e
              | none => w
            if n.metalStatus ≠ .ok then some (n.metalStatus, w1)
            else
              let handle1 := { handle with pendingFrameNumber := 0 }
              let handle2 :=
                if handle1.surface = 0 then
                  { handle1 with
                    lastCompletedFrame := handle1.frameCounter
                    frameCounter := (handle1.frameCounter + 1) % U64 }
                else handle1
              some (.ok, ClearLastError (w1.setContext context
                { handle2 with commandListsClosed := false }))
        else if backend = some rive_renderer_backend_t.null then
          if !handle.commandListsClosed then
            some (.invalid_parameter, SetLastError w "end_frame must be called before submit")
          else
            some (.ok, ClearLastError (w.setContext context
              { handle with
                lastCompletedFrame := handle.frameCounter
                frameCounter := (handle.frameCounter + 1) % U64
                commandListsClosed := false }))
        else
          some (.unimplemented, SetLastError w "context_submit not implemented for this backend")


/-- Store `h` at the fence address `p`. -/
def World.setFence (w : World) (p : Ptr) (h : FenceHandle) : World :=
  { w with fences := Function.update w.fences p (some h) }

/-- The statement `delete fenceHandle`. -/
def World.deleteFence (w : World) (p : Ptr) : World :=
  { w with fences := Function.update w.fences p none, deleted := p :: w.deleted }

/-- Store `h` at the renderer address `p`. -/
def World.setRenderer (w : World) (p : Ptr) (h : RendererHandle) : World :=
  { w with renderers := Function.update w.renderers p (some h) }

/-- The statement `delete handle` for a renderer. -/
def World.deleteRenderer (w : World) (p : Ptr) : World :=
  { w with renderers := Function.update w.renderers p none, deleted := p :: w.deleted }

/-- Store `h` at the buffer address `p`. -/
def World.setBuffer (w : World) (p : Ptr) (h : BufferHandle) : World :=
  { w with buffers := Function.update w.buffers p (some h) }

/-- The statement `delete handle` for a buffer. -/
def World.deleteBuffer (w : World) (p : Ptr) : World :=
  { w with buffers := Function.update w.buffers p none, deleted := p :: w.deleted }

/-- The handle types that are one reference count and one `rive::rcp`. -/
inductive RcpKind where
  | path
  | paint
  | image
  | font
  | shader
  deriving DecidableEq, Repr

/-- The store of a handle type. -/
def World.rcp (w : World) : RcpKind → Ptr → Option RcpHandle
  | .path => w.paths
  | .paint => w.paints
  | .image => w.images
  | .font => w.fonts
  | .shader => w.shaders

/-- Store `h` at the address `p` of a handle type. -/
def World.setRcp (w : World) (k : RcpKind) (p : Ptr) (h : RcpHandle) : World :=
  match k with
  | .path => { w with paths := Function.update w.paths p (some h) }
  | .paint => { w with paints := Function.update w.paints p (some h) }
  | .image => { w with images := Function.update w.images p (some h) }
  | .font => { w with fonts := Function.update w.fonts p (some h) }
  | .shader => { w with shaders := Function.update w.shaders p (some h) }

/-- The statement `delete handle` for a handle type. -/
def World.deleteRcp (w : World) (k : RcpKind) (p : Ptr) : World :=
  match k with
  | .path => { w with paths := Function.update w.paths p none, deleted := p :: w.deleted }
  | .paint => { w with paints := Function.update w.paints p none, deleted := p :: w.deleted }
  | .image => { w with images := Function.update w.images p none, deleted := p :: w.deleted }
  | .font => { w with fonts := Function.update w.fonts p none, deleted := p :: w.deleted }
  | .shader => { w with shaders := Function.update w.shaders p none, deleted := p :: w.deleted }

/-- Whether the retain and release functions of a handle type also reject a handle whose
`rcp` is null (`handle == nullptr || !handle->image`): image, font and shader do, path
and paint do not. -/
def RcpKind.checksObject : RcpKind → Bool
  | .path => false
  | .paint => false
  | .image => true
  | .font => true
  | .shader => true

/-- The error text of the retain and release functions of a handle type for a rejected
handle. -/
def RcpKind.invalidMessage : RcpKind → String
  | .path => "path handle is null"
  | .paint => "paint handle is null"
  | .image => "image handle is invalid"
  | .font => "font handle is invalid"
  | .shader => "shader handle is invalid"

/-- The error text of the release function of a handle type for a count of 0. -/
def RcpKind.underflowMessage : RcpKind → String
  | .path => "path handle refcount underflow"
  | .paint => "paint handle refcount underflow"
  | .image => "image handle refcount underflow"
  | .font => "font handle refcount underflow"
  | .shader => "shader handle refcount underflow"

/-- The common body of `rive_renderer_path_retain`, `rive_renderer_paint_retain`,
`rive_renderer_image_retain`, `rive_renderer_shader_retain` and (with text support)
`rive_renderer_font_retain`. -/
def rcp_retain (k : RcpKind) (w : World) (p : Ptr) : Option (rive_renderer_status_t × World) :=
  if p = 0 then some (.invalid_handle, SetLastError w k.invalidMessage)
  else
    match w.rcp k p with
    | none => none
    | some handle =>
      if k.checksObject && !handle.object then
        some (.invalid_handle, SetLastError w k.invalidMessage)
      else
        some (.ok, ClearLastError
          (w.setRcp k p { handle with ref_count := fetch_add_1 handle.ref_count }))

/-- The common body of `rive_renderer_path_release`, `rive_renderer_paint_release`,
`rive_renderer_image_release`, `rive_renderer_shader_release` and (with text support)
`rive_renderer_font_release`. -/
def rcp_release (k : RcpKind) (w : World) (p : Ptr) : Option (rive_renderer_status_t × World) :=
  if p = 0 then some (.invalid_handle, SetLastError w k.invalidMessage)
  else
    match w.rcp k p with
    | none => none
    | some handle =>
      if k.checksObject && !handle.object then
        some (.invalid_handle, SetLastError w k.invalidMessage)
      else
        let previous := handle.ref_count
        let w1 := w.setRcp k p { handle with ref_count := fetch_sub_1 handle.ref_count }
        if previous = 0 then some (.internal_error, SetLastError w1 k.underflowMessage)
        else if previous = 1 then some (.ok, ClearLastError (w1.deleteRcp k p))
        else some (.ok, ClearLastError w1)

/-- The function `rive_renderer_path_retain`. -/
def rive_renderer_path_retain (w : World) (path : Ptr) :=
  rcp_retain .path w path

/-- The function `rive_renderer_path_release`. -/
def rive_renderer_path_release (w : World) (path : Ptr) :=
  rcp_release .path w path

/-- The function `rive_renderer_paint_retain`. -/
def rive_renderer_paint_retain (w : World) (paint : Ptr) :=
  rcp_retain .paint w paint

/-- The function `rive_renderer_paint_release`. -/
def rive_renderer_paint_release (w : World) (paint : Ptr) :=
  rcp_release .paint w paint

/-- The function `rive_renderer_image_retain`. -/
def rive_renderer_image_retain (w : World) (image : Ptr) :=
  rcp_retain .image w image

/-- The function `rive_renderer_image_release`. -/
def rive_renderer_image_release (w : World) (image : Ptr) :=
  rcp_release .image w image

/-- The function `rive_renderer_shader_retain`. -/
def rive_renderer_shader_retain (w : World) (shader : Ptr) :=
  rcp_retain .shader w shader

/-- The function `rive_renderer_shader_release`. -/
def rive_renderer_shader_release (w : World) (shader : Ptr) :=
  rcp_release .shader w shader

/-- The function `rive_renderer_font_retain`. -/
def rive_renderer_font_retain (b : Build) (w : World) (font : Ptr) :
    Option (rive_renderer_status_t × World) :=
  if !b.text then some (.unsupported, SetLastError w "text support not available")
  else rcp_retain .font w font

/-- The function `rive_renderer_font_release`. -/
def rive_renderer_font_release (b : Build) (w : World) (font : Ptr) :
    Option (rive_renderer_status_t × World) :=
  if !b.text then some (.unsupported, SetLastError w "text support not available")
  else rcp_release .font w font

/-- The function `rive_renderer_buffer_retain`. -/
def rive_renderer_buffer_retain (w : World) (buffer : Ptr) :
    Option (rive_renderer_status_t × World) :=
  if buffer = 0 then some (.invalid_handle, SetLastError w "buffer handle is invalid")
  else
    match w.buffers buffer with
    | none => none
    | some handle =>
      if !handle.buffer then some (.invalid_handle, SetLastError w "buffer handle is invalid")
      else
        some (.ok, ClearLastError
          (w.setBuffer buffer { handle with ref_count := fetch_add_1 handle.ref_count }))

/-- The function `rive_renderer_buffer_release`. -/
def rive_renderer_buffer_release (w : World) (buffer : Ptr) :
    Option (rive_renderer_status_t × World) :=
  if buffer = 0 then some (.invalid_handle, SetLastError w "buffer handle is invalid")
  else
    match w.buffers buffer with
    | none => none
    | some handle =>
      if !handle.buffer then some (.invalid_handle, SetLastError w "buffer handle is invalid")
      else
        let previous := handle.ref_count
        let w1 := w.setBuffer buffer { handle with ref_count := fetch_sub_1 handle.ref_count }
        if previous = 0 then
          some (.internal_error, SetLastError w1 "buffer handle refcount underflow")
        else if previous = 1 then some (.ok, ClearLastError (w1.deleteBuffer buffer))
        else some (.ok, ClearLastError w1)

/-- The function `rive_renderer_renderer_retain`. -/
def rive_renderer_renderer_retain (w : World) (renderer : Ptr) :
    Option (rive_renderer_status_t × World) :=
  if renderer = 0 then some (.invalid_handle, SetLastError w "renderer handle is null")
  else
    match w.renderers renderer with
    | none => none
    | some handle =>
      some (.ok, ClearLastError
        (w.setRenderer renderer { handle with ref_count := fetch_add_1 handle.ref_count }))

/-- The function `rive_renderer_renderer_release`. -/
def rive_renderer_renderer_release (w : World) (renderer : Ptr) :
    Option (rive_renderer_status_t × World) :=
  if renderer = 0 then some (.invalid_handle, SetLastError w "renderer handle is null")
  else
    match w.renderers renderer with
    | none => none
    | some handle =>
      let previous := handle.ref_count
      let w1 := w.setRenderer renderer { handle with ref_count := fetch_sub_1 handle.ref_count }
      if previous = 0 then
        some (.internal_error, SetLastError w1 "renderer handle refcount underflow")
      else if previous = 1 then
        let w2 : Option World :=
          if handle.context ≠ 0 then
            match w1.contexts handle.context with
            | none => none
            | some c =>
              some (w1.setContext handle.context { c with ref_count := fetch_sub_1 c.ref_count })
          else some w1
        match w2 with
        | none => none
        | some w2 => some (.ok, ClearLastError (w2.deleteRenderer renderer))
      else some (.ok, ClearLastError w1)


/-- The function `rive_renderer_surface_retain`. -/
def rive_renderer_surface_retain (w : World) (surface : Ptr) :
    Option (rive_renderer_status_t × World) :=
  if surface = 0 then some (.invalid_handle, SetLastError w "surface handle is null")
  else
    match w.surfaces surface with
    | none => none
    | some handle =>
      some (.ok, ClearLastError
        (w.setSurface surface { handle with ref_count := fetch_add_1 handle.ref_count }))

/-- The statement `if (handle->context->surface == handle) handle->context->surface =
nullptr` of `rive_renderer_surface_release`, for a non-null context pointer. -/
def detachSurface (w : World) (context surface : Ptr) : Option World :=
  match w.contexts context with
  | none => none
  | some c =>
    if c.surface = surface then some (w.setContext context { c with surface := 0 })
    else some w

/-- The function `rive_renderer_surface_release`. The clearing of the handle's own
members right before `delete handle` leaves no trace in the world and is left out. -/
def rive_renderer_surface_release (b : Build) (w : World) (surface : Ptr) :
    Option (rive_renderer_status_t × World) :=
  if surface = 0 then some (.invalid_handle, SetLastError w "surface handle is null")
  else
    match w.surfaces surface with
    | none => none
    | some handle =>
      let previous := handle.ref_count
      let handle1 := { handle with ref_count := fetch_sub_1 handle.ref_count }
      let w1 := w.setSurface surface handle1
      if previous = 0 then
        some (.internal_error, SetLastError
          (w1.setSurface surface { handle1 with ref_count := fetch_add_1 handle1.ref_count })
          "surface handle refcount underflow")
      else if previous = 1 then
        let w2 : Option World :=
          if b.win32 then
            if handle1.context ≠ 0 then
              match ReturnSurfaceRenderTarget w1 handle1.context with
              | none => none
              | some w11 => detachSurface w11 handle1.context surface
            else some w1
          else if b.apple then
            let w11 :=
              if handle1.metalSurface ≠ 0 then
                w1.native (.rive_metal_surface_destroy handle1.metalSurface)
              else w1
            if handle1.context ≠ 0 then detachSurface w11 handle1.context surface
            else some w11
          else some w1
        match w2 with
        | none => none
        | some w2 =>
          let w3 : Option World :=
            if handle1.context ≠ 0 then
              (rive_renderer_context_release b w2 handle1.context).map (·.2)
            else some w2
          match w3 with
          | none => none
          | some w3 =>
            let w4 : Option World :=
              if handle1.device ≠ 0 then
                (rive_renderer_device_release b w3 handle1.device).map (·.2)
              else some w3
            match w4 with
            | none => none
            | some w4 => some (.ok, ClearLastError (w4.deleteSurface surface))
      else some (.ok, ClearLastError w1)

/-- The function `rive_renderer_fence_retain`. -/
def rive_renderer_fence_retain (w : World) (fence : Ptr) :
    Option (rive_renderer_status_t × World) :=
  if fence = 0 then some (.invalid_handle, SetLastError w "fence handle is null")
  else
    match w.fences fence with
    | none => none
    | some handle =>
      some (.ok, ClearLastError
        (w.setFence fence { handle with ref_count := fetch_add_1 handle.ref_count }))

/-- The function `rive_renderer_fence_release`. The closing of the handle's own event and
fence right before `delete handle` leaves no trace in the world and is left out. -/
def rive_renderer_fence_release (b : Build) (w : World) (fence : Ptr) :
    Option (rive_renderer_status_t × World) :=
  if fence = 0 then some (.invalid_handle, SetLastError w "fence handle is null")
  else
    match w.fences fence with
    | none => none
    | some handle =>
      let previous := handle.ref_count
      let handle1 := { handle with ref_count := fetch_sub_1 handle.ref_count }
      let w1 := w.setFence fence handle1
      if previous = 0 then
        some (.internal_error, SetLastError
          (w1.setFence fence { handle1 with ref_count := fetch_add_1 handle1.ref_count })
          "fence handle refcount underflow")
      else if previous = 1 then
        let w2 : Option World :=
          if handle1.device ≠ 0 then
            match w1.devices handle1.device with
            | none => none
            | some device =>
              let device_prev := device.ref_count
              let device1 := { device with ref_count := fetch_sub_1 device.ref_count }
              let w11 := w1.setDevice handle1.device device1
              if device_prev = 0 then
                some (w11.setDevice handle1.device
                  { device1 with ref_count := fetch_add_1 device1.ref_count })
              else if device_prev = 1 then
                some (destroyDevice b false w11 handle1.device device1)
              else some w11
          else some w1
        match w2 with
        | none => none
        | some w2 => some (.ok, ClearLastError (w2.deleteFence fence))
      else some (.ok, ClearLastError w1)

/-- The eleven handle types. -/
inductive HandleType where
  | device
  | context
  | surface
  | fence
  | path
  | paint
  | renderer
  | buffer
  | image
  | font
  | shader
  deriving DecidableEq, Repr

/-- The retain function of a handle type. -/
def HandleType.retain (b : Build) (w : World) (handle : Ptr) :
    HandleType → Option (rive_renderer_status_t × World)
  | .device => rive_renderer_device_retain w handle
  | .context => rive_renderer_context_retain w handle
  | .surface => rive_renderer_surface_retain w handle
  | .fence => rive_renderer_fence_retain w handle
  | .path => rive_renderer_path_retain w handle
  | .paint => rive_renderer_paint_retain w handle
  | .renderer => rive_renderer_renderer_retain w handle
  | .buffer => rive_renderer_buffer_retain w handle
  | .image => rive_renderer_image_retain w handle
  | .font => rive_renderer_font_retain b w handle
  | .shader => rive_renderer_shader_retain w handle

/-- The release function of a handle type. -/
def HandleType.release (b : Build) (w : World) (handle : Ptr) :
    HandleType → Option (rive_renderer_status_t × World)
  | .device => rive_renderer_device_release b w handle
  | .context => rive_renderer_context_release b w handle
  | .surface => rive_renderer_surface_release b w handle
  | .fence => rive_renderer_fence_release b w handle
  | .path => rive_renderer_path_release w handle
  | .paint => rive_renderer_paint_release w handle
  | .renderer => rive_renderer_renderer_release w handle
  | .buffer => rive_renderer_buffer_release w handle
  | .image => rive_renderer_image_release w handle
  | .font => rive_renderer_font_release b w handle
  | .shader => rive_renderer_shader_release w handle

/-- The error text the retain and release functions of a handle type leave for a null
handle. -/
def HandleType.nullMessage : HandleType → String
  | .device => "device handle is null"
  | .context => "context handle is null"
  | .surface => "surface handle is null"
  | .fence => "fence handle is null"
  | .path => "path handle is null"
  | .paint => "paint handle is null"
  | .renderer => "renderer handle is null"
  | .buffer => "buffer handle is invalid"
  | .image => "image handle is invalid"
  | .font => "font handle is invalid"
  | .shader => "shader handle is invalid"


/-- The enum `rive_renderer_fill_rule_t` (`std::uint8_t`): any 8-bit value can arrive. -/
abbrev rive_renderer_fill_rule_t := Fin 256

/-- The enum `rive::FillRule`. -/
inductive FillRule where
  | nonZero
  | evenOdd
  | clockwise
  deriving DecidableEq, Repr

/-- The function `ConvertFillRule`: `none` where it returns `false`. -/
def ConvertFillRule (value : rive_renderer_fill_rule_t) : Option FillRule :=
  if value = 0 then some .nonZero
  else if value = 1 then some .evenOdd
  else if value = 2 then some .clockwise
  else none

/-- The enum `rive_renderer_buffer_type_t` (`std::uint8_t`): any 8-bit value can arrive. -/
abbrev rive_renderer_buffer_type_t := Fin 256

/-- The enum `rive::RenderBufferType`. -/
inductive RenderBufferType where
  | index
  | vertex
  deriving DecidableEq, Repr

/-- The function `ConvertBufferType`: `none` where it returns `false`. -/
def ConvertBufferType (value : rive_renderer_buffer_type_t) : Option RenderBufferType :=
  if value = 0 then some .index
  else if value = 1 then some .vertex
  else none

/-- The function `ConvertBufferFlags`: whether `mappedOnceAtInitialization` is set in the
result. -/
def ConvertBufferFlags (value : Nat) : Bool :=
  decide (Nat.land (value % U32) 1 ≠ 0)

/-- The results of the engine and allocator calls a `create` entry point for an engine
object makes. -/
structure CreateNative where
  /-- Whether the engine call (`makeEmptyRenderPath`, `makeRenderPaint`,
  `std::make_unique<rive::RiveRenderer>`, `decodeImage`, `makeLinearGradient`,
  `makeRadialGradient`) returns a non-null object. -/
  objectOk : Bool := true
  /-- Whether `new (std::nothrow)` returns a non-null handle. -/
  allocOk : Bool := true
  deriving DecidableEq, Repr

/-- The results of the engine and allocator calls of `rive_renderer_buffer_create`. -/
structure BufferCreateNative where
  /-- The content of the buffer `makeRenderBuffer(type, flags, size)` returns, `none` for
  a null `rcp`; `flags` is whether `mappedOnceAtInitialization` is set, and the length of
  the content is what `sizeInBytes()` reports. -/
  makeRenderBuffer : RenderBufferType → Bool → Nat → Option (List Nat) :=
    fun _ _ size => some (List.replicate size 0)
  /-- Whether `new (std::nothrow)` returns a non-null handle. -/
  allocOk : Bool := true

/-- The common tail of the `create` entry points for a path, paint, image or shader: the
check of the engine object, `new (std::nothrow)`, and the publication of the handle. -/
def rcp_publish (k : RcpKind) (n : CreateNative) (w : World) (makeFailed : String)
    (out : Option Ptr) : Option CreateResult :=
  if !n.objectOk then some ⟨.internal_error, SetLastError w makeFailed, out⟩
  else if !n.allocOk then some ⟨.out_of_memory, SetLastError w "allocation failed", out⟩
  else
    some ⟨.ok, ClearLastError (w.fresh.2.setRcp k w.fresh.1 { object := true }),
      some w.fresh.1⟩

/-- The function `rive_renderer_path_create`; `out_path` is the content of
`out_path->handle` before the call, `none` for a null pointer. -/
def rive_renderer_path_create (n : CreateNative) (w : World) (context : Ptr)
    (fill_rule : rive_renderer_fill_rule_t) (out_path : Option Ptr) : Option CreateResult :=
  match out_path with
  | none => some ⟨.null_pointer, SetLastError w "path output pointer is null", none⟩
  | some _ =>
    if context = 0 then
      some ⟨.invalid_handle, SetLastError w "context handle is null", out_path⟩
    else
      match w.contexts context with
      | none => none
      | some ctx =>
        if !ctx.renderContext then
          some ⟨.unsupported, SetLastError w "render context unavailable", out_path⟩
        else
          match ConvertFillRule fill_rule with
          | none => some ⟨.invalid_parameter, SetLastError w "invalid fill rule", out_path⟩
          | some _ => rcp_publish .path n w "makeRenderPath failed" out_path

/-- The function `rive_renderer_paint_create`. -/
def rive_renderer_paint_create (n : CreateNative) (w : World) (context : Ptr)
    (out_paint : Option Ptr) : Option CreateResult :=
  match out_paint with
  | none => some ⟨.null_pointer, SetLastError w "paint output pointer is null", none⟩
  | some _ =>
    if context = 0 then
      some ⟨.invalid_handle, SetLastError w "context handle is null", out_paint⟩
    else
      match w.contexts context with
      | none => none
      | some ctx =>
        if !ctx.renderContext then
          some ⟨.unsupported, SetLastError w "render context unavailable", out_paint⟩
        else rcp_publish .paint n w "makeRenderPaint failed" out_paint

/-- The function `rive_renderer_renderer_create`. -/
def rive_renderer_renderer_create (n : CreateNative) (w : World) (context : Ptr)
    (out_renderer : Option Ptr) : Option CreateResult :=
  match out_renderer with
  | none => some ⟨.null_pointer, SetLastError w "renderer output pointer is null", none⟩
  | some _ =>
    if context = 0 then
      some ⟨.invalid_handle, SetLastError w "context handle is null", out_renderer⟩
    else
      match w.contexts context with
      | none => none
      | some ctx =>
        if !ctx.renderContext then
          some ⟨.unsupported, SetLastError w "render context unavailable", out_renderer⟩
        else if !n.objectOk then
          some ⟨.out_of_memory, SetLastError w "renderer allocation failed", out_renderer⟩
        else if !n.allocOk then
          some ⟨.out_of_memory, SetLastError w "allocation failed", out_renderer⟩
        else
          some ⟨.ok, ClearLastError
            ((w.fresh.2.setRenderer w.fresh.1 { context := context, renderer := true }).setContext
              context { ctx with ref_count := fetch_add_1 ctx.ref_count }),
            some w.fresh.1⟩

/-- The function `rive_renderer_buffer_create`. -/
def rive_renderer_buffer_create (n : BufferCreateNative) (w : World) (context : Ptr)
    (type : rive_renderer_buffer_type_t) (flags size_in_bytes : Nat)
    (out_buffer : Option Ptr) : Option CreateResult :=
  match out_buffer with
  | none => some ⟨.null_pointer, SetLastError w "buffer output pointer is null", none⟩
  | some _ =>
    if context = 0 then
      some ⟨.invalid_handle, SetLastError w "context handle is null", out_buffer⟩
    else
      match w.contexts context with
      | none => none
      | some ctx =>
        if !ctx.renderContext then
          some ⟨.unsupported, SetLastError w "render context unavailable", out_buffer⟩
        else
          match ConvertBufferType type with
          | none => some ⟨.invalid_parameter, SetLastError w "invalid buffer type", out_buffer⟩
          | some bufferType =>
            match n.makeRenderBuffer bufferType (ConvertBufferFlags flags) size_in_bytes with
            | none =>
              some ⟨.internal_error, SetLastError w "makeRenderBuffer failed", out_buffer⟩
            | some content =>
              if !n.allocOk then
                some ⟨.out_of_memory, SetLastError w "allocation failed", out_buffer⟩
              else
                some ⟨.ok, ClearLastError (w.fresh.2.setBuffer w.fresh.1
                  { buffer := true
                    type := type.val
                    size_in_bytes := content.length % SIZE
                    data := content }),
                  some w.fresh.1⟩

/-- The function `rive_renderer_image_decode`; `encoded_data` is `none` for a null
pointer. -/
def rive_renderer_image_decode (n : CreateNative) (w : World) (context : Ptr)
    (encoded_data : Option (List Nat)) (encoded_length : Nat) (out_image : Option Ptr) :
    Option CreateResult :=
  match out_image with
  | none => some ⟨.null_pointer, SetLastError w "image output pointer is null", none⟩
  | some _ =>
    if context = 0 then
      some ⟨.invalid_handle, SetLastError w "context handle is null", out_image⟩
    else
      match w.contexts context with
      | none => none
      | some ctx =>
        if !ctx.renderContext then
          some ⟨.unsupported, SetLastError w "render context unavailable", out_image⟩
        else if encoded_data.isNone || decide (encoded_length = 0) then
          some ⟨.invalid_parameter, SetLastError w "encoded image data is invalid", out_image⟩
        else rcp_publish .image n w "decodeImage failed" out_image

/-- The body shared, word for word, by `rive_renderer_shader_linear_gradient_create` and
`rive_renderer_shader_radial_gradient_create` (the geometry arguments, floats that are
only handed to the engine, are left out): `colors` and `stops` are `none` for null
pointers, and reading `stop_count` entries from a shorter array is undefined behaviour. -/
def gradient_create (n : CreateNative) (w : World) (context : Ptr)
    (colors stops : Option (List Nat)) (stop_count : Nat) (makeFailed : String)
    (out_shader : Option Ptr) : Option CreateResult :=
  match out_shader with
  | none => some ⟨.null_pointer, SetLastError w "shader output pointer is null", none⟩
  | some _ =>
    if context = 0 then
      some ⟨.invalid_handle, SetLastError w "context handle is null", out_shader⟩
    else
      match w.contexts context with
      | none => none
      | some ctx =>
        if !ctx.renderContext then
          some ⟨.unsupported, SetLastError w "render context unavailable", out_shader⟩
        else
          match colors, stops with
          | some cs, some ss =>
            if stop_count = 0 then
              some ⟨.invalid_parameter, SetLastError w "gradient colors/stops invalid",
                out_shader⟩
            else if cs.length < stop_count ∨ ss.length < stop_count then none
            else rcp_publish .shader n w makeFailed out_shader
          | _, _ =>
            some ⟨.invalid_parameter, SetLastError w "gradient colors/stops invalid", out_shader⟩

/-- The function `rive_renderer_shader_linear_gradient_create`. -/
def rive_renderer_shader_linear_gradient_create (n : CreateNative) (w : World)
    (context : Ptr) (colors stops : Option (List Nat)) (stop_count : Nat)
    (out_shader : Option Ptr) : Option CreateResult :=
  gradient_create n w context colors stops stop_count "makeLinearGradient failed" out_shader

/-- The function `rive_renderer_shader_radial_gradient_create`. -/
def rive_renderer_shader_radial_gradient_create (n : CreateNative) (w : World)
    (context : Ptr) (colors stops : Option (List Nat)) (stop_count : Nat)
    (out_shader : Option Ptr) : Option CreateResult :=
  gradient_create n w context colors stops stop_count "makeRadialGradient failed" out_shader

/-- The result of the engine call `handle->buffer->map()`: the address of the buffer's
memory, `0` for a null pointer. -/
structure BufferMapNative where
  mapped : Ptr := 1
  deriving DecidableEq, Repr

/-- The function `rive_renderer_buffer_upload`; `data` is the caller's bytes, `none` for
a null pointer. Copying from fewer than `data_length` bytes, or past the end of the
buffer's memory, is undefined behaviour. -/
def rive_renderer_buffer_upload (n : BufferMapNative) (w : World) (buffer : Ptr)
    (data : Option (List Nat)) (data_length offset : Nat) :
    Option (rive_renderer_status_t × World) :=
  if buffer = 0 then some (.invalid_handle, SetLastError w "buffer handle is invalid")
  else
    match w.buffers buffer with
    | none => none
    | some handle =>
      if !handle.buffer then some (.invalid_handle, SetLastError w "buffer handle is invalid")
      else if data_length = 0 then some (.ok, ClearLastError w)
      else
        match data with
        | none => some (.null_pointer, SetLastError w "data pointer is null")
        | some bytes =>
          if offset > handle.size_in_bytes ∨ data_length > handle.size_in_bytes ∨
              (offset + data_length) % SIZE > handle.size_in_bytes then
            some (.invalid_parameter, SetLastError w "upload exceeds buffer bounds")
          else if n.mapped = 0 then some (.internal_error, SetLastError w "buffer map failed")
          else if bytes.length < data_length ∨ handle.data.length < offset + data_length then
            none
          else
            some (.ok, ClearLastError (w.setBuffer buffer
              { handle with
                data := handle.data.take offset ++ bytes.take data_length ++
                  handle.data.drop (offset + data_length) }))

/-- The struct `rive_renderer_mapped_memory_t`. -/
structure rive_renderer_mapped_memory_t where
  data : Ptr := 0
  length : Nat := 0
  deriving DecidableEq, Repr

/-- The function `rive_renderer_buffer_map`; `out_mapping` is the content of the caller's
record, `none` for a null pointer, and the result carries the record after the call. The
flags argument is not read. -/
def rive_renderer_buffer_map (n : BufferMapNative) (w : World) (buffer : Ptr)
    (out_mapping : Option rive_renderer_mapped_memory_t) :
    Option (rive_renderer_status_t × World × Option rive_renderer_mapped_memory_t) :=
  match out_mapping with
  | none => some (.null_pointer, SetLastError w "mapped memory output pointer is null", none)
  | some _ =>
    if buffer = 0 then
      some (.invalid_handle, SetLastError w "buffer handle is invalid", out_mapping)
    else
      match w.buffers buffer with
      | none => none
      | some handle =>
        if !handle.buffer then
          some (.invalid_handle, SetLastError w "buffer handle is invalid", out_mapping)
        else if handle.mapped_ptr ≠ 0 then
          some (.invalid_parameter, SetLastError w "buffer is already mapped", out_mapping)
        else if n.mapped = 0 then
          some (.internal_error, SetLastError w "buffer map failed", out_mapping)
        else
          some (.ok,
            ClearLastError (w.setBuffer buffer { handle with mapped_ptr := n.mapped }),
            some
              { data := n.mapped
                length :=
                  if handle.size_in_bytes = 0 then handle.data.length % SIZE
                  else handle.size_in_bytes })

/-- The function `rive_renderer_buffer_unmap`. The mapping and `written_bytes` arguments
are not read. -/
def rive_renderer_buffer_unmap (w : World) (buffer : Ptr) :
    Option (rive_renderer_status_t × World) :=
  if buffer = 0 then some (.invalid_handle, SetLastError w "buffer handle is invalid")
  else
    match w.buffers buffer with
    | none => none
    | some handle =>
      if !handle.buffer then some (.invalid_handle, SetLastError w "buffer handle is invalid")
      else if handle.mapped_ptr = 0 then
        some (.invalid_parameter, SetLastError w "buffer is not mapped")
      else some (.ok, ClearLastError (w.setBuffer buffer { handle with mapped_ptr := 0 }))

/-- The result of the native call `directQueue->Signal` of
`rive_renderer_context_signal_fence`. -/
structure SignalNative where
  /-- Whether `Signal` returns a success code. -/
  signalOk : Bool := true
  deriving DecidableEq, Repr

/-- The function `rive_renderer_context_signal_fence`; `value` is a `std::uint64_t`. The
value the GPU fence itself reaches later is not part of this call. -/
def rive_renderer_context_signal_fence (b : Build) (n : SignalNative) (w : World)
    (context fence : Ptr) (value : Nat) : Option (rive_renderer_status_t × World) :=
  if context = 0 then some (.invalid_handle, SetLastError w "context handle is null")
  else if fence = 0 then some (.invalid_handle, SetLastError w "fence handle is null")
  else if b.win32 then
    match w.contexts context, w.fences fence with
    | some context_handle, some fence_handle =>
      if context_handle.device = 0 ∨ fence_handle.device = 0 ∨
          context_handle.device ≠ fence_handle.device then
        some (.invalid_parameter, SetLastError w "fence and context must share the same device")
      else
        match w.devices context_handle.device with
        | none => none
        | some device =>
          if device.backend ≠ rive_renderer_backend_t.d3d12 then
            some (.unsupported, SetLastError w "fence signaling not supported for this backend")
          else if !device.directQueue then
            some (.internal_error, SetLastError w "direct queue unavailable")
          else
            let previousValue := fence_handle.lastValue
            let targetValue := if value = 0 then (previousValue + 1) % U64 else value
            if value ≠ 0 ∧ targetValue ≤ previousValue then
              some (.invalid_parameter, SetLastError w
                "fence signal value must be greater than the last signaled value")
            else
              let w1 := w.setFence fence { fence_handle with lastValue := targetValue }
              if !n.signalOk then
                some (.internal_error, SetLastError
                  (w1.setFence fence { fence_handle with lastValue := previousValue })
                  "queue signal failed")
              else some (.ok, ClearLastError w1)
    | _, _ => none
  else some (.unsupported, SetLastError w "fence signaling not supported on this platform")

/-- The bytes `data()` points to for a `std::string` holding `s`, `size()` of them. -/
def stringBytes (s : String) : List Nat :=
  s.toUTF8.data.toList.map (·.toNat)

/-- The function `rive_renderer_get_last_error_message`; `buffer` is the caller's bytes,
`none` for a null pointer. The result is the returned value and the buffer after the call;
writing past the end of the caller's bytes is undefined behaviour. -/
def rive_renderer_get_last_error_message (w : World) (buffer : Option (List Nat))
    (buffer_length : Nat) : Option (Nat × Option (List Nat)) :=
  let required := (stringBytes w.g_lastError).length
  match buffer with
  | none => some (required, none)
  | some buf =>
    if buffer_length = 0 then some (required, some buf)
    else
      let to_copy := if required < buffer_length - 1 then required else buffer_length - 1
      if buf.length < to_copy + 1 then none
      else
        some (required,
          some ((stringBytes w.g_lastError).take to_copy ++ [0] ++ buf.drop (to_copy + 1)))

/-- The function `rive_renderer_context_copy_cpu_framebuffer`; `out_pixels` is the
caller's bytes, `none` for a null pointer, and the result carries them after the call.
Copying past the end of the caller's bytes is undefined behaviour. -/
def rive_renderer_context_copy_cpu_framebuffer (w : World) (context : Ptr)
    (out_pixels : Option (List Nat)) (buffer_length : Nat) :
    Option (rive_renderer_status_t × World × Option (List Nat)) :=
  if context = 0 then
    some (.invalid_handle, SetLastError w "context handle is null", out_pixels)
  else
    match out_pixels with
    | none => some (.null_pointer, SetLastError w "output pixel buffer is null", none)
    | some pixels =>
      match w.contexts context with
      | none => none
      | some handle =>
        let required := cpuFramebufferSize handle.width handle.height
        if buffer_length < required then
          some (.invalid_parameter, SetLastError w "output buffer too small", out_pixels)
        else
          match deviceBackend w handle with
          | none => none
          | some backend =>
            if backend ≠ some rive_renderer_backend_t.null then
              some (.unsupported,
                SetLastError w "cpu framebuffer capture not supported for this backend",
                out_pixels)
            else if handle.cpuFramebuffer.length ≠ required then
              some (.internal_error, SetLastError w "cpu framebuffer not initialized",
                out_pixels)
            else if pixels.length < required then none
            else
              some (.ok, ClearLastError w,
                some (handle.cpuFramebuffer.take required ++ pixels.drop required))

/-- The results of the native calls of `CreateSurfaceRenderTargets`. -/
structure SurfaceTargetsNative where
  /-- The texture `swapChain->GetBuffer(i, ...)` hands back, `none` when the call fails. -/
  getBuffer : Nat → Option Ptr := fun i => some (i + 1)
  /-- Whether `impl->makeRenderTarget` returns non-null in the iteration of index `i`. -/
  makeRenderTargetOk : Nat → Bool := fun _ => true

/-- The `for` loop of `CreateSurfaceRenderTargets`, with `remaining` iterations left at
index `i`: the error text of the call that failed, if one did, and the surface as the loop
leaves it. -/
def surfaceTargetsLoop (n : SurfaceTargetsNative) (width height : Nat) :
    Nat → Nat → SurfaceHandle → Option String × SurfaceHandle
  | 0, _, s => (none, s)
  | remaining + 1, i, s =>
    match n.getBuffer i with
    | none => (some "swapchain get buffer failed", s)
    | some buffer =>
      if !n.makeRenderTargetOk i then (some "makeRenderTarget failed", s)
      else
        surfaceTargetsLoop n width height remaining (i + 1)
          { s with
            backBuffers := s.backBuffers ++ [buffer]
            renderTargets := s.renderTargets ++
              [some { width := width, height := height, targetTexture := buffer }] }

/-- The function `CreateSurfaceRenderTargets` for the surface at address `surface`. -/
def CreateSurfaceRenderTargets (n : SurfaceTargetsNative) (w : World) (surface : Ptr)
    (width height : Nat) : Option (rive_renderer_status_t × World) :=
  if surface = 0 then
    some (.internal_error, SetLastError w "surface context or device is null")
  else
    match w.surfaces surface with
    | none => none
    | some s =>
      if s.context = 0 ∨ s.device = 0 then
        some (.internal_error, SetLastError w "surface context or device is null")
      else
        match w.contexts s.context with
        | none => none
        | some context =>
          if !GetD3D12Impl context then
            some (.internal_error, SetLastError w "render context not initialized")
          else
            let s1 := { s with backBuffers := [], renderTargets := [] }
            if !s1.swapChain && decide (0 < s1.buffer_count) then none
            else
              match surfaceTargetsLoop n width height s1.buffer_count 0 s1 with
              | (some message, s2) =>
                some (.internal_error, SetLastError (w.setSurface surface s2) message)
              | (none, s2) =>
                some (.ok, w.setSurface surface { s2 with borrowedIndex := UINT_MAX })

/-- The record `rive_renderer_surface_create_info_d3d12_hwnd_t`. -/
structure rive_renderer_surface_create_info_d3d12_hwnd_t where
  hwnd : Ptr
  width : Nat
  height : Nat
  buffer_count : Nat
  flags : Nat
  present_interval : Nat
  deriving DecidableEq, Repr

/-- The results of the native calls `rive_renderer_surface_create_d3d12_hwnd` can make:
`CreateDXGIFactory2`, `CheckTearingSupport`, `CreateSwapChainForHwnd`, the query for
`IDXGISwapChain3`, `new (std::nothrow) SurfaceHandle()` and the calls of
`CreateSurfaceRenderTargets`. -/
structure SurfaceCreateNative where
  createFactoryOk : Bool := true
  tearingSupported : Bool := false
  createSwapChainOk : Bool := true
  querySwapChain3Ok : Bool := true
  allocOk : Bool := true
  targets : SurfaceTargetsNative := {}

/-- The tail of the D3D12 block of `rive_renderer_surface_create_d3d12_hwnd` (lines 2285 to
2313), after the new handle has been filled in and the context's render target reset: the
render targets are created, the device and the context are retained and the surface is
attached to the context. -/
def surface_create_attach (b : Build) (n : SurfaceTargetsNative) (w1 : World)
    (device context surface : Ptr) (width height : Nat) : Option CreateResult :=
  match CreateSurfaceRenderTargets n w1 surface width height with
  | none => none
  | some (targetsStatus, w2) =>
    if targetsStatus ≠ .ok then some ⟨targetsStatus, w2.deleteSurface surface, some 0⟩
    else
      match rive_renderer_device_retain w2 device with
      | none => none
      | some (retainDeviceStatus, w3) =>
        if retainDeviceStatus ≠ .ok then
          some ⟨retainDeviceStatus, w3.deleteSurface surface, some 0⟩
        else
          match rive_renderer_context_retain w3 context with
          | none => none
          | some (retainContextStatus, w4) =>
            if retainContextStatus ≠ .ok then
              match rive_renderer_device_release b w4 device with
              | none => none
              | some (_, w5) =>
                some ⟨retainContextStatus, w5.deleteSurface surface, some 0⟩
            else
              match w4.contexts context with
              | none => none
              | some c4 =>
                some ⟨.ok, ClearLastError (w4.setContext context
                  { c4 with surface := surface, width := width, height := height }),
                  some surface⟩

/-- The handle `rive_renderer_surface_create_d3d12_hwnd` fills in for a surface of `width`
by `height` with `bufferCount` buffers (lines 2270 to 2280). -/
def newSurfaceHandle (device context : Ptr)
    (info : rive_renderer_surface_create_info_d3d12_hwnd_t) (width height bufferCount : Nat)
    (allowTearing : Bool) : SurfaceHandle :=
  { backend := rive_renderer_backend_t.d3d12
    device := device
    context := context
    width := width
    height := height
    buffer_count := bufferCount
    flags := info.flags
    present_interval := if info.present_interval ≠ 0 then info.present_interval else 1
    hwnd := info.hwnd
    swapChain := true
    supportsTearing := allowTearing }

/-- The D3D12 block of `rive_renderer_surface_create_d3d12_hwnd` (lines 2186 to 2313),
entered in a Windows build for a D3D12 device and a context on that device. -/
def surface_create_d3d12 (b : Build) (n : SurfaceCreateNative) (w : World)
    (device context : Ptr)
    (context_handle : ContextHandle) (info : rive_renderer_surface_create_info_d3d12_hwnd_t) :
    Option CreateResult :=
  if info.hwnd = 0 then
    some ⟨.invalid_parameter, SetLastError w "HWND pointer is null", some 0⟩
  else if context_handle.surface ≠ 0 then
    some ⟨.invalid_parameter, SetLastError w "context already has an attached surface", some 0⟩
  else
    let width := if info.width ≠ 0 then info.width else context_handle.width
    let height := if info.height ≠ 0 then info.height else context_handle.height
    if !ValidateContextSize width height then
      some ⟨.invalid_parameter, SetLastError w "surface dimensions must be non-zero", some 0⟩
    else
      let bufferCount0 := if info.buffer_count ≠ 0 then info.buffer_count else 2
      let bufferCount := if bufferCount0 < 2 then 2 else bufferCount0
      if !n.createFactoryOk then
        some ⟨.internal_error, SetLastError w "CreateDXGIFactory2 failed", some 0⟩
      else
        let allowTearing :=
          if Nat.land (info.flags % U32) 2 ≠ 0 then n.tearingSupported else false
        if !n.createSwapChainOk then
          some ⟨.internal_error, SetLastError w "CreateSwapChainForHwnd failed", some 0⟩
        else if !n.querySwapChain3Ok then
          some ⟨.internal_error, SetLastError w "IDXGISwapChain3 query failed", some 0⟩
        else if !n.allocOk then
          some ⟨.out_of_memory, SetLastError w "allocation failed", some 0⟩
        else
          let surface := w.fresh.1
          let handle := newSurfaceHandle device context info width height bufferCount allowTearing
          let w1 := (w.fresh.2.setSurface surface handle).setContext context
            { context_handle with renderTarget := none, renderTargetTexture := 0 }
          surface_create_attach b n.targets w1 device context surface width height

/-- The function `rive_renderer_surface_create_d3d12_hwnd`; `info` is `none` for a null
pointer, `out_surface` is the content of `out_surface->handle` before the call, `none` for
a null pointer. -/
def rive_renderer_surface_create_d3d12_hwnd (b : Build) (n : SurfaceCreateNative) (w : World)
    (device context : Ptr) (info : Option rive_renderer_surface_create_info_d3d12_hwnd_t)
    (out_surface : Option Ptr) : Option CreateResult :=
  match out_surface with
  | none => some ⟨.null_pointer, SetLastError w "surface output pointer is null", none⟩
  | some _ =>
    match info with
    | none => some ⟨.null_pointer, SetLastError w "surface create info is null", some 0⟩
    | some i =>
      if device = 0 ∨ context = 0 then
        some ⟨.invalid_handle, SetLastError w "device or context handle is invalid", some 0⟩
      else if b.win32 then
        match w.devices device with
        | none => none
        | some device_handle =>
          if device_handle.backend = rive_renderer_backend_t.d3d12 then
            match w.contexts context with
            | none => none
            | some context_handle =>
              if context_handle.device = device then
                surface_create_d3d12 b n w device context context_handle i
              else
                some ⟨.unsupported,
                  SetLastError w "surface creation not supported for this backend", some 0⟩
          else
            some ⟨.unsupported,
              SetLastError w "surface creation not supported for this backend", some 0⟩
      else
        some ⟨.unsupported, SetLastError w "surface creation not supported on this platform",
          some 0⟩

/-- The function `rive_renderer_surface_get_size`; the two output cells are `none` for a
null pointer, and the result carries their content after the call. -/
def rive_renderer_surface_get_size (w : World) (surface : Ptr)
    (out_width out_height : Option Nat) :
    Option (rive_renderer_status_t × World × Option Nat × Option Nat) :=
  match out_width, out_height with
  | some _, some _ =>
    if surface = 0 then
      some (.invalid_handle, SetLastError w "surface handle is null", out_width, out_height)
    else
      match w.surfaces surface with
      | none => none
      | some handle => some (.ok, ClearLastError w, some handle.width, some handle.height)
  | _, _ =>
    some (.null_pointer, SetLastError w "surface size output pointers are null", out_width,
      out_height)

/-- The results of the native calls `rive_renderer_surface_resize` can make:
`swapChain->ResizeBuffers`, the back buffer index the swap chain reports afterwards, the
calls of `CreateSurfaceRenderTargets`, and `rive_metal_surface_resize` (its status and the
error text it may leave). -/
structure SurfaceResizeNative where
  resizeBuffersOk : Bool := true
  currentBackBuffer : Nat := 0
  targets : SurfaceTargetsNative := {}
  metalStatus : rive_renderer_status_t := .ok
  metalError : Option String := none

/-- The D3D12 block of `rive_renderer_surface_resize` (lines 2591 to 2652), compiled in a
Windows build. -/
def surface_resize_d3d12 (n : SurfaceResizeNative) (w : World) (surface : Ptr)
    (width height : Nat) : Option (rive_renderer_status_t × World) :=
  if surface = 0 then some (.invalid_handle, SetLastError w "surface handle is null")
  else
    match w.surfaces surface with
    | none => none
    | some handle =>
      if handle.backend ≠ rive_renderer_backend_t.d3d12 then
        some (.unsupported, SetLastError w "surface resize not supported for this backend")
      else if !ValidateContextSize width height then
        some (.invalid_parameter, SetLastError w "surface dimensions must be non-zero")
      else if !handle.swapChain || decide (handle.context = 0) then
        some (.invalid_handle, SetLastError w "surface not initialized")
      else
        match w.contexts handle.context with
        | none => none
        | some context =>
          if context.hasActiveFrame then
            some (.invalid_parameter, SetLastError w "cannot resize while a frame is active")
          else
            match ReturnSurfaceRenderTarget w handle.context with
            | none => none
            | some w1 =>
              match w1.contexts handle.context, w1.surfaces surface with
              | some c1, some s1 =>
                let w2 := (w1.setContext handle.context
                  { c1 with renderTarget := none, renderTargetTexture := 0 }).setSurface surface
                  { s1 with renderTargets := [], backBuffers := [] }
                if !n.resizeBuffersOk then
                  some (.internal_error, SetLastError w2 "swapchain resize failed")
                else
                  let w3 := w2.setSurface surface
                    { s1 with
                      renderTargets := []
                      backBuffers := []
                      currentBackBuffer := n.currentBackBuffer }
                  match CreateSurfaceRenderTargets n.targets w3 surface width height with
                  | none => none
                  | some (targetsStatus, w4) =>
                    if targetsStatus ≠ .ok then some (targetsStatus, w4)
                    else
                      match w4.contexts handle.context, w4.surfaces surface with
                      | some c4, some s4 =>
                        some (.ok, ClearLastError
                          ((w4.setSurface surface
                            { s4 with width := width, height := height }).setContext
                            handle.context { c4 with width := width, height := height }))
                      | _, _ => none
              | _, _ => none

/-- The Metal block of `rive_renderer_surface_resize` (lines 2653 to 2693), compiled in an
Apple build. -/
def surface_resize_metal (n : SurfaceResizeNative) (w : World) (surface : Ptr)
    (width height : Nat) : Option (rive_renderer_status_t × World) :=
  if surface = 0 then some (.invalid_handle, SetLastError w "surface handle is null")
  else
    match w.surfaces surface with
    | none => none
    | some handle =>
      if handle.backend ≠ rive_renderer_backend_t.metal then
        some (.unsupported, SetLastError w "surface resize not supported for this backend")
      else if !ValidateContextSize width height then
        some (.invalid_parameter, SetLastError w "surface dimensions must be non-zero")
      else if handle.metalSurface = 0 ∨ handle.context = 0 then
        some (.invalid_handle, SetLastError w "surface not initialized")
      else
        match w.contexts handle.context with
        | none => none
        | some context =>
          if context.hasActiveFrame then
            some (.invalid_parameter, SetLastError w "cannot resize while a frame is active")
          else
            let w1 := match n.metalError with
              | some e => SetLastError w e
              | none => w
            if n.metalStatus ≠ .ok then some (n.metalStatus, w1)
            else
              some (.ok, ClearLastError
                ((w1.setSurface surface { handle with width := width, height := height }).setContext
                  handle.context { context with width := width, height := height }))

/-- The function `rive_renderer_surface_resize`. -/
def rive_renderer_surface_resize (b : Build) (n : SurfaceResizeNative) (w : World)
    (surface : Ptr) (width height : Nat) : Option (rive_renderer_status_t × World) :=
  if b.win32 then surface_resize_d3d12 n w surface width height
  else if b.apple then surface_resize_metal n w surface width height
  else some (.unsupported, SetLastError w "surface resize not supported on this platform")

/-- The `HRESULT` of `swapChain->Present` as the code tells it apart. -/
inductive PresentOutcome where
  | succeeded
  | device_removed_or_reset
  | failed
  deriving DecidableEq, Repr

/-- The results of the native calls `rive_renderer_surface_present` can make:
`swapChain->Present`, the back buffer index the swap chain reports afterwards, and
`rive_metal_surface_present` (its status and the error text it may leave). -/
structure PresentNative where
  outcome : PresentOutcome := .succeeded
  currentBackBuffer : Nat := 0
  metalStatus : rive_renderer_status_t := .ok
  metalError : Option String := none
  deriving DecidableEq, Repr

/-- The constant `DXGI_PRESENT_ALLOW_TEARING`. -/
def DXGI_PRESENT_ALLOW_TEARING : Nat := 0x200

/-- What `rive_renderer_surface_present` leaves behind: the status, the world, and the
arguments `(syncInterval, presentFlags)` it handed to `swapChain->Present`, `none` when it
did not call it. -/
structure PresentResult where
  status : rive_renderer_status_t
  world : World
  presented : Option (Nat × Nat)

/-- The D3D12 block of `rive_renderer_surface_present` (lines 2711 to 2766), compiled in a
Windows build. -/
def surface_present_d3d12 (n : PresentNative) (w : World) (surface : Ptr)
    (present_interval flags : Nat) : Option PresentResult :=
  if surface = 0 then some ⟨.invalid_handle, SetLastError w "surface handle is null", none⟩
  else
    match w.surfaces surface with
    | none => none
    | some handle =>
      if handle.backend ≠ rive_renderer_backend_t.d3d12 then
        some ⟨.unsupported, SetLastError w "surface present not supported for this backend",
          none⟩
      else if !handle.swapChain || decide (handle.context = 0) then
        some ⟨.invalid_handle, SetLastError w "surface not initialized", none⟩
      else
        match w.contexts handle.context with
        | none => none
        | some context =>
          if context.hasActiveFrame || decide (context.pendingFrameNumber ≠ 0) then
            some ⟨.invalid_parameter, SetLastError w "submit must be called before present",
              none⟩
          else
            match ReturnSurfaceRenderTarget w handle.context with
            | none => none
            | some w1 =>
              let syncInterval :=
                if present_interval ≠ 0 then present_interval else handle.present_interval
              let presentFlags :=
                if Nat.land (flags % U32) 1 ≠ 0 ∧ handle.supportsTearing = true ∧
                    syncInterval = 0 then
                  Nat.lor 0 DXGI_PRESENT_ALLOW_TEARING
                else 0
              match n.outcome with
              | .device_removed_or_reset =>
                some ⟨.device_lost, SetLastError w1 "device lost during present",
                  some (syncInterval, presentFlags)⟩
              | .failed =>
                some ⟨.internal_error, SetLastError w1 "swapchain present failed",
                  some (syncInterval, presentFlags)⟩
              | .succeeded =>
                match w1.contexts handle.context, w1.surfaces surface with
                | some c1, some s1 =>
                  some ⟨.ok, ClearLastError
                    ((w1.setContext handle.context
                      { c1 with renderTarget := none, renderTargetTexture := 0 }).setSurface
                      surface
                      { s1 with
                        borrowedIndex := UINT_MAX
                        currentBackBuffer := n.currentBackBuffer }),
                    some (syncInterval, presentFlags)⟩
                | _, _ => none

/-- The Metal block of `rive_renderer_surface_present` (lines 2767 to 2807), compiled in
an Apple build. -/
def surface_present_metal (n : PresentNative) (w : World) (surface : Ptr) :
    Option PresentResult :=
  if surface = 0 then some ⟨.invalid_handle, SetLastError w "surface handle is null", none⟩
  else
    match w.surfaces surface with
    | none => none
    | some handle =>
      if handle.backend ≠ rive_renderer_backend_t.metal then
        some ⟨.unsupported, SetLastError w "surface present not supported for this backend",
          none⟩
      else if handle.metalSurface = 0 ∨ handle.context = 0 then
        some ⟨.invalid_handle, SetLastError w "surface not initialized", none⟩
      else
        match w.contexts handle.context with
        | none => none
        | some context =>
          if context.hasActiveFrame || decide (context.pendingFrameNumber ≠ 0) then
            some ⟨.invalid_parameter, SetLastError w "submit must be called before present",
              none⟩
          else
            let w1 := match n.metalError with
              | some e => SetLastError w e
              | none => w
            if n.metalStatus ≠ .ok then some ⟨n.metalStatus, w1, none⟩
            else
              some ⟨.ok, ClearLastError (w1.setContext handle.context
                { context with
                  lastCompletedFrame := context.frameCounter
                  frameCounter := (context.frameCounter + 1) % U64
                  commandListsClosed := false
                  pendingFrameNumber := 0 }), none⟩

/-- The function `rive_renderer_surface_present`; `present_interval` and `flags` are
32-bit values. -/
def rive_renderer_surface_present (b : Build) (n : PresentNative) (w : World)
    (surface : Ptr) (present_interval flags : Nat) : Option PresentResult :=
  if b.win32 then surface_present_d3d12 n w surface present_interval flags
  else if b.apple then surface_present_metal n w surface
  else
    some ⟨.unsupported, SetLastError w "surface present not supported on this platform", none⟩

/-- One call of the frame state machine on a context, with the results of the native
calls it can make. -/
inductive FrameCall where
  | begin_frame (n : BeginFrameNative) (options : Option rive_renderer_frame_options_t)
  | end_frame (n : EndFrameNative)
  | submit (n : SubmitNative)
  deriving DecidableEq, Repr

/-- Make one frame call on the context at `context`. -/
def FrameCall.run (b : Build) (w : World) (context : Ptr) :
    FrameCall → Option (rive_renderer_status_t × World)
  | .begin_frame n options => rive_renderer_context_begin_frame b n w context options
  | .end_frame n => rive_renderer_context_end_frame b n w context
  | .submit n => rive_renderer_context_submit b n w context

/-- Make the frame calls `calls` in order on the context at `context`, collecting the
statuses; `none` as soon as one call returns no status. -/
def runFrameCalls (b : Build) (context : Ptr) :
    World → List FrameCall → Option (List rive_renderer_status_t × World)
  | w, [] => some ([], w)
  | w, call :: calls =>
    match call.run b w context with
    | none => none
    | some (status, w1) =>
      match runFrameCalls b context w1 calls with
      | none => none
      | some (statuses, w2) => some (status :: statuses, w2)

/-- The arguments of one frame cycle: the frame options and the results of the native
calls of the three entry points. -/
structure FrameCycleArgs where
  options : Option rive_renderer_frame_options_t := none
  beginNative : BeginFrameNative := {}
  endNative : EndFrameNative := {}
  submitNative : SubmitNative := {}
  deriving DecidableEq, Repr

/-- The cycle `begin_frame`, `end_frame`, `submit`. -/
def frameCycle (a : FrameCycleArgs) : List FrameCall :=
  [.begin_frame a.beginNative a.options, .end_frame a.endNative, .submit a.submitNative]

/-- One frame cycle per element of `cycles`, in order. -/
def frameCycles (cycles : List FrameCycleArgs) : List FrameCall :=
  cycles.flatMap frameCycle

/-- The create-info of a null device, as `rive_renderer_run_self_test` fills it. -/
def nullInfo : rive_renderer_device_create_info_t :=
  { backend := rive_renderer_backend_t.null, backend_padding := 0, adapter_index := 0,
    flags := 0 }

/-- The Windows build, the one in which `rive_renderer_run_self_test` runs the frame
cycle. -/
def windowsBuild : Build :=
  { win32 := true, apple := false, vulkan := false, text := false }

/-- The world after `rive_renderer_device_create` for the null backend and
`rive_renderer_context_create` for a context of `width` by `height` on that device,
starting from the empty world: the device is at address 1, the context at address 2. -/
def nullContextWorld (b : Build) (width height : Nat) : Option World :=
  match rive_renderer_device_create b {} {} (some nullInfo) (some 0) with
  | some ⟨.ok, w1, some device⟩ =>
    match rive_renderer_context_create b {} w1 device width height (some 0) with
    | some ⟨.ok, w2, some _⟩ => some w2
    | _ => none
  | _ => none


/-- Whether `context` is the address of a live context whose device is a live device of
the null backend. -/
def isNullContext (w : World) (context : Ptr) : Bool :=
  decide (context ≠ 0) &&
    match w.contexts context with
    | none => false
    | some c =>
      decide (c.device ≠ 0) &&
        match w.devices c.device with
        | none => false
        | some d => decide (d.backend = rive_renderer_backend_t.null)

/-- The context `rive_renderer_context_create` makes on a device of the null backend. -/
def newNullContext (device : Ptr) (width height : Nat) : ContextHandle :=
  { device := device
    width := width
    height := height
    renderContext := false
    cpuFramebuffer := List.replicate (cpuFramebufferSize width height) 0
    cpuRenderTarget := false
    cpuFrameRecording := false
    commandListsClosed := false }

/-- Whether `cpuFramebuffer.assign(count, 0)` completes without an exception. -/
def assignSucceeds (allocOk : Bool) (count : Nat) : Bool :=
  (vector_assign allocOk count).isSome

/-- Whether the framebuffer step of a null-backend `begin_frame` on the context `c`
completes: `cpuFramebuffer.assign` with the resolved size succeeds, or it is not called
because the framebuffer has that length already (`std::fill`). -/
def beginFrameAssigns (n : BeginFrameNative) (c : ContextHandle)
    (options : Option rive_renderer_frame_options_t) : Bool :=
  assignSucceeds n.assignOk
      (cpuFramebufferSize (resolvedFrameSize c options).1 (resolvedFrameSize c options).2) ||
    decide (c.cpuFramebuffer.length =
      cpuFramebufferSize (resolvedFrameSize c options).1 (resolvedFrameSize c options).2)

/-- The context a null-backend `begin_frame` leaves: the resolved size, a zeroed CPU
framebuffer of that size, recording on, command lists open. -/
def nullContextAfterBegin (c : ContextHandle)
    (options : Option rive_renderer_frame_options_t) : ContextHandle :=
  { c with
    width := (resolvedFrameSize c options).1
    height := (resolvedFrameSize c options).2
    cpuFramebuffer := List.replicate
      (cpuFramebufferSize (resolvedFrameSize c options).1 (resolvedFrameSize c options).2) 0
    cpuFrameRecording := true
    commandListsClosed := false }

/-- The context a null-backend `end_frame` leaves. -/
def nullContextAfterEnd (c : ContextHandle) : ContextHandle :=
  { c with cpuFrameRecording := false, commandListsClosed := true }

/-- The context a null-backend `submit` leaves. -/
def nullContextAfterSubmit (c : ContextHandle) : ContextHandle :=
  { c with
    lastCompletedFrame := c.frameCounter
    frameCounter := (c.frameCounter + 1) % U64
    commandListsClosed := false }

/-- Whether no `cpuFramebuffer.assign` throws when the frame cycles `cycles` run in order
on a null-backend context that starts as `c`: the framebuffer step of each `begin_frame`
completes on the context the cycles before it leave. -/
def cyclesAssign : ContextHandle → List FrameCycleArgs → Bool
  | _, [] => true
  | c, a :: cycles =>
    beginFrameAssigns a.beginNative c a.options &&
      cyclesAssign
        (nullContextAfterSubmit (nullContextAfterEnd (nullContextAfterBegin c a.options)))
        cycles

/-- The world in which the context at `context` has been replaced by `c` by a call that
succeeded (and so cleared the error text). -/
def World.withContext (w : World) (context : Ptr) (c : ContextHandle) : World :=
  ClearLastError (w.setContext context c)

/-- The two frame flags of a null-backend context are never set together: the context is
idle (neither), recording a frame, or holds an ended frame awaiting `submit`. -/
def frameFlagsConsistent (c : ContextHandle) : Bool :=
  !(c.cpuFrameRecording && c.commandListsClosed)

/-- The world `nullContextWorld windowsBuild 2 2`: a null device at address 1 and a fresh
2 by 2 context on it at address 2. -/
def sampleWorld : World :=
  (nullContextWorld windowsBuild 2 2).getD {}

/-- The context at address 2 of `sampleWorld`. -/
def sampleContext : ContextHandle :=
  (sampleWorld.contexts 2).getD {}

/-- The world `sampleWorld` after one `begin_frame` with null options on its context. -/
def sampleActiveWorld : World :=
  ((rive_renderer_context_begin_frame windowsBuild {} sampleWorld 2 none).getD (.ok, {})).2

/-- The context at address 2 of `sampleActiveWorld`. -/
def sampleActiveContext : ContextHandle :=
  (sampleActiveWorld.contexts 2).getD {}


/-- The world after `rive_renderer_device_create` for the null backend in the empty
world: the device is at address 1. -/
def sampleDeviceWorld : World :=
  ((rive_renderer_device_create windowsBuild {} {} (some nullInfo) (some 0)).map
    (·.world)).getD {}

/-- The device at address 1 of `sampleDeviceWorld`. -/
def sampleDevice : DeviceHandle :=
  (sampleDeviceWorld.devices 1).getD {}

/-- The world after `rive_renderer_context_create` for a 128 by 128 context on the device
of `sampleDeviceWorld`, as in `rive_renderer_run_self_test`: the context is at address 2. -/
def selfTestWorld : World :=
  ((rive_renderer_context_create windowsBuild {} sampleDeviceWorld 1 128 128 (some 0)).map
    (·.world)).getD {}

/-- The frame cycle of `rive_renderer_run_self_test`: frame options 128 by 128. -/
def selfTestCycle : FrameCycleArgs :=
  { options := some { width := 128, height := 128, vsync := 0 } }


/-- Run the calls `calls` in order with the entry point `step`, collecting the statuses;
`none` as soon as one call returns no status. -/
def runCalls {α : Type} (step : World → α → Option (rive_renderer_status_t × World)) :
    World → List α → Option (List rive_renderer_status_t × World)
  | w, [] => some ([], w)
  | w, call :: calls =>
    match step w call with
    | none => none
    | some (status, w1) =>
      match runCalls step w1 calls with
      | none => none
      | some (statuses, w2) => some (status :: statuses, w2)

/-- A reference-count call on a handle. -/
inductive RefCall where
  | retain
  | release
  deriving DecidableEq, Repr

/-- Make one reference-count call on the device at `device`. -/
def RefCall.runDevice (b : Build) (device : Ptr) (w : World) :
    RefCall → Option (rive_renderer_status_t × World)
  | .retain => rive_renderer_device_retain w device
  | .release => rive_renderer_device_release b w device

/-- Whether a sequence of reference-count calls, made on a handle whose count is `count`,
keeps the count at least 1 and below `2 ^ 32` after every call. -/
def keepsCountLive (count : Nat) : List RefCall → Bool
  | [] => true
  | .retain :: calls => decide (count + 1 < 2 ^ 32) && keepsCountLive (count + 1) calls
  | .release :: calls => decide (2 ≤ count) && keepsCountLive (count - 1) calls

/-- The number of `retain` calls in a sequence. -/
def retains (calls : List RefCall) : Nat :=
  calls.count .retain

/-- The number of `release` calls in a sequence. -/
def releases (calls : List RefCall) : Nat :=
  calls.count .release


/-- Whether a creation result holds, in its output cell, the fresh non-null address `new`
handed out, with a device of reference count 1 stored there. -/
def createdDevice (r : CreateResult) : Bool :=
  decide (r.out = some r.world.nextPtr) && decide (r.world.nextPtr ≠ 0) &&
    decide ((r.world.devices r.world.nextPtr).map (·.ref_count) = some 1)


/-- Whether adapter discovery succeeds for `rive_renderer_enumerate_adapters`: always
outside a Windows build; in a Windows build when the adapter cache is already populated
or `CreateDXGIFactory1` succeeds. -/
def discoverySucceeds (b : Build) (dxgi : Dxgi) (w : World) : Bool :=
  !b.win32 || !w.g_d3d12Adapters.isEmpty || dxgi.factoryOk

/-- The world after adapter discovery: in a Windows build the adapter cache is populated
if it was empty. -/
def worldAfterDiscovery (b : Build) (dxgi : Dxgi) (w : World) : World :=
  if b.win32 then (EnsureD3D12Adapters dxgi w).2 else w

/-- The full adapter list in the spec's words: the hardware adapters in enumeration order
(the cached D3D12 adapters in a Windows build, the Metal default device in an Apple build)
followed by exactly one synthetic null adapter. -/
def fullAdapterList (b : Build) (dxgi : Dxgi) (w : World) : List rive_renderer_adapter_desc_t :=
  (if b.win32 then (worldAfterDiscovery b dxgi w).g_d3d12Adapters.map (·.desc)
    else if b.apple then [MakeMetalAdapter] else []) ++ [MakeNullAdapter]

/-- Whether every cached adapter record carries the D3D12 backend tag, as every record
made by `PopulateD3D12AdaptersLocked` does. -/
def adapterCacheWellFormed (w : World) : Bool :=
  w.g_d3d12Adapters.all fun r => decide (r.desc.backend = rive_renderer_backend_t.d3d12)

/-- The caller's array after `n` entries of `full` were copied to its front. -/
def bufferAfterCopy (full buf : List rive_renderer_adapter_desc_t) (n : Nat) :
    List rive_renderer_adapter_desc_t :=
  full.take n ++ buf.drop n


/-- The world after a successful `rive_renderer_device_create` for the null backend: a
fresh null device at the address `w.fresh.1`, error text cleared. -/
def worldWithNullDevice (w : World) : World :=
  ClearLastError (w.fresh.2.setDevice w.fresh.1 (newNullDevice rive_renderer_backend_t.null))

/-- Whether a build has no hardware backend compiled in. -/
def noHardwareBackend (b : Build) : Bool :=
  !b.win32 && !b.apple && !b.vulkan

/-- A build with no hardware backend and no text support. -/
def portableBuild : Build :=
  { win32 := false, apple := false, vulkan := false, text := false }

/-- A Vulkan device-import record with every required handle present. -/
def sampleVulkanInfo : rive_renderer_device_create_info_vulkan_t :=
  { instance_ptr := 1, physical_device := 2, device := 3, features := {},
    get_instance_proc_addr := 4, graphics_queue := 5, graphics_queue_family_index := 0,
    present_queue := 0, present_queue_family_index := 0, allocator_callbacks := 0 }


/-- Whether a creation result holds, in its output cell, the fresh non-null address `new`
handed out, with a context stored there that has reference count 1, points to `device`
and has no surface attached. -/
def createdContext (device : Ptr) (r : CreateResult) : Bool :=
  decide (r.out = some r.world.nextPtr) && decide (r.world.nextPtr ≠ 0) &&
    decide ((r.world.contexts r.world.nextPtr).map (fun c => (c.ref_count, c.device, c.surface))
      = some (1, device, 0))

/-- A release call made by the user who owns one device reference and one context
reference. -/
inductive OwnerCall where
  | device_release
  | context_release
  deriving DecidableEq, Repr

/-- Make one owner call on the device at `device` or the context at `context`. -/
def OwnerCall.run (b : Build) (device context : Ptr) (w : World) :
    OwnerCall → Option (rive_renderer_status_t × World)
  | .device_release => rive_renderer_device_release b w device
  | .context_release => rive_renderer_context_release b w context

/-- What an observer of the device at `device` sees after a run: the statuses, the
device's reference count (`none` once it is destroyed) and the deleted addresses. -/
def observeDevice (device : Ptr) (r : List rive_renderer_status_t × World) :
    List rive_renderer_status_t × Option Nat × List Ptr :=
  (r.1, (r.2.devices device).map (·.ref_count), r.2.deleted)


/-- The effect of a context creation on the device store: a successful one stores a new
context and raises the count of `device` (modulo `2 ^ 32`), deleting nothing; a failed
one leaves every device as it was. -/
def ContextCreateEffect (w : World) (device : Ptr) (d : DeviceHandle) (r : CreateResult) :
    Prop :=
  (r.status = .ok → createdContext device r = true ∧
    r.world.devices = Function.update w.devices device
      (some { d with ref_count := fetch_add_1 d.ref_count }) ∧
    r.world.deleted = w.deleted) ∧
  (r.status ≠ .ok → r.world.devices = w.devices)


/-- A Windows build with text support. -/
def textBuild : Build :=
  { win32 := true, apple := false, vulkan := false, text := true }

/-- A world that holds, at address 1 of every store, a handle whose reference count is 0:
the engine objects are non-null, the links to other handles null. -/
def zeroCountWorld : World :=
  { devices := fun p => if p = 1 then some { ref_count := 0 } else none
    contexts := fun p => if p = 1 then some { ref_count := 0 } else none
    surfaces := fun p => if p = 1 then some { ref_count := 0 } else none
    fences := fun p => if p = 1 then some { ref_count := 0 } else none
    paths := fun p => if p = 1 then some { ref_count := 0, object := true } else none
    paints := fun p => if p = 1 then some { ref_count := 0, object := true } else none
    renderers := fun p => if p = 1 then some { ref_count := 0, renderer := true } else none
    buffers := fun p => if p = 1 then some { ref_count := 0, buffer := true } else none
    images := fun p => if p = 1 then some { ref_count := 0, object := true } else none
    fonts := fun p => if p = 1 then some { ref_count := 0, object := true } else none
    shaders := fun p => if p = 1 then some { ref_count := 0, object := true } else none
    nextPtr := 1 }

/-- The reference count stored at `handle` in the store of a handle type, `none` when no
live handle is there. -/
def HandleType.count (w : World) (handle : Ptr) : HandleType → Option Nat
  | .device => (w.devices handle).map (·.ref_count)
  | .context => (w.contexts handle).map (·.ref_count)
  | .surface => (w.surfaces handle).map (·.ref_count)
  | .fence => (w.fences handle).map (·.ref_count)
  | .path => (w.paths handle).map (·.ref_count)
  | .paint => (w.paints handle).map (·.ref_count)
  | .renderer => (w.renderers handle).map (·.ref_count)
  | .buffer => (w.buffers handle).map (·.ref_count)
  | .image => (w.images handle).map (·.ref_count)
  | .font => (w.fonts handle).map (·.ref_count)
  | .shader => (w.shaders handle).map (·.ref_count)

/-- The statuses of `n` release calls in a row on the handle at `handle`, the count stored
there afterwards and the addresses deleted. -/
def releaseTimes (b : Build) (kind : HandleType) (handle : Ptr) (n : Nat) (w : World) :
    Option (List rive_renderer_status_t × Option Nat × List Ptr) :=
  (runCalls (fun w1 (_ : Unit) => kind.release b w1 handle) w (List.replicate n ())).map
    fun r => (r.1, kind.count r.2 handle, r.2.deleted)

/-- A world with a device at address 1 (count 3), a context on it at address 2 (count 2)
and a surface at address 3 attached to that context. -/
def surfaceAttachedWorld : World :=
  { devices := fun p => if p = 1 then some { ref_count := 3 } else none
    contexts := fun p =>
      if p = 2 then some { ref_count := 2, device := 1, width := 4, height := 4, surface := 3 }
      else none
    surfaces := fun p => if p = 3 then some { device := 1, context := 2 } else none
    nextPtr := 3 }

/-- A world with one buffer of four bytes, 10, 20, 30 and 40, at address 1. -/
def sampleBufferWorld : World :=
  { buffers := fun p =>
      if p = 1 then some { buffer := true, size_in_bytes := 4, data := [10, 20, 30, 40] }
      else none
    nextPtr := 1 }

/-- The buffer at address 1 of `sampleBufferWorld`. -/
def sampleBuffer : BufferHandle :=
  { buffer := true, size_in_bytes := 4, data := [10, 20, 30, 40] }

/-- A map or unmap call on a buffer; `out_mapping` is the content of the caller's record,
`none` for a null pointer. -/
inductive BufferCall where
  | map (n : BufferMapNative) (out_mapping : Option rive_renderer_mapped_memory_t)
  | unmap
  deriving DecidableEq, Repr

/-- Make one map or unmap call on the buffer at `buffer`. -/
def BufferCall.run (buffer : Ptr) (w : World) :
    BufferCall → Option (rive_renderer_status_t × World)
  | .map n out_mapping =>
    (rive_renderer_buffer_map n w buffer out_mapping).map fun r => (r.1, r.2.1)
  | .unmap => rive_renderer_buffer_unmap w buffer

/-- Whether the engine's `map()` succeeds in every map call of a sequence. -/
def mapsSucceed : List BufferCall → Bool
  | [] => true
  | .map n _ :: calls => decide (n.mapped ≠ 0) && mapsSucceed calls
  | .unmap :: calls => mapsSucceed calls

/-- The single-mapping discipline in the words of the amended claim, from the state
`mapped`: a `map` with a null `out_mapping` gives `null_pointer` and keeps the state; a
`map` with a non-null one gives `ok` exactly when the buffer is not mapped and then it is
mapped; `unmap` gives `ok` exactly when it is mapped and then it is not; every other
rejected call gives `invalid_parameter` and keeps the state. The result is the statuses
and the final state. -/
def mappingDiscipline : Bool → List BufferCall → List rive_renderer_status_t × Bool
  | mapped, [] => ([], mapped)
  | mapped, .map _ none :: calls =>
    (.null_pointer :: (mappingDiscipline mapped calls).1, (mappingDiscipline mapped calls).2)
  | mapped, .map _ (some _) :: calls =>
    if mapped then
      (.invalid_parameter :: (mappingDiscipline mapped calls).1,
        (mappingDiscipline mapped calls).2)
    else (.ok :: (mappingDiscipline true calls).1, (mappingDiscipline true calls).2)
  | mapped, .unmap :: calls =>
    if mapped then (.ok :: (mappingDiscipline false calls).1, (mappingDiscipline false calls).2)
    else
      (.invalid_parameter :: (mappingDiscipline mapped calls).1,
        (mappingDiscipline mapped calls).2)

/-- Whether the buffer at `buffer` is live, holds an engine buffer and is mapped; `none`
when no such buffer is there. -/
def bufferMapped (w : World) (buffer : Ptr) : Option Bool :=
  match w.buffers buffer with
  | none => none
  | some h => if h.buffer then some (decide (h.mapped_ptr ≠ 0)) else none

/-- A world with a D3D12 device at address 1 and a 4 by 4 context on it at address 2 that
has a render context. -/
def gpuContextWorld : World :=
  { devices := fun p =>
      if p = 1 then some { ref_count := 2, backend := rive_renderer_backend_t.d3d12 } else none
    contexts := fun p =>
      if p = 2 then some { device := 1, width := 4, height := 4, renderContext := true }
      else none
    nextPtr := 2 }

/-- The world after `rive_renderer_buffer_create` for a vertex buffer of 4 bytes on the
context of `gpuContextWorld`: the buffer is at address 3. -/
def gpuBufferWorld : World :=
  ((rive_renderer_buffer_create {} gpuContextWorld 2 1 0 4 (some 0)).map (·.world)).getD {}

/-- A world with a D3D12 device at address 1 whose direct queue exists, a context on it
at address 2 and a fence of that device at address 3 whose last value is 5. -/
def sampleFenceWorld : World :=
  { devices := fun p =>
      if p = 1 then
        some { ref_count := 3, backend := rive_renderer_backend_t.d3d12, directQueue := true }
      else none
    contexts := fun p =>
      if p = 2 then some { device := 1, width := 4, height := 4, renderContext := true }
      else none
    fences := fun p => if p = 3 then some { device := 1, fence := true, lastValue := 5 } else none
    nextPtr := 3 }

/-- The fence at address 3 of `sampleFenceWorld`. -/
def sampleFence : FenceHandle :=
  { device := 1, fence := true, lastValue := 5 }

/-- Whether `context` and `fence` are live handles of one live D3D12 device whose direct
queue exists: the setting in which `rive_renderer_context_signal_fence` gets as far as the
fence value. -/
def canSignal (w : World) (context fence : Ptr) : Bool :=
  decide (context ≠ 0) && decide (fence ≠ 0) &&
    match w.contexts context, w.fences fence with
    | some c, some f =>
      decide (c.device ≠ 0) && decide (c.device = f.device) &&
        match w.devices c.device with
        | some d => decide (d.backend = rive_renderer_backend_t.d3d12) && d.directQueue
        | none => false
    | _, _ => false

/-- Whether a call of `rive_renderer_context_signal_fence` on live handles dereferences
only live handles: the context's device, when it is reached, is live. -/
def signalHandlesLive (w : World) (context : Ptr) : Bool :=
  match w.contexts context with
  | some c => decide (c.device = 0) || (w.devices c.device).isSome
  | none => false

/-- The statuses of the calls of `rive_renderer_context_signal_fence` with the values
`values`, in order, and the fence's last value afterwards. -/
def signalValues (b : Build) (n : SignalNative) (context fence : Ptr) (w : World)
    (values : List Nat) : Option (List rive_renderer_status_t × Option Nat) :=
  (runCalls (fun w1 v => rive_renderer_context_signal_fence b n w1 context fence v) w
    values).map fun r => (r.1, (r.2.fences fence).map (·.lastValue))

/-- Whether the last-error text is empty exactly when the status is `ok`. -/
def errorTextMatches (status : rive_renderer_status_t) (w : World) : Bool :=
  decide (w.g_lastError = "") == decide (status = .ok)

/-- A call that can change the size of a context. -/
inductive SizeCall where
  | resize (n : ContextResizeNative) (width height : Nat)
  | begin_frame (n : BeginFrameNative) (options : Option rive_renderer_frame_options_t)
  deriving DecidableEq, Repr

/-- Make one size-changing call on the context at `context`. -/
def SizeCall.run (b : Build) (context : Ptr) (w : World) :
    SizeCall → Option (rive_renderer_status_t × World)
  | .resize n width height => rive_renderer_context_resize n w context width height
  | .begin_frame n options => rive_renderer_context_begin_frame b n w context options

/-- Whether the context at `context` is live, has non-zero width and height and has no
surface attached. -/
def hasNonZeroSize (w : World) (context : Ptr) : Bool :=
  match w.contexts context with
  | some c => decide (0 < c.width) && decide (0 < c.height) && decide (c.surface = 0)
  | none => false

/-- A call on a null-backend context that can touch its CPU framebuffer or frame state. -/
inductive NullContextCall where
  | resize (n : ContextResizeNative) (width height : Nat)
  | begin_frame (n : BeginFrameNative) (options : Option rive_renderer_frame_options_t)
  | end_frame (n : EndFrameNative)
  | submit (n : SubmitNative)
  deriving DecidableEq, Repr

/-- Make one such call on the context at `context`. -/
def NullContextCall.run (b : Build) (context : Ptr) (w : World) :
    NullContextCall → Option (rive_renderer_status_t × World)
  | .resize n width height => rive_renderer_context_resize n w context width height
  | .begin_frame n options => rive_renderer_context_begin_frame b n w context options
  | .end_frame n => rive_renderer_context_end_frame b n w context
  | .submit n => rive_renderer_context_submit b n w context

/-- Whether the context at `context` is live and its CPU framebuffer holds exactly
`width * height * 4` bytes (as computed in `size_t`), all of them 0. -/
def cpuFramebufferZeroed (w : World) (context : Ptr) : Bool :=
  match w.contexts context with
  | some c =>
    decide (c.cpuFramebuffer = List.replicate (cpuFramebufferSize c.width c.height) 0)
  | none => false

/-- The world `sampleWorld` after a resize of its context to 1 by 3, a `begin_frame` with
null options, an `end_frame` and a `submit`. -/
def sampleRecordedWorld : World :=
  ((runCalls (NullContextCall.run windowsBuild 2) sampleWorld
    [.resize {} 1 3, .begin_frame {} none, .end_frame {}, .submit {}]).getD ([], {})).2

/-- A create-info that asks for the backend `backend`, adapter 0. -/
def infoFor (backend : rive_renderer_backend_t) : rive_renderer_device_create_info_t :=
  { backend := backend, backend_padding := 0, adapter_index := 0, flags := 0 }

/-- Native results for `rive_renderer_device_create` with one hardware adapter found and
every call succeeding. -/
def oneAdapterNative : DeviceCreateNative :=
  { dxgi := { adapters := [{ Description := "GPU" }] } }

/-- An Apple build. -/
def appleBuild : Build :=
  { win32 := false, apple := true, vulkan := false, text := false }

/-- A call of the owner of one context reference and one renderer made on that
context. -/
inductive RendererOwnerCall where
  | context_release
  | renderer_release
  deriving DecidableEq, Repr

/-- Make one such call on the context at `context` or the renderer at `renderer`. -/
def RendererOwnerCall.run (b : Build) (context renderer : Ptr) (w : World) :
    RendererOwnerCall → Option (rive_renderer_status_t × World)
  | .context_release => rive_renderer_context_release b w context
  | .renderer_release => rive_renderer_renderer_release w renderer

/-- The world after `rive_renderer_renderer_create` on the context of `gpuContextWorld`:
the renderer is at address 3. -/
def gpuRendererWorld : World :=
  ((rive_renderer_renderer_create {} gpuContextWorld 2 (some 0)).map (·.world)).getD {}

/-- What is left of a context, its device and the deleted addresses after some calls: the
statuses, the context's count (`none` once it is deleted), the device's count and the
addresses deleted. -/
def observeContext (context device : Ptr) (r : List rive_renderer_status_t × World) :
    List rive_renderer_status_t × Option Nat × Option Nat × List Ptr :=
  (r.1, (r.2.contexts context).map (·.ref_count), (r.2.devices device).map (·.ref_count),
    r.2.deleted)

/-- One call on a context or on the surface attached to it, with the results of the
native calls it can make. -/
inductive SurfaceCall where
  | begin_frame (n : BeginFrameNative) (options : Option rive_renderer_frame_options_t)
  | end_frame (n : EndFrameNative)
  | submit (n : SubmitNative)
  | present (n : PresentNative) (present_interval flags : Nat)
  | resize (n : SurfaceResizeNative) (width height : Nat)
  | surface_retain
  | surface_release
  | context_release

/-- Make one call on the context at `context` or the surface at `surface`. -/
def SurfaceCall.run (b : Build) (context surface : Ptr) (w : World) :
    SurfaceCall → Option (rive_renderer_status_t × World)
  | .begin_frame n options => rive_renderer_context_begin_frame b n w context options
  | .end_frame n => rive_renderer_context_end_frame b n w context
  | .submit n => rive_renderer_context_submit b n w context
  | .present n present_interval flags =>
    (rive_renderer_surface_present b n w surface present_interval flags).map
      fun r => (r.status, r.world)
  | .resize n width height => rive_renderer_surface_resize b n w surface width height
  | .surface_retain => rive_renderer_surface_retain w surface
  | .surface_release => rive_renderer_surface_release b w surface
  | .context_release => rive_renderer_context_release b w context

/-- Whether a call is `rive_renderer_surface_present` or `rive_renderer_surface_resize`. -/
def SurfaceCall.presentsOrResizes : SurfaceCall → Bool
  | .present _ _ _ => true
  | .resize _ _ _ => true
  | _ => false

/-- Whether slot `i` of a surface's render-target cache is empty (the `rcp` moved out). -/
def slotEmpty (s : SurfaceHandle) (i : Nat) : Bool :=
  (s.renderTargets.getD i none).isNone

/-- The number of empty slots of a surface's render-target cache. -/
def emptySlots (s : SurfaceHandle) : Nat :=
  s.renderTargets.countP Option.isNone

/-- The bookkeeping of borrowed render targets between a context and its surface: a slot
of the cache is empty exactly when `borrowedIndex` names it and the context holds a render
target. -/
def borrowConsistent (c : ContextHandle) (s : SurfaceHandle) : Prop :=
  ∀ i, i < s.renderTargets.length →
    (slotEmpty s i = true ↔ (s.borrowedIndex = i ∧ c.renderTarget.isSome = true))

/-- The render targets of a context and its surface are bound to the swap chain's back
buffers: the surface keeps one back buffer per cache slot, the target in slot `i` has back
buffer `i` as its texture, and a target the context holds while `borrowedIndex` names a
slot has that slot's back buffer as its texture, so it is the target of that slot. -/
def targetsBound (c : ContextHandle) (s : SurfaceHandle) : Prop :=
  s.backBuffers.length = s.renderTargets.length ∧
    (∀ i rt, s.renderTargets.getD i none = some rt →
      rt.targetTexture = s.backBuffers.getD i 0) ∧
    ∀ rt, c.renderTarget = some rt → s.borrowedIndex < s.renderTargets.length →
      rt.targetTexture = s.backBuffers.getD s.borrowedIndex 0

/-- What holds of a context `c` at `context` and the D3D12 surface `s` at `surface` that
is attached to it: the two point at each other, the surface's default present interval is
not zero, its buffer count and the length of its cache fit a `UINT`, the borrow
bookkeeping is consistent and the render targets are bound to the back buffers. -/
def attachedPair (context surface : Ptr) (c : ContextHandle) (s : SurfaceHandle) : Prop :=
  c.surface = surface ∧ s.context = context ∧ s.present_interval ≠ 0 ∧
    s.buffer_count ≤ UINT_MAX ∧ s.renderTargets.length ≤ s.buffer_count ∧
    borrowConsistent c s ∧ targetsBound c s

/-- The state of the surface at `surface` in a world: either it has been destroyed, or it
is attached to the live context at `context` as `attachedPair` says. -/
def surfaceAttached (w : World) (context surface : Ptr) : Prop :=
  match w.surfaces surface with
  | none => True
  | some s =>
    match w.contexts context with
    | none => False
    | some c => attachedPair context surface c s

/-- A create-info for a surface on window 9 that takes the context's size, asks for the
default buffer count and present interval and sets the `allow_tearing` surface flag. -/
def sampleSurfaceInfo : rive_renderer_surface_create_info_d3d12_hwnd_t :=
  { hwnd := 9, width := 0, height := 0, buffer_count := 0, flags := 2, present_interval := 0 }

/-- Native results for `rive_renderer_surface_create_d3d12_hwnd` in which every call
succeeds and DXGI reports tearing support. -/
def tearingNative : SurfaceCreateNative :=
  { tearingSupported := true }

/-- The world after `rive_renderer_surface_create_d3d12_hwnd` with `sampleSurfaceInfo` on
the device and context of `gpuContextWorld`: the surface is at address 3. -/
def gpuSurfaceWorld : World :=
  ((rive_renderer_surface_create_d3d12_hwnd windowsBuild tearingNative gpuContextWorld 1 2
    (some sampleSurfaceInfo) (some 0)).map (·.world)).getD {}

/-- The world after `rive_renderer_context_begin_frame` on the context of
`gpuSurfaceWorld`: the render target of back buffer 0 is borrowed. -/
def gpuFrameWorld : World :=
  ((runCalls (SurfaceCall.run windowsBuild 2 3) gpuSurfaceWorld [.begin_frame {} none]).map
    (·.2)).getD {}

/-- The members of a context that say which device it is on and where its frame stands. -/
def frameKey (c : ContextHandle) : Ptr × Nat × Nat × Bool × Bool :=
  (c.device, c.frameCounter, c.pendingFrameNumber, c.hasActiveFrame, c.commandListsClosed)

/-- The members of a surface that say what it is: its backend, whether it has a swap chain,
and its context. -/
def surfaceKey (s : SurfaceHandle) : rive_renderer_backend_t × Bool × Ptr :=
  (s.backend, s.swapChain, s.context)

/-- Whether some `submit` of a sequence of frame calls returned `ok`, given the statuses
the calls returned. -/
def submitReturnedOk : List FrameCall → List rive_renderer_status_t → Bool
  | .submit _ :: calls, status :: statuses =>
    decide (status = .ok) || submitReturnedOk calls statuses
  | _ :: calls, _ :: statuses => submitReturnedOk calls statuses
  | _, _ => false

/-- A context at `context` on a live D3D12 device whose frame counter is not zero, and an
initialised D3D12 surface at `surface` whose context it is. -/
def d3d12SurfaceState (w : World) (context surface : Ptr) : Prop :=
  match w.contexts context, w.surfaces surface with
  | some c, some s =>
    c.device ≠ 0 ∧
      (w.devices c.device).map (fun d => d.backend) = some rive_renderer_backend_t.d3d12 ∧
      c.frameCounter ≠ 0 ∧ s.backend = rive_renderer_backend_t.d3d12 ∧ s.swapChain = true ∧
      s.context = context
  | _, _ => False

/-- A frame of the context at `context` has been begun and not yet submitted, as
`rive_renderer_context_begin_frame` records it in a context whose frame counter is not
zero: the pending frame number is not zero. -/
def framePending (w : World) (context : Ptr) : Prop :=
  match w.contexts context with
  | some c => c.pendingFrameNumber ≠ 0
  | none => False

/-- The world after `end_frame` and a `submit` whose copy queue signal fails, on the frame
begun in `gpuFrameWorld`. -/
def gpuEndedWorld : World :=
  ((runFrameCalls windowsBuild 2 gpuFrameWorld
    [.end_frame {}, .submit { copySignalOk := false }]).map (·.2)).getD {}

/-- The world after a resize of the surface of `gpuSurfaceWorld` to 8 by 6. -/
def gpuResizedWorld : World :=
  ((rive_renderer_surface_resize windowsBuild {} gpuSurfaceWorld 3 8 6).map (·.2)).getD {}

/-! ## Theorems -/


theorem isNullContext_iff (w : World) (context : Ptr) (c : ContextHandle)
    (hc : w.contexts context = some c) :
    isNullContext w context = true ↔
      context ≠ 0 ∧ c.device ≠ 0 ∧
        ∃ d, w.devices c.device = some d ∧ d.backend = rive_renderer_backend_t.null := by
  unfold isNullContext
  rw [hc]
  cases hd : w.devices c.device <;> simp [hd]

theorem isNullContext_withContext (w : World) (context : Ptr) (c c1 : ContextHandle)
    (hnull : isNullContext w context = true) (hc : w.contexts context = some c)
    (hdev : c1.device = c.device) :
    isNullContext (w.withContext context c1) context = true ∧
      (w.withContext context c1).contexts context = some c1 := by
  obtain ⟨h0, hd0, d, hd, hb⟩ := (isNullContext_iff w context c hc).1 hnull
  have hc1 : (w.withContext context c1).contexts context = some c1 := by
    simp [World.withContext, ClearLastError, World.setContext]
  refine ⟨?_, hc1⟩
  rw [isNullContext_iff _ _ _ hc1]
  refine ⟨h0, by rw [hdev]; exact hd0, d, ?_, hb⟩
  rw [hdev]
  simpa [World.withContext, ClearLastError, World.setContext] using hd

theorem isNullContext_SetLastError (w : World) (context : Ptr) (message : String) :
    isNullContext (SetLastError w message) context = isNullContext w context := rfl

theorem vector_assign_eq (allocOk : Bool) (count : Nat) :
    vector_assign allocOk count =
      if assignSucceeds allocOk count then some (List.replicate count 0) else none := by
  unfold assignSucceeds vector_assign
  by_cases h1 : count > VECTOR_MAX_SIZE
  · simp [h1]
  · cases allocOk <;> simp [h1]

theorem assignSucceeds_iff (allocOk : Bool) (count : Nat) :
    assignSucceeds allocOk count = true ↔ count ≤ VECTOR_MAX_SIZE ∧ allocOk = true := by
  unfold assignSucceeds vector_assign
  by_cases h1 : count > VECTOR_MAX_SIZE
  · simp [h1]
  · cases allocOk <;> simp [h1]
    omega

theorem begin_frame_null (b : Build) (n : BeginFrameNative) (w : World) (context : Ptr)
    (c : ContextHandle) (options : Option rive_renderer_frame_options_t)
    (hnull : isNullContext w context = true) (hc : w.contexts context = some c) :
    rive_renderer_context_begin_frame b n w context options =
      if ValidateContextSize (resolvedFrameSize c options).1 (resolvedFrameSize c options).2 then
        if beginFrameAssigns n c options then
          some (.ok, w.withContext context (nullContextAfterBegin c options))
        else none
      else some (.invalid_parameter, SetLastError w "context dimensions must be non-zero") := by
  obtain ⟨h0, hd0, d, hd, hb⟩ := (isNullContext_iff w context c hc).1 hnull
  have e1 : rive_renderer_backend_t.null ≠ rive_renderer_backend_t.metal := by decide
  have e2 : rive_renderer_backend_t.null ≠ rive_renderer_backend_t.d3d12 := by decide
  cases hv : ValidateContextSize (resolvedFrameSize c options).1 (resolvedFrameSize c options).2
  · simp [rive_renderer_context_begin_frame, h0, hc, hv]
  · simp only [rive_renderer_context_begin_frame, h0, hc, hv, deviceBackend, World.setContext,
      hd0, hd, e1, e2, hb, if_false, if_true, ne_eq, not_false_eq_true, Bool.not_true,
      Bool.false_eq_true, Option.map_some', decide_False, Bool.and_false, Option.some.injEq,
      reduceCtorEq, not_true_eq_false]
    unfold beginFrameAssigns
    by_cases hlen : c.cpuFramebuffer.length =
        cpuFramebufferSize (resolvedFrameSize c options).1 (resolvedFrameSize c options).2
    · simp [hlen, nullContextAfterBegin, ClearLastError, World.withContext, World.setContext]
    · simp only [hlen, not_false_eq_true, if_true, decide_False, Bool.or_false]
      rw [vector_assign_eq]
      cases assignSucceeds n.assignOk
          (cpuFramebufferSize (resolvedFrameSize c options).1 (resolvedFrameSize c options).2) <;>
        simp [nullContextAfterBegin, ClearLastError, World.withContext, World.setContext]

theorem resolvedFrameSize_pos (c : ContextHandle)
    (options : Option rive_renderer_frame_options_t) (hw : 0 < c.width) (hh : 0 < c.height) :
    0 < (resolvedFrameSize c options).1 ∧ 0 < (resolvedFrameSize c options).2 := by
  cases options with
  | none => exact ⟨hw, hh⟩
  | some o =>
    simp only [resolvedFrameSize]
    by_cases h1 : o.width = 0 <;> by_cases h2 : o.height = 0 <;>
      simp [h1, h2, hw, hh, Nat.pos_of_ne_zero]

theorem validate_resolvedFrameSize (c : ContextHandle)
    (options : Option rive_renderer_frame_options_t) (hw : 0 < c.width) (hh : 0 < c.height) :
    ValidateContextSize (resolvedFrameSize c options).1 (resolvedFrameSize c options).2 = true := by
  obtain ⟨h1, h2⟩ := resolvedFrameSize_pos c options hw hh
  simp [ValidateContextSize, h1, h2]

theorem begin_frame_null_ok (b : Build) (n : BeginFrameNative) (w : World) (context : Ptr)
    (c : ContextHandle) (options : Option rive_renderer_frame_options_t)
    (hnull : isNullContext w context = true) (hc : w.contexts context = some c)
    (hw : 0 < c.width) (hh : 0 < c.height) (hfit : beginFrameAssigns n c options = true) :
    rive_renderer_context_begin_frame b n w context options =
      some (.ok, w.withContext context (nullContextAfterBegin c options)) := by
  rw [begin_frame_null b n w context c options hnull hc,
    if_pos (validate_resolvedFrameSize c options hw hh), if_pos hfit]

theorem end_frame_null (b : Build) (n : EndFrameNative) (w : World) (context : Ptr)
    (c : ContextHandle) (hnull : isNullContext w context = true)
    (hc : w.contexts context = some c) :
    rive_renderer_context_end_frame b n w context =
      if c.cpuFrameRecording then some (.ok, w.withContext context (nullContextAfterEnd c))
      else some (.invalid_parameter,
        SetLastError w "begin_frame must be called before end_frame") := by
  obtain ⟨h0, hd0, d, hd, hb⟩ := (isNullContext_iff w context c hc).1 hnull
  have e1 : rive_renderer_backend_t.null ≠ rive_renderer_backend_t.metal := by decide
  have e2 : rive_renderer_backend_t.null ≠ rive_renderer_backend_t.d3d12 := by decide
  cases hr : c.cpuFrameRecording <;>
    simp [rive_renderer_context_end_frame, h0, hc, deviceBackend, hd0, hd, e1, e2, hb, hr,
      nullContextAfterEnd, World.withContext]

theorem submit_null (b : Build) (n : SubmitNative) (w : World) (context : Ptr)
    (c : ContextHandle) (hnull : isNullContext w context = true)
    (hc : w.contexts context = some c) :
    rive_renderer_context_submit b n w context =
      if c.commandListsClosed then some (.ok, w.withContext context (nullContextAfterSubmit c))
      else some (.invalid_parameter, SetLastError w "end_frame must be called before submit") := by
  obtain ⟨h0, hd0, d, hd, hb⟩ := (isNullContext_iff w context c hc).1 hnull
  have e1 : rive_renderer_backend_t.null ≠ rive_renderer_backend_t.metal := by decide
  have e2 : rive_renderer_backend_t.null ≠ rive_renderer_backend_t.d3d12 := by decide
  cases hr : c.commandListsClosed <;>
    simp [rive_renderer_context_submit, h0, hc, deviceBackend, hd0, hd, e1, e2, hb, hr,
      nullContextAfterSubmit, World.withContext]

theorem context_create_null (b : Build) (n : ContextCreateNative) (w : World) (device : Ptr)
    (d : DeviceHandle) (width height : Nat) (out : Ptr) (h0 : device ≠ 0)
    (hd : w.devices device = some d) (hb : d.backend = rive_renderer_backend_t.null) :
    rive_renderer_context_create b n w device width height (some out) =
      if !ValidateContextSize width height then
        some ⟨.invalid_parameter, SetLastError w "context dimensions must be non-zero", some out⟩
      else if !n.allocOk then
        some ⟨.out_of_memory, SetLastError w "allocation failed", some out⟩
      else if !assignSucceeds n.assignOk (cpuFramebufferSize width height) then none
      else
        some ⟨.ok,
          ClearLastError (((w.fresh.2).setContext (w.nextPtr + 1)
            (newNullContext device width height)).setDevice device
              { d with ref_count := fetch_add_1 d.ref_count }),
          some (w.nextPtr + 1)⟩ := by
  have e1 : rive_renderer_backend_t.null ≠ rive_renderer_backend_t.metal := by decide
  have e2 : rive_renderer_backend_t.null ≠ rive_renderer_backend_t.d3d12 := by decide
  have e3 : rive_renderer_backend_t.null ≠ rive_renderer_backend_t.vulkan := by decide
  simp only [rive_renderer_context_create, context_create_portable, h0, hd, hb, e1, e2, e3,
    World.fresh, if_false, decide_False, Bool.and_false, Bool.false_eq_true, vector_assign_eq]
  cases assignSucceeds n.assignOk (cpuFramebufferSize width height) <;>
    simp [newNullContext]


theorem context_create_null_world (w : World) (device : Ptr) (d : DeviceHandle)
    (width height : Nat) (h0 : device ≠ 0)
    (hb : d.backend = rive_renderer_backend_t.null) :
    isNullContext (ClearLastError (((w.fresh.2).setContext (w.nextPtr + 1)
        (newNullContext device width height)).setDevice device
          { d with ref_count := fetch_add_1 d.ref_count })) (w.nextPtr + 1) = true ∧
      (ClearLastError (((w.fresh.2).setContext (w.nextPtr + 1)
        (newNullContext device width height)).setDevice device
          { d with ref_count := fetch_add_1 d.ref_count })).contexts (w.nextPtr + 1) =
        some (newNullContext device width height) := by
  have hcn : (ClearLastError (((w.fresh.2).setContext (w.nextPtr + 1)
      (newNullContext device width height)).setDevice device
        { d with ref_count := fetch_add_1 d.ref_count })).contexts (w.nextPtr + 1) =
      some (newNullContext device width height) := by
    simp [ClearLastError, World.setDevice, World.setContext, World.fresh]
  refine ⟨?_, hcn⟩
  rw [isNullContext_iff _ _ _ hcn]
  refine ⟨Nat.succ_ne_zero _, h0, { d with ref_count := fetch_add_1 d.ref_count }, ?_, hb⟩
  simp [ClearLastError, World.setDevice, World.setContext, World.fresh, newNullContext]


theorem frameCycle_run (b : Build) (w : World) (context : Ptr) (c : ContextHandle)
    (a : FrameCycleArgs) (rest : List FrameCall)
    (hnull : isNullContext w context = true) (hc : w.contexts context = some c)
    (hw : 0 < c.width) (hh : 0 < c.height)
    (hfit : beginFrameAssigns a.beginNative c a.options = true) :
    runFrameCalls b context w (frameCycle a ++ rest) =
      (runFrameCalls b context
        (((w.withContext context (nullContextAfterBegin c a.options)).withContext context
          (nullContextAfterEnd (nullContextAfterBegin c a.options))).withContext context
            (nullContextAfterSubmit (nullContextAfterEnd (nullContextAfterBegin c a.options))))
        rest).map (fun r => (.ok :: .ok :: .ok :: r.1, r.2)) := by
  have h1 := begin_frame_null_ok b a.beginNative w context c a.options hnull hc hw hh hfit
  obtain ⟨n1, c1⟩ := isNullContext_withContext w context c (nullContextAfterBegin c a.options)
    hnull hc rfl
  have h2 := end_frame_null b a.endNative _ context _ n1 c1
  obtain ⟨n2, c2⟩ := isNullContext_withContext _ context _
    (nullContextAfterEnd (nullContextAfterBegin c a.options)) n1 c1 rfl
  have h3 := submit_null b a.submitNative _ context _ n2 c2
  rw [if_pos (show (nullContextAfterBegin c a.options).cpuFrameRecording = true from rfl)] at h2
  rw [if_pos (show (nullContextAfterEnd (nullContextAfterBegin c a.options)).commandListsClosed
    = true from rfl)] at h3
  simp only [frameCycle, List.cons_append, List.nil_append, runFrameCalls, FrameCall.run, h1, h2,
    h3, List.append_eq]
  cases runFrameCalls b context _ rest <;> rfl

theorem frameCycles_run (b : Build) (context : Ptr) (cycles : List FrameCycleArgs) :
    ∀ (w : World) (c : ContextHandle) (j : Nat),
      isNullContext w context = true → w.contexts context = some c →
      0 < c.width → 0 < c.height → cyclesAssign c cycles = true →
      c.frameCounter = j + 1 → c.lastCompletedFrame = j → j + cycles.length + 1 < U64 →
      ∃ w1 c1, runFrameCalls b context w (frameCycles cycles) =
          some (List.replicate (3 * cycles.length) .ok, w1) ∧
        isNullContext w1 context = true ∧ w1.contexts context = some c1 ∧
        c1.frameCounter = j + cycles.length + 1 ∧ c1.lastCompletedFrame = j + cycles.length ∧
        (cycles ≠ [] → c1.cpuFrameRecording = false ∧ c1.commandListsClosed = false) ∧
        (cycles = [] → c1 = c) := by
  induction cycles with
  | nil =>
    intro w c j hnull hc _ _ _ hf hl _
    exact ⟨w, c, rfl, hnull, hc, by simpa using hf, by simpa using hl, by simp, fun _ => rfl⟩
  | cons a cycles ih =>
    intro w c j hnull hc hw hh hfit hf hl hbound
    simp only [cyclesAssign, Bool.and_eq_true] at hfit
    have hrun := frameCycle_run b w context c a (frameCycles cycles) hnull hc hw hh hfit.1
    obtain ⟨n1, c1⟩ := isNullContext_withContext w context c (nullContextAfterBegin c a.options)
      hnull hc rfl
    obtain ⟨n2, c2⟩ := isNullContext_withContext _ context _
      (nullContextAfterEnd (nullContextAfterBegin c a.options)) n1 c1 rfl
    obtain ⟨n3, c3⟩ := isNullContext_withContext _ context _
      (nullContextAfterSubmit (nullContextAfterEnd (nullContextAfterBegin c a.options))) n2 c2 rfl
    obtain ⟨pw, ph⟩ := resolvedFrameSize_pos c a.options hw hh
    simp only [List.length_cons] at hbound
    have hmod : (j + 1 + 1) % U64 = j + 1 + 1 := Nat.mod_eq_of_lt (by omega)
    obtain ⟨w1, cf, hr, hn, hcf, hfc, hlc, hflags, _⟩ := ih _ _ (j + 1) n3 c3 pw ph hfit.2
      (by simp [nullContextAfterSubmit, nullContextAfterEnd, nullContextAfterBegin, hf, hmod])
      (by simp [nullContextAfterSubmit, nullContextAfterEnd, nullContextAfterBegin, hf])
      (by omega)
    refine ⟨w1, cf, ?_, hn, hcf, ?_, ?_, ?_, by simp⟩
    · have : frameCycles (a :: cycles) = frameCycle a ++ frameCycles cycles := by
        simp [frameCycles]
      rw [this, hrun, hr]
      simp [List.replicate_succ, Nat.mul_succ]
    · simp only [List.length_cons]; omega
    · simp only [List.length_cons]; omega
    · intro _
      cases cycles with
      | nil =>
        simp only [frameCycles, List.flatMap_nil, runFrameCalls, Option.some.injEq,
          Prod.mk.injEq] at hr
        obtain ⟨_, rfl⟩ := hr
        rw [c3] at hcf
        cases hcf
        simp [nullContextAfterSubmit, nullContextAfterEnd]
      | cons a2 cs => exact hflags (by simp)


theorem cyclesAssign_take (cycles : List FrameCycleArgs) :
    ∀ (c : ContextHandle) (k : Nat), cyclesAssign c cycles = true →
      cyclesAssign c (cycles.take k) = true := by
  induction cycles with
  | nil => intro c k h; simpa using h
  | cons a cycles ih =>
    intro c k h
    cases k with
    | zero => rfl
    | succ k =>
      simp only [cyclesAssign, Bool.and_eq_true, List.take_succ_cons] at h ⊢
      exact ⟨h.1, ih _ k h.2⟩

/-- C1 (counterexample): on a fresh 2 by 2 null-backend context the first `begin_frame`
returns `ok`, and a second `begin_frame` (asking for 3 by 3) made while that frame is
active returns `ok` as well, not `invalid_parameter`, and changes the context's width
and height to 3 while the frame stays active. -/
theorem begin_frame_twice_returns_ok :
    (runFrameCalls windowsBuild 2 sampleWorld
        [.begin_frame {} none, .begin_frame {} (some { width := 3, height := 3 })]).map
      (fun r => (r.1, (r.2.contexts 2).map fun c => (c.width, c.height, c.cpuFrameRecording)))
      = some ([.ok, .ok], some (3, 3, true)) ∧
    sampleContext.width = 2 ∧ sampleContext.height = 2 := by
  decide

/-- C1 (amended): for every null-backend context with an active frame (and non-zero
dimensions), a second `rive_renderer_context_begin_frame` in which
`cpuFramebuffer.assign` does not throw (it succeeds, or is not called because the
framebuffer has the resolved size already) returns `ok`: it stores the resolved frame
size, zeroes the CPU framebuffer, keeps the frame active and leaves the reference count,
the device, `frameCounter` and `lastCompletedFrame` as they were; a following `end_frame`
and then `submit` both return `ok`. -/
theorem begin_frame_during_active_frame (b : Build) (n : BeginFrameNative)
    (ne : EndFrameNative) (ns : SubmitNative) (w : World) (context : Ptr) (c : ContextHandle)
    (options : Option rive_renderer_frame_options_t)
    (hnull : isNullContext w context = true) (hc : w.contexts context = some c)
    (hactive : c.cpuFrameRecording = true) (hw : 0 < c.width) (hh : 0 < c.height)
    (hfit : beginFrameAssigns n c options = true) :
    rive_renderer_context_begin_frame b n w context options =
        some (.ok, w.withContext context (nullContextAfterBegin c options)) ∧
      (nullContextAfterBegin c options).cpuFrameRecording = c.cpuFrameRecording ∧
      (nullContextAfterBegin c options).ref_count = c.ref_count ∧
      (nullContextAfterBegin c options).device = c.device ∧
      (nullContextAfterBegin c options).frameCounter = c.frameCounter ∧
      (nullContextAfterBegin c options).lastCompletedFrame = c.lastCompletedFrame ∧
      rive_renderer_context_end_frame b ne
          (w.withContext context (nullContextAfterBegin c options)) context =
        some (.ok, (w.withContext context (nullContextAfterBegin c options)).withContext context
          (nullContextAfterEnd (nullContextAfterBegin c options))) ∧
      rive_renderer_context_submit b ns
          ((w.withContext context (nullContextAfterBegin c options)).withContext context
            (nullContextAfterEnd (nullContextAfterBegin c options))) context =
        some (.ok, ((w.withContext context (nullContextAfterBegin c options)).withContext context
          (nullContextAfterEnd (nullContextAfterBegin c options))).withContext context
            (nullContextAfterSubmit (nullContextAfterEnd (nullContextAfterBegin c options)))) := by
  have h1 := begin_frame_null_ok b n w context c options hnull hc hw hh hfit
  obtain ⟨n1, c1⟩ := isNullContext_withContext w context c (nullContextAfterBegin c options)
    hnull hc rfl
  have h2 := end_frame_null b ne _ context _ n1 c1
  obtain ⟨n2, c2⟩ := isNullContext_withContext _ context _
    (nullContextAfterEnd (nullContextAfterBegin c options)) n1 c1 rfl
  have h3 := submit_null b ns _ context _ n2 c2
  rw [if_pos (show (nullContextAfterBegin c options).cpuFrameRecording = true from rfl)] at h2
  rw [if_pos (show (nullContextAfterEnd (nullContextAfterBegin c options)).commandListsClosed
    = true from rfl)] at h3
  exact ⟨h1, by rw [hactive]; rfl, rfl, rfl, rfl, rfl, h2, h3⟩

/-- C1 (witness): the amended statement at the context of `sampleActiveWorld`, whose
frame is active, with frame options asking for 3 by 3. -/
theorem begin_frame_during_active_frame_witness :
    isNullContext sampleActiveWorld 2 = true ∧
      sampleActiveWorld.contexts 2 = some sampleActiveContext ∧
      sampleActiveContext.cpuFrameRecording = true ∧
      beginFrameAssigns {} sampleActiveContext (some { width := 3, height := 3 }) = true ∧
      rive_renderer_context_begin_frame windowsBuild {} sampleActiveWorld 2
          (some { width := 3, height := 3 }) =
        some (.ok, sampleActiveWorld.withContext 2
          (nullContextAfterBegin sampleActiveContext (some { width := 3, height := 3 }))) :=
  ⟨by decide, by decide, by decide, by decide,
    (begin_frame_during_active_frame windowsBuild {} {} {} sampleActiveWorld 2
      sampleActiveContext (some { width := 3, height := 3 })
      (by decide) (by decide) (by decide) (by decide) (by decide) (by decide)).1⟩


/-- C2: on every null-backend context, `rive_renderer_context_end_frame` called while
no frame is being recorded and `rive_renderer_context_submit` called while no ended
frame awaits submission return `invalid_parameter` and change nothing but the error
text (so `frameCounter`, `lastCompletedFrame` and the frame flags stay as they were).
The states named by the claim are such states: a context fresh from
`rive_renderer_context_create` rejects both calls; after an `end_frame` that returned
`ok` a second `end_frame` is rejected; during an active frame (after a `begin_frame`
that returned `ok`) `submit` is rejected; after a `submit` that returned `ok` both
calls are rejected. -/
theorem out_of_order_frame_calls_rejected (b : Build) (nb : BeginFrameNative)
    (ne : EndFrameNative) (ns : SubmitNative) (w : World) (context : Ptr) (c : ContextHandle)
    (hnull : isNullContext w context = true) (hc : w.contexts context = some c) :
    (c.cpuFrameRecording = false →
      rive_renderer_context_end_frame b ne w context =
        some (.invalid_parameter,
          SetLastError w "begin_frame must be called before end_frame")) ∧
    (c.commandListsClosed = false →
      rive_renderer_context_submit b ns w context =
        some (.invalid_parameter, SetLastError w "end_frame must be called before submit")) ∧
    (SetLastError w "begin_frame must be called before end_frame").contexts = w.contexts ∧
    (SetLastError w "end_frame must be called before submit").contexts = w.contexts ∧
    (∀ (nc : ContextCreateNative) (w0 : World) (device : Ptr) (d : DeviceHandle)
        (width height out : Nat) (r : CreateResult) (p : Ptr),
      device ≠ 0 → w0.devices device = some d → d.backend = rive_renderer_backend_t.null →
      rive_renderer_context_create b nc w0 device width height (some out) = some r →
      r.status = .ok → r.out = some p →
      rive_renderer_context_end_frame b ne r.world p =
          some (.invalid_parameter,
            SetLastError r.world "begin_frame must be called before end_frame") ∧
        rive_renderer_context_submit b ns r.world p =
          some (.invalid_parameter,
            SetLastError r.world "end_frame must be called before submit")) ∧
    (∀ (ne0 : EndFrameNative) (w1 : World),
      rive_renderer_context_end_frame b ne0 w context = some (.ok, w1) →
      rive_renderer_context_end_frame b ne w1 context =
        some (.invalid_parameter,
          SetLastError w1 "begin_frame must be called before end_frame")) ∧
    (∀ (options : Option rive_renderer_frame_options_t) (w1 : World),
      rive_renderer_context_begin_frame b nb w context options = some (.ok, w1) →
      rive_renderer_context_submit b ns w1 context =
        some (.invalid_parameter, SetLastError w1 "end_frame must be called before submit")) ∧
    (∀ (ns0 : SubmitNative) (w1 : World), frameFlagsConsistent c = true →
      rive_renderer_context_submit b ns0 w context = some (.ok, w1) →
      rive_renderer_context_end_frame b ne w1 context =
          some (.invalid_parameter,
            SetLastError w1 "begin_frame must be called before end_frame") ∧
        rive_renderer_context_submit b ns w1 context =
          some (.invalid_parameter,
            SetLastError w1 "end_frame must be called before submit")) := by
  have hend := end_frame_null b ne w context c hnull hc
  have hsub := submit_null b ns w context c hnull hc
  refine ⟨?_, ?_, rfl, rfl, ?_, ?_, ?_, ?_⟩
  · intro h
    rw [hend, h]
    rfl
  · intro h
    rw [hsub, h]
    rfl
  · intro nc w0 device d width height out r p h0 hd hb hcreate hok hout
    rw [context_create_null b nc w0 device d width height out h0 hd hb] at hcreate
    split_ifs at hcreate with hv ha hfit
    · cases hcreate; cases hok
    · cases hcreate; cases hok
    · cases hcreate
      cases hout
      obtain ⟨hnn, hcn⟩ := context_create_null_world w0 device d width height h0 hb
      refine ⟨?_, ?_⟩
      · rw [end_frame_null b ne _ _ _ hnn hcn]
        rfl
      · rw [submit_null b ns _ _ _ hnn hcn]
        rfl
  · intro ne0 w1 h
    rw [end_frame_null b ne0 w context c hnull hc] at h
    split_ifs at h with hr
    · cases h
      obtain ⟨n1, c1⟩ := isNullContext_withContext w context c (nullContextAfterEnd c)
        hnull hc rfl
      rw [end_frame_null b ne _ context _ n1 c1]
      rfl
    · cases h
  · intro options w1 h
    rw [begin_frame_null b nb w context c options hnull hc] at h
    split_ifs at h with hv hfit
    · cases h
      obtain ⟨n1, c1⟩ := isNullContext_withContext w context c (nullContextAfterBegin c options)
        hnull hc rfl
      rw [submit_null b ns _ context _ n1 c1]
      rfl
    · cases h
  · intro ns0 w1 hcons h
    rw [submit_null b ns0 w context c hnull hc] at h
    split_ifs at h with hr
    · cases h
      obtain ⟨n1, c1⟩ := isNullContext_withContext w context c (nullContextAfterSubmit c)
        hnull hc rfl
      have hrec : (nullContextAfterSubmit c).cpuFrameRecording = false := by
        simp only [frameFlagsConsistent, hr, Bool.and_true, Bool.not_eq_true'] at hcons
        simpa [nullContextAfterSubmit] using hcons
      refine ⟨?_, ?_⟩
      · rw [end_frame_null b ne _ context _ n1 c1, hrec]
        rfl
      · rw [submit_null b ns _ context _ n1 c1]
        rfl
    · cases h


/-- C2 (witness): the statement at the fresh context of `sampleWorld`, where both calls
are rejected. -/
theorem out_of_order_frame_calls_rejected_witness :
    isNullContext sampleWorld 2 = true ∧ sampleWorld.contexts 2 = some sampleContext ∧
      sampleContext.cpuFrameRecording = false ∧ sampleContext.commandListsClosed = false ∧
      rive_renderer_context_end_frame windowsBuild {} sampleWorld 2 =
        some (.invalid_parameter,
          SetLastError sampleWorld "begin_frame must be called before end_frame") ∧
      rive_renderer_context_submit windowsBuild {} sampleWorld 2 =
        some (.invalid_parameter,
          SetLastError sampleWorld "end_frame must be called before submit") :=
  ⟨by decide, by decide, by decide, by decide,
    (out_of_order_frame_calls_rejected windowsBuild {} {} {} sampleWorld 2 sampleContext
      (by decide) (by decide)).1 (by decide),
    (out_of_order_frame_calls_rejected windowsBuild {} {} {} sampleWorld 2 sampleContext
      (by decide) (by decide)).2.1 (by decide)⟩

/-- C3 (counterexample): on the fresh 2 by 2 null-backend context of `sampleWorld`, one
frame cycle whose frame options ask for 4294967295 by 4294967295 does not return `ok` at
its first call. `begin_frame` stores that size and calls `cpuFramebuffer.assign` with the
count `2 ^ 64 - 2 ^ 35 + 4`, which is above `max_size()`: the call throws
`std::length_error` whatever the allocator does, no status is returned, and the context
is left with the new size and a framebuffer that does not match it. -/
theorem frame_cycle_assign_throws :
    rive_renderer_context_create windowsBuild {} sampleDeviceWorld 1 2 2 (some 0) =
      some ⟨.ok, sampleWorld, some 2⟩ ∧
    runFrameCalls windowsBuild 2 sampleWorld
        (frameCycles [{ options := some { width := 4294967295, height := 4294967295 } }]) =
      none ∧
    (context_begin_frame_thrown windowsBuild {} sampleWorld 2
        (some { width := 4294967295, height := 4294967295 })).map
        (fun w1 => (w1.contexts 2).map
          fun c => (c.width, c.height, c.cpuFramebuffer.length)) =
      some (some (4294967295, 4294967295, 16)) ∧
    cpuFramebufferSize 4294967295 4294967295 = 2 ^ 64 - 2 ^ 35 + 4 ∧
    VECTOR_MAX_SIZE < 2 ^ 64 - 2 ^ 35 + 4 := by
  refine ⟨rfl, rfl, by decide, by decide, by decide⟩

/-- C3 (amended): for every context freshly created (with `ok`) on a device of the null
backend and every list of fewer than `2 ^ 64 - 1` frame cycles (any frame options) in
which no `cpuFramebuffer.assign` of a `begin_frame` throws, every prefix of `k` cycles
returns `ok` at each of its `3 * k` calls and leaves `lastCompletedFrame = k` and
`frameCounter = k + 1`: each `submit` raises the completed-frame counter by exactly
one. -/
theorem frame_cycles_return_ok (b : Build) (nc : ContextCreateNative) (w0 w : World)
    (device context : Ptr) (d : DeviceHandle) (width height out : Nat)
    (cycles : List FrameCycleArgs) (k : Nat)
    (h0 : device ≠ 0) (hd : w0.devices device = some d)
    (hb : d.backend = rive_renderer_backend_t.null)
    (hcreate : rive_renderer_context_create b nc w0 device width height (some out) =
      some ⟨.ok, w, some context⟩)
    (hfit : cyclesAssign (newNullContext device width height) cycles = true)
    (hn : cycles.length < 2 ^ 64 - 1) (hk : k ≤ cycles.length) :
    (runFrameCalls b context w (frameCycles (cycles.take k))).map
        (fun r => (r.1, (r.2.contexts context).map
          fun c => (c.lastCompletedFrame, c.frameCounter))) =
      some (List.replicate (3 * k) .ok, some (k, k + 1)) := by
  rw [context_create_null b nc w0 device d width height out h0 hd hb] at hcreate
  split_ifs at hcreate with hv ha
  · cases hcreate
  · cases hcreate
  · simp only [Option.some.injEq, CreateResult.mk.injEq, true_and] at hcreate
    obtain ⟨hw, hctx⟩ := hcreate
    subst hw hctx
    obtain ⟨hnn, hcn⟩ := context_create_null_world w0 device d width height h0 hb
    have hpos : 0 < width ∧ 0 < height := by
      simpa [ValidateContextSize, Nat.pos_iff_ne_zero] using hv
    have hlen : (cycles.take k).length = k := by simp [hk]
    obtain ⟨w1, c1, hr, _, hc1, hf, hl, _, _⟩ :=
      frameCycles_run b (w0.nextPtr + 1) (cycles.take k) _ _ 0 hnn hcn hpos.1 hpos.2
        (cyclesAssign_take cycles _ k hfit) rfl rfl
        (by rw [hlen]; simp only [U64]; omega)
    rw [hr, hlen] at *
    simp [hc1, hf, hl]


/-- C3 (witness): three frame cycles on the 128 by 128 context of the self test. -/
theorem frame_cycles_return_ok_witness :
    sampleDeviceWorld.devices 1 = some sampleDevice ∧
      sampleDevice.backend = rive_renderer_backend_t.null ∧
      sampleDevice.ref_count = 1 ∧
      rive_renderer_context_create windowsBuild {} sampleDeviceWorld 1 128 128 (some 0) =
        some ⟨.ok, selfTestWorld, some 2⟩ ∧
      cyclesAssign (newNullContext 1 128 128) [selfTestCycle, selfTestCycle, selfTestCycle] =
        true ∧
      (runFrameCalls windowsBuild 2 selfTestWorld
          (frameCycles ([selfTestCycle, selfTestCycle, selfTestCycle].take 3))).map
        (fun r => (r.1, (r.2.contexts 2).map
          fun c => (c.lastCompletedFrame, c.frameCounter))) =
      some (List.replicate (3 * 3) .ok, some (3, 3 + 1)) :=
  ⟨by decide, by decide, by decide, rfl, by decide,
    frame_cycles_return_ok windowsBuild {} sampleDeviceWorld selfTestWorld 1 2 sampleDevice
      128 128 0
      [selfTestCycle, selfTestCycle, selfTestCycle] 3 (by decide) (by decide) (by decide) rfl
      (by decide) (by decide) (by decide)⟩

theorem frameFlagsConsistent_preserved (b : Build) (call : FrameCall) (w w1 : World)
    (context : Ptr) (c : ContextHandle) (status : rive_renderer_status_t)
    (hnull : isNullContext w context = true) (hc : w.contexts context = some c)
    (hcons : frameFlagsConsistent c = true) (hrun : call.run b w context = some (status, w1)) :
    isNullContext w1 context = true ∧
      ∃ c1, w1.contexts context = some c1 ∧ frameFlagsConsistent c1 = true := by
  cases call with
  | begin_frame n options =>
    simp only [FrameCall.run, begin_frame_null b n w context c options hnull hc] at hrun
    split_ifs at hrun
    · cases hrun
      obtain ⟨n1, c1⟩ := isNullContext_withContext w context c (nullContextAfterBegin c options)
        hnull hc rfl
      exact ⟨n1, _, c1, rfl⟩
    · cases hrun
      exact ⟨hnull, c, hc, hcons⟩
  | end_frame n =>
    simp only [FrameCall.run, end_frame_null b n w context c hnull hc] at hrun
    split_ifs at hrun
    · cases hrun
      obtain ⟨n1, c1⟩ := isNullContext_withContext w context c (nullContextAfterEnd c)
        hnull hc rfl
      exact ⟨n1, _, c1, rfl⟩
    · cases hrun
      exact ⟨hnull, c, hc, hcons⟩
  | submit n =>
    simp only [FrameCall.run, submit_null b n w context c hnull hc] at hrun
    split_ifs at hrun
    · cases hrun
      obtain ⟨n1, c1⟩ := isNullContext_withContext w context c (nullContextAfterSubmit c)
        hnull hc rfl
      refine ⟨n1, _, c1, ?_⟩
      simp [frameFlagsConsistent, nullContextAfterSubmit]
    · cases hrun
      exact ⟨hnull, c, hc, hcons⟩


theorem createdDevice_fresh (w1 : World) (d : DeviceHandle) (hd : d.ref_count = 1) :
    createdDevice ⟨.ok, ClearLastError (w1.fresh.2.setDevice w1.fresh.1 d), some w1.fresh.1⟩
      = true := by
  simp [createdDevice, ClearLastError, World.setDevice, World.fresh, hd]

theorem device_create_d3d12_ok (n : DeviceCreateNative) (w : World)
    (i : rive_renderer_device_create_info_t) (out_device : Option Ptr) (r : CreateResult)
    (h : device_create_d3d12 n w i out_device = some r) (hok : r.status = .ok) :
    createdDevice r = true := by
  unfold device_create_d3d12 at h
  simp only at h
  split_ifs at h
  all_goals first
    | (cases h; cases hok)
    | skip
  · cases h; exact absurd hok ‹_›
  · cases out_device with
    | none => cases h
    | some o =>
      cases h
      exact createdDevice_fresh _ _ rfl

theorem device_create_metal_ok (b : Build) (n : DeviceCreateNative) (w : World)
    (out_device : Option Ptr) (r : CreateResult)
    (h : device_create_metal b n w out_device = some r) (hok : r.status = .ok) :
    createdDevice r = true := by
  unfold device_create_metal at h
  simp only at h
  split_ifs at h
  all_goals first
    | (cases h; cases hok)
    | skip
  cases out_device with
  | none => cases h
  | some o =>
    cases h
    cases n.metalError <;>
      simp [createdDevice, ClearLastError, World.setDevice, World.fresh, SetLastError]

theorem device_create_portable_ok (n : DeviceCreateNative) (w : World)
    (info : Option rive_renderer_device_create_info_t) (out_device : Option Ptr)
    (r : CreateResult) (h : device_create_portable n w info out_device = some r)
    (hok : r.status = .ok) :
    createdDevice r = true := by
  unfold device_create_portable at h
  split at h
  · split_ifs at h <;> cases h <;> first
      | exact createdDevice_fresh _ _ rfl
      | cases hok
  · cases h; cases hok

theorem device_create_ok (b : Build) (n : DeviceCreateNative) (w : World)
    (info : Option rive_renderer_device_create_info_t) (out_device : Option Ptr)
    (r : CreateResult) (h : rive_renderer_device_create b n w info out_device = some r)
    (hok : r.status = .ok) :
    createdDevice r = true := by
  unfold rive_renderer_device_create at h
  cases info with
  | none => exact device_create_portable_ok n w _ _ r h hok
  | some i =>
    simp only at h
    split_ifs at h
    · exact device_create_d3d12_ok n w i _ r h hok
    · exact device_create_metal_ok b n w _ r h hok
    · exact device_create_portable_ok n w _ _ r h hok


theorem keepsCountLive_net (calls : List RefCall) :
    ∀ count : Nat, 1 ≤ count → keepsCountLive count calls = true →
      releases calls + 1 ≤ count + retains calls := by
  induction calls with
  | nil => intro count h _; simpa [releases, retains] using h
  | cons call calls ih =>
    intro count hpos hlive
    cases call with
    | retain =>
      simp only [keepsCountLive, Bool.and_eq_true, decide_eq_true_eq] at hlive
      have := ih (count + 1) (by omega) hlive.2
      simp only [releases, retains, List.count_cons] at this ⊢
      simp
      omega
    | release =>
      simp only [keepsCountLive, Bool.and_eq_true, decide_eq_true_eq] at hlive
      have := ih (count - 1) (by omega) hlive.2
      simp only [releases, retains, List.count_cons] at this ⊢
      simp
      omega

theorem fetch_add_1_eq (count : Nat) (h : count + 1 < 2 ^ 32) :
    fetch_add_1 count = count + 1 := by
  simp only [fetch_add_1, U32]
  exact Nat.mod_eq_of_lt h

theorem fetch_sub_1_eq (count : Nat) (h1 : 1 ≤ count) (h : count < 2 ^ 32) :
    fetch_sub_1 count = count - 1 := by
  simp only [fetch_sub_1, U32]
  have : count + 2 ^ 32 - 1 = (count - 1) + 2 ^ 32 := by omega
  rw [this, Nat.add_mod_right]
  exact Nat.mod_eq_of_lt (by omega)

theorem device_calls_keep_alive (b : Build) (device : Ptr) (h0 : device ≠ 0)
    (calls : List RefCall) :
    ∀ (w : World) (h : DeviceHandle), w.devices device = some h → 1 ≤ h.ref_count →
      h.ref_count < 2 ^ 32 → keepsCountLive h.ref_count calls = true →
      ∃ w1, runCalls (RefCall.runDevice b device) w calls =
          some (List.replicate calls.length .ok, w1) ∧
        w1.devices device =
          some { h with ref_count := h.ref_count + retains calls - releases calls } ∧
        w1.deleted = w.deleted ∧ w1.nativeCalls = w.nativeCalls := by
  induction calls with
  | nil =>
    intro w h hd _ _ _
    exact ⟨w, rfl, by simpa [retains, releases] using hd, rfl, rfl⟩
  | cons call calls ih =>
    intro w h hd hpos hlt hlive
    cases call with
    | retain =>
      simp only [keepsCountLive, Bool.and_eq_true, decide_eq_true_eq] at hlive
      have hadd := fetch_add_1_eq h.ref_count hlive.1
      obtain ⟨w1, hr, hd1, hdel, hnat⟩ := ih
        (ClearLastError (w.setDevice device { h with ref_count := h.ref_count + 1 }))
        { h with ref_count := h.ref_count + 1 }
        (by simp [ClearLastError, World.setDevice]) (by simp) hlive.1 hlive.2
      refine ⟨w1, ?_, ?_, ?_, ?_⟩
      · simp only [runCalls, RefCall.runDevice, rive_renderer_device_retain, if_neg h0, hd, hadd,
          hr, List.length_cons, List.replicate_succ]
      · rw [hd1]
        have := keepsCountLive_net calls (h.ref_count + 1) (by omega) hlive.2
        simp only [retains, releases, List.count_cons] at this ⊢
        simp
        omega
      · rw [hdel]; rfl
      · rw [hnat]; rfl
    | release =>
      simp only [keepsCountLive, Bool.and_eq_true, decide_eq_true_eq] at hlive
      have hsub := fetch_sub_1_eq h.ref_count hpos hlt
      have hp0 : h.ref_count ≠ 0 := by omega
      have hp1 : h.ref_count ≠ 1 := by omega
      obtain ⟨w1, hr, hd1, hdel, hnat⟩ := ih
        (ClearLastError (w.setDevice device { h with ref_count := h.ref_count - 1 }))
        { h with ref_count := h.ref_count - 1 }
        (by simp [ClearLastError, World.setDevice]) (by simp; omega) (by simp; omega) hlive.2
      refine ⟨w1, ?_, ?_, ?_, ?_⟩
      · simp only [runCalls, RefCall.runDevice, rive_renderer_device_release, if_neg h0, hd, hsub,
          hr, List.length_cons, List.replicate_succ, if_neg hp0, if_neg hp1]
      · rw [hd1]
        have := keepsCountLive_net calls (h.ref_count - 1) (by omega) hlive.2
        simp only [retains, releases, List.count_cons] at this ⊢
        simp
        omega
      · rw [hdel]; rfl
      · rw [hnat]; rfl

theorem device_final_release (b : Build) (device : Ptr) (h0 : device ≠ 0) (w : World)
    (h : DeviceHandle) (hd : w.devices device = some h) (hc : h.ref_count = 1) :
    rive_renderer_device_release b w device =
        some (.ok, ClearLastError (destroyDevice b true
          (w.setDevice device { h with ref_count := 0 }) device { h with ref_count := 0 })) ∧
      (ClearLastError (destroyDevice b true
          (w.setDevice device { h with ref_count := 0 }) device
            { h with ref_count := 0 })).devices device = none ∧
      (ClearLastError (destroyDevice b true
          (w.setDevice device { h with ref_count := 0 }) device
            { h with ref_count := 0 })).deleted = device :: w.deleted := by
  have hsub : fetch_sub_1 1 = 0 := by decide
  refine ⟨?_, ?_, ?_⟩
  · simp only [rive_renderer_device_release, if_neg h0, hd, hc, hsub]
    simp
  · simp only [ClearLastError, destroyDevice, World.deleteDevice]
    split_ifs <;> simp [World.native, World.setDevice]
  · simp only [ClearLastError, destroyDevice, World.deleteDevice]
    split_ifs <;> simp [World.native, World.setDevice]

theorem runCalls_append {α : Type}
    (step : World → α → Option (rive_renderer_status_t × World)) (calls1 calls2 : List α) :
    ∀ (w w1 : World) (statuses : List rive_renderer_status_t),
      runCalls step w calls1 = some (statuses, w1) →
      runCalls step w (calls1 ++ calls2) =
        (runCalls step w1 calls2).map (fun r => (statuses ++ r.1, r.2)) := by
  induction calls1 with
  | nil =>
    intro w w1 statuses h
    simp only [runCalls, Option.some.injEq, Prod.mk.injEq] at h
    obtain ⟨rfl, rfl⟩ := h
    cases hr : runCalls step w calls2 <;> simp [hr]
  | cons call calls1 ih =>
    intro w w1 statuses h
    simp only [runCalls, List.cons_append, List.append_eq] at h ⊢
    cases hs : step w call with
    | none => simp [hs] at h
    | some r =>
      obtain ⟨status, w2⟩ := r
      simp only [hs] at h ⊢
      cases hr : runCalls step w2 calls1 with
      | none => simp [hr] at h
      | some r2 =>
        obtain ⟨statuses2, w3⟩ := r2
        simp only [hr, Option.some.injEq, Prod.mk.injEq] at h
        obtain ⟨rfl, rfl⟩ := h
        rw [ih w2 w3 statuses2 hr]
        cases runCalls step w3 calls2 <;> simp


/-- C4: a device returned by a successful `rive_renderer_device_create` has reference
count 1; every sequence of `rive_renderer_device_retain` / `rive_renderer_device_release`
calls that keeps the count at least 1 and below `2 ^ 32` returns `ok` at every call,
deletes nothing and leaves the device alive with count `1 + retains - releases` (never
below 1); when that count is back at 1, one further release returns `ok`, removes the
device and adds exactly one entry, the device, to the deleted addresses. -/
theorem device_refcount_lifecycle (b : Build) (n : DeviceCreateNative) (w0 w : World)
    (info : Option rive_renderer_device_create_info_t) (out_device : Option Ptr)
    (device : Ptr) (calls : List RefCall)
    (hcreate : rive_renderer_device_create b n w0 info out_device =
      some ⟨.ok, w, some device⟩)
    (hlive : keepsCountLive 1 calls = true) :
    (w.devices device).map (·.ref_count) = some 1 ∧
      (runCalls (RefCall.runDevice b device) w calls).map
          (fun r => (r.1, (r.2.devices device).map (·.ref_count), r.2.deleted)) =
        some (List.replicate calls.length .ok, some (1 + retains calls - releases calls),
          w.deleted) ∧
      releases calls ≤ retains calls ∧
      (retains calls = releases calls →
        (runCalls (RefCall.runDevice b device) w (calls ++ [.release])).map
            (fun r => (r.1, r.2.devices device, r.2.deleted)) =
          some (List.replicate (calls.length + 1) .ok, none, device :: w.deleted)) := by
  have hc := device_create_ok b n w0 info out_device _ hcreate rfl
  simp only [createdDevice, Bool.and_eq_true, decide_eq_true_eq, Option.some.injEq] at hc
  obtain ⟨⟨hout, hne⟩, hcount⟩ := hc
  rw [← hout] at hne hcount
  cases hd : w.devices device with
  | none => simp [hd] at hcount
  | some h =>
    have h1 : h.ref_count = 1 := by simpa [hd] using hcount
    obtain ⟨w1, hr, hd1, hdel, _⟩ := device_calls_keep_alive b device hne calls w h hd
      (by omega) (by omega) (by rw [h1]; exact hlive)
    have hnet := keepsCountLive_net calls 1 (by omega) hlive
    refine ⟨by simp [h1], ?_, by omega, ?_⟩
    · simp [hr, hd1, hdel, h1]
    · intro heq
      rw [runCalls_append _ calls [.release] w w1 _ hr]
      have hone : h.ref_count + retains calls - releases calls = 1 := by omega
      rw [hone] at hd1
      obtain ⟨hrel, hnone, hdeleted⟩ := device_final_release b device hne w1 _ hd1 rfl
      simp only [runCalls, RefCall.runDevice, hrel, Option.map_some', hnone, hdeleted, hdel]
      simp [List.replicate_succ']

/-- C4 (witness): the null device of `sampleDeviceWorld` with two retains and two
releases, then the final release. -/
theorem device_refcount_lifecycle_witness :
    rive_renderer_device_create windowsBuild {} {} (some nullInfo) (some 0) =
        some ⟨.ok, sampleDeviceWorld, some 1⟩ ∧
      keepsCountLive 1 [.retain, .retain, .release, .release] = true ∧
      (sampleDeviceWorld.devices 1).map (·.ref_count) = some 1 ∧
      (runCalls (RefCall.runDevice windowsBuild 1) sampleDeviceWorld
          ([.retain, .retain, .release, .release] ++ [.release])).map
            (fun r => (r.1, r.2.devices 1, r.2.deleted)) =
          some (List.replicate (4 + 1) .ok, none, 1 :: sampleDeviceWorld.deleted) :=
  ⟨rfl, by decide,
    (device_refcount_lifecycle windowsBuild {} {} sampleDeviceWorld (some nullInfo) (some 0) 1
      [.retain, .retain, .release, .release] rfl (by decide)).1,
    (device_refcount_lifecycle windowsBuild {} {} sampleDeviceWorld (some nullInfo) (some 0) 1
      [.retain, .retain, .release, .release] rfl (by decide)).2.2.2 (by decide)⟩


theorem populate_wellFormed (dxgi : Dxgi) (w : World) :
    adapterCacheWellFormed (PopulateD3D12AdaptersLocked dxgi w).2 = true := by
  unfold PopulateD3D12AdaptersLocked adapterCacheWellFormed
  split_ifs
  · simp [SetLastError]
  · simp only [List.all_eq_true, List.mem_filterMap, decide_eq_true_eq]
    rintro r ⟨a, _, ha⟩
    unfold MakeD3D12AdapterRecord at ha
    split_ifs at ha
    cases ha
    rfl

theorem ensure_wellFormed (dxgi : Dxgi) (w : World) (h : adapterCacheWellFormed w = true) :
    adapterCacheWellFormed (EnsureD3D12Adapters dxgi w).2 = true := by
  unfold EnsureD3D12Adapters
  split_ifs
  · exact populate_wellFormed dxgi w
  · exact h

theorem ensure_status (dxgi : Dxgi) (w : World)
    (h : (!w.g_d3d12Adapters.isEmpty || dxgi.factoryOk) = true) :
    (EnsureD3D12Adapters dxgi w).1 = .ok := by
  unfold EnsureD3D12Adapters PopulateD3D12AdaptersLocked
  cases he : w.g_d3d12Adapters.isEmpty <;> cases hf : dxgi.factoryOk <;> simp_all

theorem set_after_front {α : Type} (l buf : List α) (x : α) (h : l.length < buf.length) :
    (l ++ buf.drop l.length).set l.length x = (l ++ [x]) ++ buf.drop (l.length + 1) := by
  rw [List.set_append_right _ _ (Nat.le_refl _), Nat.sub_self, List.drop_eq_getElem_cons h]
  simp only [List.set_cons_zero, List.append_assoc, List.singleton_append]

theorem enumerate_adapters_ok (b : Build) (dxgi : Dxgi) (w : World)
    (adapters : Option (List rive_renderer_adapter_desc_t)) (capacity c : Nat)
    (hdisc : discoverySucceeds b dxgi w = true)
    (hroom : ∀ buf, adapters = some buf →
      min capacity (fullAdapterList b dxgi w).length ≤ buf.length) :
    rive_renderer_enumerate_adapters b dxgi w adapters capacity (some c) =
      some ⟨.ok, ClearLastError (worldAfterDiscovery b dxgi w),
        adapters.map (fun buf => bufferAfterCopy (fullAdapterList b dxgi w) buf
          (min capacity (fullAdapterList b dxgi w).length)),
        some (fullAdapterList b dxgi w).length⟩ := by
  cases hwin : b.win32
  · -- portable branch
    have hfull : fullAdapterList b dxgi w =
        (if b.apple then [MakeMetalAdapter] else []) ++ [MakeNullAdapter] := by
      simp [fullAdapterList, hwin]
    have hworld : worldAfterDiscovery b dxgi w = w := by simp [worldAfterDiscovery, hwin]
    rw [hworld]
    simp only [rive_renderer_enumerate_adapters, hwin, Bool.false_eq_true, if_false]
    rw [← hfull]
    cases adapters with
    | none => rfl
    | some buf =>
      have hr := hroom buf rfl
      by_cases hcap : capacity > 0
      · have hmin : (if capacity < (fullAdapterList b dxgi w).length then capacity
            else (fullAdapterList b dxgi w).length) =
            min capacity (fullAdapterList b dxgi w).length := by
          split_ifs <;> omega
        simp only [hcap, if_true, hmin, copyEntries, if_pos hr, Option.map_some',
          bufferAfterCopy]
      · have h0 : capacity = 0 := by omega
        subst h0
        simp [bufferAfterCopy]
  · -- D3D12 branch
    have hst : (EnsureD3D12Adapters dxgi w).1 = .ok := by
      apply ensure_status
      simpa [discoverySucceeds, hwin] using hdisc
    have hworld : worldAfterDiscovery b dxgi w = (EnsureD3D12Adapters dxgi w).2 := by
      simp [worldAfterDiscovery, hwin]
    have hfull : fullAdapterList b dxgi w =
        (EnsureD3D12Adapters dxgi w).2.g_d3d12Adapters.map (·.desc) ++ [MakeNullAdapter] := by
      simp [fullAdapterList, hwin, hworld]
    have hlen : (fullAdapterList b dxgi w).length =
        (EnsureD3D12Adapters dxgi w).2.g_d3d12Adapters.length + 1 := by
      simp [hfull]
    rw [hworld]
    simp only [rive_renderer_enumerate_adapters, hwin, if_true]
    rcases he : EnsureD3D12Adapters dxgi w with ⟨status, w1⟩
    rw [he] at hst hfull hlen
    simp only at hst hfull hlen
    subst hst
    have hlen2 : (List.map (·.desc) w1.g_d3d12Adapters ++ [MakeNullAdapter]).length =
        w1.g_d3d12Adapters.length + 1 := by simp
    simp only [ne_eq, not_true_eq_false, if_false]
    cases adapters with
    | none => simp [hlen]
    | some buf =>
      have hr := hroom buf rfl
      rw [hlen] at hr
      by_cases hcap : capacity > 0
      · simp only [hcap, if_true]
        by_cases hbig : capacity > w1.g_d3d12Adapters.length
        · have hmin : min capacity w1.g_d3d12Adapters.length = w1.g_d3d12Adapters.length := by
            omega
          have hmin2 : min capacity (w1.g_d3d12Adapters.length + 1) =
              w1.g_d3d12Adapters.length + 1 := by omega
          rw [hmin2] at hr
          have hle : w1.g_d3d12Adapters.length ≤ buf.length := by omega
          have hlm : (List.map (·.desc) w1.g_d3d12Adapters).length =
              w1.g_d3d12Adapters.length := by simp
          have hset := set_after_front (List.map (·.desc) w1.g_d3d12Adapters) buf
            MakeNullAdapter (by rw [hlm]; omega)
          rw [hlm] at hset
          simp only [hmin, copyEntries, if_pos hle, hbig, if_true, storeEntry]
          have htake : List.take w1.g_d3d12Adapters.length
              (List.map (·.desc) w1.g_d3d12Adapters) =
              List.map (·.desc) w1.g_d3d12Adapters := by
            rw [← hlm, List.take_length]
          rw [htake]
          have hlt : w1.g_d3d12Adapters.length <
              (List.map (·.desc) w1.g_d3d12Adapters ++
                List.drop w1.g_d3d12Adapters.length buf).length := by
            simp
            omega
          simp only [if_pos hlt, hset, Option.map_some', bufferAfterCopy, hfull, hlen2, hmin2]
          have : List.take (w1.g_d3d12Adapters.length + 1)
              (List.map (·.desc) w1.g_d3d12Adapters ++ [MakeNullAdapter]) =
              List.map (·.desc) w1.g_d3d12Adapters ++ [MakeNullAdapter] := by
            apply List.take_of_length_le
            simp
          rw [this]
        · have hmin : min capacity w1.g_d3d12Adapters.length = capacity := by omega
          have hmin2 : min capacity (w1.g_d3d12Adapters.length + 1) = capacity := by omega
          rw [hmin2] at hr
          simp only [hmin, copyEntries, if_pos hr, hbig, if_false, Option.map_some',
            bufferAfterCopy, hfull, hlen2, hmin2, gt_iff_lt, Nat.lt_irrefl]
          have : List.take capacity
              (List.map (·.desc) w1.g_d3d12Adapters ++ [MakeNullAdapter]) =
              List.take capacity (List.map (·.desc) w1.g_d3d12Adapters) := by
            apply List.take_append_of_le_length
            simp
            omega
          rw [this]
      · have h0 : capacity = 0 := by omega
        subst h0
        simp [bufferAfterCopy, hlen]


theorem hardware_not_null (b : Build) (dxgi : Dxgi) (w : World)
    (hcache : adapterCacheWellFormed w = true) :
    ((fullAdapterList b dxgi w).take ((fullAdapterList b dxgi w).length - 1)).all
      (fun e => decide (e.backend ≠ rive_renderer_backend_t.null)) = true := by
  have hdrop : ∀ l : List rive_renderer_adapter_desc_t,
      (l ++ [MakeNullAdapter]).take ((l ++ [MakeNullAdapter]).length - 1) = l := by
    intro l
    simp
  unfold fullAdapterList
  rw [hdrop]
  cases hwin : b.win32
  · cases b.apple
    · simp
    · simp; decide
  · have hw := ensure_wellFormed dxgi w hcache
    simp only [if_true, worldAfterDiscovery, hwin, List.all_eq_true, List.mem_map,
      decide_eq_true_eq]
    simp only [adapterCacheWellFormed, List.all_eq_true, decide_eq_true_eq] at hw
    rintro e ⟨r, hr, rfl⟩
    rw [hw r hr]
    decide

/-- C5 (counterexample): in a Windows build whose adapter cache is empty and where
`CreateDXGIFactory1` fails, `rive_renderer_enumerate_adapters` called with a non-null
`count` (holding 0), a null buffer and capacity 0 returns `internal_error`, not `ok`,
and leaves `*count` at 0. -/
theorem enumerate_adapters_discovery_failure :
    (rive_renderer_enumerate_adapters windowsBuild { factoryOk := false } {} none 0
        (some 0)).map (fun r => (r.status, r.count)) =
      some (.internal_error, some 0) := by
  decide

/-- C5 (amended): whenever adapter discovery succeeds (always outside a Windows build; in
a Windows build when the adapter cache is populated or `CreateDXGIFactory1` succeeds),
`rive_renderer_enumerate_adapters` with a non-null `count` returns `ok` and stores a
count of at least 1; when the buffer holds at least that many entries (and `capacity`
says so), the entry at index `count - 1` is the synthetic null adapter (backend null,
name "Null Renderer") and no entry at a smaller index has the null backend. The adapter
cache is taken to hold D3D12 records only, as `PopulateD3D12AdaptersLocked` leaves it. -/
theorem enumerate_adapters_null_adapter_last (b : Build) (dxgi : Dxgi) (w : World)
    (adapters : Option (List rive_renderer_adapter_desc_t)) (capacity c : Nat)
    (hcache : adapterCacheWellFormed w = true)
    (hdisc : discoverySucceeds b dxgi w = true)
    (hroom : ∀ buf, adapters = some buf →
      min capacity (fullAdapterList b dxgi w).length ≤ buf.length) :
    (rive_renderer_enumerate_adapters b dxgi w adapters capacity (some c)).map
        (fun r => (r.status, r.count)) =
      some (.ok, some (fullAdapterList b dxgi w).length) ∧
    1 ≤ (fullAdapterList b dxgi w).length ∧
    (∀ buf, adapters = some buf → (fullAdapterList b dxgi w).length ≤ capacity →
      (rive_renderer_enumerate_adapters b dxgi w adapters capacity (some c)).map
          (fun r => r.adapters.map fun out =>
            (out.get? ((fullAdapterList b dxgi w).length - 1),
              (out.take ((fullAdapterList b dxgi w).length - 1)).all
                fun e => decide (e.backend ≠ rive_renderer_backend_t.null))) =
        some (some (some MakeNullAdapter, true))) ∧
    MakeNullAdapter.backend = rive_renderer_backend_t.null ∧
    MakeNullAdapter.name = "Null Renderer" := by
  have hmain := enumerate_adapters_ok b dxgi w adapters capacity c hdisc hroom
  have hlen : 1 ≤ (fullAdapterList b dxgi w).length := by simp [fullAdapterList]
  refine ⟨by rw [hmain]; rfl, hlen, ?_, rfl, rfl⟩
  intro buf hbuf hcap
  subst hbuf
  rw [hmain]
  have hmin : min capacity (fullAdapterList b dxgi w).length =
      (fullAdapterList b dxgi w).length := by omega
  have hhw := hardware_not_null b dxgi w hcache
  have hlast : (fullAdapterList b dxgi w).get? ((fullAdapterList b dxgi w).length - 1) =
      some MakeNullAdapter := by
    simp [fullAdapterList]
  simp only [Option.map_some', bufferAfterCopy, hmin, List.take_length]
  rw [List.take_append_of_le_length (by omega), hhw]
  simp only [List.get?_eq_getElem?] at hlast ⊢
  rw [List.getElem?_append_left (by omega), hlast]

/-- C5 (witness): a Windows build with one hardware adapter found and a buffer of two
entries. -/
theorem enumerate_adapters_null_adapter_last_witness :
    adapterCacheWellFormed {} = true ∧
      discoverySucceeds windowsBuild { adapters := [{ Description := "GPU" }] } {} = true ∧
      (rive_renderer_enumerate_adapters windowsBuild { adapters := [{ Description := "GPU" }] }
          {} (some [{}, {}]) 2 (some 0)).map (fun r => (r.status, r.count)) =
        some (.ok, some
          (fullAdapterList windowsBuild { adapters := [{ Description := "GPU" }] } {}).length) ∧
      (fullAdapterList windowsBuild { adapters := [{ Description := "GPU" }] } {}).length = 2 :=
  ⟨by decide, by decide,
    (enumerate_adapters_null_adapter_last windowsBuild { adapters := [{ Description := "GPU" }] }
      {} (some [{}, {}]) 2 0 (by decide) (by decide)
      (by intro buf h; cases h; decide)).1,
    by decide⟩

/-- C6 (counterexample): in a Windows build whose adapter cache is empty and where
`CreateDXGIFactory1` fails, `rive_renderer_enumerate_adapters` called with capacity 2, a
buffer of two entries and a `count` cell holding 7 returns `internal_error` and leaves
the 7 in `*count`: no adapter total is stored (a total is at least 1 and here would be
1). -/
theorem enumerate_adapters_failure_keeps_count :
    (rive_renderer_enumerate_adapters windowsBuild { factoryOk := false } {}
        (some [{ name := "first" }, { name := "second" }]) 2 (some 7)).map
        (fun r => (r.status, r.count, r.adapters)) =
      some (.internal_error, some 7, some [{ name := "first" }, { name := "second" }]) ∧
    (fullAdapterList windowsBuild { factoryOk := false } {}).length = 1 := by
  decide

/-- C6 (amended): with a non-null `count`, when adapter discovery succeeds (always outside
a Windows build; in a Windows build when the adapter cache is populated or
`CreateDXGIFactory1` succeeds), for every capacity and every caller buffer (one that
really holds the entries written), `rive_renderer_enumerate_adapters` stores the full
adapter total in `*count` independently of capacity, overwrites exactly the first
`min(capacity, total)` buffer entries with the first `min(capacity, total)` entries of the
full list and leaves every entry at an index from `min(capacity, total)` on, and the
buffer's length, unchanged; with capacity 0 the buffer is unchanged, and a null buffer
stays null. When discovery fails the call returns `internal_error` and writes neither
`*count` nor the buffer. -/
theorem enumerate_adapters_fills_front (b : Build) (dxgi : Dxgi) (w : World)
    (adapters : Option (List rive_renderer_adapter_desc_t)) (capacity c : Nat)
    (hroom : ∀ buf, adapters = some buf →
      min capacity (fullAdapterList b dxgi w).length ≤ buf.length) :
    (discoverySucceeds b dxgi w = true →
      (rive_renderer_enumerate_adapters b dxgi w adapters capacity (some c)).map
          (fun r => (r.status, r.count, r.adapters)) =
        some (.ok, some (fullAdapterList b dxgi w).length,
          adapters.map fun buf => bufferAfterCopy (fullAdapterList b dxgi w) buf
            (min capacity (fullAdapterList b dxgi w).length)) ∧
      (∀ buf, adapters = some buf →
        (bufferAfterCopy (fullAdapterList b dxgi w) buf
            (min capacity (fullAdapterList b dxgi w).length)).length = buf.length ∧
        (∀ i, i < min capacity (fullAdapterList b dxgi w).length →
          (bufferAfterCopy (fullAdapterList b dxgi w) buf
            (min capacity (fullAdapterList b dxgi w).length)).get? i =
              (fullAdapterList b dxgi w).get? i) ∧
        (∀ i, min capacity (fullAdapterList b dxgi w).length ≤ i →
          (bufferAfterCopy (fullAdapterList b dxgi w) buf
            (min capacity (fullAdapterList b dxgi w).length)).get? i = buf.get? i) ∧
        (capacity = 0 →
          bufferAfterCopy (fullAdapterList b dxgi w) buf
            (min capacity (fullAdapterList b dxgi w).length) = buf))) ∧
    (discoverySucceeds b dxgi w = false →
      (rive_renderer_enumerate_adapters b dxgi w adapters capacity (some c)).map
          (fun r => (r.status, r.count, r.adapters)) =
        some (.internal_error, some c, adapters)) := by
  refine ⟨fun hdisc => ?_, fun hfail => ?_⟩
  swap
  · simp only [discoverySucceeds, Bool.or_eq_false_iff, Bool.not_eq_false,
      Bool.not_eq_eq_eq_not, Bool.not_true] at hfail
    obtain ⟨⟨hwin, hempty⟩, hfac⟩ := hfail
    simp [rive_renderer_enumerate_adapters, EnsureD3D12Adapters, PopulateD3D12AdaptersLocked,
      hwin, hempty, hfac]
  have hmain := enumerate_adapters_ok b dxgi w adapters capacity c hdisc hroom
  refine ⟨by rw [hmain]; rfl, ?_⟩
  intro buf hbuf
  have hr := hroom buf hbuf
  generalize hm : min capacity (fullAdapterList b dxgi w).length = m at hr
  have hmle : m ≤ (fullAdapterList b dxgi w).length := by omega
  have htl : ((fullAdapterList b dxgi w).take m).length = m := by
    rw [List.length_take]; omega
  refine ⟨?_, ?_, ?_, ?_⟩
  · simp only [bufferAfterCopy, List.length_append, htl, List.length_drop]
    omega
  · intro i hi
    simp only [bufferAfterCopy, List.get?_eq_getElem?]
    rw [List.getElem?_append_left (by omega), List.getElem?_take_of_lt hi]
  · intro i hi
    simp only [bufferAfterCopy, List.get?_eq_getElem?]
    rw [List.getElem?_append_right (by omega), htl, List.getElem?_drop]
    congr 1
    omega
  · intro h0
    subst h0
    have : m = 0 := by omega
    subst this
    simp [bufferAfterCopy]

/-- C6 (witness): a Windows build with two hardware adapters found and a buffer of three
entries filled with capacity 2: the count is 3 and only the first two entries are
written. -/
theorem enumerate_adapters_fills_front_witness :
    discoverySucceeds windowsBuild
        { adapters := [{ Description := "A" }, { Description := "B" }] } {} = true ∧
      (rive_renderer_enumerate_adapters windowsBuild
          { adapters := [{ Description := "A" }, { Description := "B" }] } {}
          (some [{}, {}, { name := "untouched" }]) 2 (some 0)).map
            (fun r => (r.status, r.count, r.adapters)) =
        some (.ok, some (fullAdapterList windowsBuild
            { adapters := [{ Description := "A" }, { Description := "B" }] } {}).length,
          (some [{}, {}, { name := "untouched" }]).map fun buf =>
            bufferAfterCopy (fullAdapterList windowsBuild
              { adapters := [{ Description := "A" }, { Description := "B" }] } {}) buf
              (min 2 (fullAdapterList windowsBuild
                { adapters := [{ Description := "A" }, { Description := "B" }] } {}).length)) ∧
      (bufferAfterCopy (fullAdapterList windowsBuild
          { adapters := [{ Description := "A" }, { Description := "B" }] } {})
          [{}, {}, { name := "untouched" }] 2).map (·.name) = ["A", "B", "untouched"] :=
  ⟨by decide,
    ((enumerate_adapters_fills_front windowsBuild
      { adapters := [{ Description := "A" }, { Description := "B" }] } {}
      (some [{}, {}, { name := "untouched" }]) 2 0
      (by intro buf h; cases h; decide)).1 (by decide)).1,
    by decide⟩


/-- C7: for every create-info with the null backend tag (any adapter index, any flags)
and a non-null `out_device`, in every build and with allocation succeeding,
`rive_renderer_device_create` returns `ok`, and `rive_renderer_device_capabilities` on the
new device returns `ok` with a record whose backend is null, in which none of the bits
`raster_ordering`, `atomic_path_rendering`, `clockwise_fill`, `advanced_blend`,
`advanced_blend_coherent`, `clip_planes`, `bottom_up_framebuffer` is set, and whose
`supports_hdr` and `supports_presentation` are 0. -/
theorem null_device_reports_no_gpu_feature (b : Build) (n : DeviceCreateNative) (w : World)
    (i : rive_renderer_device_create_info_t) (out : Ptr) (caps0 : rive_renderer_capabilities_t)
    (hb : i.backend = rive_renderer_backend_t.null) (halloc : n.allocOk = true) :
    rive_renderer_device_create b n w (some i) (some out) =
        some ⟨.ok, worldWithNullDevice w, some w.fresh.1⟩ ∧
      rive_renderer_device_capabilities (worldWithNullDevice w) w.fresh.1 (some caps0) =
        some (.ok, ClearLastError (worldWithNullDevice w),
          some (newNullDevice rive_renderer_backend_t.null).capabilities) ∧
      (newNullDevice rive_renderer_backend_t.null).capabilities.backend =
        rive_renderer_backend_t.null ∧
      (newNullDevice rive_renderer_backend_t.null).capabilities.feature_flags &&&
        (rive_renderer_feature_flags_t.raster_ordering |||
          rive_renderer_feature_flags_t.atomic_path_rendering |||
          rive_renderer_feature_flags_t.clockwise_fill |||
          rive_renderer_feature_flags_t.advanced_blend |||
          rive_renderer_feature_flags_t.advanced_blend_coherent |||
          rive_renderer_feature_flags_t.clip_planes |||
          rive_renderer_feature_flags_t.bottom_up_framebuffer) = 0 ∧
      (newNullDevice rive_renderer_backend_t.null).capabilities.supports_hdr = 0 ∧
      (newNullDevice rive_renderer_backend_t.null).capabilities.supports_presentation = 0 := by
  have e1 : rive_renderer_backend_t.null ≠ rive_renderer_backend_t.metal := by decide
  have e2 : rive_renderer_backend_t.null ≠ rive_renderer_backend_t.d3d12 := by decide
  have e3 : rive_renderer_backend_t.null ≠ rive_renderer_backend_t.unknown := by decide
  refine ⟨?_, ?_, rfl, by decide, rfl, rfl⟩
  · simp [rive_renderer_device_create, device_create_portable, hb, e1, e2, e3, halloc,
      worldWithNullDevice]
  · have h0 : w.fresh.1 ≠ 0 := Nat.succ_ne_zero _
    simp [rive_renderer_device_capabilities, h0, worldWithNullDevice, ClearLastError,
      World.setDevice]

/-- C7 (witness): the create-info of the self test in the empty world. -/
theorem null_device_reports_no_gpu_feature_witness :
    nullInfo.backend = rive_renderer_backend_t.null ∧
      rive_renderer_device_create windowsBuild {} {} (some nullInfo) (some 0) =
        some ⟨.ok, worldWithNullDevice {}, some (World.fresh {}).1⟩ ∧
      rive_renderer_device_capabilities (worldWithNullDevice {}) (World.fresh {}).1 (some {}) =
        some (.ok, ClearLastError (worldWithNullDevice {}),
          some (newNullDevice rive_renderer_backend_t.null).capabilities) :=
  ⟨rfl,
    (null_device_reports_no_gpu_feature windowsBuild {} {} nullInfo 0 {} rfl rfl).1,
    (null_device_reports_no_gpu_feature windowsBuild {} {} nullInfo 0 {} rfl rfl).2.1⟩

/-- C8: in a build with no hardware backend compiled in, for every create-info whose
backend tag is an 8-bit value other than unknown (0) and null (1) and every non-null
`out_device`, `rive_renderer_device_create` returns `unsupported`, leaves the output cell
as it was and changes nothing in the world but the error text; and
`rive_renderer_device_create_vulkan` with non-null arguments returns `unsupported`, leaves
a null handle in the output cell and changes nothing but the error text. -/
theorem unsupported_backend_in_portable_build (b : Build) (n : DeviceCreateNative)
    (allocOk : Bool) (w : World) (i : rive_renderer_device_create_info_t)
    (vi : rive_renderer_device_create_info_vulkan_t) (out : Ptr)
    (hbuild : noHardwareBackend b = true)
    (hu : i.backend ≠ rive_renderer_backend_t.unknown)
    (hn : i.backend ≠ rive_renderer_backend_t.null) :
    rive_renderer_device_create b n w (some i) (some out) =
        some ⟨.unsupported, SetLastError w "requested backend is not yet implemented",
          some out⟩ ∧
      rive_renderer_device_create_vulkan b allocOk w (some vi) (some out) =
        some ⟨.unsupported, SetLastError w "Vulkan backend is not available in this build",
          some 0⟩ ∧
      (SetLastError w "requested backend is not yet implemented").devices = w.devices ∧
      (SetLastError w "Vulkan backend is not available in this build").devices = w.devices := by
  simp only [noHardwareBackend, Bool.and_eq_true, Bool.not_eq_true'] at hbuild
  obtain ⟨⟨hw, ha⟩, hv⟩ := hbuild
  refine ⟨?_, ?_, rfl, rfl⟩
  · by_cases hm : i.backend = rive_renderer_backend_t.metal
    · simp [rive_renderer_device_create, device_create_metal, hw, ha, hm]
    · simp [rive_renderer_device_create, device_create_portable, hw, hm, hu, hn]
  · simp [rive_renderer_device_create_vulkan, hv]

/-- C8 (witness): a build with no hardware backend asked for the Vulkan backend. -/
theorem unsupported_backend_in_portable_build_witness :
    noHardwareBackend portableBuild = true ∧
      rive_renderer_device_create portableBuild {} {}
          (some { backend := rive_renderer_backend_t.vulkan, backend_padding := 0,
                  adapter_index := 0, flags := 0 }) (some 7) =
        some ⟨.unsupported, SetLastError {} "requested backend is not yet implemented",
          some 7⟩ ∧
      rive_renderer_device_create_vulkan portableBuild true {} (some sampleVulkanInfo)
          (some 7) =
        some ⟨.unsupported, SetLastError {} "Vulkan backend is not available in this build",
          some 0⟩ :=
  ⟨by decide,
    (unsupported_backend_in_portable_build portableBuild {} true {}
      { backend := rive_renderer_backend_t.vulkan, backend_padding := 0, adapter_index := 0,
        flags := 0 } sampleVulkanInfo 7 (by decide) (by decide) (by decide)).1,
    (unsupported_backend_in_portable_build portableBuild {} true {}
      { backend := rive_renderer_backend_t.vulkan, backend_padding := 0, adapter_index := 0,
        flags := 0 } sampleVulkanInfo 7 (by decide) (by decide) (by decide)).2.1⟩


theorem ensure_render_target_no_surface (n : RenderTargetNative) (w w2 : World) (ctx : Ptr)
    (c : ContextHandle) (status : rive_renderer_status_t)
    (hc : w.contexts ctx = some c) (hs : c.surface = 0)
    (h : EnsureD3D12RenderTarget n w ctx = some (status, w2)) :
    w2.devices = w.devices ∧ w2.deleted = w.deleted ∧ w2.nextPtr = w.nextPtr ∧
      (w2.contexts ctx).map (fun c => (c.ref_count, c.device, c.surface)) =
        some (c.ref_count, c.device, c.surface) := by
  unfold EnsureD3D12RenderTarget at h
  simp only [hc, hs, ne_eq, not_true_eq_false, if_false] at h
  split_ifs at h <;> cases h <;>
    simp [SetLastError, World.setContext, hc, hs]

theorem contextCreateEffect_of_failure (w : World) (device : Ptr) (d : DeviceHandle)
    (r : CreateResult) (hst : r.status ≠ .ok) (hdev : r.world.devices = w.devices) :
    ContextCreateEffect w device d r :=
  ⟨fun h => absurd h hst, fun _ => hdev⟩

theorem context_create_d3d12_effect (n : ContextCreateNative) (w : World) (device : Ptr)
    (d : DeviceHandle) (width height : Nat) (out : Option Ptr) (r : CreateResult)
    (h : context_create_d3d12 n w device d width height out = some r) :
    ContextCreateEffect w device d r := by
  unfold context_create_d3d12 at h
  by_cases hv : ValidateContextSize width height = true
  swap
  · simp only [hv, Bool.not_false, Bool.true_eq_false, if_true, Bool.not_eq_true] at h
    simp at h; subst h
    exact contextCreateEffect_of_failure _ _ _ _ (by simp) rfl
  by_cases ha : n.allocOk = true
  swap
  · simp [hv, ha] at h; subst h
    exact contextCreateEffect_of_failure _ _ _ _ (by simp) rfl
  simp only [hv, ha, Bool.not_true, Bool.false_eq_true, if_false] at h
  cases hinit : InitializeD3D12Context n { device := device } width height with
  | inl message =>
    simp only [hinit] at h
    cases h
    exact contextCreateEffect_of_failure _ _ _ _ (by simp) rfl
  | inr c =>
    simp only [hinit] at h
    have hcdev : c.device = device ∧ c.ref_count = 1 ∧ c.surface = 0 := by
      unfold InitializeD3D12Context at hinit
      split_ifs at hinit
      cases hinit
      exact ⟨rfl, rfl, rfl⟩
    by_cases h1 : n.makeContextOk = true
    swap
    · simp [h1] at h; subst h
      exact contextCreateEffect_of_failure _ _ _ _ (by simp) rfl
    by_cases h2 : n.closeCopyListOk = true
    swap
    · simp [h1, h2] at h; subst h
      exact contextCreateEffect_of_failure _ _ _ _ (by simp) rfl
    by_cases h3 : n.queueSignalOk = true
    swap
    · simp [h1, h2, h3] at h; subst h
      exact contextCreateEffect_of_failure _ _ _ _ (by simp) rfl
    by_cases h4 : n.setEventOk = true
    swap
    · simp [h1, h2, h3, h4] at h; subst h
      exact contextCreateEffect_of_failure _ _ _ _ (by simp) rfl
    simp only [h1, h2, h3, h4, Bool.not_true, Bool.false_eq_true, if_false] at h
    cases hens : EnsureD3D12RenderTarget n.target
        (w.fresh.2.setContext w.fresh.1 { c with renderContext := true, fenceValue := 1 })
        w.fresh.1 with
    | none => simp [hens] at h
    | some res =>
      obtain ⟨targetStatus, w2⟩ := res
      simp only [hens] at h
      obtain ⟨hdev, hdel, hnext, hctx⟩ := ensure_render_target_no_surface n.target _ w2
        w.fresh.1 { c with renderContext := true, fenceValue := 1 } targetStatus
        (by simp [World.setContext]) hcdev.2.2 hens
      by_cases hst : targetStatus = .ok
      · simp only [hst, ne_eq, not_true_eq_false, if_false, Option.some.injEq] at h
        subst h
        refine ⟨fun _ => ⟨?_, ?_, ?_⟩, fun h => absurd rfl h⟩
        · simp only [createdContext, ClearLastError, World.setDevice, hnext,
            World.setContext, World.fresh, Bool.and_eq_true, decide_eq_true_eq]
          refine ⟨⟨trivial, Nat.succ_ne_zero _⟩, ?_⟩
          simpa [World.fresh, hcdev.1, hcdev.2.1, hcdev.2.2] using hctx
        · simp [ClearLastError, World.setDevice, hdev, World.setContext, World.fresh]
        · simp [ClearLastError, World.setDevice, hdel, World.setContext, World.fresh]
      · simp only [ne_eq, hst, not_false_eq_true, if_true, Option.some.injEq] at h
        subst h
        exact contextCreateEffect_of_failure _ _ _ _ hst
          (by simp [World.deleteContext, hdev, World.setContext, World.fresh])


theorem context_create_metal_effect (n : ContextCreateNative) (w : World) (device : Ptr)
    (d : DeviceHandle) (width height : Nat) (out : Option Ptr) (r : CreateResult)
    (h : context_create_metal n w device d width height out = some r) :
    ContextCreateEffect w device d r := by
  unfold context_create_metal at h
  by_cases hv : ValidateContextSize width height = true
  swap
  · simp [hv] at h; subst h
    exact contextCreateEffect_of_failure _ _ _ _ (by simp) rfl
  by_cases ha : n.allocOk = true
  swap
  · simp [hv, ha] at h; subst h
    exact contextCreateEffect_of_failure _ _ _ _ (by simp) rfl
  simp only [hv, ha, Bool.not_true, Bool.false_eq_true, if_false] at h
  by_cases hst : n.metalStatus = .ok
  · simp only [hst, ne_eq, not_true_eq_false, if_false, Option.some.injEq] at h
    subst h
    refine ⟨fun _ => ⟨?_, ?_, ?_⟩, fun h => absurd rfl h⟩
    · cases n.metalError <;>
        simp [createdContext, ClearLastError, World.setDevice, World.setContext, World.fresh,
          SetLastError]
    · cases n.metalError <;>
        simp [ClearLastError, World.setDevice, World.setContext, World.fresh, SetLastError]
    · cases n.metalError <;>
        simp [ClearLastError, World.setDevice, World.setContext, World.fresh, SetLastError]
  · simp only [ne_eq, hst, not_false_eq_true, if_true, Option.some.injEq] at h
    subst h
    refine contextCreateEffect_of_failure _ _ _ _ hst ?_
    cases n.metalError <;> simp only [] <;> split_ifs <;> simp [SetLastError, World.fresh]

theorem context_create_vulkan_effect (n : ContextCreateNative) (w : World) (device : Ptr)
    (d : DeviceHandle) (width height : Nat) (out : Option Ptr) (r : CreateResult)
    (h : context_create_vulkan n w device d width height out = some r) :
    ContextCreateEffect w device d r := by
  unfold context_create_vulkan at h
  by_cases hv : ValidateContextSize width height = true
  swap
  · simp [hv] at h; subst h
    exact contextCreateEffect_of_failure _ _ _ _ (by simp) rfl
  by_cases ha : n.allocOk = true
  swap
  · simp [hv, ha] at h; subst h
    exact contextCreateEffect_of_failure _ _ _ _ (by simp) rfl
  by_cases hm : n.vulkanMakeContextOk = true
  swap
  · simp [hv, ha, hm] at h; subst h
    exact contextCreateEffect_of_failure _ _ _ _ (by simp) rfl
  simp [hv, ha, hm] at h; subst h
  refine ⟨fun _ => ⟨?_, ?_, ?_⟩, fun h => absurd rfl h⟩
  · simp [createdContext, ClearLastError, World.setDevice, World.setContext, World.fresh]
  · simp [ClearLastError, World.setDevice, World.setContext, World.fresh]
  · simp [ClearLastError, World.setDevice, World.setContext, World.fresh]

theorem context_create_portable_effect (n : ContextCreateNative) (w : World) (device : Ptr)
    (d : DeviceHandle) (width height : Nat) (out : Option Ptr) (r : CreateResult)
    (h : context_create_portable n w device d width height out = some r) :
    ContextCreateEffect w device d r := by
  unfold context_create_portable at h
  by_cases hv : ValidateContextSize width height = true
  swap
  · simp [hv] at h; subst h
    exact contextCreateEffect_of_failure _ _ _ _ (by simp) rfl
  by_cases ha : n.allocOk = true
  swap
  · simp [hv, ha] at h; subst h
    exact contextCreateEffect_of_failure _ _ _ _ (by simp) rfl
  simp only [hv, ha, Bool.not_true, Bool.false_eq_true, if_false, vector_assign_eq] at h
  split_ifs at h with hfit
  simp only [Option.some.injEq] at h
  subst h
  refine ⟨fun _ => ⟨?_, ?_, ?_⟩, fun h => absurd rfl h⟩
  · simp [createdContext, ClearLastError, World.setDevice, World.setContext, World.fresh,
      newNullContext]
  · simp [ClearLastError, World.setDevice, World.setContext, World.fresh]
  · simp [ClearLastError, World.setDevice, World.setContext, World.fresh]

theorem context_create_effect (b : Build) (n : ContextCreateNative) (w : World) (device : Ptr)
    (d : DeviceHandle) (width height : Nat) (out : Option Ptr) (r : CreateResult)
    (hd : w.devices device = some d)
    (h : rive_renderer_context_create b n w device width height out = some r) :
    ContextCreateEffect w device d r := by
  unfold rive_renderer_context_create at h
  cases out with
  | none =>
    simp at h; subst h
    exact contextCreateEffect_of_failure _ _ _ _ (by simp) rfl
  | some o =>
    by_cases h0 : device = 0
    · simp [h0] at h; subst h
      exact contextCreateEffect_of_failure _ _ _ _ (by simp) rfl
    · simp only [h0, if_false, hd] at h
      split_ifs at h
      · exact context_create_d3d12_effect n w device d width height _ r h
      · exact context_create_metal_effect n w device d width height _ r h
      · exact context_create_vulkan_effect n w device d width height _ r h
      · exact context_create_portable_effect n w device d width height _ r h


theorem context_release_nonfinal (b : Build) (w : World) (ctx : Ptr) (c : ContextHandle)
    (h0 : ctx ≠ 0) (hc : w.contexts ctx = some c)
    (hnf : c.surface ≠ 0 ∨ c.ref_count ≠ 1) :
    (rive_renderer_context_release b w ctx).map (fun r => (r.2.devices, r.2.deleted)) =
      some (w.devices, w.deleted) := by
  unfold rive_renderer_context_release
  simp only [h0, if_false, hc]
  by_cases hs : c.surface = 0
  · have h1 : c.ref_count ≠ 1 := by
      rcases hnf with h | h
      · exact absurd hs h
      · exact h
    simp only [hs, ne_eq, not_true_eq_false, if_false, h1]
    split_ifs <;> rfl
  · simp only [ne_eq, hs, not_false_eq_true, if_true]
    rfl

theorem returnSurface_setContext (w : World) (ctx : Ptr) (c : ContextHandle) (h0 : ctx ≠ 0)
    (hs : c.surface = 0) :
    ReturnSurfaceRenderTarget (w.setContext ctx c) ctx = some (w.setContext ctx c) := by
  simp [ReturnSurfaceRenderTarget, h0, World.setContext, hs]

theorem context_release_final (b : Build) (w : World) (ctx : Ptr) (c : ContextHandle)
    (d : DeviceHandle) (h0 : ctx ≠ 0) (hc : w.contexts ctx = some c) (hs : c.surface = 0)
    (h1 : c.ref_count = 1) (hdev0 : c.device ≠ 0) (hd : w.devices c.device = some d)
    (hpos : 1 ≤ d.ref_count) (hlt : d.ref_count < 2 ^ 32) :
    (rive_renderer_context_release b w ctx).map
        (fun r => (r.1, r.2.contexts ctx, r.2.devices c.device, r.2.deleted)) =
      some (.ok, none,
        if d.ref_count = 1 then none else some { d with ref_count := d.ref_count - 1 },
        if d.ref_count = 1 then ctx :: c.device :: w.deleted else ctx :: w.deleted) := by
  have hsub : fetch_sub_1 1 = 0 := by decide
  have hdsub := fetch_sub_1_eq d.ref_count hpos hlt
  unfold rive_renderer_context_release
  simp only [h0, if_false, hc, hs, ne_eq, not_true_eq_false, h1, hsub, one_ne_zero, if_true]
  cases hwin : b.win32
  · cases happle : b.apple
    · simp only [Bool.false_eq_true, if_false, Bool.false_and, hdev0, not_false_eq_true,
        if_true, World.setContext, hd, hdsub]
      by_cases hone : d.ref_count = 1
      · simp [hone, destroyDevice, hwin, happle, World.deleteDevice, World.deleteContext,
          ClearLastError, World.setDevice]
      · simp [hone, World.deleteContext, ClearLastError, World.setDevice]
    · by_cases hm : c.metalContext = 0
      · simp only [Bool.false_eq_true, if_false, Bool.true_and, hm, ne_eq, not_true_eq_false,
          decide_False, hdev0, not_false_eq_true, if_true, World.setContext, hd, hdsub]
        by_cases hone : d.ref_count = 1
        · by_cases hmd : d.metalDevice = 0
          · simp [hone, destroyDevice, hwin, happle, World.deleteDevice, World.deleteContext,
              ClearLastError, World.setDevice, hmd]
          · simp [hone, destroyDevice, hwin, happle, World.deleteDevice, World.deleteContext,
              ClearLastError, World.setDevice, hmd, World.native]
        · simp [hone, World.deleteContext, ClearLastError, World.setDevice]
      · simp only [Bool.false_eq_true, if_false, Bool.true_and, hm, ne_eq, not_false_eq_true,
          decide_True, hdev0, if_true, World.setContext, World.native, hd, hdsub]
        by_cases hone : d.ref_count = 1
        · by_cases hmd : d.metalDevice = 0
          · simp [hone, destroyDevice, hwin, happle, World.deleteDevice, World.deleteContext,
              ClearLastError, World.setDevice, hmd]
          · simp [hone, destroyDevice, hwin, happle, World.deleteDevice, World.deleteContext,
              ClearLastError, World.setDevice, hmd, World.native]
        · simp [hone, World.deleteContext, ClearLastError, World.setDevice]
  · simp only [if_true]
    rw [returnSurface_setContext _ _ _ h0 rfl]
    simp only [hdev0, ne_eq, not_false_eq_true, if_true, World.setContext, hd, hdsub]
    by_cases hone : d.ref_count = 1
    · simp [hone, destroyDevice, hwin, World.deleteDevice, World.deleteContext,
        ClearLastError, World.setDevice]
    · simp [hone, World.deleteContext, ClearLastError, World.setDevice]


theorem device_release_nonfinal (b : Build) (w : World) (device : Ptr) (h : DeviceHandle)
    (h0 : device ≠ 0) (hd : w.devices device = some h) (h2 : 2 ≤ h.ref_count)
    (hlt : h.ref_count < 2 ^ 32) :
    rive_renderer_device_release b w device =
      some (.ok, ClearLastError (w.setDevice device { h with ref_count := h.ref_count - 1 })) := by
  have hsub := fetch_sub_1_eq h.ref_count (by omega) hlt
  have hp0 : h.ref_count ≠ 0 := by omega
  have hp1 : h.ref_count ≠ 1 := by omega
  simp only [rive_renderer_device_release, if_neg h0, hd, hsub, if_neg hp0, if_neg hp1]

theorem owner_release_orders (b : Build) (w1 : World) (device ctx : Ptr) (c : ContextHandle)
    (d : DeviceHandle) (hdev0 : device ≠ 0) (hctx0 : ctx ≠ 0)
    (hc : w1.contexts ctx = some c) (hcc : c.ref_count = 1) (hcd : c.device = device)
    (hcs : c.surface = 0) (hd : w1.devices device = some d) (hdc : d.ref_count = 2) :
    (runCalls (OwnerCall.run b device ctx) w1 [.device_release]).map (observeDevice device) =
        some ([.ok], some 1, w1.deleted) ∧
      (runCalls (OwnerCall.run b device ctx) w1 [.device_release, .context_release]).map
          (observeDevice device) =
        some ([.ok, .ok], none, ctx :: device :: w1.deleted) ∧
      (runCalls (OwnerCall.run b device ctx) w1 [.context_release]).map
          (observeDevice device) =
        some ([.ok], some 1, ctx :: w1.deleted) ∧
      (runCalls (OwnerCall.run b device ctx) w1 [.context_release, .device_release]).map
          (observeDevice device) =
        some ([.ok, .ok], none, device :: ctx :: w1.deleted) := by
  subst hcd
  -- order A: the device first
  have hA1 := device_release_nonfinal b w1 c.device d hdev0 hd (by omega) (by omega)
  have hA1c : (ClearLastError (w1.setDevice c.device
      { d with ref_count := d.ref_count - 1 })).contexts ctx = some c := by
    simpa [ClearLastError, World.setDevice] using hc
  have hA1d : (ClearLastError (w1.setDevice c.device
      { d with ref_count := d.ref_count - 1 })).devices c.device =
      some { d with ref_count := d.ref_count - 1 } := by
    simp [ClearLastError, World.setDevice]
  have hA2 := context_release_final b _ ctx c { d with ref_count := d.ref_count - 1 } hctx0
    hA1c hcs hcc hdev0 hA1d (by simp; omega) (by simp; omega)
  have hA2' : ({ d with ref_count := d.ref_count - 1 } : DeviceHandle).ref_count = 1 := by
    simp; omega
  rw [if_pos hA2', if_pos hA2'] at hA2
  -- order B: the context first
  have hB1 := context_release_final b w1 ctx c d hctx0 hc hcs hcc hdev0 hd (by omega)
    (by omega)
  have hne : d.ref_count ≠ 1 := by omega
  rw [if_neg hne, if_neg hne] at hB1
  refine ⟨?_, ?_, ?_, ?_⟩
  · simp only [runCalls, OwnerCall.run, hA1, Option.map_some', observeDevice, hA1d]
    simp [ClearLastError, World.setDevice]
    omega
  · simp only [runCalls, OwnerCall.run, hA1]
    cases hr : rive_renderer_context_release b (ClearLastError (w1.setDevice c.device
        { d with ref_count := d.ref_count - 1 })) ctx with
    | none => simp [hr] at hA2
    | some r =>
      obtain ⟨st, w2⟩ := r
      simp only [hr, Option.map_some', Option.some.injEq, Prod.mk.injEq] at hA2
      obtain ⟨rfl, _, hdv, hdl⟩ := hA2
      simp only [Option.map_some', observeDevice, hdv, hdl]
      simp [ClearLastError, World.setDevice]
  · cases hr : rive_renderer_context_release b w1 ctx with
    | none => simp [hr] at hB1
    | some r =>
      obtain ⟨st, w2⟩ := r
      simp only [hr, Option.map_some', Option.some.injEq, Prod.mk.injEq] at hB1
      obtain ⟨rfl, _, hdv, hdl⟩ := hB1
      simp only [runCalls, OwnerCall.run, hr, Option.map_some', observeDevice, hdv, hdl]
      simp
      omega
  · cases hr : rive_renderer_context_release b w1 ctx with
    | none => simp [hr] at hB1
    | some r =>
      obtain ⟨st, w2⟩ := r
      simp only [hr, Option.map_some', Option.some.injEq, Prod.mk.injEq] at hB1
      obtain ⟨rfl, _, hdv, hdl⟩ := hB1
      obtain ⟨hrel, hnone, hdeleted⟩ := device_final_release b c.device hdev0 w2
        { d with ref_count := d.ref_count - 1 } hdv (by simp; omega)
      simp only [runCalls, OwnerCall.run, hr, hrel, Option.map_some', observeDevice, hnone,
        hdeleted, hdl]
      rfl


theorem keepsCountLive_replicate_retain (k : Nat) :
    ∀ count : Nat, count + k < 2 ^ 32 → keepsCountLive count (List.replicate k .retain) = true := by
  induction k with
  | zero => intro count _; rfl
  | succ k ih =>
    intro count h
    simp only [List.replicate_succ, keepsCountLive, Bool.and_eq_true, decide_eq_true_eq]
    exact ⟨by omega, ih (count + 1) (by omega)⟩

theorem retains_replicate_retain (k : Nat) :
    retains (List.replicate k .retain) = k ∧ releases (List.replicate k .retain) = 0 := by
  simp [retains, releases, List.count_replicate]

theorem context_create_wraps_at (b : Build) (k : Nat) (hk : k + 2 = 2 ^ 32) :
    (runCalls (RefCall.runDevice b 1) sampleDeviceWorld (List.replicate k .retain)).bind
        (fun r => (rive_renderer_context_create b {} r.2 1 2 2 (some 0)).map
          fun cr => (r.1.length, r.1.all (fun s => decide (s = .ok)),
            (r.2.devices 1).map (·.ref_count), cr.status,
            (cr.world.devices 1).map (·.ref_count))) =
      some (k, true, some (k + 1), .ok, some 0) := by
  have hd : sampleDeviceWorld.devices 1 = some sampleDevice := by decide
  have hc1 : sampleDevice.ref_count = 1 := by decide
  have hbk : sampleDevice.backend = rive_renderer_backend_t.null := by decide
  obtain ⟨w1, hr, hd1, _, _⟩ := device_calls_keep_alive b 1 (by decide)
    (List.replicate k .retain) sampleDeviceWorld sampleDevice hd (by rw [hc1])
    (by rw [hc1]; decide)
    (by rw [hc1]; exact keepsCountLive_replicate_retain k 1 (by omega))
  rw [(retains_replicate_retain k).1, (retains_replicate_retain k).2, hc1] at hd1
  have hcount : 1 + k - 0 = k + 1 := by omega
  rw [hcount] at hd1
  rw [hr]
  simp only [Option.some_bind, List.length_replicate]
  rw [context_create_null b {} w1 1 _ 2 2 0 (by decide) hd1 hbk]
  have hwrap : fetch_add_1 (k + 1) = 0 := by
    simp only [fetch_add_1, U32]
    have : k + 1 + 1 = 2 ^ 32 := by omega
    rw [this]
    exact Nat.mod_self _
  have hfit : assignSucceeds true (cpuFramebufferSize 2 2) = true := by decide
  simp [ValidateContextSize, hd1, ClearLastError, World.setDevice, hwrap, hfit]

/-- C9 (counterexample): on the null device of `sampleDeviceWorld`, `2 ^ 32 - 2` calls of
`rive_renderer_device_retain` all return `ok` and bring the count to `2 ^ 32 - 1`; a
`rive_renderer_context_create` on that device then returns `ok` and leaves the device's
count at 0: the 32-bit counter wrapped instead of rising by 1. -/
theorem context_create_wraps_device_count :
    (runCalls (RefCall.runDevice windowsBuild 1) sampleDeviceWorld
        (List.replicate 4294967294 .retain)).bind
        (fun r => (rive_renderer_context_create windowsBuild {} r.2 1 2 2 (some 0)).map
          fun cr => (r.1.length, r.1.all (fun s => decide (s = .ok)),
            (r.2.devices 1).map (·.ref_count), cr.status,
            (cr.world.devices 1).map (·.ref_count))) =
      some (4294967294, true, some (4294967294 + 1), .ok, some 0) :=
  context_create_wraps_at windowsBuild 4294967294 (by norm_num)

/-- C9 (amended): a `rive_renderer_context_create` that succeeds raises its device's
reference count by exactly 1 provided the count is below `2 ^ 32 - 1`, and one that fails
leaves every device unchanged; the context release that takes the context count from 1
to 0 (no surface attached) returns `ok`, lowers the count of its device (a count from 1
to `2 ^ 32 - 1`) by exactly 1 and destroys the device if and only if that count was 1,
while every other context release leaves the devices and the deleted addresses
unchanged. Hence for a device with count 1 and one context created on it, in either
order of the user's device release and context release, both calls return `ok`, the
device is still alive with count 1 after the first and is deleted, exactly once, by the
second. -/
theorem context_holds_one_device_reference (b : Build) :
    (∀ (n : ContextCreateNative) (w : World) (device : Ptr) (d : DeviceHandle)
        (width height : Nat) (out : Option Ptr) (r : CreateResult),
      w.devices device = some d →
      rive_renderer_context_create b n w device width height out = some r →
      (r.status = .ok → d.ref_count + 1 < 2 ^ 32 →
        (r.world.devices device).map (·.ref_count) = some (d.ref_count + 1)) ∧
      (r.status ≠ .ok → r.world.devices = w.devices)) ∧
    (∀ (w : World) (ctx : Ptr) (c : ContextHandle) (d : DeviceHandle),
      ctx ≠ 0 → w.contexts ctx = some c → c.device ≠ 0 → w.devices c.device = some d →
      (c.surface = 0 → c.ref_count = 1 → 1 ≤ d.ref_count → d.ref_count < 2 ^ 32 →
        (rive_renderer_context_release b w ctx).map
            (fun r => (r.1, (r.2.devices c.device).map (·.ref_count), r.2.deleted)) =
          some (.ok, if d.ref_count = 1 then none else some (d.ref_count - 1),
            if d.ref_count = 1 then ctx :: c.device :: w.deleted else ctx :: w.deleted)) ∧
      (c.surface ≠ 0 ∨ c.ref_count ≠ 1 →
        (rive_renderer_context_release b w ctx).map (fun r => (r.2.devices, r.2.deleted)) =
          some (w.devices, w.deleted))) ∧
    (∀ (n : ContextCreateNative) (w w1 : World) (device ctx : Ptr) (d : DeviceHandle)
        (width height out : Nat),
      device ≠ 0 → w.devices device = some d → d.ref_count = 1 →
      rive_renderer_context_create b n w device width height (some out) =
        some ⟨.ok, w1, some ctx⟩ →
      (runCalls (OwnerCall.run b device ctx) w1 [.device_release]).map
          (observeDevice device) = some ([.ok], some 1, w.deleted) ∧
        (runCalls (OwnerCall.run b device ctx) w1 [.device_release, .context_release]).map
          (observeDevice device) = some ([.ok, .ok], none, ctx :: device :: w.deleted) ∧
        (runCalls (OwnerCall.run b device ctx) w1 [.context_release]).map
          (observeDevice device) = some ([.ok], some 1, ctx :: w.deleted) ∧
        (runCalls (OwnerCall.run b device ctx) w1 [.context_release, .device_release]).map
          (observeDevice device) = some ([.ok, .ok], none, device :: ctx :: w.deleted)) := by
  refine ⟨?_, ?_, ?_⟩
  · intro n w device d width height out r hd hcreate
    obtain ⟨hok, hfail⟩ := context_create_effect b n w device d width height out r hd hcreate
    refine ⟨fun hst hlt => ?_, hfail⟩
    obtain ⟨_, hdev, _⟩ := hok hst
    rw [hdev]
    simp [fetch_add_1_eq d.ref_count hlt]
  · intro w ctx c d h0 hc hdev0 hd
    refine ⟨fun hs h1 hpos hlt => ?_, fun hnf => context_release_nonfinal b w ctx c h0 hc hnf⟩
    have h := context_release_final b w ctx c d h0 hc hs h1 hdev0 hd hpos hlt
    cases hr : rive_renderer_context_release b w ctx with
    | none => simp [hr] at h
    | some r =>
      simp only [hr, Option.map_some', Option.some.injEq, Prod.mk.injEq] at h ⊢
      obtain ⟨h1, _, h3, h4⟩ := h
      refine ⟨h1, ?_, h4⟩
      rw [h3]
      split_ifs <;> rfl
  · intro n w w1 device ctx d width height out hdev0 hd hd1 hcreate
    obtain ⟨hok, _⟩ := context_create_effect b n w device d width height _ _ hd hcreate
    obtain ⟨hcreated, hdev, hdel⟩ := hok rfl
    simp only [createdContext, Bool.and_eq_true, decide_eq_true_eq, Option.some.injEq] at hcreated
    obtain ⟨⟨hout, hne⟩, hctx⟩ := hcreated
    rw [← hout] at hne hctx
    simp only at hdev hdel hne hctx
    cases hcc : w1.contexts ctx with
    | none => simp [hcc] at hctx
    | some c =>
      simp only [hcc, Option.map_some', Option.some.injEq, Prod.mk.injEq] at hctx
      obtain ⟨hc1, hc2, hc3⟩ := hctx
      have hd2 : w1.devices device = some { d with ref_count := fetch_add_1 d.ref_count } := by
        rw [hdev]; simp
      have := owner_release_orders b w1 device ctx c _ hdev0 hne hcc hc1 hc2 hc3 hd2
        (by rw [hd1]; rfl)
      rw [hdel] at this
      exact this

/-- C9 (witness): the null device of `sampleDeviceWorld` (count 1) and the context
created on it in `selfTestWorld`, released in either order. -/
theorem context_holds_one_device_reference_witness :
    sampleDeviceWorld.devices 1 = some sampleDevice ∧ sampleDevice.ref_count = 1 ∧
      rive_renderer_context_create windowsBuild {} sampleDeviceWorld 1 128 128 (some 0) =
        some ⟨.ok, selfTestWorld, some 2⟩ ∧
      (runCalls (OwnerCall.run windowsBuild 1 2) selfTestWorld
          [.device_release, .context_release]).map (observeDevice 1) =
        some ([.ok, .ok], none, 2 :: 1 :: sampleDeviceWorld.deleted) ∧
      (runCalls (OwnerCall.run windowsBuild 1 2) selfTestWorld
          [.context_release, .device_release]).map (observeDevice 1) =
        some ([.ok, .ok], none, 1 :: 2 :: sampleDeviceWorld.deleted) :=
  ⟨by decide, by decide, rfl,
    ((context_holds_one_device_reference windowsBuild).2.2 {} sampleDeviceWorld selfTestWorld
      1 2 sampleDevice 128 128 0 (by decide) (by decide) (by decide) rfl).2.1,
    ((context_holds_one_device_reference windowsBuild).2.2 {} sampleDeviceWorld selfTestWorld
      1 2 sampleDevice 128 128 0 (by decide) (by decide) (by decide) rfl).2.2.2⟩


/-- C10 (counterexample): in a build without text support, `rive_renderer_font_retain`
and `rive_renderer_font_release` called with a null handle return `unsupported`, not
`invalid_handle`. -/
theorem font_null_handle_unsupported :
    (HandleType.retain windowsBuild {} 0 .font).map Prod.fst = some .unsupported ∧
      (HandleType.release windowsBuild {} 0 .font).map Prod.fst = some .unsupported := by
  decide

/-- C10 (amended): for Device, Context, Surface, Fence, Path, Paint, Renderer, Buffer,
Image and Shader, and for Font in a build with text support, retain and release called
with a null handle return `invalid_handle` and change nothing in the world but the error
text; in a build without text support the font retain and release functions return
`unsupported` for every handle, the null one included, and change nothing but the error
text. -/
theorem null_handle_is_invalid_handle (b : Build) (w : World) (kind : HandleType)
    (htext : kind = .font → b.text = true) :
    kind.retain b w 0 = some (.invalid_handle, SetLastError w kind.nullMessage) ∧
      kind.release b w 0 = some (.invalid_handle, SetLastError w kind.nullMessage) ∧
      (b.text = false → ∀ font : Ptr,
        rive_renderer_font_retain b w font =
            some (.unsupported, SetLastError w "text support not available") ∧
          rive_renderer_font_release b w font =
            some (.unsupported, SetLastError w "text support not available")) := by
  refine ⟨?_, ?_, ?_⟩
  · cases kind <;> try rfl
    simp [HandleType.retain, rive_renderer_font_retain, htext rfl]
    rfl
  · cases kind <;> try rfl
    simp [HandleType.release, rive_renderer_font_release, htext rfl]
    rfl
  · intro ht font
    simp [rive_renderer_font_retain, rive_renderer_font_release, ht]

/-- C10 (witness): the surface functions in `sampleWorld`. -/
theorem null_handle_is_invalid_handle_witness :
    HandleType.retain windowsBuild sampleWorld 0 .surface =
        some (.invalid_handle, SetLastError sampleWorld "surface handle is null") ∧
      HandleType.release windowsBuild sampleWorld 0 .surface =
        some (.invalid_handle, SetLastError sampleWorld "surface handle is null") :=
  ⟨(null_handle_is_invalid_handle windowsBuild sampleWorld .surface (by decide)).1,
    (null_handle_is_invalid_handle windowsBuild sampleWorld .surface (by decide)).2.1⟩


/-- C11 (failing input): on a handle whose reference count is 0 the first release returns
`internal_error` and deletes nothing, but for a device, context, path, paint, renderer,
buffer, image, font or shader handle it leaves the 32-bit count at `2 ^ 32 - 1`, so a
second release returns `ok` (count `2 ^ 32 - 2`); the surface and fence release functions
restore the count to 0 and keep returning `internal_error`. -/
theorem release_after_underflow_returns_ok :
    ([HandleType.device, .context, .path, .paint, .renderer, .buffer, .image, .font,
        .shader].map fun kind =>
      (releaseTimes textBuild kind 1 1 zeroCountWorld,
        releaseTimes textBuild kind 1 2 zeroCountWorld)) =
      List.replicate 9
        (some ([.internal_error], some 4294967295, []),
          some ([.internal_error, .ok], some 4294967294, [])) ∧
    ([HandleType.surface, .fence].map fun kind =>
      (releaseTimes textBuild kind 1 1 zeroCountWorld,
        releaseTimes textBuild kind 1 3 zeroCountWorld)) =
      List.replicate 2
        (some ([.internal_error], some 0, []),
          some ([.internal_error, .internal_error, .internal_error], some 0, [])) := by
  exact ⟨rfl, rfl⟩


/-- C12: for every live context with an attached surface (surface pointer non-null),
whatever its reference count, `rive_renderer_context_release` returns
`invalid_parameter` and changes nothing but the error text: the contexts (reference count
and attachment included), the devices, the surfaces and the deleted addresses are as
before. -/
theorem context_release_with_surface_rejected (b : Build) (w : World) (context : Ptr)
    (c : ContextHandle) (h0 : context ≠ 0) (hc : w.contexts context = some c)
    (hs : c.surface ≠ 0) :
    rive_renderer_context_release b w context =
        some (.invalid_parameter, SetLastError w
          "context has an active surface; release the surface before destroying the context") ∧
      (rive_renderer_context_release b w context).map
          (fun r => (r.2.contexts, r.2.devices, r.2.surfaces, r.2.deleted)) =
        some (w.contexts, w.devices, w.surfaces, w.deleted) := by
  have h : rive_renderer_context_release b w context =
      some (.invalid_parameter, SetLastError w
        "context has an active surface; release the surface before destroying the context") := by
    simp [rive_renderer_context_release, h0, hc, hs]
  exact ⟨h, by rw [h]; rfl⟩

/-- C12 (witness): the context of `surfaceAttachedWorld`, whose count is 2 and whose
device's count is 3. -/
theorem context_release_with_surface_rejected_witness :
    (rive_renderer_context_release windowsBuild surfaceAttachedWorld 2).map
        (fun r => (r.1, (r.2.contexts 2).map (fun c => (c.ref_count, c.surface)),
          (r.2.devices 1).map (·.ref_count))) =
      some (.invalid_parameter, some (2, 3), some 3) := by
  rw [(context_release_with_surface_rejected windowsBuild surfaceAttachedWorld 2
    { ref_count := 2, device := 1, width := 4, height := 4, surface := 3 }
    (by decide) rfl (by decide)).1]
  rfl


/-- C13: a context that `rive_renderer_context_create` makes on a device of the null
backend has no render context, and on every live context without a render context
`rive_renderer_path_create` (every fill rule, valid or not), `rive_renderer_paint_create`,
`rive_renderer_renderer_create`, `rive_renderer_buffer_create`,
`rive_renderer_image_decode` and the two gradient shader creators, called with a non-null
output pointer and any other arguments, return `unsupported`, leave the output cell as it
was and change nothing in the world but the error text. -/
theorem create_on_null_context_unsupported (b : Build) (nc : ContextCreateNative)
    (w0 w : World) (device context : Ptr) (d : DeviceHandle) (width height out0 : Nat)
    (h0 : device ≠ 0) (hd : w0.devices device = some d)
    (hb : d.backend = rive_renderer_backend_t.null)
    (hcreate : rive_renderer_context_create b nc w0 device width height (some out0) =
      some ⟨.ok, w, some context⟩) :
    (w.contexts context).map (·.renderContext) = some false ∧
    ∀ (w1 : World) (c : ContextHandle), context ≠ 0 → w1.contexts context = some c →
      c.renderContext = false →
      ∀ (n : CreateNative) (nb : BufferCreateNative) (out : Ptr),
        (∀ fill_rule, rive_renderer_path_create n w1 context fill_rule (some out) =
          some ⟨.unsupported, SetLastError w1 "render context unavailable", some out⟩) ∧
        rive_renderer_paint_create n w1 context (some out) =
          some ⟨.unsupported, SetLastError w1 "render context unavailable", some out⟩ ∧
        rive_renderer_renderer_create n w1 context (some out) =
          some ⟨.unsupported, SetLastError w1 "render context unavailable", some out⟩ ∧
        (∀ type flags size_in_bytes,
          rive_renderer_buffer_create nb w1 context type flags size_in_bytes (some out) =
            some ⟨.unsupported, SetLastError w1 "render context unavailable", some out⟩) ∧
        (∀ encoded_data encoded_length,
          rive_renderer_image_decode n w1 context encoded_data encoded_length (some out) =
            some ⟨.unsupported, SetLastError w1 "render context unavailable", some out⟩) ∧
        (∀ colors stops stop_count,
          rive_renderer_shader_linear_gradient_create n w1 context colors stops stop_count
              (some out) =
            some ⟨.unsupported, SetLastError w1 "render context unavailable", some out⟩ ∧
          rive_renderer_shader_radial_gradient_create n w1 context colors stops stop_count
              (some out) =
            some ⟨.unsupported, SetLastError w1 "render context unavailable", some out⟩) := by
  refine ⟨?_, ?_⟩
  · rw [context_create_null b nc w0 device d width height out0 h0 hd hb] at hcreate
    split_ifs at hcreate with hv ha
    · cases hcreate
    · cases hcreate
    · simp only [Option.some.injEq, CreateResult.mk.injEq, true_and] at hcreate
      obtain ⟨hw, hctx⟩ := hcreate
      subst hw hctx
      rw [(context_create_null_world w0 device d width height h0 hb).2]
      rfl
  · intro w1 c hc0 hc hrc n nb out
    refine ⟨fun fill_rule => ?_, ?_, ?_, fun type flags size_in_bytes => ?_,
      fun encoded_data encoded_length => ?_, fun colors stops stop_count => ⟨?_, ?_⟩⟩
    · simp [rive_renderer_path_create, hc0, hc, hrc]
    · simp [rive_renderer_paint_create, hc0, hc, hrc]
    · simp [rive_renderer_renderer_create, hc0, hc, hrc]
    · simp [rive_renderer_buffer_create, hc0, hc, hrc]
    · simp [rive_renderer_image_decode, hc0, hc, hrc]
    · simp [rive_renderer_shader_linear_gradient_create, gradient_create, hc0, hc, hrc]
    · simp [rive_renderer_shader_radial_gradient_create, gradient_create, hc0, hc, hrc]

/-- C13 (witness): the 128 by 128 context of the self test, at address 2 of
`selfTestWorld`, asked for a path with the invalid fill rule 9. -/
theorem create_on_null_context_unsupported_witness :
    rive_renderer_context_create windowsBuild {} sampleDeviceWorld 1 128 128 (some 0) =
        some ⟨.ok, selfTestWorld, some 2⟩ ∧
      (rive_renderer_path_create {} selfTestWorld 2 9 (some 0)).map
          (fun r => (r.status, r.out)) = some (.unsupported, some 0) := by
  refine ⟨rfl, ?_⟩
  have h := create_on_null_context_unsupported windowsBuild {} sampleDeviceWorld
    selfTestWorld 1 2 sampleDevice 128 128 0 (by decide) (by decide) (by decide) rfl
  have hc : selfTestWorld.contexts 2 = some ((selfTestWorld.contexts 2).getD {}) := rfl
  rw [(h.2 selfTestWorld _ (by decide) hc rfl {} {} 0).1 9]
  rfl


/-- C14 (counterexample): on the four-byte buffer of `sampleBufferWorld` an upload with
`data_length = 0` at offset 5, where the exact sum 5 exceeds the size 4, returns `ok`,
not `invalid_parameter` (and leaves the buffer as it was). -/
theorem buffer_upload_empty_past_end_ok :
    (rive_renderer_buffer_upload {} sampleBufferWorld 1 (some []) 0 5).map
        (fun r => (r.1, (r.2.buffers 1).map (·.data))) =
      some (.ok, some [10, 20, 30, 40]) ∧
    (sampleBufferWorld.buffers 1).map (·.size_in_bytes) = some 4 := by
  exact ⟨rfl, rfl⟩

/-- C14 (amended): for every valid buffer of byte size `S` below `2 ^ 63` (the size of its
memory), every non-null `data` holding at least `data_length` bytes, and every offset and
`data_length >= 1`: if the exact sum `offset + data_length` exceeds `S`,
`rive_renderer_buffer_upload` returns `invalid_parameter` and changes nothing but the
error text; if the sum is at most `S` (the engine's map succeeding) it returns `ok` and
the buffer holds the first `data_length` bytes of `data` at `[offset, offset +
data_length)` and its old bytes everywhere else. With `data_length = 0` it returns `ok`
and changes no byte, whatever the offset. -/
theorem buffer_upload_bounds (n : BufferMapNative) (w : World) (buffer : Ptr)
    (h : BufferHandle) (bytes : List Nat) (data_length offset : Nat)
    (h0 : buffer ≠ 0) (hb : w.buffers buffer = some h) (hobj : h.buffer = true)
    (hsize : h.size_in_bytes = h.data.length) (hdata : data_length ≤ bytes.length)
    (hS : h.size_in_bytes < 2 ^ 63) :
    (data_length = 0 →
      rive_renderer_buffer_upload n w buffer (some bytes) data_length offset =
        some (.ok, ClearLastError w)) ∧
    (0 < data_length → h.size_in_bytes < offset + data_length →
      rive_renderer_buffer_upload n w buffer (some bytes) data_length offset =
        some (.invalid_parameter, SetLastError w "upload exceeds buffer bounds")) ∧
    (0 < data_length → offset + data_length ≤ h.size_in_bytes → n.mapped ≠ 0 →
      rive_renderer_buffer_upload n w buffer (some bytes) data_length offset =
        some (.ok, ClearLastError (w.setBuffer buffer
          { h with
            data := h.data.take offset ++ bytes.take data_length ++
              h.data.drop (offset + data_length) })) ∧
      (h.data.take offset ++ bytes.take data_length ++
        h.data.drop (offset + data_length)).length = h.data.length ∧
      ∀ i,
        (h.data.take offset ++ bytes.take data_length ++
            h.data.drop (offset + data_length)).get? i =
          if offset ≤ i ∧ i < offset + data_length then bytes.get? (i - offset)
          else h.data.get? i) := by
  have hmod : offset ≤ h.size_in_bytes → data_length ≤ h.size_in_bytes →
      (offset + data_length) % SIZE = offset + data_length := fun h1 h2 =>
    Nat.mod_eq_of_lt (by simp only [SIZE]; omega)
  refine ⟨fun hz => ?_, fun hpos hgt => ?_, fun hpos hle hmap => ⟨?_, ?_, ?_⟩⟩
  · simp [rive_renderer_buffer_upload, h0, hb, hobj, hz]
  · have hne : data_length ≠ 0 := by omega
    have hcond : offset > h.size_in_bytes ∨ data_length > h.size_in_bytes ∨
        (offset + data_length) % SIZE > h.size_in_bytes := by
      by_cases h1 : offset > h.size_in_bytes
      · exact Or.inl h1
      · by_cases h2 : data_length > h.size_in_bytes
        · exact Or.inr (Or.inl h2)
        · rw [hmod (by omega) (by omega)]
          exact Or.inr (Or.inr hgt)
    simp only [rive_renderer_buffer_upload, h0, hb, hobj, hne, if_false,
      Bool.not_true, Bool.false_eq_true]
    rw [if_pos hcond]
  · have hne : data_length ≠ 0 := by omega
    have hnot : ¬ (offset > h.size_in_bytes ∨ data_length > h.size_in_bytes ∨
        (offset + data_length) % SIZE > h.size_in_bytes) := by
      rw [hmod (by omega) (by omega)]
      omega
    have hnot2 : ¬ (bytes.length < data_length ∨ h.data.length < offset + data_length) := by
      omega
    simp only [rive_renderer_buffer_upload, h0, hb, hobj, hne, if_false,
      Bool.not_true, Bool.false_eq_true]
    rw [if_neg hnot, if_neg hmap, if_neg hnot2]
  · simp only [List.length_append, List.length_take, List.length_drop]
    omega
  · intro i
    have hl1 : (h.data.take offset).length = offset := by
      rw [List.length_take]; omega
    have hl2 : (bytes.take data_length).length = data_length := by
      rw [List.length_take]; omega
    simp only [List.get?_eq_getElem?]
    by_cases hi1 : i < offset
    · rw [if_neg (by omega), List.append_assoc, List.getElem?_append_left (by omega),
        List.getElem?_take_of_lt hi1]
    · by_cases hi2 : i < offset + data_length
      · rw [if_pos ⟨by omega, hi2⟩, List.getElem?_append_left
          (by rw [List.length_append, hl1, hl2]; exact hi2),
          List.getElem?_append_right (by omega), hl1,
          List.getElem?_take_of_lt (by omega)]
      · rw [if_neg (by omega), List.getElem?_append_right
          (by rw [List.length_append, hl1, hl2]; omega), List.length_append, hl1, hl2,
          List.getElem?_drop]
        congr 1
        omega

/-- C14 (witness): two bytes uploaded at offset 1 of the four-byte buffer of
`sampleBufferWorld`, and three bytes at offset 2 rejected. -/
theorem buffer_upload_bounds_witness :
    (rive_renderer_buffer_upload {} sampleBufferWorld 1 (some [7, 8, 9]) 2 1).map
        (fun r => (r.1, (r.2.buffers 1).map (·.data))) =
      some (.ok, some [10, 7, 8, 40]) ∧
    rive_renderer_buffer_upload {} sampleBufferWorld 1 (some [7, 8, 9]) 3 2 =
      some (.invalid_parameter, SetLastError sampleBufferWorld "upload exceeds buffer bounds") :=
  ⟨rfl,
    (buffer_upload_bounds {} sampleBufferWorld 1 sampleBuffer [7, 8, 9] 3 2 (by decide) rfl
      rfl rfl (by decide) (by decide)).2.1 (by decide) (by decide)⟩


theorem buffer_map_step (n : BufferMapNative) (out_mapping : rive_renderer_mapped_memory_t)
    (w : World) (buffer : Ptr) (h : BufferHandle) (h0 : buffer ≠ 0)
    (hb : w.buffers buffer = some h) (hobj : h.buffer = true) (hmap : n.mapped ≠ 0) :
    BufferCall.run buffer w (.map n (some out_mapping)) =
      if h.mapped_ptr ≠ 0 then
        some (.invalid_parameter, SetLastError w "buffer is already mapped")
      else
        some (.ok, ClearLastError (w.setBuffer buffer { h with mapped_ptr := n.mapped })) := by
  simp only [BufferCall.run, rive_renderer_buffer_map, h0, hb, hobj, if_false, Bool.not_true,
    Bool.false_eq_true, if_neg hmap]
  split_ifs <;> rfl

theorem buffer_unmap_step (w : World) (buffer : Ptr) (h : BufferHandle) (h0 : buffer ≠ 0)
    (hb : w.buffers buffer = some h) (hobj : h.buffer = true) :
    BufferCall.run buffer w .unmap =
      if h.mapped_ptr = 0 then some (.invalid_parameter, SetLastError w "buffer is not mapped")
      else some (.ok, ClearLastError (w.setBuffer buffer { h with mapped_ptr := 0 })) := by
  simp only [BufferCall.run, rive_renderer_buffer_unmap, h0, hb, hobj, if_false,
    Bool.not_true, Bool.false_eq_true]

theorem buffer_calls_follow_discipline (buffer : Ptr) (h0 : buffer ≠ 0)
    (calls : List BufferCall) :
    ∀ (w : World) (h : BufferHandle), w.buffers buffer = some h → h.buffer = true →
      mapsSucceed calls = true →
      (runCalls (BufferCall.run buffer) w calls).map
          (fun r => (r.1, bufferMapped r.2 buffer)) =
        some ((mappingDiscipline (decide (h.mapped_ptr ≠ 0)) calls).1,
          some (mappingDiscipline (decide (h.mapped_ptr ≠ 0)) calls).2) := by
  induction calls with
  | nil =>
    intro w h hb hobj _
    simp [runCalls, mappingDiscipline, bufferMapped, hb, hobj]
  | cons call calls ih =>
    intro w h hb hobj hs
    cases call with
    | map n out_mapping =>
      simp only [mapsSucceed, Bool.and_eq_true, decide_eq_true_eq] at hs
      obtain ⟨hmap, hs⟩ := hs
      cases out_mapping with
      | none =>
        have hb1 : (SetLastError w "mapped memory output pointer is null").buffers buffer =
            some h := hb
        have := ih _ _ hb1 hobj hs
        simp only [runCalls, BufferCall.run, rive_renderer_buffer_map, Option.map_some',
          mappingDiscipline] at this ⊢
        cases hr : runCalls (BufferCall.run buffer)
            (SetLastError w "mapped memory output pointer is null") calls with
        | none => simp [hr] at this
        | some r =>
          simp only [hr, Option.map_some', Option.some.injEq, Prod.mk.injEq] at this ⊢
          exact ⟨by rw [this.1], this.2⟩
      | some out_mapping =>
        simp only [runCalls, buffer_map_step n out_mapping w buffer h h0 hb hobj hmap]
        by_cases hm : h.mapped_ptr = 0
        · have hb1 : (ClearLastError (w.setBuffer buffer { h with mapped_ptr := n.mapped })).buffers
              buffer = some { h with mapped_ptr := n.mapped } := by
            simp [ClearLastError, World.setBuffer]
          have := ih _ _ hb1 hobj hs
          simp only [hmap, ne_eq, not_false_eq_true, decide_True] at this
          simp only [hm, ne_eq, not_true_eq_false, if_false, decide_False, mappingDiscipline,
            Bool.false_eq_true]
          cases hr : runCalls (BufferCall.run buffer)
              (ClearLastError (w.setBuffer buffer { h with mapped_ptr := n.mapped })) calls with
          | none => simp [hr] at this
          | some r =>
            simp only [hr, Option.map_some', Option.some.injEq, Prod.mk.injEq] at this ⊢
            exact ⟨by rw [this.1], this.2⟩
        · have hb1 : (SetLastError w "buffer is already mapped").buffers buffer = some h := hb
          have := ih _ _ hb1 hobj hs
          simp only [hm, ne_eq, not_false_eq_true, if_true, decide_True, mappingDiscipline] at this ⊢
          cases hr : runCalls (BufferCall.run buffer)
              (SetLastError w "buffer is already mapped") calls with
          | none => simp [hr] at this
          | some r =>
            simp only [hr, Option.map_some', Option.some.injEq, Prod.mk.injEq] at this ⊢
            exact ⟨by rw [this.1], this.2⟩
    | unmap =>
      simp only [mapsSucceed] at hs
      simp only [runCalls, buffer_unmap_step w buffer h h0 hb hobj]
      by_cases hm : h.mapped_ptr = 0
      · have hb1 : (SetLastError w "buffer is not mapped").buffers buffer = some h := hb
        have := ih _ _ hb1 hobj hs
        simp only [hm, ne_eq, not_true_eq_false, if_true, decide_False, mappingDiscipline,
          Bool.false_eq_true, if_false] at this ⊢
        cases hr : runCalls (BufferCall.run buffer)
            (SetLastError w "buffer is not mapped") calls with
        | none => simp [hr] at this
        | some r =>
          simp only [hr, Option.map_some', Option.some.injEq, Prod.mk.injEq] at this ⊢
          exact ⟨by rw [this.1], this.2⟩
      · have hb1 : (ClearLastError (w.setBuffer buffer { h with mapped_ptr := 0 })).buffers
            buffer = some { h with mapped_ptr := 0 } := by
          simp [ClearLastError, World.setBuffer]
        have := ih _ _ hb1 hobj hs
        simp only [ne_eq, not_true_eq_false, decide_False] at this
        simp only [hm, ne_eq, not_false_eq_true, if_false, decide_True, mappingDiscipline,
          if_true]
        cases hr : runCalls (BufferCall.run buffer)
            (ClearLastError (w.setBuffer buffer { h with mapped_ptr := 0 })) calls with
        | none => simp [hr] at this
        | some r =>
          simp only [hr, Option.map_some', Option.some.injEq, Prod.mk.injEq] at this ⊢
          exact ⟨by rw [this.1], this.2⟩


/-- C15 (counterexample): on the fresh buffer of `gpuBufferWorld`, which is not mapped,
`rive_renderer_buffer_map` with a null `out_mapping` returns `null_pointer`: the call is
not `ok` although the buffer is unmapped, and the rejected call does not return
`invalid_parameter`. The buffer stays unmapped. -/
theorem buffer_map_null_out_mapping :
    rive_renderer_buffer_create {} gpuContextWorld 2 1 0 4 (some 0) =
        some ⟨.ok, gpuBufferWorld, some 3⟩ ∧
      bufferMapped gpuBufferWorld 3 = some false ∧
      (rive_renderer_buffer_map {} gpuBufferWorld 3 none).map
          (fun r => (r.1, r.2.1.g_lastError, bufferMapped r.2.1 3)) =
        some (.null_pointer, "mapped memory output pointer is null", some false) :=
  ⟨rfl, rfl, rfl⟩

/-- C15 (amended): a buffer freshly made by `rive_renderer_buffer_create` is unmapped, and
for every valid buffer and every sequence of `rive_renderer_buffer_map` and
`rive_renderer_buffer_unmap` calls on it (the engine's map succeeding) the statuses and
the final mapped state are those of the single-mapping discipline: a `map` with a null
`out_mapping` returns `null_pointer`, a `map` with a non-null one returns `ok` if and
only if the buffer is not currently mapped, `unmap` returns `ok` if and only if it is,
every other rejected call returns `invalid_parameter`, and each rejected call leaves the
mapped state unchanged. -/
theorem buffer_map_unmap_discipline (nb : BufferCreateNative) (w0 w : World)
    (context buffer : Ptr) (type : rive_renderer_buffer_type_t)
    (flags size_in_bytes out0 : Nat)
    (hcreate : rive_renderer_buffer_create nb w0 context type flags size_in_bytes (some out0) =
      some ⟨.ok, w, some buffer⟩) :
    buffer ≠ 0 ∧ bufferMapped w buffer = some false ∧
    ∀ (w1 : World) (mapped : Bool), bufferMapped w1 buffer = some mapped →
      ∀ calls, mapsSucceed calls = true →
        (runCalls (BufferCall.run buffer) w1 calls).map
            (fun r => (r.1, bufferMapped r.2 buffer)) =
          some ((mappingDiscipline mapped calls).1, some (mappingDiscipline mapped calls).2) := by
  have hfresh : buffer ≠ 0 ∧ bufferMapped w buffer = some false := by
    unfold rive_renderer_buffer_create at hcreate
    simp only at hcreate
    repeat' split at hcreate
    all_goals first
      | (simp only [Option.some.injEq, CreateResult.mk.injEq] at hcreate
         obtain ⟨_, hw, hbuf⟩ := hcreate
         subst hw hbuf
         exact ⟨Nat.succ_ne_zero _, by
           simp [bufferMapped, ClearLastError, World.setBuffer, World.fresh]⟩)
      | (simp at hcreate)
  refine ⟨hfresh.1, hfresh.2, ?_⟩
  intro w1 mapped hm calls hs
  unfold bufferMapped at hm
  cases hb : w1.buffers buffer with
  | none => simp [hb] at hm
  | some h =>
    simp only [hb] at hm
    by_cases hobj : h.buffer = true
    · simp only [hobj, if_true, Option.some.injEq] at hm
      rw [← hm]
      exact buffer_calls_follow_discipline buffer hfresh.1 calls w1 h hb hobj hs
    · simp [hobj] at hm

/-- C15 (witness): on the fresh buffer of `gpuBufferWorld` the calls unmap, map, map, map
with a null `out_mapping`, unmap, unmap, map with a null `out_mapping` return
`invalid_parameter`, `ok`, `invalid_parameter`, `null_pointer`, `ok`,
`invalid_parameter`, `null_pointer` and leave it unmapped. -/
theorem buffer_map_unmap_discipline_witness :
    rive_renderer_buffer_create {} gpuContextWorld 2 1 0 4 (some 0) =
        some ⟨.ok, gpuBufferWorld, some 3⟩ ∧
      (runCalls (BufferCall.run 3) gpuBufferWorld
          [.unmap, .map {} (some {}), .map {} (some {}), .map {} none, .unmap, .unmap,
            .map {} none]).map
          (fun r => (r.1, bufferMapped r.2 3)) =
        some ([.invalid_parameter, .ok, .invalid_parameter, .null_pointer, .ok,
          .invalid_parameter, .null_pointer], some false) :=
  ⟨rfl,
    (buffer_map_unmap_discipline {} gpuContextWorld gpuBufferWorld 2 3 1 0 4 0 rfl).2.2
      gpuBufferWorld false rfl
      [.unmap, .map {} (some {}), .map {} (some {}), .map {} none, .unmap, .unmap,
        .map {} none] rfl⟩


theorem signal_fence_at (b : Build) (n : SignalNative) (w : World) (context fence : Ptr)
    (f : FenceHandle) (value : Nat) (hwin : b.win32 = true)
    (hcan : canSignal w context fence = true) (hf : w.fences fence = some f) :
    rive_renderer_context_signal_fence b n w context fence value =
      if value ≠ 0 ∧ value ≤ f.lastValue then
        some (.invalid_parameter, SetLastError w
          "fence signal value must be greater than the last signaled value")
      else if !n.signalOk then
        some (.internal_error, SetLastError
          ((w.setFence fence
            { f with lastValue := if value = 0 then (f.lastValue + 1) % U64 else value }).setFence
            fence { f with lastValue := f.lastValue })
          "queue signal failed")
      else
        some (.ok, ClearLastError (w.setFence fence
          { f with lastValue := if value = 0 then (f.lastValue + 1) % U64 else value })) := by
  unfold canSignal at hcan
  simp only [Bool.and_eq_true, decide_eq_true_eq] at hcan
  obtain ⟨⟨hc0, hf0⟩, hrest⟩ := hcan
  cases hc : w.contexts context with
  | none => simp [hc] at hrest
  | some c =>
    simp only [hc, hf, Bool.and_eq_true, decide_eq_true_eq] at hrest
    obtain ⟨⟨hd0, hdf⟩, hdev⟩ := hrest
    cases hd : w.devices c.device with
    | none => simp [hd] at hdev
    | some d =>
      simp only [hd, Bool.and_eq_true, decide_eq_true_eq] at hdev
      obtain ⟨hbk, hq⟩ := hdev
      have hshare : ¬ (c.device = 0 ∨ f.device = 0 ∨ c.device ≠ f.device) := by
        rw [← hdf]
        simp [hd0]
      simp only [rive_renderer_context_signal_fence, hc0, hf0, hwin, hc, hf, if_false, if_true,
        if_neg hshare, hd, hbk, hq, ne_eq, not_true_eq_false, Bool.not_true,
        Bool.false_eq_true]
      by_cases hv : value = 0
      · simp [hv]
      · simp [hv]

theorem signal_fence_cases (b : Build) (n : SignalNative) (w : World)
    (context fence : Ptr) (f : FenceHandle) (value : Nat) (hf : w.fences fence = some f)
    (r : rive_renderer_status_t × World)
    (hr : rive_renderer_context_signal_fence b n w context fence value = some r) :
    (r.1 ≠ .ok ∧ r.2.fences fence = some f) ∨
      (r.1 = .ok ∧
        r.2 = ClearLastError (w.setFence fence
          { f with lastValue := if value = 0 then (f.lastValue + 1) % U64 else value }) ∧
        ¬ (value ≠ 0 ∧
          (if value = 0 then (f.lastValue + 1) % U64 else value) ≤ f.lastValue)) := by
  unfold rive_renderer_context_signal_fence at hr
  by_cases hc0 : context = 0
  · rw [if_pos hc0] at hr
    cases hr
    exact Or.inl ⟨fun h => (by cases h), hf⟩
  rw [if_neg hc0] at hr
  by_cases hf0 : fence = 0
  · rw [if_pos hf0] at hr
    cases hr
    exact Or.inl ⟨fun h => (by cases h), hf⟩
  rw [if_neg hf0] at hr
  by_cases hw : b.win32 = true
  swap
  · rw [if_neg hw] at hr
    cases hr
    exact Or.inl ⟨fun h => (by cases h), hf⟩
  rw [if_pos hw] at hr
  cases hc : w.contexts context with
  | none =>
    rw [hc] at hr
    cases hr
  | some c =>
    rw [hc, hf] at hr
    simp only at hr
    by_cases hshare : c.device = 0 ∨ f.device = 0 ∨ c.device ≠ f.device
    · rw [if_pos hshare] at hr
      cases hr
      exact Or.inl ⟨fun h => (by cases h), hf⟩
    rw [if_neg hshare] at hr
    cases hd : w.devices c.device with
    | none =>
      rw [hd] at hr
      cases hr
    | some d =>
      rw [hd] at hr
      simp only at hr
      by_cases hbk : d.backend ≠ rive_renderer_backend_t.d3d12
      · rw [if_pos hbk] at hr
        cases hr
        exact Or.inl ⟨fun h => (by cases h), hf⟩
      rw [if_neg hbk] at hr
      by_cases hq : (!d.directQueue) = true
      · rw [if_pos hq] at hr
        cases hr
        exact Or.inl ⟨fun h => (by cases h), hf⟩
      rw [if_neg hq] at hr
      by_cases hv : value ≠ 0 ∧
          (if value = 0 then (f.lastValue + 1) % U64 else value) ≤ f.lastValue
      · rw [if_pos hv] at hr
        cases hr
        exact Or.inl ⟨fun h => (by cases h), hf⟩
      rw [if_neg hv] at hr
      by_cases hsig : (!n.signalOk) = true
      · rw [if_pos hsig] at hr
        cases hr
        refine Or.inl ⟨fun h => (by cases h), ?_⟩
        simp only [SetLastError, World.setFence, Function.update_same]
      rw [if_neg hsig] at hr
      cases hr
      exact Or.inr ⟨rfl, rfl, hv⟩

theorem signal_fence_failure_world (b : Build) (n : SignalNative) (w : World)
    (context fence : Ptr) (f : FenceHandle) (value : Nat) (hf : w.fences fence = some f)
    (r : rive_renderer_status_t × World)
    (hr : rive_renderer_context_signal_fence b n w context fence value = some r)
    (hne : r.1 ≠ .ok) : r.2.fences fence = some f := by
  rcases signal_fence_cases b n w context fence f value hf r hr with h | h
  · exact h.2
  · exact absurd h.1 hne


/-- C16: for every fence with recorded last value `L`, every call of
`rive_renderer_context_signal_fence` that returns a status other than `ok` leaves the
fence, and so its last value, as it was (and the call does return when the handles it
reads are live). In particular, where the call gets as far as the value (Windows build,
context and fence on one D3D12 device with a direct queue), a non-zero value at most `L`
returns `invalid_parameter` and changes only the error text, and a failing queue signal
returns `internal_error` with the last value back at `L`. -/
theorem signal_fence_failure_keeps_last_value (b : Build) (n : SignalNative) (w : World)
    (context fence : Ptr) (f : FenceHandle) (value : Nat) (hf : w.fences fence = some f) :
    (∀ r, rive_renderer_context_signal_fence b n w context fence value = some r →
      r.1 ≠ .ok → (r.2.fences fence).map (·.lastValue) = some f.lastValue) ∧
    (signalHandlesLive w context = true →
      (rive_renderer_context_signal_fence b n w context fence value).isSome = true) ∧
    (b.win32 = true → canSignal w context fence = true → value ≠ 0 → value ≤ f.lastValue →
      rive_renderer_context_signal_fence b n w context fence value =
        some (.invalid_parameter, SetLastError w
          "fence signal value must be greater than the last signaled value")) ∧
    (b.win32 = true → canSignal w context fence = true → n.signalOk = false →
      (value = 0 ∨ f.lastValue < value) →
      (rive_renderer_context_signal_fence b n w context fence value).map
          (fun r => (r.1, r.2.g_lastError, (r.2.fences fence).map (·.lastValue))) =
        some (.internal_error, "queue signal failed", some f.lastValue)) := by
  refine ⟨fun r hr hne => ?_, fun hlive => ?_, fun hwin hcan hv hle => ?_,
    fun hwin hcan hsig hv => ?_⟩
  · rw [signal_fence_failure_world b n w context fence f value hf r hr hne]
    rfl
  · unfold signalHandlesLive at hlive
    cases hc : w.contexts context with
    | none => simp [hc] at hlive
    | some c =>
      simp only [hc, Bool.or_eq_true, decide_eq_true_eq] at hlive
      by_cases h1 : context = 0
      · simp [rive_renderer_context_signal_fence, h1]
      by_cases h2 : fence = 0
      · simp [rive_renderer_context_signal_fence, h1, h2]
      by_cases h3 : b.win32 = true
      · by_cases h4 : c.device = 0 ∨ f.device = 0 ∨ c.device ≠ f.device
        · simp only [rive_renderer_context_signal_fence, h1, h2, h3, hc, hf, if_false, if_true,
            if_pos h4]
          rfl
        · have hd0 : c.device ≠ 0 := fun h => h4 (Or.inl h)
          cases hd : w.devices c.device with
          | none => simp [hd, hd0] at hlive
          | some d =>
            simp only [rive_renderer_context_signal_fence, h1, h2, h3, hc, hf, if_false,
              if_true, if_neg h4, hd]
            split_ifs <;> rfl
      · simp [rive_renderer_context_signal_fence, h1, h2, h3]
  · rw [signal_fence_at b n w context fence f value hwin hcan hf, if_pos ⟨hv, hle⟩]
  · rw [signal_fence_at b n w context fence f value hwin hcan hf,
      if_neg (by rintro ⟨h1, h2⟩; rcases hv with h | h <;> omega)]
    simp [hsig, SetLastError, World.setFence]

/-- C16 (witness): on the fence of `sampleFenceWorld`, whose last value is 5, the value 5
is rejected with `invalid_parameter`. -/
theorem signal_fence_failure_keeps_last_value_witness :
    (sampleFenceWorld.fences 3).map (·.lastValue) = some 5 ∧
      rive_renderer_context_signal_fence windowsBuild {} sampleFenceWorld 2 3 5 =
        some (.invalid_parameter, SetLastError sampleFenceWorld
          "fence signal value must be greater than the last signaled value") :=
  ⟨rfl,
    (signal_fence_failure_keeps_last_value windowsBuild {} sampleFenceWorld 2 3 sampleFence 5
      rfl).2.2.1 rfl rfl (by decide) (by decide)⟩

/-- C17 (counterexample): on the fence of `sampleFenceWorld` a signal with the explicit
value `2 ^ 64 - 1` returns `ok`, and a following signal with value 0 returns `ok` too and
leaves the recorded last value at 0: it went down, not up by one. -/
theorem signal_fence_wraps_last_value :
    signalValues windowsBuild {} 2 3 sampleFenceWorld [18446744073709551615] =
        some ([.ok], some 18446744073709551615) ∧
      signalValues windowsBuild {} 2 3 sampleFenceWorld [18446744073709551615, 0] =
        some ([.ok, .ok], some 0) := by
  exact ⟨rfl, rfl⟩

/-- C17 (amended): for every fence with recorded last value `L` and every call of
`rive_renderer_context_signal_fence` that returns `ok`, the recorded last value
afterwards is the explicit value `v` when `v` is non-zero, and then `v > L`, and is
`L + 1` when `v` is zero and `L` is below `2 ^ 64 - 1` (at `L = 2 ^ 64 - 1` the 64-bit
value wraps to 0); so below that bound each `ok` call strictly increases it. Where the
call gets as far as the value (Windows build, context and fence on one D3D12 device with
a direct queue) and the queue signal succeeds, it returns `ok` for `v = 0` and for every
`v > L`. -/
theorem signal_fence_monotonic (b : Build) (n : SignalNative) (w : World)
    (context fence : Ptr) (f : FenceHandle) (value : Nat) (hf : w.fences fence = some f)
    (hL : f.lastValue + 1 < 2 ^ 64) :
    (∀ r, rive_renderer_context_signal_fence b n w context fence value = some r →
      r.1 = .ok →
      (r.2.fences fence).map (·.lastValue) =
          some (if value = 0 then f.lastValue + 1 else value) ∧
        f.lastValue < (if value = 0 then f.lastValue + 1 else value)) ∧
    (b.win32 = true → canSignal w context fence = true → n.signalOk = true →
      (value = 0 ∨ f.lastValue < value) →
      rive_renderer_context_signal_fence b n w context fence value =
        some (.ok, ClearLastError (w.setFence fence
          { f with lastValue := if value = 0 then f.lastValue + 1 else value }))) := by
  have hmod : (f.lastValue + 1) % U64 = f.lastValue + 1 :=
    Nat.mod_eq_of_lt (by simpa [U64] using hL)
  refine ⟨fun r hr hok => ?_, fun hwin hcan hsig hv => ?_⟩
  · rcases signal_fence_cases b n w context fence f value hf r hr with h | h
    · exact absurd hok h.1
    · obtain ⟨_, hw2, hv⟩ := h
      rw [hw2]
      simp only [ClearLastError, World.setFence, Function.update_same, Option.map_some']
      by_cases hv0 : value = 0
      · simp only [hv0, if_true, hmod]
        exact ⟨trivial, Nat.lt_succ_self _⟩
      · simp only [hv0, if_false]
        refine ⟨trivial, ?_⟩
        simp only [hv0, if_false, ne_eq, not_false_eq_true, true_and, not_le] at hv
        exact hv
  · rw [signal_fence_at b n w context fence f value hwin hcan hf,
      if_neg (by rintro ⟨h1, h2⟩; rcases hv with h | h <;> omega)]
    simp [hsig, hmod]

/-- C17 (witness): on the fence of `sampleFenceWorld`, whose last value is 5, the values
7 and then 0 are both signalled with `ok` and bring the last value to 7 and then 8. -/
theorem signal_fence_monotonic_witness :
    rive_renderer_context_signal_fence windowsBuild {} sampleFenceWorld 2 3 7 =
        some (.ok, ClearLastError (sampleFenceWorld.setFence 3
          { sampleFence with lastValue := 7 })) ∧
      signalValues windowsBuild {} 2 3 sampleFenceWorld [7, 0] = some ([.ok, .ok], some 8) :=
  ⟨(signal_fence_monotonic windowsBuild {} sampleFenceWorld 2 3 sampleFence 7 rfl
      (by decide)).2 rfl rfl rfl (by decide),
    rfl⟩


/-- C18: for every stored last-error message `m` of `n` bytes,
`rive_renderer_get_last_error_message` with a null buffer or `buffer_length = 0` returns
`n` and writes nothing; with a non-null buffer of `L >= 1` bytes it returns `n` and the
buffer afterwards holds the first `min(n, L - 1)` bytes of `m`, then one NUL byte at index
`min(n, L - 1)`, which is below `L`, and its old bytes at every greater index. -/
theorem get_last_error_message_copies_truncated (w : World) (buf : List Nat) (L : Nat) :
    rive_renderer_get_last_error_message w none L =
      some ((stringBytes w.g_lastError).length, none) ∧
    rive_renderer_get_last_error_message w (some buf) 0 =
      some ((stringBytes w.g_lastError).length, some buf) ∧
    (1 ≤ L → L ≤ buf.length →
      rive_renderer_get_last_error_message w (some buf) L =
        some ((stringBytes w.g_lastError).length,
          some ((stringBytes w.g_lastError).take (min (stringBytes w.g_lastError).length (L - 1))
            ++ [0] ++ buf.drop (min (stringBytes w.g_lastError).length (L - 1) + 1))) ∧
      min (stringBytes w.g_lastError).length (L - 1) < L ∧
      ((stringBytes w.g_lastError).take (min (stringBytes w.g_lastError).length (L - 1))
        ++ [0] ++ buf.drop (min (stringBytes w.g_lastError).length (L - 1) + 1)).length =
          buf.length ∧
      ∀ i,
        ((stringBytes w.g_lastError).take (min (stringBytes w.g_lastError).length (L - 1))
            ++ [0] ++ buf.drop (min (stringBytes w.g_lastError).length (L - 1) + 1)).get? i =
          if i < min (stringBytes w.g_lastError).length (L - 1) then
            (stringBytes w.g_lastError).get? i
          else if i = min (stringBytes w.g_lastError).length (L - 1) then some 0
          else buf.get? i) := by
  refine ⟨rfl, by simp [rive_renderer_get_last_error_message], fun h1 hL => ?_⟩
  generalize hm : stringBytes w.g_lastError = m
  have hmin : (if m.length < L - 1 then m.length else L - 1) = min m.length (L - 1) := by
    split_ifs <;> omega
  generalize hk : min m.length (L - 1) = k at hmin
  have hkn : k ≤ m.length := by omega
  have hkL : k < L := by omega
  have htl : (m.take k).length = k := by rw [List.length_take]; omega
  refine ⟨?_, hkL, ?_, ?_⟩
  · have hL0 : L ≠ 0 := by omega
    have hfit : ¬ buf.length < k + 1 := by omega
    simp only [rive_renderer_get_last_error_message, hm, hL0, if_false, hmin, if_neg hfit]
  · simp only [List.length_append, htl, List.length_drop, List.length_singleton]
    omega
  · intro i
    simp only [List.get?_eq_getElem?]
    by_cases hi1 : i < k
    · rw [if_pos hi1, List.append_assoc, List.getElem?_append_left (by omega),
        List.getElem?_take_of_lt hi1]
    · rw [if_neg hi1]
      by_cases hi2 : i = k
      · subst hi2
        rw [if_pos rfl, List.getElem?_append_left (by simp [htl]),
          List.getElem?_append_right (by omega), htl]
        simp
      · rw [if_neg hi2, List.getElem?_append_right
          (by simp only [List.length_append, htl, List.length_singleton]; omega),
          List.getElem?_drop]
        simp only [List.length_append, htl, List.length_singleton]
        congr 1
        omega

/-- C18 (witness): the message "bad size" (8 bytes) read into a buffer of 5 bytes out of
6: four bytes and the NUL are written, the sixth byte is untouched. -/
theorem get_last_error_message_copies_truncated_witness :
    rive_renderer_get_last_error_message (SetLastError {} "bad size")
        (some [1, 1, 1, 1, 1, 1]) 5 =
      some (8, some [98, 97, 100, 32, 0, 1]) :=
  ((get_last_error_message_copies_truncated (SetLastError {} "bad size") [1, 1, 1, 1, 1, 1]
    5).2.2 (by decide) (by decide)).1

/-- C19 (counterexample): with the message "abc" stored, the call with a null buffer
returns 3, and a second call with a buffer of exactly 3 bytes copies "ab" and a NUL: the
message arrives truncated. -/
theorem get_last_error_message_exact_length_truncates :
    rive_renderer_get_last_error_message (SetLastError {} "abc") none 0 = some (3, none) ∧
      rive_renderer_get_last_error_message (SetLastError {} "abc") (some [1, 1, 1]) 3 =
        some (3, some [97, 98, 0]) ∧
      stringBytes "abc" = [97, 98, 99] := by
  exact ⟨rfl, rfl, rfl⟩

/-- C19 (amended): for every stored last-error message of `n` bytes,
`rive_renderer_get_last_error_message(null, 0)` returns `n`, the length without the NUL
terminator: a second call with a buffer of `n + 1` bytes copies the whole message,
untruncated, followed by its NUL terminator, while a buffer of exactly `n >= 1` bytes
receives only the first `n - 1` bytes and the NUL. -/
theorem get_last_error_message_two_phase (w : World) (buf : List Nat) :
    rive_renderer_get_last_error_message w none 0 =
      some ((stringBytes w.g_lastError).length, none) ∧
    (buf.length = (stringBytes w.g_lastError).length + 1 →
      rive_renderer_get_last_error_message w (some buf)
          ((stringBytes w.g_lastError).length + 1) =
        some ((stringBytes w.g_lastError).length, some (stringBytes w.g_lastError ++ [0]))) ∧
    (buf.length = (stringBytes w.g_lastError).length → 1 ≤ buf.length →
      rive_renderer_get_last_error_message w (some buf) (stringBytes w.g_lastError).length =
        some ((stringBytes w.g_lastError).length,
          some ((stringBytes w.g_lastError).take ((stringBytes w.g_lastError).length - 1) ++
            [0]))) := by
  generalize hm : stringBytes w.g_lastError = m
  refine ⟨by simp [rive_renderer_get_last_error_message, hm], fun hlen => ?_, fun hlen h1 => ?_⟩
  · have hfit : ¬ buf.length < m.length + 1 := by omega
    simp only [rive_renderer_get_last_error_message, hm, Nat.add_sub_cancel, lt_irrefl,
      if_false, Nat.succ_ne_zero, if_neg hfit]
    rw [List.take_length, List.drop_of_length_le (by omega)]
    simp
  · have h0 : m.length ≠ 0 := by omega
    have hlt : ¬ m.length < m.length - 1 := by omega
    have hfit : ¬ buf.length < m.length - 1 + 1 := by omega
    simp only [rive_renderer_get_last_error_message, hm, h0, if_false, if_neg hlt, if_neg hfit]
    rw [List.drop_of_length_le (by omega)]
    simp

/-- C19 (witness): the message "abc" read whole into a buffer of 4 bytes. -/
theorem get_last_error_message_two_phase_witness :
    rive_renderer_get_last_error_message (SetLastError {} "abc") (some [1, 1, 1, 1]) 4 =
      some (3, some [97, 98, 99, 0]) :=
  (get_last_error_message_two_phase (SetLastError {} "abc") [1, 1, 1, 1]).2.1 rfl


theorem errorTextMatches_set (status : rive_renderer_status_t) (w : World) (message : String)
    (hs : status ≠ .ok) (hm : message ≠ "") :
    errorTextMatches status (SetLastError w message) = true := by
  simp [errorTextMatches, SetLastError, hs, hm]

theorem begin_frame_thrown_null (b : Build) (n : BeginFrameNative) (w : World) (context : Ptr)
    (c : ContextHandle) (options : Option rive_renderer_frame_options_t)
    (hnull : isNullContext w context = true) (hc : w.contexts context = some c)
    (hw : 0 < c.width) (hh : 0 < c.height) (hfit : beginFrameAssigns n c options = false) :
    rive_renderer_context_begin_frame b n w context options = none ∧
      (context_begin_frame_thrown b n w context options).map
          (fun w1 => (w1.contexts context).map
            fun c1 => (c1.width, c1.height, c1.cpuFramebuffer)) =
        some (some ((resolvedFrameSize c options).1, (resolvedFrameSize c options).2,
          if n.assignKeeps then c.cpuFramebuffer else [])) := by
  refine ⟨?_, ?_⟩
  · rw [begin_frame_null b n w context c options hnull hc,
      if_pos (validate_resolvedFrameSize c options hw hh), hfit]
    rfl
  · obtain ⟨h0, hd0, d, hd, hb⟩ := (isNullContext_iff w context c hc).1 hnull
    have e1 : rive_renderer_backend_t.null ≠ rive_renderer_backend_t.metal := by decide
    have e2 : rive_renderer_backend_t.null ≠ rive_renderer_backend_t.d3d12 := by decide
    simp only [beginFrameAssigns, Bool.or_eq_false_iff, decide_eq_false_iff_not] at hfit
    simp only [context_begin_frame_thrown, h0, hc, validate_resolvedFrameSize c options hw hh,
      deviceBackend, World.setContext, hd0, hd, e1, e2, hb, if_false, if_true, ne_eq,
      not_false_eq_true, Bool.not_true, Bool.false_eq_true, Option.map_some', decide_False,
      Bool.and_false, Option.some.injEq, reduceCtorEq, not_true_eq_false, hfit.2,
      vector_assign_eq, hfit.1]
    simp

/-- C21 (counterexample): the 2 by 2 null-backend context of `sampleWorld` asked for a
frame of 4294967295 by 4294967295 does not return `ok`. `begin_frame` stores that size
and calls `cpuFramebuffer.assign` with the count `2 ^ 64 - 2 ^ 35 + 4`, above
`max_size()`, which throws `std::length_error`: no status is returned, and the context
keeps the new size with its old framebuffer of 16 bytes. -/
theorem begin_frame_huge_size_throws :
    isNullContext sampleWorld 2 = true ∧
      (sampleWorld.contexts 2).map (fun c => (c.width, c.height)) = some (2, 2) ∧
      rive_renderer_context_begin_frame windowsBuild {} sampleWorld 2
          (some { width := 4294967295, height := 4294967295 }) = none ∧
      (context_begin_frame_thrown windowsBuild {} sampleWorld 2
          (some { width := 4294967295, height := 4294967295 })).map
          (fun w1 => (w1.contexts 2).map
            fun c => (c.width, c.height, c.cpuFramebuffer.length)) =
        some (some (4294967295, 4294967295, 16)) ∧
      vector_assign true (cpuFramebufferSize 4294967295 4294967295) = none ∧
      cpuFramebufferSize 4294967295 4294967295 = 2 ^ 64 - 2 ^ 35 + 4 := by
  refine ⟨by decide, by decide, rfl, by decide, by decide, by decide⟩

/-- C21 (amended): for every null-backend context of size `(W, H)` (both non-zero, as
every context has) and every frame options record with requested size `(w, h)`,
`rive_renderer_context_begin_frame` stores the size
`(w if w != 0 else W, h if h != 0 else H)`, each dimension falling back independently,
and returns `ok` unless `cpuFramebuffer.assign` throws (the framebuffer has not that size
already and the byte count is above `max_size()` or the allocation fails); when it
throws no status is returned and the size is stored all the same. With a null options
pointer the size stays `(W, H)`. Neither stored dimension is zero. -/
theorem begin_frame_size_fallback (b : Build) (n : BeginFrameNative) (w : World)
    (context : Ptr) (c : ContextHandle) (hnull : isNullContext w context = true)
    (hc : w.contexts context = some c) (hw : 0 < c.width) (hh : 0 < c.height) :
    (∀ o : rive_renderer_frame_options_t,
      (beginFrameAssigns n c (some o) = true →
        (rive_renderer_context_begin_frame b n w context (some o)).map
            (fun r => (r.1, (r.2.contexts context).map fun c1 => (c1.width, c1.height))) =
          some (.ok, some (if o.width ≠ 0 then o.width else c.width,
            if o.height ≠ 0 then o.height else c.height))) ∧
      (beginFrameAssigns n c (some o) = false →
        rive_renderer_context_begin_frame b n w context (some o) = none ∧
        (context_begin_frame_thrown b n w context (some o)).map
            (fun w1 => (w1.contexts context).map fun c1 => (c1.width, c1.height)) =
          some (some (if o.width ≠ 0 then o.width else c.width,
            if o.height ≠ 0 then o.height else c.height))) ∧
      0 < (if o.width ≠ 0 then o.width else c.width) ∧
      0 < (if o.height ≠ 0 then o.height else c.height)) ∧
    (beginFrameAssigns n c none = true →
      (rive_renderer_context_begin_frame b n w context none).map
          (fun r => (r.1, (r.2.contexts context).map fun c1 => (c1.width, c1.height))) =
        some (.ok, some (c.width, c.height))) ∧
    (beginFrameAssigns n c none = false →
      rive_renderer_context_begin_frame b n w context none = none ∧
      (context_begin_frame_thrown b n w context none).map
          (fun w1 => (w1.contexts context).map fun c1 => (c1.width, c1.height)) =
        some (some (c.width, c.height))) := by
  have hthrown : ∀ options, beginFrameAssigns n c options = false →
      rive_renderer_context_begin_frame b n w context options = none ∧
      (context_begin_frame_thrown b n w context options).map
          (fun w1 => (w1.contexts context).map fun c1 => (c1.width, c1.height)) =
        some (some ((resolvedFrameSize c options).1, (resolvedFrameSize c options).2)) := by
    intro options hfit
    obtain ⟨h1, h2⟩ := begin_frame_thrown_null b n w context c options hnull hc hw hh hfit
    refine ⟨h1, ?_⟩
    cases ht : context_begin_frame_thrown b n w context options with
    | none => rw [ht] at h2; cases h2
    | some w1 =>
      rw [ht] at h2
      simp only [Option.map_some', Option.some.injEq] at h2 ⊢
      cases hc1 : w1.contexts context with
      | none => rw [hc1] at h2; cases h2
      | some c1 =>
        rw [hc1] at h2
        simp only [Option.map_some', Option.some.injEq, Prod.mk.injEq] at h2 ⊢
        exact ⟨h2.1, h2.2.1⟩
  refine ⟨fun o => ⟨fun hfit => ?_, fun hfit => ?_, ?_, ?_⟩, fun hfit => ?_, fun hfit => ?_⟩
  · rw [begin_frame_null_ok b n w context c (some o) hnull hc hw hh hfit]
    simp [World.withContext, ClearLastError, World.setContext, nullContextAfterBegin,
      resolvedFrameSize]
  · exact hthrown (some o) hfit
  · exact (resolvedFrameSize_pos c (some o) hw hh).1
  · exact (resolvedFrameSize_pos c (some o) hw hh).2
  · rw [begin_frame_null_ok b n w context c none hnull hc hw hh hfit]
    simp [World.withContext, ClearLastError, World.setContext, nullContextAfterBegin,
      resolvedFrameSize]
  · exact hthrown none hfit

/-- C21 (witness): the 2 by 2 context of `sampleWorld` asked for a frame of width 5 and
height 0: the size becomes 5 by 2. -/
theorem begin_frame_size_fallback_witness :
    beginFrameAssigns {} sampleContext (some { width := 5, height := 0 }) = true ∧
    (rive_renderer_context_begin_frame windowsBuild {} sampleWorld 2
        (some { width := 5, height := 0 })).map
        (fun r => (r.1, (r.2.contexts 2).map fun c1 => (c1.width, c1.height))) =
      some (.ok, some (5, 2)) :=
  ⟨by decide,
    ((begin_frame_size_fallback windowsBuild {} sampleWorld 2 sampleContext (by decide) rfl
      (by decide) (by decide)).1 { width := 5, height := 0 }).1 (by decide)⟩


theorem hasNonZeroSize_iff (w : World) (context : Ptr) :
    hasNonZeroSize w context = true ↔
      (w.contexts context).map (fun c => (decide (0 < c.width), decide (0 < c.height),
        decide (c.surface = 0))) = some (true, true, true) := by
  unfold hasNonZeroSize
  cases w.contexts context <;> simp [and_assoc]

theorem resize_null (n : ContextResizeNative) (w : World) (context : Ptr) (c : ContextHandle)
    (width height : Nat)
    (hnull : isNullContext w context = true) (hc : w.contexts context = some c) :
    rive_renderer_context_resize n w context width height =
      if ValidateContextSize width height then
        if assignSucceeds n.assignOk (cpuFramebufferSize width height) then
          some (.ok, w.withContext context
            { c with
              width := width
              height := height
              cpuFramebuffer := List.replicate (cpuFramebufferSize width height) 0 })
        else none
      else some (.invalid_parameter, SetLastError w "context dimensions must be non-zero") := by
  obtain ⟨h0, hd0, d, hd, hb⟩ := (isNullContext_iff w context c hc).1 hnull
  cases hv : ValidateContextSize width height <;>
    cases hfit : assignSucceeds n.assignOk (cpuFramebufferSize width height) <;>
    simp [rive_renderer_context_resize, h0, hc, hv, hd0, hd, hb, World.withContext,
      vector_assign_eq, hfit]

theorem null_call_keeps_framebuffer (b : Build) (context : Ptr) (w : World)
    (call : NullContextCall) (r : rive_renderer_status_t × World)
    (hnull : isNullContext w context = true) (hz : cpuFramebufferZeroed w context = true)
    (hr : call.run b context w = some r) :
    isNullContext r.2 context = true ∧ cpuFramebufferZeroed r.2 context = true := by
  unfold cpuFramebufferZeroed at hz
  cases hc : w.contexts context with
  | none => simp [hc] at hz
  | some c =>
    simp only [hc, decide_eq_true_eq] at hz
    have hkeep : ∀ message, isNullContext (SetLastError w message) context = true ∧
        cpuFramebufferZeroed (SetLastError w message) context = true := fun message =>
      ⟨hnull, by simp [cpuFramebufferZeroed, SetLastError, hc, hz]⟩
    have hwith : ∀ c1 : ContextHandle, c1.device = c.device →
        c1.cpuFramebuffer = List.replicate (cpuFramebufferSize c1.width c1.height) 0 →
        isNullContext (w.withContext context c1) context = true ∧
          cpuFramebufferZeroed (w.withContext context c1) context = true := by
      intro c1 hdev hfb
      obtain ⟨h1, h2⟩ := isNullContext_withContext w context c c1 hnull hc hdev
      exact ⟨h1, by simp [cpuFramebufferZeroed, h2, hfb]⟩
    cases call with
    | resize n width height =>
      simp only [NullContextCall.run, resize_null n w context c width height hnull hc] at hr
      split_ifs at hr <;> cases hr
      · exact hwith _ rfl rfl
      · exact hkeep _
    | begin_frame n options =>
      simp only [NullContextCall.run, begin_frame_null b n w context c options hnull hc] at hr
      split_ifs at hr <;> cases hr
      · exact hwith _ rfl rfl
      · exact hkeep _
    | end_frame n =>
      simp only [NullContextCall.run, end_frame_null b n w context c hnull hc] at hr
      split_ifs at hr <;> cases hr
      · exact hwith _ rfl hz
      · exact hkeep _
    | submit n =>
      simp only [NullContextCall.run, submit_null b n w context c hnull hc] at hr
      split_ifs at hr <;> cases hr
      · exact hwith _ rfl hz
      · exact hkeep _

theorem null_calls_keep_framebuffer (b : Build) (context : Ptr) (calls : List NullContextCall) :
    ∀ (w w2 : World) (statuses : List rive_renderer_status_t),
      isNullContext w context = true → cpuFramebufferZeroed w context = true →
      runCalls (NullContextCall.run b context) w calls = some (statuses, w2) →
      isNullContext w2 context = true ∧ cpuFramebufferZeroed w2 context = true := by
  induction calls with
  | nil =>
    intro w w2 statuses hnull hz hrun
    simp only [runCalls, Option.some.injEq, Prod.mk.injEq] at hrun
    rw [← hrun.2]
    exact ⟨hnull, hz⟩
  | cons call calls ih =>
    intro w w2 statuses hnull hz hrun
    simp only [runCalls] at hrun
    cases hstep : NullContextCall.run b context w call with
    | none => simp [hstep] at hrun
    | some r =>
      obtain ⟨status, w1⟩ := r
      simp only [hstep] at hrun
      cases hrest : runCalls (NullContextCall.run b context) w1 calls with
      | none => simp [hrest] at hrun
      | some r2 =>
        obtain ⟨statuses2, w3⟩ := r2
        simp only [hrest, Option.some.injEq, Prod.mk.injEq] at hrun
        rw [← hrun.2]
        obtain ⟨h1, h2⟩ := null_call_keeps_framebuffer b context w call (status, w1) hnull hz
          hstep
        exact ih w1 w3 statuses2 h1 h2 hrest

theorem copy_cpu_framebuffer_zeroed (w : World) (context : Ptr) (c : ContextHandle)
    (pixels : List Nat) (buffer_length : Nat)
    (hnull : isNullContext w context = true) (hc : w.contexts context = some c)
    (hz : c.cpuFramebuffer = List.replicate (cpuFramebufferSize c.width c.height) 0)
    (hlen : cpuFramebufferSize c.width c.height ≤ buffer_length)
    (hbuf : buffer_length ≤ pixels.length) :
    rive_renderer_context_copy_cpu_framebuffer w context (some pixels) buffer_length =
      some (.ok, ClearLastError w,
        some (List.replicate (cpuFramebufferSize c.width c.height) 0 ++
          pixels.drop (cpuFramebufferSize c.width c.height))) := by
  obtain ⟨h0, hd0, d, hd, hb⟩ := (isNullContext_iff w context c hc).1 hnull
  have h1 : ¬ buffer_length < cpuFramebufferSize c.width c.height := by omega
  have h2 : ¬ pixels.length < cpuFramebufferSize c.width c.height := by omega
  simp only [rive_renderer_context_copy_cpu_framebuffer, h0, if_false, hc, if_neg h1,
    deviceBackend, hd0, ne_eq, not_false_eq_true, if_true, hd, Option.map_some', hb,
    not_true_eq_false, if_neg h2]
  rw [if_neg (by rw [hz]; simp)]
  rw [hz, List.take_of_length_le (by simp)]


/-- C27 (counterexample): on the 2 by 2 null-backend context of `sampleWorld`,
`rive_renderer_context_resize` to 4294967295 by 4294967295 stores the size and then
`cpuFramebuffer.assign` throws `std::length_error`, whatever the allocator does: the
count `2 ^ 64 - 2 ^ 35 + 4` is above `max_size()`. No status is returned. In the state
the exception leaves, with which a host that catches it goes on, the framebuffer holds 16
bytes (or none, for a library that empties the vector), not `width * height * 4`, and
`rive_renderer_context_copy_cpu_framebuffer` with a non-null buffer and
`buffer_length = 2 ^ 64 - 1` takes the `internal_error` branch. The same happens at a
small size when the allocation fails: after a resize to 3 by 3 that throws
`std::bad_alloc`, a copy into a buffer of 36 bytes returns `internal_error` and leaves
the buffer as it was. -/
theorem resize_throw_breaks_framebuffer :
    rive_renderer_context_resize {} sampleWorld 2 4294967295 4294967295 = none ∧
    (context_resize_thrown {} sampleWorld 2 4294967295 4294967295).map
        (fun w1 =>
          ((w1.contexts 2).map fun c => (c.width, c.height, c.cpuFramebuffer.length),
            (rive_renderer_context_copy_cpu_framebuffer w1 2 (some []) (2 ^ 64 - 1)).map
              fun r => (r.1, r.2.1.g_lastError))) =
      some (some (4294967295, 4294967295, 16),
        some (.internal_error, "cpu framebuffer not initialized")) ∧
    (context_resize_thrown { assignKeeps := false } sampleWorld 2 4294967295 4294967295).map
        (fun w1 =>
          ((w1.contexts 2).map fun c => (c.width, c.height, c.cpuFramebuffer.length),
            (rive_renderer_context_copy_cpu_framebuffer w1 2 (some []) (2 ^ 64 - 1)).map
              fun r => (r.1, r.2.1.g_lastError))) =
      some (some (4294967295, 4294967295, 0),
        some (.internal_error, "cpu framebuffer not initialized")) ∧
    cpuFramebufferSize 4294967295 4294967295 = 2 ^ 64 - 2 ^ 35 + 4 ∧
    VECTOR_MAX_SIZE < 2 ^ 64 - 2 ^ 35 + 4 ∧
    rive_renderer_context_resize { assignOk := false } sampleWorld 2 3 3 = none ∧
    (context_resize_thrown { assignOk := false } sampleWorld 2 3 3).map
        (fun w1 =>
          ((w1.contexts 2).map fun c => (c.width, c.height, c.cpuFramebuffer.length),
            (rive_renderer_context_copy_cpu_framebuffer w1 2 (some (List.replicate 36 9))
              36).map fun r => (r.1, r.2.1.g_lastError, r.2.2))) =
      some (some (3, 3, 16),
        some (.internal_error, "cpu framebuffer not initialized",
          some (List.replicate 36 9))) := by
  refine ⟨rfl, by decide, by decide, by decide, by decide, rfl, rfl⟩

/-- C27 (amended): for every context made by `rive_renderer_context_create` on a device of
the null backend and every sequence of `rive_renderer_context_resize`, `begin_frame`,
`end_frame` and `submit` calls on it that all return a status (no `cpuFramebuffer.assign`
throws), the CPU framebuffer afterwards holds exactly `width * height * 4` bytes (as
computed in `size_t`), all 0; hence `rive_renderer_context_copy_cpu_framebuffer` with a
non-null output buffer of at least that length returns `ok`, writes exactly that many
zero bytes to the front of the buffer and leaves the rest of it unchanged. -/
theorem cpu_framebuffer_stays_zeroed (b : Build) (nc : ContextCreateNative)
    (w0 w1 w2 : World) (device context : Ptr) (d : DeviceHandle) (width height out0 : Nat)
    (calls : List NullContextCall) (statuses : List rive_renderer_status_t)
    (h0 : device ≠ 0) (hd : w0.devices device = some d)
    (hb : d.backend = rive_renderer_backend_t.null)
    (hcreate : rive_renderer_context_create b nc w0 device width height (some out0) =
      some ⟨.ok, w1, some context⟩)
    (hrun : runCalls (NullContextCall.run b context) w1 calls = some (statuses, w2)) :
    cpuFramebufferZeroed w2 context = true ∧
      ∀ (c : ContextHandle) (pixels : List Nat) (buffer_length : Nat),
        w2.contexts context = some c →
        cpuFramebufferSize c.width c.height ≤ buffer_length →
        buffer_length ≤ pixels.length →
        rive_renderer_context_copy_cpu_framebuffer w2 context (some pixels) buffer_length =
          some (.ok, ClearLastError w2,
            some (List.replicate (cpuFramebufferSize c.width c.height) 0 ++
              pixels.drop (cpuFramebufferSize c.width c.height))) := by
  rw [context_create_null b nc w0 device d width height out0 h0 hd hb] at hcreate
  split_ifs at hcreate with hv ha
  · cases hcreate
  · cases hcreate
  · simp only [Option.some.injEq, CreateResult.mk.injEq, true_and] at hcreate
    obtain ⟨hw, hctx⟩ := hcreate
    subst hw hctx
    obtain ⟨hnn, hcn⟩ := context_create_null_world w0 device d width height h0 hb
    have hz1 : cpuFramebufferZeroed (ClearLastError (((w0.fresh.2).setContext (w0.nextPtr + 1)
        (newNullContext device width height)).setDevice device
          { d with ref_count := fetch_add_1 d.ref_count })) (w0.nextPtr + 1) = true := by
      unfold cpuFramebufferZeroed
      rw [hcn]
      simp [newNullContext]
    obtain ⟨hn2, hz2⟩ := null_calls_keep_framebuffer b (w0.nextPtr + 1) calls _ w2 statuses
      hnn hz1 hrun
    refine ⟨hz2, fun c pixels buffer_length hc hlen hbuf => ?_⟩
    have hz : c.cpuFramebuffer = List.replicate (cpuFramebufferSize c.width c.height) 0 := by
      simpa [cpuFramebufferZeroed, hc] using hz2
    exact copy_cpu_framebuffer_zeroed w2 _ c pixels buffer_length hn2 hc hz hlen hbuf

/-- C27 (witness): the context of `sampleWorld` resized to 1 by 3, with a frame begun,
ended and submitted, copied into a buffer of 14 bytes with `buffer_length` 13: twelve
zero bytes are written and the last two bytes stay. -/
theorem cpu_framebuffer_stays_zeroed_witness :
    rive_renderer_context_create windowsBuild {} sampleDeviceWorld 1 2 2 (some 0) =
      some ⟨.ok, sampleWorld, some 2⟩ ∧
    runCalls (NullContextCall.run windowsBuild 2) sampleWorld
        [.resize {} 1 3, .begin_frame {} none, .end_frame {}, .submit {}] =
      some ([.ok, .ok, .ok, .ok], sampleRecordedWorld) ∧
    (rive_renderer_context_copy_cpu_framebuffer sampleRecordedWorld 2
        (some [9, 9, 9, 9, 9, 9, 9, 9, 9, 9, 9, 9, 9, 9]) 13).map (fun r => (r.1, r.2.2)) =
      some (.ok, some [0, 0, 0, 0, 0, 0, 0, 0, 0, 0, 0, 0, 9, 9]) := by
  refine ⟨rfl, rfl, ?_⟩
  rw [(cpu_framebuffer_stays_zeroed windowsBuild {} sampleDeviceWorld sampleWorld
    sampleRecordedWorld 1 2 sampleDevice 2 2 0
    [.resize {} 1 3, .begin_frame {} none, .end_frame {}, .submit {}]
    [.ok, .ok, .ok, .ok] (by decide) rfl rfl rfl rfl).2
    ((sampleRecordedWorld.contexts 2).getD {}) [9, 9, 9, 9, 9, 9, 9, 9, 9, 9, 9, 9, 9, 9] 13
    rfl (by decide) (by decide)]
  rfl

/-- C28 (counterexample): a context of width `2 ^ 31` and height `2 ^ 31` is created with
`ok` on the null device of `sampleDeviceWorld`; the exact product `4 * w * h` is `2 ^ 64`,
yet `rive_renderer_context_copy_cpu_framebuffer` with `buffer_length = 0` returns `ok`,
not `invalid_parameter`: the required size wrapped to 0 in `size_t`. -/
theorem copy_cpu_framebuffer_size_wraps :
    (rive_renderer_context_create windowsBuild {} sampleDeviceWorld 1 2147483648 2147483648
        (some 0)).bind
        (fun r => (rive_renderer_context_copy_cpu_framebuffer r.world 2 (some []) 0).map
          fun r2 => (r.status, r.out, r2.1, r2.2.2)) =
      some (.ok, some 2, .ok, some []) ∧
    (0 : Nat) < 4 * 2147483648 * 2147483648 := by
  refine ⟨rfl, by decide⟩


/-- C28 (amended): for every live context of width `w` and height `h` (of the null backend
or not) and every non-null output buffer, if `buffer_length` is smaller than the product
`4 * w * h` as computed in 64-bit `size_t` arithmetic, that is modulo `2 ^ 64`,
`rive_renderer_context_copy_cpu_framebuffer` returns `invalid_parameter` and writes
nothing to the output buffer; when the exact product is below `2 ^ 64` this is every
`buffer_length` smaller than the exact product. -/
theorem copy_cpu_framebuffer_small_buffer (w : World) (context : Ptr) (c : ContextHandle)
    (pixels : List Nat) (buffer_length : Nat) (h0 : context ≠ 0)
    (hc : w.contexts context = some c) :
    (buffer_length < (4 * c.width * c.height) % 2 ^ 64 →
      rive_renderer_context_copy_cpu_framebuffer w context (some pixels) buffer_length =
        some (.invalid_parameter, SetLastError w "output buffer too small", some pixels)) ∧
    (4 * c.width * c.height < 2 ^ 64 → buffer_length < 4 * c.width * c.height →
      rive_renderer_context_copy_cpu_framebuffer w context (some pixels) buffer_length =
        some (.invalid_parameter, SetLastError w "output buffer too small", some pixels)) := by
  have hsize : cpuFramebufferSize c.width c.height = (4 * c.width * c.height) % 2 ^ 64 := by
    simp only [cpuFramebufferSize, SIZE]
    congr 1
    ring
  have key : buffer_length < (4 * c.width * c.height) % 2 ^ 64 →
      rive_renderer_context_copy_cpu_framebuffer w context (some pixels) buffer_length =
        some (.invalid_parameter, SetLastError w "output buffer too small", some pixels) := by
    intro hlt
    rw [← hsize] at hlt
    simp only [rive_renderer_context_copy_cpu_framebuffer, h0, if_false, hc, if_pos hlt]
  refine ⟨key, fun hfit hlt => key ?_⟩
  rw [Nat.mod_eq_of_lt hfit]
  exact hlt

/-- C28 (witness): the 2 by 2 context of `sampleWorld` needs 16 bytes; a `buffer_length`
of 15 is rejected and the buffer is left as it was. -/
theorem copy_cpu_framebuffer_small_buffer_witness :
    rive_renderer_context_copy_cpu_framebuffer sampleWorld 2 (some [7, 7, 7]) 15 =
      some (.invalid_parameter, SetLastError sampleWorld "output buffer too small",
        some [7, 7, 7]) :=
  (copy_cpu_framebuffer_small_buffer sampleWorld 2 sampleContext [7, 7, 7] 15 (by decide)
    rfl).2 (by decide) (by decide)


/-- C30 (failing input): with a null `out_device` and a non-null `info`,
`rive_renderer_device_create` returns `null_pointer` for the null, unknown and Vulkan
backend tags, but not for the D3D12 tag in a Windows build nor for the Metal tag in any
build: the D3D12 block returns `invalid_parameter` for an adapter index out of range and,
with an adapter found, creates the device and writes through the null `out_device`
(undefined behaviour, `none`); the Metal block does the same in an Apple build and returns
`unsupported` elsewhere. With a null `info` the result is `null_pointer` in every build. -/
theorem device_create_null_out_device :
    ([rive_renderer_backend_t.null, rive_renderer_backend_t.unknown,
        rive_renderer_backend_t.vulkan].map fun backend =>
      (rive_renderer_device_create windowsBuild oneAdapterNative {} (some (infoFor backend))
        none).map (fun r => (r.status, r.world.nextPtr))) =
      List.replicate 3 (some (.null_pointer, 0)) ∧
    (rive_renderer_device_create windowsBuild {} {}
        (some (infoFor rive_renderer_backend_t.d3d12)) none).map (·.status) =
      some .invalid_parameter ∧
    rive_renderer_device_create windowsBuild oneAdapterNative {}
        (some (infoFor rive_renderer_backend_t.d3d12)) none = none ∧
    (rive_renderer_device_create windowsBuild {} {}
        (some (infoFor rive_renderer_backend_t.metal)) none).map (·.status) =
      some .unsupported ∧
    rive_renderer_device_create appleBuild { metalDevice := 7 } {}
        (some (infoFor rive_renderer_backend_t.metal)) none = none ∧
    ([windowsBuild, appleBuild, portableBuild].map fun b =>
      (rive_renderer_device_create b oneAdapterNative {} none (some 5)).map
        (fun r => (r.status, r.out, r.world.nextPtr))) =
      List.replicate 3 (some (.null_pointer, some 5, 0)) := by
  exact ⟨rfl, rfl, rfl, rfl, rfl, rfl⟩


/-- C25 (failing input): on the context of `gpuContextWorld` (count 1, device count 2)
`rive_renderer_renderer_create` returns `ok` and raises the context's count to 2; the
user's `rive_renderer_context_release` then lowers it to 1, and the final
`rive_renderer_renderer_release` lowers it to 0 but deletes only the renderer: the context
is still live with count 0 and the device's count is still 2. A further
`rive_renderer_context_release` returns `internal_error`, so the context is never
destroyed. In the other order the context release, made last, destroys the context and
drops the device reference. -/
theorem renderer_release_leaks_context :
    (rive_renderer_renderer_create {} gpuContextWorld 2 (some 0)).map
        (fun r => (r.status, r.out, (r.world.contexts 2).map (·.ref_count))) =
      some (.ok, some 3, some 2) ∧
    (runCalls (RendererOwnerCall.run windowsBuild 2 3) gpuRendererWorld
        [.context_release, .renderer_release]).map (observeContext 2 1) =
      some ([.ok, .ok], some 0, some 2, [3]) ∧
    (runCalls (RendererOwnerCall.run windowsBuild 2 3) gpuRendererWorld
        [.context_release, .renderer_release, .context_release]).map (observeContext 2 1) =
      some ([.ok, .ok, .internal_error], some 4294967295, some 2, [3]) ∧
    (runCalls (RendererOwnerCall.run windowsBuild 2 3) gpuRendererWorld
        [.renderer_release, .context_release]).map (observeContext 2 1) =
      some ([.ok, .ok], none, some 1, [2, 3]) := by
  exact ⟨rfl, rfl, rfl, rfl⟩


theorem slot_some_iff (c : ContextHandle) (s : SurfaceHandle) (h : borrowConsistent c s)
    (i : Nat) (hi : i < s.renderTargets.length) :
    (s.renderTargets.getD i none).isSome = true ↔
      ¬ (s.borrowedIndex = i ∧ c.renderTarget.isSome = true) := by
  have := h i hi
  unfold slotEmpty at this
  rw [← this]
  cases (s.renderTargets.getD i none) <;> simp

theorem return_target_attached (w : World) (context surface : Ptr) (c : ContextHandle)
    (s : SurfaceHandle) (h0 : context ≠ 0) (hs0 : surface ≠ 0)
    (hc : w.contexts context = some c) (hcs : c.surface = surface)
    (hs : w.surfaces surface = some s) (hlen : s.renderTargets.length ≤ UINT_MAX) :
    ∃ tex rts, ReturnSurfaceRenderTarget w context =
        some ((w.setContext context
          { c with renderTarget := none, renderTargetTexture := tex }).setSurface surface
          { s with renderTargets := rts, borrowedIndex := UINT_MAX }) ∧
      rts.length = s.renderTargets.length ∧
      (borrowConsistent c s → ∀ i, i < rts.length → (rts.getD i none).isSome = true) ∧
      (targetsBound c s → ∀ i rt, rts.getD i none = some rt →
        rt.targetTexture = s.backBuffers.getD i 0) := by
  subst hcs
  unfold ReturnSurfaceRenderTarget
  simp only [h0, if_false, hc, hs0, hs]
  by_cases hb : s.borrowedIndex ≠ UINT_MAX ∧ s.borrowedIndex < s.renderTargets.length
  · rw [if_pos hb]
    cases hrt : c.renderTarget with
    | some rt =>
      refine ⟨0, s.renderTargets.set s.borrowedIndex (some rt), rfl, by simp, ?_, ?_⟩
      · intro hinv i hi
        simp only [List.length_set] at hi
        by_cases hib : s.borrowedIndex = i
        · subst hib
          simp [List.getD_eq_getElem?_getD, List.getElem?_set, hi]
        · have := (slot_some_iff c s hinv i hi).2 (fun h => hib h.1)
          simpa [List.getD_eq_getElem?_getD, List.getElem?_set, hib] using this
      · intro hbound i rt1 hget
        by_cases hib : s.borrowedIndex = i
        · subst hib
          simp only [List.getD_eq_getElem?_getD, List.getElem?_set, hb.2, if_true,
            Option.getD_some, Option.some.injEq] at hget
          subst hget
          exact hbound.2.2 rt hrt hb.2
        · refine hbound.2.1 i rt1 ?_
          simpa [List.getD_eq_getElem?_getD, List.getElem?_set, hib] using hget
    | none =>
      refine ⟨0, s.renderTargets, ?_, rfl, ?_, fun hbound => hbound.2.1⟩
      · simp [hrt]
      · intro hinv i hi
        exact (slot_some_iff c s hinv i hi).2 (fun h => by simp [hrt] at h)
  · rw [if_neg hb]
    have hall : borrowConsistent c s → ∀ i, i < s.renderTargets.length →
        (s.renderTargets.getD i none).isSome = true := by
      intro hinv i hi
      refine (slot_some_iff c s hinv i hi).2 (fun h => hb ⟨?_, ?_⟩)
      · rw [h.1]; omega
      · rw [h.1]; exact hi
    cases hrt : c.renderTarget with
    | some rt =>
      exact ⟨0, s.renderTargets, by simp, rfl, hall, fun hbound => hbound.2.1⟩
    | none =>
      refine ⟨c.renderTargetTexture, s.renderTargets, ?_, rfl, hall,
        fun hbound => hbound.2.1⟩
      simp only [Option.isSome_none, Bool.false_eq_true, if_false]
      rw [← hrt]

theorem attachedPair_congr (context surface : Ptr) (c c1 : ContextHandle)
    (s s1 : SurfaceHandle) (h : attachedPair context surface c s)
    (h1 : c1.surface = c.surface) (h2 : c1.renderTarget = c.renderTarget)
    (h3 : s1.context = s.context) (h4 : s1.present_interval = s.present_interval)
    (h5 : s1.buffer_count = s.buffer_count) (h6 : s1.renderTargets = s.renderTargets)
    (h7 : s1.borrowedIndex = s.borrowedIndex) (h8 : s1.backBuffers = s.backBuffers) :
    attachedPair context surface c1 s1 := by
  unfold attachedPair borrowConsistent targetsBound slotEmpty at *
  rw [h1, h2, h3, h4, h5, h6, h7, h8]
  exact h

theorem ensure_surface_target_attached (mk : Bool) (w : World) (context surface : Ptr)
    (c : ContextHandle) (s : SurfaceHandle) (h0 : context ≠ 0) (hs0 : surface ≠ 0)
    (hc : w.contexts context = some c) (hs : w.surfaces surface = some s)
    (hp : attachedPair context surface c s) (r : rive_renderer_status_t × World)
    (hr : EnsureD3D12SurfaceRenderTarget mk w context = some r) :
    ∃ c1 s1, r.2.contexts context = some c1 ∧ r.2.surfaces surface = some s1 ∧
      attachedPair context surface c1 s1 := by
  have hp0 := hp
  obtain ⟨hcs, hsc, hpi, hbc, hlen, hcons, hbound⟩ := hp
  have hlenmax : s.renderTargets.length ≤ UINT_MAX := le_trans hlen hbc
  subst hcs
  unfold EnsureD3D12SurfaceRenderTarget at hr
  simp only [hc, hs0, if_false, hs] at hr
  by_cases hsw : (!s.swapChain) = true
  · rw [if_pos hsw] at hr
    cases hr
    exact ⟨c, s, by simpa [SetLastError] using hc, by simpa [SetLastError] using hs, hp0⟩
  rw [if_neg hsw] at hr
  by_cases hrange : s.currentBackBuffer ≥ s.renderTargets.length
  · simp only [hrange, if_true] at hr
    cases hr
    exact ⟨c, s, by simpa [SetLastError] using hc, by simpa [SetLastError] using hs, hp0⟩
  simp only [hrange, if_false] at hr
  split at hr
  · cases hr
  · rename_i backBuffer hbb
    by_cases hsame : s.borrowedIndex = s.currentBackBuffer ∧ c.renderTarget.isSome = true
    · rw [if_pos hsame] at hr
      cases hr
      refine ⟨{ c with width := s.width, height := s.height,
                       renderTargetTexture := backBuffer }, s, by simp [World.setContext],
        by simpa [World.setContext] using hs, ?_⟩
      exact attachedPair_congr _ _ c _ s s hp0 rfl rfl rfl rfl rfl rfl rfl rfl
    rw [if_neg hsame] at hr
    have hw2 : ∃ W2 c2 s2,
        (if s.borrowedIndex ≠ UINT_MAX ∧
            ({ c with width := s.width, height := s.height } : ContextHandle).renderTarget.isSome
              = true then
          ReturnSurfaceRenderTarget
            (w.setContext context { c with width := s.width, height := s.height }) context
        else some (w.setContext context { c with width := s.width, height := s.height })) =
          some W2 ∧
        W2.contexts context = some c2 ∧ W2.surfaces c.surface = some s2 ∧
        c2.surface = c.surface ∧ s2.context = s.context ∧
        s2.present_interval = s.present_interval ∧ s2.buffer_count = s.buffer_count ∧
        s2.renderTargets.length = s.renderTargets.length ∧
        (∀ i, i < s2.renderTargets.length → (s2.renderTargets.getD i none).isSome = true) ∧
        s2.backBuffers = s.backBuffers ∧
        ∀ i rt, s2.renderTargets.getD i none = some rt →
          rt.targetTexture = s2.backBuffers.getD i 0 := by
      by_cases hret : s.borrowedIndex ≠ UINT_MAX ∧ c.renderTarget.isSome = true
      · rw [if_pos hret]
        obtain ⟨tex, rts, hR, hl, hall, hbnd⟩ := return_target_attached
          (w.setContext context { c with width := s.width, height := s.height }) context
          c.surface { c with width := s.width, height := s.height } s h0 hs0
          (by simp [World.setContext]) rfl (by simpa [World.setContext] using hs) hlenmax
        refine ⟨_, { c with width := s.width, height := s.height, renderTarget := none,
                            renderTargetTexture := tex },
          { s with renderTargets := rts, borrowedIndex := UINT_MAX }, hR,
          by simp [World.setContext, World.setSurface],
          by simp [World.setContext, World.setSurface], rfl, rfl, rfl, rfl, hl, ?_, rfl, ?_⟩
        · exact hall (fun i hi => hcons i hi)
        · exact hbnd hbound
      · rw [if_neg hret]
        refine ⟨_, { c with width := s.width, height := s.height }, s, rfl,
          by simp [World.setContext],
          by simpa [World.setContext] using hs, rfl, rfl, rfl, rfl, rfl, ?_, rfl, hbound.2.1⟩
        intro i hi
        refine (slot_some_iff c s hcons i hi).2 (fun h => hret ⟨?_, h.2⟩)
        rw [h.1]
        omega
    obtain ⟨W2, c2, s2, hW2, hc2, hs2, hf1, hf2, hf3, hf4, hf5, hall, hf6, hf7⟩ := hw2
    rw [hW2] at hr
    simp only [hc2, hs2] at hr
    have hidx : s.currentBackBuffer < s2.renderTargets.length := by omega
    have hsome := hall _ hidx
    rw [Option.isSome_iff_exists] at hsome
    obtain ⟨rt, hrt⟩ := hsome
    simp only [hrt, Option.isNone_some, Bool.false_eq_true, if_false] at hr
    cases hr
    refine ⟨{ c2 with renderTarget := some rt, renderTargetTexture := backBuffer },
      { s2 with renderTargets := s2.renderTargets.set s.currentBackBuffer none,
                borrowedIndex := s.currentBackBuffer },
      by simp [World.setContext, World.setSurface],
      by simp [World.setContext, World.setSurface], ?_⟩
    refine ⟨hf1, hf2.trans hsc, by simpa [hf3] using hpi, by simpa [hf4] using hbc,
      by simpa [hf4, hf5] using hlen, ?_, ?_, ?_, ?_⟩
    · intro i hi
      simp only [List.length_set] at hi
      unfold slotEmpty
      by_cases hib : s.currentBackBuffer = i
      · subst hib
        simp [List.getD_eq_getElem?_getD, List.getElem?_set, hi]
      · have := hall i hi
        rw [Option.isSome_iff_exists] at this
        obtain ⟨v, hv⟩ := this
        simp only [List.getD_eq_getElem?_getD] at hv
        simp [List.getD_eq_getElem?_getD, List.getElem?_set, hib, hv]
    · simp only [List.length_set]
      rw [hf6, hf5]
      exact hbound.1
    · intro i rt1 hget
      by_cases hib : s.currentBackBuffer = i
      · subst hib
        simp [List.getD_eq_getElem?_getD, List.getElem?_set, hidx] at hget
      · refine hf7 i rt1 ?_
        simpa [List.getD_eq_getElem?_getD, List.getElem?_set, hib] using hget
    · intro rt1 hrt1 _
      simp only [Option.some.injEq] at hrt1
      subst hrt1
      exact hf7 _ _ hrt

theorem return_target_surface_gone (w w1 : World) (context p : Ptr)
    (hp : w.surfaces p = none) (h : ReturnSurfaceRenderTarget w context = some w1) :
    w1.surfaces p = none := by
  unfold ReturnSurfaceRenderTarget at h
  by_cases h0 : context = 0
  · simp only [h0, if_true, Option.some.injEq] at h
    subst h; exact hp
  simp only [h0, if_false] at h
  cases hc : w.contexts context with
  | none => simp [hc] at h
  | some c =>
    simp only [hc] at h
    by_cases hcs : c.surface = 0
    · simp only [hcs, if_true, Option.some.injEq] at h
      subst h; exact hp
    simp only [hcs, if_false] at h
    cases hs : w.surfaces c.surface with
    | none => simp [hs] at h
    | some s =>
      simp only [hs, Option.some.injEq] at h
      have hne : p ≠ c.surface := by
        intro e
        rw [e, hs] at hp
        cases hp
      subst h
      simp [World.setSurface, World.setContext, Function.update, hne, hp]

theorem ensure_surface_target_surface_gone (mk : Bool) (w : World) (context p : Ptr)
    (r : rive_renderer_status_t × World)
    (hp : w.surfaces p = none) (h : EnsureD3D12SurfaceRenderTarget mk w context = some r) :
    r.2.surfaces p = none := by
  unfold EnsureD3D12SurfaceRenderTarget at h
  cases hc : w.contexts context with
  | none => simp [hc] at h
  | some c =>
    simp only [hc] at h
    by_cases hcs : c.surface = 0
    · simp only [hcs, if_true, Option.some.injEq] at h
      subst h; exact hp
    simp only [hcs, if_false] at h
    cases hs : w.surfaces c.surface with
    | none => simp [hs] at h
    | some s =>
      simp only [hs] at h
      have hne : p ≠ c.surface := by
        intro e
        rw [e, hs] at hp
        cases hp
      split at h
      · cases h; exact hp
      split at h
      · cases h; exact hp
      split at h
      · cases h
      split at h
      · cases h
        simpa [World.setContext] using hp
      split at h
      · cases h
      rename_i W2 hW2
      have hW2p : W2.surfaces p = none := by
        split at hW2
        · exact return_target_surface_gone _ _ _ _ (by simpa [World.setContext] using hp) hW2
        · cases hW2
          simpa [World.setContext] using hp
      split at h
      · split at h
        · rename_i hmade
          split at hmade
          · split at hmade
            · cases hmade
              cases h
              simpa [SetLastError] using hW2p
            · split at hmade
              · cases hmade
                cases h
                simpa [SetLastError] using hW2p
              · cases hmade
          · cases hmade
        · split at h
          all_goals
            cases h
            simp [SetLastError, World.setSurface, World.setContext, Function.update, hne, hW2p]
      · cases h

theorem surfaceAttached_of (w : World) (context surface : Ptr) (c : ContextHandle)
    (s : SurfaceHandle) (hc : w.contexts context = some c) (hs : w.surfaces surface = some s)
    (hp : attachedPair context surface c s) : surfaceAttached w context surface := by
  unfold surfaceAttached
  rw [hs, hc]
  exact hp

theorem surfaceAttached_congr (w1 : World) (context surface : Ptr) (c : ContextHandle)
    (s : SurfaceHandle) (hp : attachedPair context surface c s)
    (hc : (w1.contexts context).map (fun x => (x.surface, x.renderTarget)) =
      some (c.surface, c.renderTarget))
    (hs : (w1.surfaces surface).map (fun x =>
        (x.context, x.present_interval, x.buffer_count, x.renderTargets, x.borrowedIndex,
          x.backBuffers)) =
      some (s.context, s.present_interval, s.buffer_count, s.renderTargets, s.borrowedIndex,
        s.backBuffers)) :
    surfaceAttached w1 context surface := by
  cases hc1 : w1.contexts context with
  | none => simp [hc1] at hc
  | some c1 =>
    cases hs1 : w1.surfaces surface with
    | none => simp [hs1] at hs
    | some s1 =>
      simp only [hc1, hs1, Option.map_some', Option.some.injEq, Prod.mk.injEq] at hc hs
      exact surfaceAttached_of _ _ _ c1 s1 hc1 hs1
        (attachedPair_congr _ _ c c1 s s1 hp hc.1 hc.2 hs.1 hs.2.1 hs.2.2.1 hs.2.2.2.1
          hs.2.2.2.2.1 hs.2.2.2.2.2)

theorem surfaceAttached_gone (w : World) (context surface : Ptr)
    (hs : w.surfaces surface = none) : surfaceAttached w context surface := by
  unfold surfaceAttached
  rw [hs]
  trivial

theorem ensure_render_target_surface_gone (n : RenderTargetNative) (w : World)
    (context p : Ptr) (r : rive_renderer_status_t × World)
    (hp : w.surfaces p = none) (h : EnsureD3D12RenderTarget n w context = some r) :
    r.2.surfaces p = none := by
  unfold EnsureD3D12RenderTarget at h
  cases hc : w.contexts context with
  | none => simp [hc] at h
  | some c =>
    simp only [hc] at h
    by_cases hcs : c.surface = 0
    · simp only [hcs, ne_eq, not_true_eq_false, if_false] at h
      split_ifs at h <;> cases h <;> simpa [SetLastError, World.setContext] using hp
    · simp only [hcs, ne_eq, not_false_eq_true, if_true] at h
      exact ensure_surface_target_surface_gone _ _ _ _ _ hp h

theorem begin_frame_surface_gone (b : Build) (n : BeginFrameNative) (w : World)
    (context p : Ptr) (options : Option rive_renderer_frame_options_t)
    (r : rive_renderer_status_t × World) (hp : w.surfaces p = none)
    (hr : rive_renderer_context_begin_frame b n w context options = some r) :
    r.2.surfaces p = none := by
  unfold rive_renderer_context_begin_frame at hr
  by_cases h0 : context = 0
  · simp only [h0, if_true, Option.some.injEq] at hr
    subst hr
    exact hp
  simp only [h0, if_false] at hr
  cases hc : w.contexts context with
  | none => simp [hc] at hr
  | some c =>
    simp only [hc] at hr
    by_cases hv : (!ValidateContextSize (resolvedFrameSize c options).1
        (resolvedFrameSize c options).2) = true
    · rw [if_pos hv] at hr
      cases hr
      exact hp
    rw [if_neg hv] at hr
    generalize deviceBackend _ _ = backend0 at hr
    rcases backend0 with _ | backend
    · cases hr
    simp only at hr
    by_cases hm : (b.apple && decide (backend = some rive_renderer_backend_t.metal)) = true
    · rw [if_pos hm] at hr
      split_ifs at hr
      all_goals
        cases hr
        cases n.metalSize <;> cases n.metalError <;>
          simpa only [SetLastError, ClearLastError, World.setContext] using hp
    rw [if_neg hm] at hr
    by_cases hd : (b.win32 && decide (backend = some rive_renderer_backend_t.d3d12)) = true
    · rw [if_pos hd] at hr
      split at hr
      · cases hr
      rename_i status w2 hens
      have hw2 := ensure_render_target_surface_gone n.target _ context p _
        (by simpa [World.setContext] using hp) hens
      simp only at hw2
      split_ifs at hr
      all_goals first
        | (cases hr
           simpa only [SetLastError, ClearLastError, World.setContext] using hw2)
        | (split at hr
           · cases hr
           · split_ifs at hr
             cases hr
             simpa only [SetLastError, ClearLastError, World.setContext] using hw2)
    rw [if_neg hd] at hr
    split_ifs at hr
    all_goals first
      | (cases hr
         simpa only [SetLastError, ClearLastError, World.setContext] using hp)
      | (rw [vector_assign_eq] at hr
         split_ifs at hr
         cases hr
         simpa only [SetLastError, ClearLastError, World.setContext] using hp)

theorem begin_frame_keeps_attached (b : Build) (n : BeginFrameNative) (w : World)
    (context surface : Ptr) (options : Option rive_renderer_frame_options_t)
    (r : rive_renderer_status_t × World) (hs0 : surface ≠ 0)
    (hinv : surfaceAttached w context surface)
    (hr : rive_renderer_context_begin_frame b n w context options = some r) :
    surfaceAttached r.2 context surface := by
  cases hs : w.surfaces surface with
  | none =>
    exact surfaceAttached_gone _ _ _ (begin_frame_surface_gone b n w context surface options r hs hr)
  | some s =>
    unfold surfaceAttached at hinv
    rw [hs] at hinv
    simp only at hinv
    cases hc : w.contexts context with
    | none => rw [hc] at hinv; exact hinv.elim
    | some c =>
      rw [hc] at hinv
      simp only at hinv
      unfold rive_renderer_context_begin_frame at hr
      by_cases h0 : context = 0
      · simp only [h0, if_true, Option.some.injEq] at hr
        subst hr
        exact surfaceAttached_of _ _ _ c s (by simpa [SetLastError] using hc)
          (by simpa [SetLastError] using hs) hinv
      simp only [h0, if_false, hc] at hr
      by_cases hv : (!ValidateContextSize (resolvedFrameSize c options).1
          (resolvedFrameSize c options).2) = true
      · rw [if_pos hv] at hr
        cases hr
        exact surfaceAttached_of _ _ _ c s (by simpa [SetLastError] using hc)
          (by simpa [SetLastError] using hs) hinv
      rw [if_neg hv] at hr
      generalize deviceBackend _ _ = backend0 at hr
      rcases backend0 with _ | backend
      · cases hr
      simp only at hr
      by_cases hm : (b.apple && decide (backend = some rive_renderer_backend_t.metal)) = true
      · rw [if_pos hm] at hr
        split_ifs at hr
        all_goals
          simp only [Option.some.injEq] at hr
          subst hr
          cases hms : n.metalSize <;> cases hme : n.metalError <;>
            exact surfaceAttached_congr _ _ _ c s hinv
              (by simp [SetLastError, ClearLastError, World.setContext])
              (by simp [SetLastError, ClearLastError, World.setContext, hs])
      rw [if_neg hm] at hr
      by_cases hd : (b.win32 && decide (backend = some rive_renderer_backend_t.d3d12)) = true
      · rw [if_pos hd] at hr
        generalize hens : EnsureD3D12RenderTarget _ _ _ = ens at hr
        rcases ens with _ | ⟨status, w2⟩
        · cases hr
        simp only at hr
        have hcs : c.surface ≠ 0 := by rw [hinv.1]; exact hs0
        unfold EnsureD3D12RenderTarget at hens
        simp only [World.setContext, Function.update_same] at hens
        simp only [ne_eq, hcs, not_false_eq_true, if_true] at hens
        obtain ⟨c1, s1, hc1, hs1, hp1⟩ := ensure_surface_target_attached _ _ context surface
          { c with width := (resolvedFrameSize c options).1,
                   height := (resolvedFrameSize c options).2 } s h0 hs0
          (by simp [World.setContext]) (by simpa [World.setContext] using hs)
          (attachedPair_congr _ _ c _ s s hinv rfl rfl rfl rfl rfl rfl rfl rfl) _ hens
        simp only at hc1 hs1
        simp only [hc1] at hr
        split_ifs at hr
        all_goals
          simp only [Option.some.injEq] at hr
          subst hr
          exact surfaceAttached_congr _ _ _ c1 s1 hp1
            (by simp [SetLastError, ClearLastError, World.setContext, hc1])
            (by simp [SetLastError, ClearLastError, World.setContext, hs1])
      rw [if_neg hd] at hr
      split_ifs at hr
      all_goals first
        | (simp only [Option.some.injEq] at hr
           subst hr
           exact surfaceAttached_congr _ _ _ c s hinv
             (by simp [SetLastError, ClearLastError, World.setContext])
             (by simp [SetLastError, ClearLastError, World.setContext, hs]))
        | (rw [vector_assign_eq] at hr
           split_ifs at hr
           simp only [Option.some.injEq] at hr
           subst hr
           exact surfaceAttached_congr _ _ _ c s hinv
             (by simp [SetLastError, ClearLastError, World.setContext])
             (by simp [SetLastError, ClearLastError, World.setContext, hs]))

theorem surfaceAttached_update (w w1 : World) (context surface : Ptr)
    (hinv : surfaceAttached w context surface)
    (hs : w1.surfaces surface = w.surfaces surface)
    (hc : (w1.contexts context).map (fun x => (x.surface, x.renderTarget)) =
      (w.contexts context).map (fun x => (x.surface, x.renderTarget))) :
    surfaceAttached w1 context surface := by
  cases hs1 : w.surfaces surface with
  | none => exact surfaceAttached_gone _ _ _ (hs.trans hs1)
  | some s =>
    unfold surfaceAttached at hinv
    rw [hs1] at hinv
    simp only at hinv
    cases hc1 : w.contexts context with
    | none => rw [hc1] at hinv; exact hinv.elim
    | some c =>
      rw [hc1] at hinv
      simp only at hinv
      rw [hc1] at hc
      exact surfaceAttached_congr _ _ _ c s hinv hc (by rw [hs, hs1]; rfl)

theorem end_frame_keeps_attached (b : Build) (n : EndFrameNative) (w : World)
    (context surface : Ptr) (r : rive_renderer_status_t × World)
    (hinv : surfaceAttached w context surface)
    (hr : rive_renderer_context_end_frame b n w context = some r) :
    surfaceAttached r.2 context surface := by
  unfold rive_renderer_context_end_frame at hr
  by_cases h0 : context = 0
  · simp only [h0, if_true, Option.some.injEq] at hr
    subst hr
    exact surfaceAttached_update _ _ _ _ hinv rfl rfl
  simp only [h0, if_false] at hr
  cases hc : w.contexts context with
  | none => simp [hc] at hr
  | some c =>
    simp only [hc] at hr
    split at hr
    · cases hr
    rename_i backend hbackend
    by_cases hd : (b.win32 && decide (backend = some rive_renderer_backend_t.d3d12)) = true
    · rw [if_pos hd] at hr
      split_ifs at hr <;> cases hr <;>
        exact surfaceAttached_update _ _ _ _ hinv rfl
          (by simp only [SetLastError, ClearLastError, World.setContext, Function.update_same,
            hc, Option.map_some'])
    rw [if_neg hd] at hr
    by_cases hm : (!b.win32 && b.apple &&
        decide (backend = some rive_renderer_backend_t.metal)) = true
    · rw [if_pos hm] at hr
      cases hme : n.metalError <;> simp only [hme] at hr <;> split_ifs at hr <;>
        cases hr <;>
        exact surfaceAttached_update _ _ _ _ hinv rfl
          (by simp only [SetLastError, ClearLastError, World.setContext, Function.update_same,
            hc, Option.map_some'])
    rw [if_neg hm] at hr
    split_ifs at hr <;> cases hr <;>
      exact surfaceAttached_update _ _ _ _ hinv rfl
        (by simp only [SetLastError, ClearLastError, World.setContext, Function.update_same,
          hc, Option.map_some'])

theorem submit_keeps_attached (b : Build) (n : SubmitNative) (w : World)
    (context surface : Ptr) (r : rive_renderer_status_t × World)
    (hinv : surfaceAttached w context surface)
    (hr : rive_renderer_context_submit b n w context = some r) :
    surfaceAttached r.2 context surface := by
  unfold rive_renderer_context_submit at hr
  by_cases h0 : context = 0
  · simp only [h0, if_true, Option.some.injEq] at hr
    subst hr
    exact surfaceAttached_update _ _ _ _ hinv rfl rfl
  simp only [h0, if_false] at hr
  cases hc : w.contexts context with
  | none => simp [hc] at hr
  | some c =>
    simp only [hc] at hr
    split at hr
    · cases hr
    rename_i backend hbackend
    by_cases hd : (b.win32 && decide (backend = some rive_renderer_backend_t.d3d12)) = true
    · rw [if_pos hd] at hr
      split_ifs at hr <;> cases hr <;>
        exact surfaceAttached_update _ _ _ _ hinv rfl
          (by simp only [SetLastError, ClearLastError, World.setContext, Function.update_same,
            hc, Option.map_some'])
    rw [if_neg hd] at hr
    by_cases hm : (b.apple && decide (backend = some rive_renderer_backend_t.metal)) = true
    · rw [if_pos hm] at hr
      cases hme : n.metalError <;> simp only [hme] at hr <;> split_ifs at hr <;>
        cases hr <;>
        exact surfaceAttached_update _ _ _ _ hinv rfl
          (by simp only [SetLastError, ClearLastError, World.setContext, Function.update_same,
            hc, Option.map_some'])
    rw [if_neg hm] at hr
    split_ifs at hr <;> cases hr <;>
      exact surfaceAttached_update _ _ _ _ hinv rfl
        (by simp only [SetLastError, ClearLastError, World.setContext, Function.update_same,
          hc, Option.map_some'])

theorem surface_retain_keeps_attached (w : World)
    (context surface : Ptr) (r : rive_renderer_status_t × World)
    (hinv : surfaceAttached w context surface)
    (hr : rive_renderer_surface_retain w surface = some r) :
    surfaceAttached r.2 context surface := by
  unfold rive_renderer_surface_retain at hr
  by_cases h0 : surface = 0
  · simp only [h0, if_true, Option.some.injEq] at hr
    subst hr
    exact surfaceAttached_update _ _ _ _ hinv rfl rfl
  simp only [h0, if_false] at hr
  cases hs : w.surfaces surface with
  | none => simp [hs] at hr
  | some s =>
    simp only [hs, Option.some.injEq] at hr
    subst hr
    unfold surfaceAttached at hinv
    rw [hs] at hinv
    simp only at hinv
    cases hc : w.contexts context with
    | none => rw [hc] at hinv; exact hinv.elim
    | some c =>
      rw [hc] at hinv
      exact surfaceAttached_congr _ _ _ c s hinv
        (by simp [ClearLastError, World.setSurface, hc])
        (by simp [ClearLastError, World.setSurface])

theorem bound_append (rts : List (Option RenderTarget)) (bbs : List Ptr) (width height : Nat)
    (buffer : Ptr) (hbb : bbs.length = rts.length)
    (hbnd : ∀ i rt, rts.getD i none = some rt → rt.targetTexture = bbs.getD i 0) :
    ∀ i rt, (rts ++ [some ({ width := width, height := height, targetTexture := buffer } :
        RenderTarget)]).getD i none = some rt →
      rt.targetTexture = (bbs ++ [buffer]).getD i 0 := by
  intro i rt hget
  rw [List.getD_eq_getElem?_getD] at hget ⊢
  rcases Nat.lt_trichotomy i rts.length with hlt | heq | hgt
  · rw [List.getElem?_append_left hlt] at hget
    rw [List.getElem?_append_left (by omega)]
    have := hbnd i rt (by rw [List.getD_eq_getElem?_getD]; exact hget)
    rw [List.getD_eq_getElem?_getD] at this
    exact this
  · subst heq
    rw [List.getElem?_append_right (le_refl _)] at hget
    rw [List.getElem?_append_right (by omega)]
    simp only [Nat.sub_self, List.getElem?_cons_zero, Option.getD_some, Option.some.injEq]
      at hget
    subst hget
    simp [hbb]
  · rw [List.getElem?_eq_none (by simp; omega)] at hget
    simp at hget

theorem surfaceTargetsLoop_spec (n : SurfaceTargetsNative) (width height : Nat) :
    ∀ (k i : Nat) (s : SurfaceHandle), (∀ x ∈ s.renderTargets, x.isSome = true) →
      (∀ x ∈ (surfaceTargetsLoop n width height k i s).2.renderTargets, x.isSome = true) ∧
      (surfaceTargetsLoop n width height k i s).2.renderTargets.length ≤
        s.renderTargets.length + k ∧
      ((surfaceTargetsLoop n width height k i s).1 = none →
        (surfaceTargetsLoop n width height k i s).2.renderTargets.length =
          s.renderTargets.length + k) ∧
      (surfaceTargetsLoop n width height k i s).2 =
        { s with
          backBuffers := (surfaceTargetsLoop n width height k i s).2.backBuffers
          renderTargets := (surfaceTargetsLoop n width height k i s).2.renderTargets } ∧
      (s.backBuffers.length = s.renderTargets.length →
        (∀ j rt, s.renderTargets.getD j none = some rt →
          rt.targetTexture = s.backBuffers.getD j 0) →
        (surfaceTargetsLoop n width height k i s).2.backBuffers.length =
          (surfaceTargetsLoop n width height k i s).2.renderTargets.length ∧
        ∀ j rt, (surfaceTargetsLoop n width height k i s).2.renderTargets.getD j none =
            some rt →
          rt.targetTexture = (surfaceTargetsLoop n width height k i s).2.backBuffers.getD j 0) := by
  intro k
  induction k with
  | zero =>
    intro i s hall
    refine ⟨hall, ?_, ?_, ?_, ?_⟩
    · simp [surfaceTargetsLoop]
    · intro _; simp [surfaceTargetsLoop]
    · simp [surfaceTargetsLoop]
    · intro hbb hbnd
      exact ⟨hbb, hbnd⟩
  | succ k ih =>
    intro i s hall
    unfold surfaceTargetsLoop
    cases hg : n.getBuffer i with
    | none =>
      refine ⟨hall, ?_, ?_, ?_, ?_⟩
      · simp
      · intro h; simp at h
      · simp
      · intro hbb hbnd
        exact ⟨hbb, hbnd⟩
    | some buffer =>
      simp only
      by_cases hmk : (!n.makeRenderTargetOk i) = true
      · rw [if_pos hmk]
        refine ⟨hall, ?_, ?_, ?_, ?_⟩
        · simp
        · intro h; simp at h
        · simp
        · intro hbb hbnd
          exact ⟨hbb, hbnd⟩
      · rw [if_neg hmk]
        have hall1 : ∀ x ∈ ({ s with
            backBuffers := s.backBuffers ++ [buffer]
            renderTargets := s.renderTargets ++
              [some { width := width, height := height, targetTexture := buffer }] } :
              SurfaceHandle).renderTargets, x.isSome = true := by
          intro x hx
          simp only [List.mem_append, List.mem_singleton] at hx
          rcases hx with hx | hx
          · exact hall x hx
          · subst hx; rfl
        obtain ⟨h1, h2, h3, h4, h5⟩ := ih (i + 1) _ hall1
        refine ⟨h1, ?_, ?_, ?_, ?_⟩
        · simp only [List.length_append, List.length_singleton] at h2
          omega
        · intro hnone
          have := h3 hnone
          simp only [List.length_append, List.length_singleton] at this
          omega
        · rw [h4]
        · intro hbb hbnd
          exact h5 (by simp [hbb]) (bound_append _ _ width height buffer hbb hbnd)

theorem all_some_getD (l : List (Option RenderTarget)) (h : ∀ x ∈ l, x.isSome = true)
    (i : Nat) (hi : i < l.length) : (l.getD i none).isSome = true := by
  have hmem : l.getD i none ∈ l := by
    rw [List.getD_eq_getElem?_getD, List.getElem?_eq_getElem hi]
    exact List.getElem_mem hi
  exact h _ hmem

theorem create_surface_targets_spec (n : SurfaceTargetsNative) (w : World) (surface : Ptr)
    (width height : Nat) (s : SurfaceHandle) (r : rive_renderer_status_t × World)
    (hs : w.surfaces surface = some s)
    (hall : ∀ x ∈ s.renderTargets, x.isSome = true)
    (hlen : s.renderTargets.length ≤ s.buffer_count)
    (hbb : s.backBuffers.length = s.renderTargets.length)
    (hbnd : ∀ j rt, s.renderTargets.getD j none = some rt →
      rt.targetTexture = s.backBuffers.getD j 0)
    (hr : CreateSurfaceRenderTargets n w surface width height = some r) :
    r.2.contexts = w.contexts ∧
      ∃ s1, r.2.surfaces surface = some s1 ∧
        s1 = { s with backBuffers := s1.backBuffers, renderTargets := s1.renderTargets,
                      borrowedIndex := s1.borrowedIndex } ∧
        (∀ x ∈ s1.renderTargets, x.isSome = true) ∧
        s1.renderTargets.length ≤ s.buffer_count ∧
        (r.1 = .ok → s1.renderTargets.length = s.buffer_count ∧ s1.borrowedIndex = UINT_MAX) ∧
        (r.1 ≠ .ok → s1.borrowedIndex = s.borrowedIndex) ∧
        s1.backBuffers.length = s1.renderTargets.length ∧
        ∀ j rt, s1.renderTargets.getD j none = some rt →
          rt.targetTexture = s1.backBuffers.getD j 0 := by
  unfold CreateSurfaceRenderTargets at hr
  have hkeep : ∀ message, (SetLastError w message).contexts = w.contexts ∧
      ∃ s1, (SetLastError w message).surfaces surface = some s1 ∧
        s1 = { s with backBuffers := s1.backBuffers, renderTargets := s1.renderTargets,
                      borrowedIndex := s1.borrowedIndex } ∧
        (∀ x ∈ s1.renderTargets, x.isSome = true) ∧
        s1.renderTargets.length ≤ s.buffer_count ∧
        (rive_renderer_status_t.internal_error = .ok →
          s1.renderTargets.length = s.buffer_count ∧ s1.borrowedIndex = UINT_MAX) ∧
        (rive_renderer_status_t.internal_error ≠ .ok → s1.borrowedIndex = s.borrowedIndex) ∧
        s1.backBuffers.length = s1.renderTargets.length ∧
        ∀ j rt, s1.renderTargets.getD j none = some rt →
          rt.targetTexture = s1.backBuffers.getD j 0 :=
    fun message => ⟨rfl, s, by simpa [SetLastError] using hs, rfl, hall, hlen,
      fun h => (by cases h), fun _ => rfl, hbb, hbnd⟩
  by_cases h0 : surface = 0
  · simp only [h0, if_true, Option.some.injEq] at hr
    subst hr
    exact hkeep _
  simp only [h0, if_false, hs] at hr
  split at hr
  · cases hr
    exact hkeep _
  split at hr
  · cases hr
  split at hr
  · cases hr
    exact hkeep _
  split at hr
  · cases hr
  obtain ⟨l1, l2, l3, l4, l5⟩ := surfaceTargetsLoop_spec n width height s.buffer_count 0
    { s with backBuffers := [], renderTargets := [] } (by simp)
  simp only [List.length_nil, Nat.zero_add] at l2 l3
  obtain ⟨l6, l7⟩ := l5 rfl (by simp)
  split at hr
  · rename_i message s2 hloop
    rw [hloop] at l1 l2 l3 l4 l6 l7
    simp only at l1 l2 l3 l4 l6 l7
    cases hr
    refine ⟨by simp [SetLastError, World.setSurface], s2,
      by simp [SetLastError, World.setSurface], ?_, l1, l2, fun h => (by cases h), fun _ => ?_,
      l6, l7⟩
    · rw [l4]
    · rw [l4]
  · rename_i s2 hloop
    rw [hloop] at l1 l2 l3 l4 l6 l7
    simp only at l1 l2 l3 l4 l6 l7
    cases hr
    refine ⟨by simp [World.setSurface],
      { s2 with borrowedIndex := UINT_MAX }, by simp [World.setSurface], ?_, l1,
      l2, fun _ => ⟨l3 trivial, rfl⟩, fun h => absurd rfl h, l6, l7⟩
    rw [l4]

theorem surfaceAttached_returned (w1 : World) (context surface : Ptr) (c : ContextHandle)
    (s : SurfaceHandle) (hp : attachedPair context surface c s)
    (hc : (w1.contexts context).map (fun x => (x.surface, x.renderTarget)) =
      some (c.surface, none))
    (hs : (w1.surfaces surface).map (fun x => (x.context, x.present_interval, x.buffer_count)) =
      some (s.context, s.present_interval, s.buffer_count))
    (hall : ∀ s1, w1.surfaces surface = some s1 →
      (∀ x ∈ s1.renderTargets, x.isSome = true) ∧ s1.renderTargets.length ≤ s1.buffer_count ∧
      s1.backBuffers.length = s1.renderTargets.length ∧
      ∀ j rt, s1.renderTargets.getD j none = some rt →
        rt.targetTexture = s1.backBuffers.getD j 0) :
    surfaceAttached w1 context surface := by
  cases hc1 : w1.contexts context with
  | none => simp [hc1] at hc
  | some c1 =>
    cases hs1 : w1.surfaces surface with
    | none => simp [hs1] at hs
    | some s1 =>
      simp only [hc1, hs1, Option.map_some', Option.some.injEq, Prod.mk.injEq] at hc hs
      obtain ⟨ha, hl, hbb, hbnd⟩ := hall s1 hs1
      refine surfaceAttached_of _ _ _ c1 s1 hc1 hs1 ?_
      obtain ⟨p1, p2, p3, p4, _, _⟩ := hp
      refine ⟨hc.1.trans p1, hs.1.trans p2, by rw [hs.2.1]; exact p3,
        by rw [hs.2.2]; exact p4, hl, ?_, hbb, hbnd, ?_⟩
      · intro i hi
        have := all_some_getD _ ha i hi
        rw [Option.isSome_iff_exists] at this
        obtain ⟨v, hv⟩ := this
        unfold slotEmpty
        rw [hv, hc.2]
        simp
      · intro rt hrt
        rw [hc.2] at hrt
        cases hrt

theorem surface_resize_keeps_attached (b : Build) (hb : b.win32 = true)
    (n : SurfaceResizeNative) (w : World)
    (context surface : Ptr) (width height : Nat) (r : rive_renderer_status_t × World)
    (h0 : context ≠ 0) (hinv : surfaceAttached w context surface)
    (hr : rive_renderer_surface_resize b n w surface width height = some r) :
    surfaceAttached r.2 context surface ∧
      (r.1 = .ok →
        (r.2.contexts context).map (fun c => c.renderTarget) = some none ∧
        (r.2.surfaces surface).map (fun s => s.borrowedIndex) = some UINT_MAX) := by
  unfold rive_renderer_surface_resize at hr
  simp only [hb, if_true] at hr
  unfold surface_resize_d3d12 at hr
  by_cases hs0 : surface = 0
  · simp only [hs0, if_true, Option.some.injEq] at hr
    subst hr
    exact ⟨surfaceAttached_update _ _ _ _ hinv rfl rfl, fun h => by cases h⟩
  simp only [hs0, if_false] at hr
  cases hs : w.surfaces surface with
  | none => simp [hs] at hr
  | some s =>
    simp only [hs] at hr
    have hkeep : ∀ message, surfaceAttached (SetLastError w message) context surface :=
      fun message => surfaceAttached_update _ _ _ _ hinv rfl rfl
    unfold surfaceAttached at hinv
    rw [hs] at hinv
    simp only at hinv
    cases hc : w.contexts context with
    | none => rw [hc] at hinv; exact hinv.elim
    | some c =>
      rw [hc] at hinv
      simp only at hinv
      obtain ⟨hcs, hsc, hpi, hbc, hlen, hcons, hbound⟩ := hinv
      split at hr
      · cases hr
        exact ⟨hkeep _, fun h => by cases h⟩
      split at hr
      · cases hr
        exact ⟨hkeep _, fun h => by cases h⟩
      split at hr
      · cases hr
        exact ⟨hkeep _, fun h => by cases h⟩
      simp only [hsc, hc] at hr
      split at hr
      · cases hr
        exact ⟨hkeep _, fun h => by cases h⟩
      obtain ⟨tex, rts, hR, hl, hall, _⟩ := return_target_attached w context surface c s h0 hs0
        hc hcs hs (le_trans hlen hbc)
      rw [hR] at hr
      simp only [World.setContext, World.setSurface, Function.update_same] at hr
      have hp0 : attachedPair context surface c s := ⟨hcs, hsc, hpi, hbc, hlen, hcons, hbound⟩
      by_cases hrb : (!n.resizeBuffersOk) = true
      · rw [if_pos hrb] at hr
        cases hr
        refine ⟨surfaceAttached_returned _ _ _ c s hp0 (by simp [SetLastError])
          (by simp [SetLastError]) ?_, fun h => by cases h⟩
        intro s1 h1
        simp only [SetLastError, Function.update_same, Option.some.injEq] at h1
        subst h1
        simp
      rw [if_neg hrb] at hr
      split at hr
      · cases hr
      rename_i targetsStatus w4 hcr
      obtain ⟨hctx, s4, hs4, hrec, hsome, hle, hok, _, hbb4, hbnd4⟩ :=
        create_surface_targets_spec n.targets _
        surface width height
        { s with renderTargets := [], backBuffers := [], borrowedIndex := UINT_MAX,
                 currentBackBuffer := n.currentBackBuffer } _
        (by simp) (by simp) (by simp) rfl (by simp) hcr
      simp only at hctx hs4 hok hle
      by_cases hst : targetsStatus ≠ .ok
      · rw [if_pos hst] at hr
        cases hr
        refine ⟨surfaceAttached_returned _ _ _ c s hp0 (by rw [hctx]; simp)
          (by rw [hs4, hrec]; simp) ?_, fun h => absurd h hst⟩
        intro s1 h1
        rw [hs4] at h1
        cases h1
        refine ⟨hsome, ?_, hbb4, hbnd4⟩
        rw [hrec]
        exact hle
      rw [if_neg hst] at hr
      have hst1 : targetsStatus = .ok := by
        by_contra h
        exact hst h
      obtain ⟨hcount, hbor⟩ := hok hst1
      rw [hctx] at hr
      simp only [Function.update_same, hs4] at hr
      cases hr
      refine ⟨surfaceAttached_returned _ _ _ c s hp0
        (by simp [ClearLastError, World.setContext, World.setSurface])
        (by simp only [ClearLastError, World.setContext, World.setSurface, Function.update_same]
            rw [hrec]; simp) ?_, fun _ => ⟨?_, ?_⟩⟩
      · intro s1 h1
        simp only [ClearLastError, World.setContext, World.setSurface, Function.update_same,
          Option.some.injEq] at h1
        subst h1
        refine ⟨hsome, ?_, hbb4, hbnd4⟩
        simp only
        rw [hrec]
        exact hle
      · simp [ClearLastError, World.setContext, World.setSurface]
      · simp [ClearLastError, World.setContext, World.setSurface, hbor]

theorem surface_present_keeps_attached (b : Build) (hb : b.win32 = true)
    (n : PresentNative) (w : World)
    (context surface : Ptr) (present_interval flags : Nat) (r : PresentResult)
    (h0 : context ≠ 0) (hinv : surfaceAttached w context surface)
    (hr : rive_renderer_surface_present b n w surface present_interval flags = some r) :
    surfaceAttached r.world context surface ∧
      (r.status = .ok →
        (r.world.contexts context).map (fun c => c.renderTarget) = some none ∧
        (r.world.surfaces surface).map (fun s => s.borrowedIndex) = some UINT_MAX) := by
  unfold rive_renderer_surface_present at hr
  simp only [hb, if_true] at hr
  unfold surface_present_d3d12 at hr
  by_cases hs0 : surface = 0
  · simp only [hs0, if_true, Option.some.injEq] at hr
    subst hr
    exact ⟨surfaceAttached_update _ _ _ _ hinv rfl rfl, fun h => by cases h⟩
  simp only [hs0, if_false] at hr
  cases hs : w.surfaces surface with
  | none => simp [hs] at hr
  | some s =>
    simp only [hs] at hr
    have hkeep : ∀ message, surfaceAttached (SetLastError w message) context surface :=
      fun message => surfaceAttached_update _ _ _ _ hinv rfl rfl
    unfold surfaceAttached at hinv
    rw [hs] at hinv
    simp only at hinv
    cases hc : w.contexts context with
    | none => rw [hc] at hinv; exact hinv.elim
    | some c =>
      rw [hc] at hinv
      simp only at hinv
      have hp0 := hinv
      obtain ⟨hcs, hsc, hpi, hbc, hlen, hcons, hbound⟩ := hinv
      split at hr
      · cases hr
        exact ⟨hkeep _, fun h => by cases h⟩
      split at hr
      · cases hr
        exact ⟨hkeep _, fun h => by cases h⟩
      simp only [hsc, hc] at hr
      split at hr
      · cases hr
        exact ⟨hkeep _, fun h => by cases h⟩
      obtain ⟨tex, rts, hR, hl, hall, hbnd⟩ := return_target_attached w context surface c s h0 hs0
        hc hcs hs (le_trans hlen hbc)
      rw [hR] at hr
      simp only [World.setContext, World.setSurface, Function.update_same] at hr
      have hret : ∀ message, surfaceAttached (SetLastError
          { w with
            contexts := Function.update w.contexts context
              (some { c with renderTarget := none, renderTargetTexture := tex })
            surfaces := Function.update w.surfaces surface
              (some { s with renderTargets := rts, borrowedIndex := UINT_MAX }) } message)
          context surface := by
        intro message
        refine surfaceAttached_returned _ _ _ c s hp0 (by simp [SetLastError])
          (by simp [SetLastError]) ?_
        intro s1 h1
        simp only [SetLastError, Function.update_same, Option.some.injEq] at h1
        subst h1
        simp only
        refine ⟨?_, by rw [hl]; exact hlen, by rw [hl]; exact hbound.1, hbnd hbound⟩
        intro x hx
        obtain ⟨i, hi, hx⟩ := List.getElem_of_mem hx
        have := hall hcons i hi
        rw [List.getD_eq_getElem?_getD, List.getElem?_eq_getElem hi] at this
        rw [← hx]
        exact this
      cases hout : n.outcome with
      | device_removed_or_reset =>
        simp only [hout, Option.some.injEq] at hr
        subst hr
        exact ⟨hret _, fun h => by cases h⟩
      | failed =>
        simp only [hout, Option.some.injEq] at hr
        subst hr
        exact ⟨hret _, fun h => by cases h⟩
      | succeeded =>
        simp only [hout, Option.some.injEq] at hr
        subst hr
        refine ⟨surfaceAttached_returned _ _ _ c s hp0
          (by simp [ClearLastError, World.setContext, World.setSurface])
          (by simp [ClearLastError, World.setContext, World.setSurface]) ?_, fun _ => ⟨?_, ?_⟩⟩
        · intro s1 h1
          simp only [ClearLastError, World.setContext, World.setSurface, Function.update_same,
            Option.some.injEq] at h1
          subst h1
          simp only
          refine ⟨?_, by rw [hl]; exact hlen, by rw [hl]; exact hbound.1, hbnd hbound⟩
          intro x hx
          obtain ⟨i, hi, hx⟩ := List.getElem_of_mem hx
          have := hall hcons i hi
          rw [List.getD_eq_getElem?_getD, List.getElem?_eq_getElem hi] at this
          rw [← hx]
          exact this
        · simp [ClearLastError, World.setContext, World.setSurface]
        · simp [ClearLastError, World.setContext, World.setSurface]

theorem destroyDevice_surfaces (b : Build) (m : Bool) (w : World) (device : Ptr)
    (handle : DeviceHandle) : (destroyDevice b m w device handle).surfaces = w.surfaces := by
  unfold destroyDevice
  split_ifs <;> simp [World.native, World.deleteDevice]

theorem context_release_surface_gone (b : Build) (w : World) (context p : Ptr)
    (r : rive_renderer_status_t × World) (hp : w.surfaces p = none)
    (hr : rive_renderer_context_release b w context = some r) :
    r.2.surfaces p = none := by
  unfold rive_renderer_context_release at hr
  by_cases h0 : context = 0
  · simp only [h0, if_true, Option.some.injEq] at hr
    subst hr
    exact hp
  simp only [h0, if_false] at hr
  cases hc : w.contexts context with
  | none => simp [hc] at hr
  | some c =>
    simp only [hc] at hr
    split at hr
    · cases hr; exact hp
    split at hr
    · cases hr
      simpa [SetLastError, World.setContext] using hp
    split at hr
    · split at hr
      · cases hr
      rename_i w2 hw2
      have hw2p : w2.surfaces p = none := by
        split at hw2
        · exact return_target_surface_gone _ _ _ _ (by simpa [World.setContext] using hp) hw2
        · split at hw2
          · cases hw2
            simpa [World.setContext, World.native] using hp
          · cases hw2
            simpa [World.setContext] using hp
      split at hr
      · cases hr
      rename_i w3 hw3
      have hw3p : w3.surfaces p = none := by
        split at hw3
        · split at hw3
          · cases hw3
          · split at hw3
            · cases hw3
              rw [destroyDevice_surfaces]
              simpa [World.setDevice] using hw2p
            · cases hw3
              simpa [World.setDevice] using hw2p
        · cases hw3
          exact hw2p
      cases hr
      simpa [ClearLastError, World.deleteContext] using hw3p
    · cases hr
      simpa [ClearLastError, World.setContext] using hp

theorem context_release_keeps_attached (b : Build) (w : World)
    (context surface : Ptr) (r : rive_renderer_status_t × World) (hs0 : surface ≠ 0)
    (hinv : surfaceAttached w context surface)
    (hr : rive_renderer_context_release b w context = some r) :
    surfaceAttached r.2 context surface := by
  cases hs : w.surfaces surface with
  | none =>
    exact surfaceAttached_gone _ _ _ (context_release_surface_gone b w context surface r hs hr)
  | some s =>
    have hinv0 := hinv
    unfold surfaceAttached at hinv
    rw [hs] at hinv
    simp only at hinv
    cases hc : w.contexts context with
    | none => rw [hc] at hinv; exact hinv.elim
    | some c =>
      rw [hc] at hinv
      simp only at hinv
      unfold rive_renderer_context_release at hr
      by_cases h0 : context = 0
      · simp only [h0, if_true, Option.some.injEq] at hr
        subst hr
        exact surfaceAttached_update _ _ _ _ hinv0 rfl rfl
      have hcs : c.surface ≠ 0 := by rw [hinv.1]; exact hs0
      simp only [h0, if_false, hc, ne_eq, hcs, not_false_eq_true, if_true,
        Option.some.injEq] at hr
      subst hr
      exact surfaceAttached_update _ _ _ _ hinv0 rfl rfl

theorem surface_release_keeps_attached (b : Build) (w : World)
    (context surface : Ptr) (r : rive_renderer_status_t × World)
    (hinv : surfaceAttached w context surface)
    (hr : rive_renderer_surface_release b w surface = some r) :
    surfaceAttached r.2 context surface := by
  unfold rive_renderer_surface_release at hr
  by_cases hs0 : surface = 0
  · simp only [hs0, if_true, Option.some.injEq] at hr
    subst hr
    exact surfaceAttached_update _ _ _ _ hinv rfl rfl
  simp only [hs0, if_false] at hr
  cases hs : w.surfaces surface with
  | none => simp [hs] at hr
  | some s =>
    simp only [hs] at hr
    unfold surfaceAttached at hinv
    rw [hs] at hinv
    simp only at hinv
    cases hc : w.contexts context with
    | none => rw [hc] at hinv; exact hinv.elim
    | some c =>
      rw [hc] at hinv
      simp only at hinv
      split at hr
      · cases hr
        exact surfaceAttached_congr _ _ _ c s hinv
          (by simp [SetLastError, World.setSurface, hc])
          (by simp [SetLastError, World.setSurface])
      split at hr
      · split at hr
        · cases hr
        split at hr
        · cases hr
        split at hr
        · cases hr
        cases hr
        exact surfaceAttached_gone _ _ _ (by simp [ClearLastError, World.deleteSurface])
      · cases hr
        exact surfaceAttached_congr _ _ _ c s hinv
          (by simp [ClearLastError, World.setSurface, hc])
          (by simp [ClearLastError, World.setSurface])

theorem surface_create_attach_attached (b : Build) (n : SurfaceTargetsNative) (w1 : World)
    (device context surface : Ptr) (width height : Nat) (ch : ContextHandle)
    (s : SurfaceHandle) (r : CreateResult)
    (hc : w1.contexts context = some ch) (hs : w1.surfaces surface = some s)
    (hrt : ch.renderTarget = none) (hsc : s.context = context)
    (hpi : s.present_interval ≠ 0) (hbc : s.buffer_count ≤ UINT_MAX)
    (hempty : s.renderTargets = []) (hbuffers : s.backBuffers = [])
    (hr : surface_create_attach b n w1 device context surface width height = some r)
    (hok : r.status = .ok) :
    ∃ c1 s1, r.out = some surface ∧
      r.world.contexts context = some c1 ∧ r.world.surfaces surface = some s1 ∧
      attachedPair context surface c1 s1 ∧ s1.backend = s.backend ∧
      s1.swapChain = s.swapChain ∧ c1.renderTarget = none ∧ s1.borrowedIndex = UINT_MAX ∧
      s1.renderTargets.length = s1.buffer_count ∧ (∀ x ∈ s1.renderTargets, x.isSome = true) ∧
      s1.present_interval = s.present_interval := by
  unfold surface_create_attach at hr
  split at hr
  · cases hr
  rename_i targetsStatus w2 hcr
  split at hr
  · rename_i hst
    cases hr
    exact absurd hok hst
  rename_i hst
  have hst1 : targetsStatus = .ok := by
    by_contra h
    exact hst h
  obtain ⟨hctx, s2, hs2, hrec, hsome, hle, hok2, _, hbb2, hbnd2⟩ :=
    create_surface_targets_spec n w1
    surface width height s _ hs (by simp [hempty]) (by simp [hempty])
    (by simp [hempty, hbuffers]) (by simp [hempty]) hcr
  simp only at hctx hs2 hok2
  obtain ⟨hcount, hbor⟩ := hok2 hst1
  unfold rive_renderer_device_retain at hr
  by_cases hd0 : device = 0
  · simp only [hd0, if_true] at hr
    split at hr
    · cases hr; cases hok
    · rename_i hne
      exact absurd (by decide) hne
  simp only [hd0, if_false] at hr
  split at hr
  · cases hr
  rename_i retainDeviceStatus w3 hdr
  split at hdr
  · cases hdr
  rename_i dh hdh
  simp only [Option.some.injEq, Prod.mk.injEq] at hdr
  obtain ⟨hdr1, hdr2⟩ := hdr
  subst hdr1 hdr2
  simp only [ne_eq, not_true_eq_false, if_false] at hr
  unfold rive_renderer_context_retain at hr
  by_cases hc0 : context = 0
  · simp only [hc0, if_true, not_false_eq_true, reduceCtorEq] at hr
    split at hr
    · cases hr
    · cases hr
      cases hok
  have hc2 : (ClearLastError (w2.setDevice device
      { dh with ref_count := fetch_add_1 dh.ref_count })).contexts context = some ch := by
    simp [ClearLastError, World.setDevice, hctx, hc]
  simp only [hc0, if_false, hc2, not_true_eq_false] at hr
  simp only [ClearLastError, World.setContext, World.setDevice, Function.update_same,
    Option.some.injEq] at hr
  subst hr
  refine ⟨{ ch with ref_count := fetch_add_1 ch.ref_count, surface := surface, width := width,
                    height := height }, s2, rfl, by simp, by simpa using hs2, ?_, ?_, ?_, hrt,
    hbor, ?_, hsome, ?_⟩
  · refine ⟨rfl, ?_, ?_, ?_, ?_, ?_, hbb2, hbnd2, ?_⟩
    · rw [hrec]; exact hsc
    · rw [hrec]; exact hpi
    · rw [hrec]; exact hbc
    · rw [hrec]; exact hle
    · intro i hi
      have := all_some_getD _ hsome i hi
      rw [Option.isSome_iff_exists] at this
      obtain ⟨v, hv⟩ := this
      unfold slotEmpty
      rw [hv]
      simp [hrt]
    · intro rt hrt1
      simp only [hrt] at hrt1
      cases hrt1
  · rw [hrec]
  · rw [hrec]
  · rw [hrec]; exact hcount
  · rw [hrec]

theorem surface_create_attached (b : Build) (n : SurfaceCreateNative) (w : World)
    (device context : Ptr) (info : rive_renderer_surface_create_info_d3d12_hwnd_t)
    (out_surface : Option Ptr) (r : CreateResult) (hcount : info.buffer_count < U32)
    (hr : rive_renderer_surface_create_d3d12_hwnd b n w device context (some info)
      out_surface = some r)
    (hok : r.status = .ok) :
    b.win32 = true ∧ context ≠ 0 ∧
    ∃ surface c s, r.out = some surface ∧ surface ≠ 0 ∧
      r.world.contexts context = some c ∧ r.world.surfaces surface = some s ∧
      attachedPair context surface c s ∧ s.backend = rive_renderer_backend_t.d3d12 ∧
      s.swapChain = true ∧ c.renderTarget = none ∧ s.borrowedIndex = UINT_MAX ∧
      s.renderTargets.length = s.buffer_count ∧ (∀ x ∈ s.renderTargets, x.isSome = true) ∧
      s.present_interval = (if info.present_interval ≠ 0 then info.present_interval else 1) := by
  unfold rive_renderer_surface_create_d3d12_hwnd at hr
  split at hr
  · cases hr; cases hok
  simp only at hr
  split at hr
  · cases hr; cases hok
  rename_i hdc
  split at hr
  swap
  · cases hr; cases hok
  rename_i hb
  split at hr
  · cases hr
  split at hr
  swap
  · cases hr; cases hok
  split at hr
  · cases hr
  rename_i ch hch
  split at hr
  swap
  · cases hr; cases hok
  have hc0 : context ≠ 0 := fun h => hdc (Or.inr h)
  refine ⟨hb, hc0, ?_⟩
  unfold surface_create_d3d12 at hr
  split at hr
  · cases hr; cases hok
  split at hr
  · cases hr; cases hok
  simp only at hr
  by_cases hv : (!ValidateContextSize (if info.width ≠ 0 then info.width else ch.width)
      (if info.height ≠ 0 then info.height else ch.height)) = true
  · rw [if_pos hv] at hr; cases hr; cases hok
  rw [if_neg hv] at hr
  by_cases hf : (!n.createFactoryOk) = true
  · rw [if_pos hf] at hr; cases hr; cases hok
  rw [if_neg hf] at hr
  by_cases hsw : (!n.createSwapChainOk) = true
  · rw [if_pos hsw] at hr; cases hr; cases hok
  rw [if_neg hsw] at hr
  by_cases hq : (!n.querySwapChain3Ok) = true
  · rw [if_pos hq] at hr; cases hr; cases hok
  rw [if_neg hq] at hr
  by_cases ha : (!n.allocOk) = true
  · rw [if_pos ha] at hr; cases hr; cases hok
  rw [if_neg ha] at hr
  have hfresh : w.fresh.1 ≠ 0 := by simp [World.fresh]
  obtain ⟨c1, s1, h1, h2, h3, h4, h5, h6, h7, h8, h9, h10, h11⟩ :=
    surface_create_attach_attached b n.targets _ device context w.fresh.1 _ _
      { ch with renderTarget := none, renderTargetTexture := 0 }
      (newSurfaceHandle device context info (if info.width ≠ 0 then info.width else ch.width)
        (if info.height ≠ 0 then info.height else ch.height)
        (if (if info.buffer_count ≠ 0 then info.buffer_count else 2) < 2 then 2
          else if info.buffer_count ≠ 0 then info.buffer_count else 2)
        (if Nat.land (info.flags % U32) 2 ≠ 0 then n.tearingSupported else false)) r
      (by simp only [World.setContext, Function.update_same])
      (by simp only [World.setContext, World.setSurface, Function.update_same])
      rfl rfl (by unfold newSurfaceHandle; simp only; split_ifs <;> simp_all)
      (by unfold newSurfaceHandle UINT_MAX; unfold U32 at hcount; simp only; split_ifs <;> omega)
      rfl rfl hr hok
  exact ⟨w.fresh.1, c1, s1, h1, hfresh, h2, h3, h4, h5, h6, h7, h8, h9, h10, h11⟩

theorem surface_call_keeps_attached (b : Build) (hb : b.win32 = true)
    (context surface : Ptr) (h0 : context ≠ 0) (hs0 : surface ≠ 0) (w : World)
    (call : SurfaceCall) (r : rive_renderer_status_t × World)
    (hinv : surfaceAttached w context surface)
    (hr : SurfaceCall.run b context surface w call = some r) :
    surfaceAttached r.2 context surface ∧
      (call.presentsOrResizes = true → r.1 = .ok →
        (r.2.contexts context).map (fun c => c.renderTarget) = some none ∧
        (r.2.surfaces surface).map (fun s => s.borrowedIndex) = some UINT_MAX) := by
  cases call with
  | begin_frame n options =>
    exact ⟨begin_frame_keeps_attached b n w context surface options r hs0 hinv hr,
      fun h => by simp [SurfaceCall.presentsOrResizes] at h⟩
  | end_frame n =>
    exact ⟨end_frame_keeps_attached b n w context surface r hinv hr,
      fun h => by simp [SurfaceCall.presentsOrResizes] at h⟩
  | submit n =>
    exact ⟨submit_keeps_attached b n w context surface r hinv hr,
      fun h => by simp [SurfaceCall.presentsOrResizes] at h⟩
  | present n present_interval flags =>
    simp only [SurfaceCall.run] at hr
    cases hp : rive_renderer_surface_present b n w surface present_interval flags with
    | none => simp [hp] at hr
    | some pr =>
      simp only [hp, Option.map_some', Option.some.injEq] at hr
      subst hr
      obtain ⟨h1, h2⟩ := surface_present_keeps_attached b hb n w context surface
        present_interval flags pr h0 hinv hp
      exact ⟨h1, fun _ hok => h2 hok⟩
  | resize n width height =>
    obtain ⟨h1, h2⟩ := surface_resize_keeps_attached b hb n w context surface width height r
      h0 hinv hr
    exact ⟨h1, fun _ hok => h2 hok⟩
  | surface_retain =>
    exact ⟨surface_retain_keeps_attached w context surface r hinv hr,
      fun h => by simp [SurfaceCall.presentsOrResizes] at h⟩
  | surface_release =>
    exact ⟨surface_release_keeps_attached b w context surface r hinv hr,
      fun h => by simp [SurfaceCall.presentsOrResizes] at h⟩
  | context_release =>
    exact ⟨context_release_keeps_attached b w context surface r hs0 hinv hr,
      fun h => by simp [SurfaceCall.presentsOrResizes] at h⟩

theorem surface_calls_keep_attached (b : Build) (hb : b.win32 = true)
    (context surface : Ptr) (h0 : context ≠ 0) (hs0 : surface ≠ 0)
    (calls : List SurfaceCall) :
    ∀ (w w2 : World) (statuses : List rive_renderer_status_t),
      surfaceAttached w context surface →
      runCalls (SurfaceCall.run b context surface) w calls = some (statuses, w2) →
      surfaceAttached w2 context surface := by
  induction calls with
  | nil =>
    intro w w2 statuses hinv hrun
    simp only [runCalls, Option.some.injEq, Prod.mk.injEq] at hrun
    rw [← hrun.2]
    exact hinv
  | cons call calls ih =>
    intro w w2 statuses hinv hrun
    simp only [runCalls] at hrun
    cases hstep : SurfaceCall.run b context surface w call with
    | none => simp [hstep] at hrun
    | some r =>
      obtain ⟨status, w1⟩ := r
      simp only [hstep] at hrun
      cases hrest : runCalls (SurfaceCall.run b context surface) w1 calls with
      | none => simp [hrest] at hrun
      | some r2 =>
        obtain ⟨statuses2, w3⟩ := r2
        simp only [hrest, Option.some.injEq, Prod.mk.injEq] at hrun
        rw [← hrun.2]
        exact ih w1 w3 statuses2
          (surface_call_keeps_attached b hb context surface h0 hs0 w call (status, w1) hinv
            hstep).1 hrest

theorem emptySlots_le_one (c : ContextHandle) (s : SurfaceHandle)
    (h : borrowConsistent c s) : emptySlots s ≤ 1 := by
  unfold emptySlots
  have key : ∀ (l : List (Option RenderTarget)),
      (∀ i j, i < l.length → j < l.length → (l.getD i none).isNone = true →
        (l.getD j none).isNone = true → i = j) → l.countP Option.isNone ≤ 1 := by
    intro l
    induction l with
    | nil => intro _; simp
    | cons x xs ih =>
      intro huniq
      cases x with
      | some v =>
        rw [List.countP_cons_of_neg]
        · apply ih
          intro i j hi hj hni hnj
          have := huniq (i + 1) (j + 1) (by simpa using hi) (by simpa using hj)
            (by simpa using hni) (by simpa using hnj)
          omega
        · simp
      | none =>
        rw [List.countP_cons_of_pos]
        · have hzero : xs.countP Option.isNone = 0 := by
            rw [List.countP_eq_zero]
            intro y hy
            obtain ⟨i, hi, hgi⟩ := List.getElem_of_mem hy
            intro hyn
            have := huniq 0 (i + 1) (by simp) (by simpa using hi) (by simp)
              (by simp [List.getD_eq_getElem?_getD, List.getElem?_eq_getElem hi, hgi]
                  simpa using hyn)
            omega
          omega
        · simp
  apply key
  intro i j hi hj hni hnj
  have h1 := (h i hi).1 hni
  have h2 := (h j hj).1 hnj
  rw [← h1.1, ← h2.1]

/-- C24: for a surface made by a successful `rive_renderer_surface_create_d3d12_hwnd` (the
32-bit `buffer_count` below 2^32) and every sequence of `begin_frame`, `end_frame`,
`submit` and `context_release` calls on its context and `present`, `resize`, `retain` and
`release` calls on the surface, with arbitrary arguments and native results, failing calls
included: as long as the surface exists, its context exists, the two point at each other,
at most one slot of the render-target cache is empty, a slot is empty exactly when
`borrowedIndex` names it and the context holds a render target, and the target the context
then holds is the one of that slot (its texture is the slot's back buffer); and after a
further `present` or `resize` that returns `ok` the context holds no render target and
`borrowedIndex` is the sentinel `UINT_MAX`. -/
theorem one_render_target_borrowed (b : Build) (n : SurfaceCreateNative) (w0 w1 w2 : World)
    (device context surface out0 : Ptr)
    (info : rive_renderer_surface_create_info_d3d12_hwnd_t) (calls : List SurfaceCall)
    (statuses : List rive_renderer_status_t) (hcount : info.buffer_count < U32)
    (hcreate : rive_renderer_surface_create_d3d12_hwnd b n w0 device context (some info)
      (some out0) = some ⟨.ok, w1, some surface⟩)
    (hrun : runCalls (SurfaceCall.run b context surface) w1 calls = some (statuses, w2)) :
    (∀ s, w2.surfaces surface = some s →
      ∃ c, w2.contexts context = some c ∧ c.surface = surface ∧ s.context = context ∧
        emptySlots s ≤ 1 ∧
        ∀ i, i < s.renderTargets.length →
          (slotEmpty s i = true ↔ (s.borrowedIndex = i ∧ c.renderTarget.isSome = true)) ∧
          (slotEmpty s i = true →
            ∃ rt, c.renderTarget = some rt ∧ rt.targetTexture = s.backBuffers.getD i 0)) ∧
      ∀ call w3, call.presentsOrResizes = true →
        SurfaceCall.run b context surface w2 call = some (.ok, w3) →
        (w3.contexts context).map (fun c => c.renderTarget) = some none ∧
          (w3.surfaces surface).map (fun s => s.borrowedIndex) = some UINT_MAX := by
  obtain ⟨hb, h0, surface1, c1, s1, hout, hs0, hc1, hs1, hp1, _⟩ :=
    surface_create_attached b n w0 device context info (some out0) _ hcount hcreate rfl
  simp only [Option.some.injEq] at hout
  subst hout
  have hinv1 : surfaceAttached w1 context surface := surfaceAttached_of _ _ _ c1 s1 hc1 hs1 hp1
  have hinv2 := surface_calls_keep_attached b hb context surface h0 hs0 calls w1 w2 statuses
    hinv1 hrun
  refine ⟨fun s hs => ?_, fun call w3 hcall hstep => ?_⟩
  · unfold surfaceAttached at hinv2
    rw [hs] at hinv2
    simp only at hinv2
    cases hc : w2.contexts context with
    | none => rw [hc] at hinv2; exact hinv2.elim
    | some c =>
      rw [hc] at hinv2
      simp only at hinv2
      obtain ⟨p1, p2, _, _, _, p6, p7⟩ := hinv2
      refine ⟨c, rfl, p1, p2, emptySlots_le_one c s p6, fun i hi => ⟨p6 i hi, fun hempty => ?_⟩⟩
      obtain ⟨hbi, hsome⟩ := (p6 i hi).1 hempty
      rw [Option.isSome_iff_exists] at hsome
      obtain ⟨rt, hrt⟩ := hsome
      refine ⟨rt, hrt, ?_⟩
      have := p7.2.2 rt hrt (by rw [hbi]; exact hi)
      rw [hbi] at this
      exact this
  · exact (surface_call_keeps_attached b hb context surface h0 hs0 w2 call (.ok, w3) hinv2
      hstep).2 hcall rfl

/-- C24 (witness): on the surface of `gpuSurfaceWorld` a `begin_frame` borrows the render
target of back buffer 0: slot 0 is the one empty slot, `borrowedIndex` is 0 and the context
holds the render target whose texture is back buffer 0 (at address 1). -/
theorem one_render_target_borrowed_witness :
    rive_renderer_surface_create_d3d12_hwnd windowsBuild tearingNative gpuContextWorld 1 2
        (some sampleSurfaceInfo) (some 0) = some ⟨.ok, gpuSurfaceWorld, some 3⟩ ∧
      runCalls (SurfaceCall.run windowsBuild 2 3) gpuSurfaceWorld [.begin_frame {} none] =
        some ([.ok], gpuFrameWorld) ∧
      (gpuFrameWorld.surfaces 3).map
          (fun s => (emptySlots s, slotEmpty s 0, s.borrowedIndex, s.backBuffers)) =
        some (1, true, 0, [1, 2]) ∧
      (gpuFrameWorld.contexts 2).map (fun c => c.renderTarget) =
        some (some { width := 4, height := 4, targetTexture := 1 }) ∧
      ∀ s, gpuFrameWorld.surfaces 3 = some s →
        ∃ c, gpuFrameWorld.contexts 2 = some c ∧ c.surface = 3 ∧ s.context = 2 ∧
          emptySlots s ≤ 1 ∧
          ∀ i, i < s.renderTargets.length →
            (slotEmpty s i = true ↔ (s.borrowedIndex = i ∧ c.renderTarget.isSome = true)) ∧
            (slotEmpty s i = true →
              ∃ rt, c.renderTarget = some rt ∧ rt.targetTexture = s.backBuffers.getD i 0) :=
  ⟨rfl, rfl, rfl, rfl,
    (one_render_target_borrowed windowsBuild tearingNative gpuContextWorld gpuSurfaceWorld
      gpuFrameWorld 1 2 3 0 sampleSurfaceInfo [.begin_frame {} none] [.ok] (by decide) rfl
      rfl).1⟩

theorem surface_present_interval (b : Build) (n : PresentNative) (w : World)
    (surface : Ptr) (present_interval flags : Nat) (r : PresentResult)
    (s : SurfaceHandle) (hs : w.surfaces surface = some s) (hpi : s.present_interval ≠ 0)
    (hr : rive_renderer_surface_present b n w surface present_interval flags = some r)
    (syncInterval presentFlags : Nat) (hp : r.presented = some (syncInterval, presentFlags)) :
    syncInterval ≠ 0 ∧ presentFlags = 0 := by
  have hsync : (if present_interval ≠ 0 then present_interval else s.present_interval) ≠ 0 := by
    split_ifs with h
    · exact h
    · exact hpi
  have hflags : (if Nat.land (flags % U32) 1 ≠ 0 ∧ s.supportsTearing = true ∧
        (if present_interval ≠ 0 then present_interval else s.present_interval) = 0 then
      Nat.lor 0 DXGI_PRESENT_ALLOW_TEARING else 0) = 0 := by
    rw [if_neg]
    intro h
    exact hsync h.2.2
  unfold rive_renderer_surface_present at hr
  split at hr
  · unfold surface_present_d3d12 at hr
    split at hr
    · cases hr; cases hp
    simp only [hs] at hr
    split at hr
    · cases hr; cases hp
    split at hr
    · cases hr; cases hp
    split at hr
    · cases hr
    split at hr
    · cases hr; cases hp
    split at hr
    · cases hr
    split at hr
    · cases hr
      simp only [Option.some.injEq, Prod.mk.injEq] at hp
      rw [← hp.1, ← hp.2]
      exact ⟨hsync, hflags⟩
    · cases hr
      simp only [Option.some.injEq, Prod.mk.injEq] at hp
      rw [← hp.1, ← hp.2]
      exact ⟨hsync, hflags⟩
    · split at hr
      · cases hr
        simp only [Option.some.injEq, Prod.mk.injEq] at hp
        rw [← hp.1, ← hp.2]
        exact ⟨hsync, hflags⟩
      · cases hr
  · split at hr
    · have hnone : r.presented = none := by
        unfold surface_present_metal at hr
        by_cases h0 : surface = 0
        · simp only [h0, if_true] at hr
          cases hr
          rfl
        simp only [h0, if_false, hs] at hr
        split_ifs at hr
        all_goals first
          | (cases hr; rfl)
          | (cases hc : w.contexts s.context with
             | none => simp [hc] at hr
             | some c =>
               simp only [hc] at hr
               cases hme : n.metalError <;> simp only [hme] at hr <;> split_ifs at hr <;>
                 cases hr <;> rfl)
      rw [hnone] at hp
      cases hp
    · cases hr; cases hp

/-- C29: for a surface made by a successful `rive_renderer_surface_create_d3d12_hwnd`
(any requested `present_interval`, any flags, tearing supported or not; the 32-bit
`buffer_count` below 2^32), after every sequence of frame, present, resize, retain and
release calls on it and its context, every `rive_renderer_surface_present` call with any
`present_interval` and any flags that reaches `swapChain->Present` passes a sync interval
that is not zero and the present flags 0, so never `DXGI_PRESENT_ALLOW_TEARING`. -/
theorem present_never_tears (b : Build) (n : SurfaceCreateNative) (w0 w1 w2 : World)
    (device context surface out0 : Ptr)
    (info : rive_renderer_surface_create_info_d3d12_hwnd_t) (calls : List SurfaceCall)
    (statuses : List rive_renderer_status_t) (np : PresentNative)
    (present_interval flags : Nat) (r : PresentResult) (syncInterval presentFlags : Nat)
    (hcount : info.buffer_count < U32)
    (hcreate : rive_renderer_surface_create_d3d12_hwnd b n w0 device context (some info)
      (some out0) = some ⟨.ok, w1, some surface⟩)
    (hrun : runCalls (SurfaceCall.run b context surface) w1 calls = some (statuses, w2))
    (hpresent : rive_renderer_surface_present b np w2 surface present_interval flags = some r)
    (hp : r.presented = some (syncInterval, presentFlags)) :
    syncInterval ≠ 0 ∧ presentFlags = 0 ∧
      Nat.land presentFlags DXGI_PRESENT_ALLOW_TEARING = 0 := by
  obtain ⟨hb, h0, surface1, c1, s1, hout, hs0, hc1, hs1, hp1, _⟩ :=
    surface_create_attached b n w0 device context info (some out0) _ hcount hcreate rfl
  simp only [Option.some.injEq] at hout
  subst hout
  have hinv1 : surfaceAttached w1 context surface := surfaceAttached_of _ _ _ c1 s1 hc1 hs1 hp1
  have hinv2 := surface_calls_keep_attached b hb context surface h0 hs0 calls w1 w2 statuses
    hinv1 hrun
  cases hs : w2.surfaces surface with
  | none =>
    unfold rive_renderer_surface_present surface_present_d3d12 at hpresent
    simp [hb, hs0, hs] at hpresent
  | some s =>
    unfold surfaceAttached at hinv2
    rw [hs] at hinv2
    simp only at hinv2
    cases hc : w2.contexts context with
    | none => rw [hc] at hinv2; exact hinv2.elim
    | some c =>
      rw [hc] at hinv2
      simp only at hinv2
      obtain ⟨h1, h2⟩ := surface_present_interval b np w2 surface present_interval
        flags r s hs hinv2.2.2.1 hpresent syncInterval presentFlags hp
      refine ⟨h1, h2, ?_⟩
      rw [h2]
      rfl

/-- C29 (witness): the surface of `gpuSurfaceWorld` was created with the `allow_tearing`
flag, tearing support and the default present interval; after a frame cycle a `present`
asking for interval 0 with the `allow_tearing` present flag passes interval 1 and flags 0
to the swap chain. -/
theorem present_never_tears_witness :
    (rive_renderer_surface_present windowsBuild {} gpuSurfaceWorld 3 0 1).map
        (fun r => (r.status, r.presented)) = some (.ok, some (1, 0)) ∧
      (1 ≠ 0 ∧ 0 = 0 ∧ Nat.land 0 DXGI_PRESENT_ALLOW_TEARING = 0) :=
  ⟨rfl,
    present_never_tears windowsBuild tearingNative gpuContextWorld gpuSurfaceWorld
      gpuSurfaceWorld 1 2 3 0 sampleSurfaceInfo [] [] {}
      0 1 ((rive_renderer_surface_present windowsBuild {} gpuSurfaceWorld 3 0 1).getD
        ⟨.ok, gpuSurfaceWorld, none⟩) 1 0 (by decide) rfl rfl rfl rfl⟩

theorem return_target_frame (w w1 : World) (context : Ptr)
    (h : ReturnSurfaceRenderTarget w context = some w1) :
    w1.devices = w.devices ∧
      (∀ p, (w1.contexts p).map frameKey = (w.contexts p).map frameKey) ∧
      ∀ p, (w1.surfaces p).map surfaceKey = (w.surfaces p).map surfaceKey := by
  unfold ReturnSurfaceRenderTarget at h
  by_cases h0 : context = 0
  · simp only [h0, if_true, Option.some.injEq] at h
    subst h
    exact ⟨rfl, fun _ => rfl, fun _ => rfl⟩
  simp only [h0, if_false] at h
  cases hc : w.contexts context with
  | none => simp [hc] at h
  | some c =>
    simp only [hc] at h
    by_cases hcs : c.surface = 0
    · simp only [hcs, if_true, Option.some.injEq] at h
      subst h
      exact ⟨rfl, fun _ => rfl, fun _ => rfl⟩
    simp only [hcs, if_false] at h
    cases hs : w.surfaces c.surface with
    | none => simp [hs] at h
    | some s =>
      simp only [hs, Option.some.injEq] at h
      subst h
      refine ⟨rfl, fun p => ?_, fun p => ?_⟩
      · by_cases hp : p = context
        · subst hp
          simp only [World.setSurface, World.setContext, Function.update_same, hc,
            Option.map_some']
          split_ifs <;> (try split) <;> rfl
        · simp [World.setSurface, World.setContext, Function.update_noteq hp]
      · by_cases hp : p = c.surface
        · subst hp
          simp only [World.setSurface, World.setContext, Function.update_same, hs,
            Option.map_some']
          split_ifs <;> (try split) <;> rfl
        · simp [World.setSurface, World.setContext, Function.update_noteq hp]

theorem frame_update (w : World) (q : Ptr) (c c1 : ContextHandle)
    (hq : w.contexts q = some c) (hk : frameKey c1 = frameKey c) (p : Ptr) :
    ((w.setContext q c1).contexts p).map frameKey = (w.contexts p).map frameKey := by
  by_cases hp : p = q
  · subst hp
    simp [World.setContext, hq, hk]
  · simp [World.setContext, Function.update_noteq hp]

theorem surface_update (w : World) (q : Ptr) (s s1 : SurfaceHandle)
    (hq : w.surfaces q = some s) (hk : surfaceKey s1 = surfaceKey s) (p : Ptr) :
    ((w.setSurface q s1).surfaces p).map surfaceKey = (w.surfaces p).map surfaceKey := by
  by_cases hp : p = q
  · subst hp
    simp [World.setSurface, hq, hk]
  · simp [World.setSurface, Function.update_noteq hp]

theorem ensure_surface_target_frame (mk : Bool) (w : World) (context : Ptr)
    (r : rive_renderer_status_t × World)
    (h : EnsureD3D12SurfaceRenderTarget mk w context = some r) :
    r.2.devices = w.devices ∧
      (∀ p, (r.2.contexts p).map frameKey = (w.contexts p).map frameKey) ∧
      ∀ p, (r.2.surfaces p).map surfaceKey = (w.surfaces p).map surfaceKey := by
  unfold EnsureD3D12SurfaceRenderTarget at h
  cases hc : w.contexts context with
  | none => simp [hc] at h
  | some c =>
    simp only [hc] at h
    by_cases hcs : c.surface = 0
    · simp only [hcs, if_true, Option.some.injEq] at h
      subst h
      exact ⟨rfl, fun _ => rfl, fun _ => rfl⟩
    simp only [hcs, if_false] at h
    cases hs : w.surfaces c.surface with
    | none => simp [hs] at h
    | some s =>
      simp only [hs] at h
      split at h
      · cases h
        exact ⟨rfl, fun _ => rfl, fun _ => rfl⟩
      split at h
      · cases h
        exact ⟨rfl, fun _ => rfl, fun _ => rfl⟩
      split at h
      · cases h
      have hw1 : ∀ p, ((w.setContext context
          { c with width := s.width, height := s.height }).contexts p).map frameKey =
          (w.contexts p).map frameKey := frame_update w context c _ hc (by rfl)
      split at h
      · cases h
        refine ⟨rfl, fun p => ?_, fun _ => rfl⟩
        rw [← hw1 p]
        exact frame_update (w.setContext context { c with width := s.width, height := s.height })
          context { c with width := s.width, height := s.height } _
          (by simp [World.setContext]) (by rfl) p
      split at h
      · cases h
      rename_i W2 hW2
      have hW2f : W2.devices = w.devices ∧
          (∀ p, (W2.contexts p).map frameKey = (w.contexts p).map frameKey) ∧
          ∀ p, (W2.surfaces p).map surfaceKey = (w.surfaces p).map surfaceKey := by
        split at hW2
        · obtain ⟨a1, a2, a3⟩ := return_target_frame _ _ _ hW2
          exact ⟨a1, fun p => (a2 p).trans (hw1 p), a3⟩
        · cases hW2
          exact ⟨rfl, hw1, fun _ => rfl⟩
      obtain ⟨f1, f2, f3⟩ := hW2f
      split at h
      · rename_i c2 s2 hc2 hs2
        split at h
        · rename_i hmade
          split at hmade
          · split at hmade
            · cases hmade
              cases h
              exact ⟨f1, f2, f3⟩
            · split at hmade
              · cases hmade
                cases h
                exact ⟨f1, f2, f3⟩
              · cases hmade
          · cases hmade
        · rename_i s3 hmade
          have hk3 : surfaceKey s3 = surfaceKey s2 := by
            split at hmade
            · split at hmade
              · cases hmade
              · split at hmade
                · cases hmade
                · cases hmade
                  rfl
            · cases hmade
              rfl
          split at h
          · cases h
            refine ⟨f1, f2, fun p => ?_⟩
            rw [← f3 p]
            exact surface_update W2 c.surface s2 s3 hs2 hk3 p
          · rename_i rt hrt
            cases h
            refine ⟨f1, fun p => ?_, fun p => ?_⟩
            · rw [← f2 p]
              exact frame_update W2 context c2 _ hc2 (by rfl) p
            · rw [← f3 p]
              exact surface_update (W2.setContext context _) c.surface s2
                { s3 with renderTargets := s3.renderTargets.set s.currentBackBuffer none,
                          borrowedIndex := s.currentBackBuffer }
                hs2 hk3 p
      · cases h

theorem ensure_render_target_frame (n : RenderTargetNative) (w : World) (context : Ptr)
    (r : rive_renderer_status_t × World)
    (h : EnsureD3D12RenderTarget n w context = some r) :
    r.2.devices = w.devices ∧
      (∀ p, (r.2.contexts p).map frameKey = (w.contexts p).map frameKey) ∧
      ∀ p, (r.2.surfaces p).map surfaceKey = (w.surfaces p).map surfaceKey := by
  unfold EnsureD3D12RenderTarget at h
  cases hc : w.contexts context with
  | none => simp [hc] at h
  | some c =>
    simp only [hc] at h
    by_cases hcs : c.surface = 0
    · simp only [hcs, ne_eq, not_true_eq_false, if_false] at h
      split_ifs at h <;> cases h
      all_goals first
        | exact ⟨rfl, fun _ => rfl, fun _ => rfl⟩
        | exact ⟨rfl, fun p => frame_update w context c _ hc (by rfl) p, fun _ => rfl⟩
    · simp only [hcs, ne_eq, not_false_eq_true, if_true] at h
      exact ensure_surface_target_frame _ _ _ _ h

theorem d3d12SurfaceState_step (w w1 : World) (context surface : Ptr)
    (c c1 : ContextHandle) (hst : d3d12SurfaceState w context surface)
    (hc : w.contexts context = some c) (hc1 : w1.contexts context = some c1)
    (hd : w1.devices = w.devices) (hdev : c1.device = c.device)
    (hcounter : c1.frameCounter = c.frameCounter)
    (hs : (w1.surfaces surface).map surfaceKey = (w.surfaces surface).map surfaceKey) :
    d3d12SurfaceState w1 context surface := by
  unfold d3d12SurfaceState at hst ⊢
  cases hs0 : w.surfaces surface with
  | none => simp [hc, hs0] at hst
  | some s =>
    rw [hs0] at hs
    simp only [hc, hs0] at hst
    cases hs1 : w1.surfaces surface with
    | none => simp [hs1] at hs
    | some s1 =>
      simp only [hs1, Option.map_some', Option.some.injEq, surfaceKey, Prod.mk.injEq] at hs
      simp only [hc1, hd, hdev, hcounter, hs.1, hs.2.1, hs.2.2]
      exact hst

theorem deviceBackend_d3d12 (w : World) (c : ContextHandle) (hdev : c.device ≠ 0)
    (hd : (w.devices c.device).map (fun d => d.backend) =
      some rive_renderer_backend_t.d3d12) :
    deviceBackend w c = some (some rive_renderer_backend_t.d3d12) := by
  unfold deviceBackend
  rw [if_pos hdev]
  cases h : w.devices c.device with
  | none => simp [h] at hd
  | some d =>
    simp only [h, Option.map_some', Option.some.injEq] at hd
    simp [hd]

theorem begin_frame_d3d12_frame (b : Build) (hb : b.win32 = true) (n : BeginFrameNative)
    (w : World) (context : Ptr) (options : Option rive_renderer_frame_options_t)
    (r : rive_renderer_status_t × World) (c : ContextHandle) (h0 : context ≠ 0)
    (hc : w.contexts context = some c) (hdev : c.device ≠ 0)
    (hd : (w.devices c.device).map (fun d => d.backend) =
      some rive_renderer_backend_t.d3d12)
    (hr : rive_renderer_context_begin_frame b n w context options = some r) :
    r.2.devices = w.devices ∧
      (∀ p, (r.2.surfaces p).map surfaceKey = (w.surfaces p).map surfaceKey) ∧
      ∃ c1, r.2.contexts context = some c1 ∧ c1.device = c.device ∧
        c1.frameCounter = c.frameCounter ∧
        (r.1 = .ok → c1.hasActiveFrame = true ∧ c1.pendingFrameNumber = c.frameCounter) ∧
        (r.1 ≠ .ok → c1.hasActiveFrame = c.hasActiveFrame ∧
          c1.pendingFrameNumber = c.pendingFrameNumber) := by
  unfold rive_renderer_context_begin_frame at hr
  simp only [h0, if_false, hc] at hr
  by_cases hv : (!ValidateContextSize (resolvedFrameSize c options).1
      (resolvedFrameSize c options).2) = true
  · rw [if_pos hv] at hr
    cases hr
    exact ⟨rfl, fun _ => rfl, c, by simpa [SetLastError] using hc, rfl, rfl,
      fun h => (by cases h), fun _ => ⟨rfl, rfl⟩⟩
  rw [if_neg hv] at hr
  have hback := deviceBackend_d3d12 (w.setContext context
      { c with width := (resolvedFrameSize c options).1,
               height := (resolvedFrameSize c options).2 })
    { c with width := (resolvedFrameSize c options).1,
             height := (resolvedFrameSize c options).2 } hdev
    (by simpa [World.setContext] using hd)
  simp only [hback] at hr
  rw [if_neg (by
      simp only [Bool.and_eq_true, decide_eq_true_eq, Option.some.injEq, not_and]
      intro _ h
      cases h), if_pos (by simp [hb])] at hr
  generalize hens : EnsureD3D12RenderTarget _ _ _ = ens at hr
  rcases ens with _ | ⟨status, w2⟩
  · cases hr
  simp only at hr
  obtain ⟨e1, e2, e3⟩ := ensure_render_target_frame _ _ _ _ hens
  simp only at e1 e2 e3
  have hc2 := e2 context
  simp only [World.setContext, Function.update_same, Option.map_some'] at hc2
  cases hw2 : w2.contexts context with
  | none => simp [hw2] at hc2
  | some c2 =>
    simp only [hw2, Option.map_some', Option.some.injEq, frameKey, Prod.mk.injEq] at hc2
    have hfail : ∀ message status1, status1 ≠ rive_renderer_status_t.ok →
        (status1, SetLastError w2 message).2.devices = w.devices ∧
        (∀ p, ((status1, SetLastError w2 message).2.surfaces p).map surfaceKey =
          (w.surfaces p).map surfaceKey) ∧
        ∃ c1, (status1, SetLastError w2 message).2.contexts context = some c1 ∧
          c1.device = c.device ∧ c1.frameCounter = c.frameCounter ∧
          ((status1, SetLastError w2 message).1 = .ok →
            c1.hasActiveFrame = true ∧ c1.pendingFrameNumber = c.frameCounter) ∧
          ((status1, SetLastError w2 message).1 ≠ .ok →
            c1.hasActiveFrame = c.hasActiveFrame ∧
            c1.pendingFrameNumber = c.pendingFrameNumber) := by
      intro message status1 hne
      refine ⟨by simpa [SetLastError, World.setContext] using e1, fun p => ?_, c2,
        by simpa [SetLastError] using hw2, hc2.1, hc2.2.1, fun h => absurd h hne,
        fun _ => ⟨hc2.2.2.2.1, hc2.2.2.1⟩⟩
      simpa [SetLastError, World.setContext] using e3 p
    split at hr
    · rename_i hne
      cases hr
      have := hfail w2.g_lastError status hne
      simpa [SetLastError] using this
    split at hr
    · cases hr; exact hfail _ _ (by decide)
    split at hr
    · cases hr; exact hfail _ _ (by decide)
    split at hr
    · cases hr; exact hfail _ _ (by decide)
    split at hr
    · cases hr; exact hfail _ _ (by decide)
    simp only [hw2] at hr
    split at hr
    · cases hr
    cases hr
    refine ⟨by simpa [ClearLastError, World.setContext] using e1, fun p => ?_,
      { c2 with hasActiveFrame := true, commandListsClosed := false,
                pendingFrameNumber := c2.frameCounter },
      by simp [ClearLastError, World.setContext], hc2.1, hc2.2.1, fun _ => ⟨rfl, hc2.2.1⟩,
      fun h => absurd rfl h⟩
    simpa [ClearLastError, World.setContext] using e3 p

theorem end_frame_d3d12_frame (b : Build) (hb : b.win32 = true) (n : EndFrameNative)
    (w : World) (context : Ptr) (r : rive_renderer_status_t × World) (c : ContextHandle)
    (h0 : context ≠ 0) (hc : w.contexts context = some c) (hdev : c.device ≠ 0)
    (hd : (w.devices c.device).map (fun d => d.backend) =
      some rive_renderer_backend_t.d3d12)
    (hr : rive_renderer_context_end_frame b n w context = some r) :
    r.2.devices = w.devices ∧ r.2.surfaces = w.surfaces ∧
      ∃ c1, r.2.contexts context = some c1 ∧ c1.device = c.device ∧
        c1.frameCounter = c.frameCounter ∧ c1.pendingFrameNumber = c.pendingFrameNumber := by
  unfold rive_renderer_context_end_frame at hr
  simp only [h0, if_false, hc, deviceBackend_d3d12 w c hdev hd] at hr
  rw [if_pos (by simp [hb])] at hr
  split_ifs at hr <;> cases hr
  all_goals first
    | exact ⟨rfl, rfl, c, by simpa [SetLastError] using hc, rfl, rfl, rfl⟩
    | exact ⟨rfl, rfl, { c with hasActiveFrame := false, commandListsClosed := true },
        by simp [ClearLastError, World.setContext], rfl, rfl, rfl⟩

theorem submit_d3d12_frame (b : Build) (hb : b.win32 = true) (n : SubmitNative)
    (w : World) (context : Ptr) (r : rive_renderer_status_t × World) (c : ContextHandle)
    (h0 : context ≠ 0) (hc : w.contexts context = some c) (hdev : c.device ≠ 0)
    (hd : (w.devices c.device).map (fun d => d.backend) =
      some rive_renderer_backend_t.d3d12)
    (hr : rive_renderer_context_submit b n w context = some r) (hne : r.1 ≠ .ok) :
    r.2.devices = w.devices ∧ r.2.surfaces = w.surfaces ∧
      ∃ c1, r.2.contexts context = some c1 ∧ c1.device = c.device ∧
        c1.frameCounter = c.frameCounter ∧ c1.pendingFrameNumber = c.pendingFrameNumber := by
  unfold rive_renderer_context_submit at hr
  simp only [h0, if_false, hc, deviceBackend_d3d12 w c hdev hd] at hr
  rw [if_pos (by simp [hb])] at hr
  split_ifs at hr <;> cases hr
  all_goals first
    | exact (hne rfl).elim
    | exact ⟨rfl, rfl, c, by simpa [SetLastError] using hc, rfl, rfl, rfl⟩
    | exact ⟨rfl, rfl, { c with fenceValue := (c.fenceValue + 1) % U64 },
        by simp [SetLastError, World.setContext], rfl, rfl, rfl⟩

theorem frame_call_keeps_pending (b : Build) (hb : b.win32 = true) (context surface : Ptr)
    (h0 : context ≠ 0) (w : World) (call : FrameCall) (r : rive_renderer_status_t × World)
    (hst : d3d12SurfaceState w context surface) (hpend : framePending w context)
    (hr : call.run b w context = some r)
    (hne : submitReturnedOk [call] [r.1] = false) :
    d3d12SurfaceState r.2 context surface ∧ framePending r.2 context := by
  have hst0 := hst
  unfold d3d12SurfaceState at hst
  unfold framePending at hpend
  cases hc : w.contexts context with
  | none => simp [hc] at hst
  | some c =>
    cases hs : w.surfaces surface with
    | none => simp [hc, hs] at hst
    | some s =>
      simp only [hc, hs] at hst hpend
      obtain ⟨hdev, hd, hcounter, _⟩ := hst
      cases call with
      | begin_frame n options =>
        obtain ⟨e1, e2, c1, hc1, e3, e4, e5, e6⟩ := begin_frame_d3d12_frame b hb n w context
          options r c h0 hc hdev hd hr
        refine ⟨d3d12SurfaceState_step w r.2 context surface c c1 hst0 hc hc1 e1 e3 e4
          (e2 surface), ?_⟩
        unfold framePending
        rw [hc1]
        simp only
        by_cases hok : r.1 = .ok
        · rw [(e5 hok).2]; exact hcounter
        · rw [(e6 hok).2]; exact hpend
      | end_frame n =>
        obtain ⟨e1, e2, c1, hc1, e3, e4, e5⟩ := end_frame_d3d12_frame b hb n w context r c h0
          hc hdev hd hr
        refine ⟨d3d12SurfaceState_step w r.2 context surface c c1 hst0 hc hc1 e1 e3 e4
          (by rw [e2]), ?_⟩
        unfold framePending
        rw [hc1]
        simp only
        rw [e5]; exact hpend
      | submit n =>
        have hne1 : r.1 ≠ .ok := by
          simpa [submitReturnedOk] using hne
        obtain ⟨e1, e2, c1, hc1, e3, e4, e5⟩ := submit_d3d12_frame b hb n w context r c h0
          hc hdev hd hr hne1
        refine ⟨d3d12SurfaceState_step w r.2 context surface c c1 hst0 hc hc1 e1 e3 e4
          (by rw [e2]), ?_⟩
        unfold framePending
        rw [hc1]
        simp only
        rw [e5]; exact hpend

theorem frame_calls_keep_pending (b : Build) (hb : b.win32 = true) (context surface : Ptr)
    (h0 : context ≠ 0) (calls : List FrameCall) :
    ∀ (w w2 : World) (statuses : List rive_renderer_status_t),
      d3d12SurfaceState w context surface → framePending w context →
      runFrameCalls b context w calls = some (statuses, w2) →
      submitReturnedOk calls statuses = false →
      d3d12SurfaceState w2 context surface ∧ framePending w2 context := by
  induction calls with
  | nil =>
    intro w w2 statuses hst hpend hrun _
    simp only [runFrameCalls, Option.some.injEq, Prod.mk.injEq] at hrun
    rw [← hrun.2]
    exact ⟨hst, hpend⟩
  | cons call calls ih =>
    intro w w2 statuses hst hpend hrun hsub
    simp only [runFrameCalls] at hrun
    cases hstep : call.run b w context with
    | none => simp [hstep] at hrun
    | some r =>
      obtain ⟨status, w1⟩ := r
      simp only [hstep] at hrun
      cases hrest : runFrameCalls b context w1 calls with
      | none => simp [hrest] at hrun
      | some r2 =>
        obtain ⟨statuses2, w3⟩ := r2
        simp only [hrest, Option.some.injEq, Prod.mk.injEq] at hrun
        rw [← hrun.2]
        rw [← hrun.1] at hsub
        have hsplit : submitReturnedOk [call] [status] = false ∧
            submitReturnedOk calls statuses2 = false := by
          cases call <;> simpa [submitReturnedOk] using hsub
        obtain ⟨k1, k2⟩ := frame_call_keeps_pending b hb context surface h0 w call
          (status, w1) hst hpend hstep hsplit.1
        exact ih w1 w3 statuses2 k1 k2 hrest hsplit.2

/-- C22: in a Windows build, for an initialised D3D12 surface and its context on a live
D3D12 device (the context's frame counter, which starts at 1 and counts submitted frames
modulo 2^64, not zero): once `rive_renderer_context_begin_frame` has returned `ok`, after
every further sequence of `begin_frame`, `end_frame` and `submit` calls on the context in
which no `submit` returned `ok`, `rive_renderer_surface_present` with any interval and
flags returns `invalid_parameter` without calling `swapChain->Present`, and the world it
leaves differs only in the error text, so the borrowed index, the surface's render-target
cache and the context's render target are unchanged. -/
theorem present_rejected_before_submit (b : Build) (nb : BeginFrameNative)
    (np : PresentNative) (w w1 w2 : World) (context surface : Ptr) (c : ContextHandle)
    (s : SurfaceHandle) (d : DeviceHandle) (options : Option rive_renderer_frame_options_t)
    (calls : List FrameCall) (statuses : List rive_renderer_status_t)
    (present_interval flags : Nat)
    (hb : b.win32 = true) (hs0 : surface ≠ 0)
    (hs : w.surfaces surface = some s) (hbackend : s.backend = rive_renderer_backend_t.d3d12)
    (hswap : s.swapChain = true) (hsc : s.context = context)
    (hc : w.contexts context = some c) (hdev : c.device ≠ 0)
    (hd : w.devices c.device = some d) (hdb : d.backend = rive_renderer_backend_t.d3d12)
    (hcounter : c.frameCounter ≠ 0)
    (hbegin : rive_renderer_context_begin_frame b nb w context options = some (.ok, w1))
    (hrun : runFrameCalls b context w1 calls = some (statuses, w2))
    (hsub : submitReturnedOk calls statuses = false) :
    rive_renderer_surface_present b np w2 surface present_interval flags =
      some ⟨.invalid_parameter, SetLastError w2 "submit must be called before present",
        none⟩ := by
  have h0 : context ≠ 0 := by
    intro h
    unfold rive_renderer_context_begin_frame at hbegin
    simp [h] at hbegin
  have hdm : (w.devices c.device).map (fun d => d.backend) =
      some rive_renderer_backend_t.d3d12 := by simp [hd, hdb]
  have hst : d3d12SurfaceState w context surface := by
    unfold d3d12SurfaceState
    simp only [hc, hs]
    exact ⟨hdev, hdm, hcounter, hbackend, hswap, hsc⟩
  obtain ⟨e1, e2, c1, hc1, e3, e4, e5, _⟩ := begin_frame_d3d12_frame b hb nb w context
    options (.ok, w1) c h0 hc hdev hdm hbegin
  have hst1 : d3d12SurfaceState w1 context surface :=
    d3d12SurfaceState_step w w1 context surface c c1 hst hc hc1 e1 e3 e4 (e2 surface)
  have hpend1 : framePending w1 context := by
    unfold framePending
    simp only at hc1
    rw [hc1]
    simp only
    rw [(e5 rfl).2]
    exact hcounter
  obtain ⟨hst2, hpend2⟩ := frame_calls_keep_pending b hb context surface h0 calls w1 w2
    statuses hst1 hpend1 hrun hsub
  unfold d3d12SurfaceState at hst2
  unfold framePending at hpend2
  cases hc2 : w2.contexts context with
  | none => simp [hc2] at hpend2
  | some c2 =>
    cases hs2 : w2.surfaces surface with
    | none => simp [hc2, hs2] at hst2
    | some s2 =>
      simp only [hc2, hs2] at hst2 hpend2
      obtain ⟨_, _, _, k1, k2, k3⟩ := hst2
      unfold rive_renderer_surface_present surface_present_d3d12
      simp [hb, hs0, hs2, k1, k2, k3, h0, hc2, hpend2]

/-- C22 (witness): on the surface of `gpuSurfaceWorld` (device 1, context 2, surface 3),
after `begin_frame`, `end_frame` and a `submit` that fails with `internal_error`, a
`present` returns `invalid_parameter` and changes only the error text. -/
theorem present_rejected_before_submit_witness :
    runFrameCalls windowsBuild 2 gpuFrameWorld
        [.end_frame {}, .submit { copySignalOk := false }] =
        some ([.ok, .internal_error], gpuEndedWorld) ∧
      rive_renderer_surface_present windowsBuild {} gpuEndedWorld 3 0 0 =
        some ⟨.invalid_parameter,
          SetLastError gpuEndedWorld "submit must be called before present", none⟩ :=
  ⟨rfl,
    present_rejected_before_submit windowsBuild {} {} gpuSurfaceWorld gpuFrameWorld
      gpuEndedWorld 2 3 ((gpuSurfaceWorld.contexts 2).getD {})
      ((gpuSurfaceWorld.surfaces 3).getD {}) ((gpuSurfaceWorld.devices 1).getD {}) none
      [.end_frame {}, .submit { copySignalOk := false }] [.ok, .internal_error] 0 0
      rfl (by decide) rfl rfl rfl rfl rfl (by decide) rfl rfl (by decide) rfl rfl rfl⟩

theorem surface_resize_d3d12_ok (n : SurfaceResizeNative) (w w1 : World) (surface : Ptr)
    (width height : Nat) (s : SurfaceHandle) (hs0 : surface ≠ 0)
    (hs : w.surfaces surface = some s)
    (hr : surface_resize_d3d12 n w surface width height = some (.ok, w1)) :
    (w1.contexts s.context).map (fun c => (c.width, c.height, c.renderTarget)) =
        some (width, height, none) ∧
      ∃ s1, w1.surfaces surface = some s1 ∧ s1.width = width ∧ s1.height = height ∧
        s1.borrowedIndex = UINT_MAX ∧ s1.renderTargets.length = s1.buffer_count ∧
        emptySlots s1 = 0 := by
  unfold surface_resize_d3d12 at hr
  simp only [hs0, if_false, hs] at hr
  split at hr
  · cases hr
  split at hr
  · cases hr
  split at hr
  · cases hr
  split at hr
  · cases hr
  split at hr
  · cases hr
  split at hr
  · cases hr
  rename_i w0 hret
  split at hr
  swap
  · cases hr
  rename_i c1 s1 hc1 hs1
  split at hr
  · cases hr
  split at hr
  · cases hr
  rename_i targetsStatus w4 hcr
  obtain ⟨hctx, s4, hs4, hrec, hsome, hle, hok, _⟩ := create_surface_targets_spec n.targets _
    surface width height
    { s1 with renderTargets := [], backBuffers := [],
              currentBackBuffer := n.currentBackBuffer } _
    (by simp [World.setSurface]) (by simp) (by simp) rfl (by simp) hcr
  simp only at hctx hs4 hok hle
  split at hr
  · rename_i hne
    cases hr
    exact absurd rfl hne
  rename_i hst
  have hst1 : targetsStatus = .ok := by
    by_contra h
    exact hst h
  obtain ⟨hcount, hbor⟩ := hok hst1
  rw [hctx] at hr
  simp only [World.setContext, World.setSurface, Function.update_same, hs4,
    Option.some.injEq, Prod.mk.injEq, true_and] at hr
  subst hr
  refine ⟨by simp [ClearLastError], { s4 with width := width, height := height },
    by simp [ClearLastError], rfl, rfl, hbor, ?_, ?_⟩
  · simp only
    rw [hcount, hrec]
  · unfold emptySlots
    rw [List.countP_eq_zero]
    intro x hx
    have := hsome x hx
    cases x with
    | none => simp at this
    | some v => simp

/-- C23: for a D3D12 surface `s` at `surface`: in a Windows build, when the surface is
initialised and its context has an active frame, `rive_renderer_surface_resize` returns
`invalid_parameter` and changes only the error text, so the surface size, the context size
and the cached render targets are unchanged; and in every build, after a resize to `width`
by `height` that returns `ok`, `rive_renderer_surface_get_size` reports `width` and
`height`, the context has that size and holds no render target, the borrowed index is the
sentinel `UINT_MAX`, and the cache holds exactly `buffer_count` render targets, none of
them moved out. -/
theorem surface_resize_contract (b : Build) (n : SurfaceResizeNative) (w : World)
    (surface : Ptr) (width height : Nat) (s : SurfaceHandle) (hs0 : surface ≠ 0)
    (hs : w.surfaces surface = some s)
    (hbackend : s.backend = rive_renderer_backend_t.d3d12) :
    (∀ c, b.win32 = true → s.swapChain = true → s.context ≠ 0 →
      w.contexts s.context = some c → c.hasActiveFrame = true →
      ∃ message, rive_renderer_surface_resize b n w surface width height =
        some (.invalid_parameter, SetLastError w message)) ∧
      ∀ w1, rive_renderer_surface_resize b n w surface width height = some (.ok, w1) →
        (∀ out_width out_height,
          rive_renderer_surface_get_size w1 surface (some out_width) (some out_height) =
            some (.ok, ClearLastError w1, some width, some height)) ∧
        (w1.contexts s.context).map (fun c => (c.width, c.height, c.renderTarget)) =
          some (width, height, none) ∧
        ∃ s1, w1.surfaces surface = some s1 ∧ s1.borrowedIndex = UINT_MAX ∧
          s1.renderTargets.length = s1.buffer_count ∧ emptySlots s1 = 0 := by
  refine ⟨fun c hb hswap hctx hc hactive => ?_, fun w1 hr => ?_⟩
  · unfold rive_renderer_surface_resize surface_resize_d3d12
    simp only [hb, if_true, hs0, if_false, hs, hbackend, ne_eq, not_true_eq_false, hswap,
      Bool.not_true, hctx, decide_False, Bool.or_self, Bool.false_eq_true, hc, hactive]
    split_ifs
    · exact ⟨_, rfl⟩
    · exact ⟨_, rfl⟩
  · unfold rive_renderer_surface_resize at hr
    split at hr
    · obtain ⟨h1, s1, h2, h3, h4, h5, h6, h7⟩ := surface_resize_d3d12_ok n w w1 surface width
        height s hs0 hs hr
      refine ⟨fun out_width out_height => ?_, h1, s1, h2, h5, h6, h7⟩
      unfold rive_renderer_surface_get_size
      simp [hs0, h2, h3, h4]
    · split at hr
      · unfold surface_resize_metal at hr
        simp only [hs0, if_false, hs, hbackend] at hr
        rw [if_pos (by decide)] at hr
        cases hr
      · cases hr

/-- C23 (witness): a resize of the surface of `gpuFrameWorld`, whose context has an active
frame, returns `invalid_parameter`; a resize of the surface of `gpuSurfaceWorld` to 8 by 6
returns `ok`, after which the surface reports 8 by 6 and caches its 2 render targets. -/
theorem surface_resize_contract_witness :
    (∃ message, rive_renderer_surface_resize windowsBuild {} gpuFrameWorld 3 8 6 =
        some (.invalid_parameter, SetLastError gpuFrameWorld message)) ∧
      rive_renderer_surface_resize windowsBuild {} gpuSurfaceWorld 3 8 6 =
        some (.ok, gpuResizedWorld) ∧
      rive_renderer_surface_get_size gpuResizedWorld 3 (some 0) (some 0) =
        some (.ok, ClearLastError gpuResizedWorld, some 8, some 6) ∧
      (gpuResizedWorld.surfaces 3).map (fun s => (s.renderTargets.length, s.buffer_count)) =
        some (2, 2) :=
  ⟨(surface_resize_contract windowsBuild {} gpuFrameWorld 3 8 6
      ((gpuFrameWorld.surfaces 3).getD {}) (by decide) rfl rfl).1
      ((gpuFrameWorld.contexts 2).getD {}) rfl rfl (by decide) rfl rfl,
    rfl, rfl, rfl⟩

end RiveFFI
